import Mathlib

/-!
# vacrouter: a shallow embedding of `src/main.cpp`

The controller drives a two-relay linear actuator between three outlets and
discovers its position by a scripted homing run.  The sketch keeps all of its
state in globals; here they are the fields of one record, `State`, and every
function of the sketch is a function `State → State`.

Modelling decisions:

* Digital pins hold a `Level`.  The relays are active-low, so a drive line is
  *asserted* when its pin is `Level.LOW`.
* `State.trace` is a ghost log, most recent event first, of what the sketch
  does to the outside world: every `digitalWrite`, every blocking `delay`,
  every serial diagnostic, and the entry into each of the four motion
  primitives.
* The proximity-sensor interrupt can only be observed while time passes, so it
  is delivered inside the blocking `delay`: `State.pending` lists, for each
  coming `delay`, the handler invocations that occur during it, each given by
  the two samples the handler reads from the sensor pin (at entry and after the
  settle delay).  When the list is exhausted no further edges arrive.
* An out-of-range read of `HOMED_ARRAY` is undefined in C++; the model latches
  the ghost flag `State.fault` and leaves `CURRENT_POS` alone.
-/

namespace Vacrouter

/-! ## Constants (`#define`s) -/

/-- Logic level of a digital pin (`LOW` = 0, `HIGH` = 1). -/
inductive Level
  | LOW
  | HIGH
  deriving DecidableEq, Repr

/-- Value of a level when stored in an `int`. -/
def Level.toInt : Level → Int
  | .LOW => 0
  | .HIGH => 1

/-- Level written by `digitalWrite(pin, v)` for an `int` v: zero is LOW. -/
def Level.ofInt (v : Int) : Level := if v = 0 then .LOW else .HIGH

abbrev LOW : Int := 0
abbrev HIGH : Int := 1

/-- The pins the sketch reads or writes. -/
inductive Pin
  | PIN_PROX_SENSOR
  | PIN_MOTOR_FWD
  | PIN_MOTOR_REV
  | PIN_LED_RED
  | PIN_LED_GREEN
  deriving DecidableEq, Repr

-- MOVE COMMANDS
abbrev STOP : Int := 0
abbrev RIGHT : Int := 1
abbrev LEFT : Int := 2
abbrev GL1 : Int := 4
abbrev GR1 : Int := 5
abbrev H1 : Int := 6
abbrev H2 : Int := 7
abbrev H3 : Int := 8
abbrev H4 : Int := 9
abbrev WORKBENCH : Int := 11
abbrev CHOPSAW : Int := 12
abbrev CNC : Int := 13

-- Sources
abbrev INIT : Int := 0
abbrev CLI : Int := 1
abbrev BUTTON : Int := 2
abbrev SENSOR : Int := 3

-- TIMINGS
abbrev SENSOR_FALLOFF : Nat := 300
abbrev SAFETY_CUTOFF : Nat := 2000 - SENSOR_FALLOFF
abbrev SENSOR_DEBOUNCE_DELAY : Nat := 50
abbrev HOMING_TIMEOUT_LONG : Nat := SAFETY_CUTOFF + 500
abbrev HOMING_TIMEOUT_SHORT : Nat := HOMING_TIMEOUT_LONG / 2

-- END_POS
abbrev A : Int := 1
abbrev B : Int := 2
abbrev C : Int := 3

-- START POS
abbrev XA : Int := 0
abbrev AA : Int := 1
abbrev ABA : Int := 2
abbrev ABB : Int := 3
abbrev BB : Int := 4
abbrev BCB : Int := 5
abbrev BCC : Int := 6
abbrev CC : Int := 7
abbrev CX : Int := 8

-- Homing sequences where N is null
abbrev RNNRNRL : Int := 0
abbrev NNRNRL : Int := 1
abbrev LNNRNRL : Int := 2
abbrev RNNLRNRL : Int := 3
abbrev LRNNLRNRL : Int := 4
abbrev NNLRNRL : Int := 5
abbrev LNNLRNRL : Int := 6
abbrev RNNLRNL : Int := 7
abbrev LRNNLRNL : Int := 8
abbrev NNLRNL : Int := 9
abbrev LNNLRNL : Int := 10

-- LED Colours
abbrev OFF : Nat := 0
abbrev RED : Nat := 1
abbrev GREEN : Nat := 2
abbrev YELLOW : Nat := 3

/-- The names of the homing-sequence `#define`s paired with their values. -/
def sequenceDefines : List (String × Int) :=
  [("RNNRNRL", RNNRNRL), ("NNRNRL", NNRNRL), ("LNNRNRL", LNNRNRL),
   ("RNNLRNRL", RNNLRNRL), ("LRNNLRNRL", LRNNLRNRL), ("NNLRNRL", NNLRNRL),
   ("LNNLRNRL", LNNLRNRL), ("RNNLRNL", RNNLRNL), ("LRNNLRNL", LRNNLRNL),
   ("NNLRNL", NNLRNL), ("LNNLRNL", LNNLRNL)]

/-- The fixed sequence table as the specification lists it: trigger-order
string and resolved end-position (A, B, C are 1, 2, 3). -/
def sequenceTable : List (String × Int) :=
  [("RNNRNRL", 1), ("NNRNRL", 1), ("LNNRNRL", 1),
   ("RNNLRNRL", 2), ("LRNNLRNRL", 2), ("NNLRNRL", 2), ("LNNLRNRL", 2),
   ("RNNLRNL", 3), ("LRNNLRNL", 3), ("NNLRNL", 3), ("LNNLRNL", 3)]

/-! ## Lookup tables -/

/-- One row of the LED colour table. -/
structure LED_CFG where
  COLOR : Nat
  R : Int
  G : Int
  deriving DecidableEq, Repr

/-- Because the LEDs trigger low, the rows are inverted. -/
def LED_ARRAY : List LED_CFG :=
  [ ⟨OFF, 1, 1⟩,
    ⟨RED, 0, 1⟩,
    ⟨GREEN, 1, 0⟩,
    ⟨YELLOW, 0, 0⟩ ]

/-- One row of the homing position table. -/
structure HOMED_CFG where
  TORDER : Int
  START_POS : Int
  END_POS : Int
  deriving DecidableEq, Repr

/-- KNOWN HOMING SEQUENCES, ordered by definitions. -/
def HOMED_ARRAY : List HOMED_CFG :=
  [ ⟨RNNRNRL, XA, A⟩,
    ⟨NNRNRL, AA, A⟩,
    ⟨LNNRNRL, ABA, A⟩,
    ⟨RNNLRNRL, ABB, B⟩,
    ⟨LRNNLRNRL, ABB, B⟩,
    ⟨NNLRNRL, BB, B⟩,
    ⟨LNNLRNRL, BB, B⟩,
    ⟨RNNLRNL, BCC, C⟩,
    ⟨LRNNLRNL, BCC, C⟩,
    ⟨NNLRNL, CC, C⟩,
    ⟨LNNLRNL, CC, C⟩ ]

/-- The read `HOMED_ARRAY[i]` for an `int` index: defined only inside the array. -/
def HOMED_ARRAY_at (i : Int) : Option HOMED_CFG :=
  if 0 ≤ i then HOMED_ARRAY[i.toNat]? else none

/-! ## Observable events -/

/-- The four motion primitives whose entry is logged. -/
inductive Fn
  | move_right
  | move_left
  | move_gr1
  | move_gl1
  deriving DecidableEq, Repr

/-- Serial diagnostics, one constructor per message of the sketch, carrying the
value printed after the text. -/
inductive Msg
  /-- "MOTOR: STOP ISSUED BY SOURCE: " -/
  | stop_issued (source : Int)
  /-- "ERROR: motor_forward ignored, motor_reverse already engaged" -/
  | forward_ignored
  /-- "MOTOR Forward: HOMING = " -/
  | forward_homing (homing : Int)
  /-- "ERROR: motor_reverse ignored, motor_forward already engaged" -/
  | reverse_ignored
  /-- "MOTOR REVERSE: HOMING = " -/
  | reverse_homing (homing : Int)
  /-- "ERROR: Requested travel would exceed range.  CPOS: " -/
  | range_error (cpos : Int)
  /-- "OK PPOS: p CPOS: c" -/
  | report_pos (ppos cpos : Int)
  /-- "motor_forward: ERROR we moved past position 3. CURRENT_POS = " -/
  | moved_past_3 (cpos : Int)
  /-- "ERROR: (move_left) Moved back past position 1. CURRENT_POS = " -/
  | moved_past_1 (cpos : Int)
  /-- "HOMING_1: No stops detected in HOMING STAGE 1.  NEED A BETTER APPROACH.  SOURCE: " -/
  | homing_1_no_stops (source : Int)
  /-- "HOMING_1: First stop detected RIGHT of start position, TRIGGER_ORDER: " -/
  | homing_1_right (order : String)
  /-- "HOMING_1: First stop detected LEFT of start position, TRIGGER_ORDER: " -/
  | homing_1_left (order : String)
  /-- "ERROR: (HOMING2) HOME_DIRECTION invalid, fell through to switch case default. HOME_DIRECTION: " -/
  | homing_2_invalid (direction : Int)
  /-- "HOMING_2: No stops detected in HOMING STAGE 2.  Starting HOMING STAGE 3.  SOURCE: " -/
  | homing_2_no_stops (source : Int)
  /-- "HOMING_3: No points detected left of first point.  SOURCE: " -/
  | homing_3_no_left (source : Int)
  /-- "HOMING_3: Sitting on START point. SOURCE: " -/
  | homing_3_on_start (source : Int)
  /-- "HOMING 3: Moving RIGHT, DID NOT find the starting point.  SOURCE:" -/
  | homing_3_not_found (source : Int)
  /-- "HOMING_4: Sitting on START point, to the LEFT of last detected point.  SOURCE:" -/
  | homing_4_on_start (source : Int)
  /-- "HOMING_4: Something went really really wrong. SOURCE: " -/
  | homing_4_wrong (source : Int)
  /-- "Calibration complete, moving to default/start position (2). SOURCE: " -/
  | calibration_complete (source : Int)
  /-- "ERROR: (MOVEcommand CNC) Machine not homed. SOURCE: " -/
  | not_homed_cnc (source : Int)
  /-- "ERROR: (MOVEcommand CHOPSAW) Machine not homed. SOURCE: " -/
  | not_homed_chopsaw (source : Int)
  /-- "ERROR: (MOVEcommand WORKBENCH) Machine not homed. SOURCE: " -/
  | not_homed_workbench (source : Int)
  /-- "ERROR: (MOVECommand) Invalid command, fell through switch case" -/
  | invalid_command
  deriving DecidableEq, Repr

/-- What the sketch does to the outside world. -/
inductive Event
  | write (pin : Pin) (v : Level)
  | wait (ms : Nat)
  | print (m : Msg)
  | call (f : Fn)
  deriving DecidableEq, Repr

/-! ## The globals -/

/-- Pins, clock, the globals of the sketch, and the ghost fields. -/
structure State where
  PIN_PROX_SENSOR : Level
  PIN_MOTOR_FWD : Level
  PIN_MOTOR_REV : Level
  PIN_LED_RED : Level
  PIN_LED_GREEN : Level
  /-- The millisecond clock `millis()`, an `unsigned long`. -/
  millis : Nat
  PREV_SENSOR_STATE : Int
  SENSOR_STATE : Int
  SENSOR_OVERRIDE : Int
  HOMING_ACTIVE : Bool
  HOMING : Int
  HOME_DIRECTION : Int
  HOMED_POS : Int
  CURRENT_POS : Int
  PREVIOUS_POS : Int
  TRIGGER_ORDER : String
  TRIGGER_ORDER2 : String
  SOURCE : Int
  state_start_timestamp : Nat
  RX_COMMAND : Int
  rxWord : String
  /-- The `static uint8_t currColor` of `rgb_set_led`. -/
  currColor : Nat
  /-- Ghost: an out-of-range read of `HOMED_ARRAY` has happened. -/
  fault : Bool
  /-- Ghost: the handler invocations of each coming blocking delay. -/
  pending : List (List (Level × Level))
  /-- Ghost: the events so far, most recent first. -/
  trace : List Event
  deriving DecidableEq, Repr

/-! ## Assignments

One function per assigned global: `s.set_X v` is the assignment `X = v`. -/

@[simp] def State.set_PIN_PROX_SENSOR (s : State) (v : Level) : State := { s with PIN_PROX_SENSOR := v }

@[simp] def State.set_PREV_SENSOR_STATE (s : State) (v : Int) : State := { s with PREV_SENSOR_STATE := v }

@[simp] def State.set_SENSOR_STATE (s : State) (v : Int) : State := { s with SENSOR_STATE := v }

@[simp] def State.set_SENSOR_OVERRIDE (s : State) (v : Int) : State := { s with SENSOR_OVERRIDE := v }

@[simp] def State.set_HOMING_ACTIVE (s : State) (v : Bool) : State := { s with HOMING_ACTIVE := v }

@[simp] def State.set_HOMING (s : State) (v : Int) : State := { s with HOMING := v }

@[simp] def State.set_HOME_DIRECTION (s : State) (v : Int) : State := { s with HOME_DIRECTION := v }

@[simp] def State.set_HOMED_POS (s : State) (v : Int) : State := { s with HOMED_POS := v }

@[simp] def State.set_CURRENT_POS (s : State) (v : Int) : State := { s with CURRENT_POS := v }

@[simp] def State.set_PREVIOUS_POS (s : State) (v : Int) : State := { s with PREVIOUS_POS := v }

@[simp] def State.set_TRIGGER_ORDER (s : State) (v : String) : State := { s with TRIGGER_ORDER := v }

@[simp] def State.set_TRIGGER_ORDER2 (s : State) (v : String) : State := { s with TRIGGER_ORDER2 := v }

@[simp] def State.set_SOURCE (s : State) (v : Int) : State := { s with SOURCE := v }

@[simp] def State.set_state_start_timestamp (s : State) (v : Nat) : State := { s with state_start_timestamp := v }

@[simp] def State.set_RX_COMMAND (s : State) (v : Int) : State := { s with RX_COMMAND := v }

@[simp] def State.set_rxWord (s : State) (v : String) : State := { s with rxWord := v }

@[simp] def State.set_currColor (s : State) (v : Nat) : State := { s with currColor := v }

@[simp] def State.set_fault (s : State) (v : Bool) : State := { s with fault := v }

@[simp] def State.set_pending (s : State) (v : List (List (Level × Level))) : State := { s with pending := v }

/-! ## Hardware facade -/

def emit (e : Event) (s : State) : State :=
  { s with trace := e :: s.trace }

def print (m : Msg) (s : State) : State := emit (.print m) s

def digitalRead (p : Pin) (s : State) : Level :=
  match p with
  | .PIN_PROX_SENSOR => s.PIN_PROX_SENSOR
  | .PIN_MOTOR_FWD => s.PIN_MOTOR_FWD
  | .PIN_MOTOR_REV => s.PIN_MOTOR_REV
  | .PIN_LED_RED => s.PIN_LED_RED
  | .PIN_LED_GREEN => s.PIN_LED_GREEN

def digitalWrite (p : Pin) (v : Level) (s : State) : State :=
  match p with
  | .PIN_PROX_SENSOR => { s with PIN_PROX_SENSOR := v, trace := .write p v :: s.trace }
  | .PIN_MOTOR_FWD => { s with PIN_MOTOR_FWD := v, trace := .write p v :: s.trace }
  | .PIN_MOTOR_REV => { s with PIN_MOTOR_REV := v, trace := .write p v :: s.trace }
  | .PIN_LED_RED => { s with PIN_LED_RED := v, trace := .write p v :: s.trace }
  | .PIN_LED_GREEN => { s with PIN_LED_GREEN := v, trace := .write p v :: s.trace }

/-- Time passing for `ms` milliseconds with no interrupt delivered. -/
def wait (ms : Nat) (s : State) : State :=
  { s with millis := (s.millis + ms) % 2 ^ 32, trace := .wait ms :: s.trace }

/-- Non-blocking ms delay function: false if within the requested duration,
true (and the timestamp is restarted) if `duration` ms have elapsed. -/
def delay_ms (duration : Nat) (s : State) : Bool × State :=
  let new_current_timestamp := s.millis
  if (new_current_timestamp + 2 ^ 32 - s.state_start_timestamp) % 2 ^ 32 ≥ duration then
    (true, s.set_state_start_timestamp new_current_timestamp)
  else
    (false, s)

/-- Physically sets the requested RGB light combination. -/
def rgb_set_led (reqColor : Nat) (s : State) : State :=
  if s.currColor ≠ reqColor then
    match LED_ARRAY[reqColor]? with
    | some cfg =>
      let s := s.set_currColor reqColor
      let s := digitalWrite .PIN_LED_RED (Level.ofInt cfg.R) s
      digitalWrite .PIN_LED_GREEN (Level.ofInt cfg.G) s
    | none => s.set_currColor reqColor
  else s

/-! ## Motor interlock -/

def motor_stop (s : State) : State :=
  -- If either motor pin is engaged, stop them both by setting them to HIGH
  if digitalRead .PIN_MOTOR_FWD s = .LOW ∨ digitalRead .PIN_MOTOR_REV s = .LOW then
    let s := print (.stop_issued s.SOURCE) s
    let s := digitalWrite .PIN_MOTOR_FWD .HIGH s
    let s := digitalWrite .PIN_MOTOR_REV .HIGH s
    if s.SENSOR_STATE ≠ 0 then rgb_set_led OFF s else s
  else s

def motor_forward (s : State) : State :=
  -- Check that we aren't already engaged
  if digitalRead .PIN_MOTOR_REV s = .LOW then
    print .forward_ignored s
  else
    if s.CURRENT_POS < 3 ∨ s.HOMING_ACTIVE = true ∨ s.CURRENT_POS ≤ -1 then
      let s := rgb_set_led RED s
      let s := print (.forward_homing s.HOMING) s
      let s := if s.HOMING ≥ 1 ∧ s.HOMING < 5 then rgb_set_led YELLOW s else s
      digitalWrite .PIN_MOTOR_FWD .LOW s
    else
      print (.range_error s.CURRENT_POS) s

def motor_reverse (s : State) : State :=
  -- Check that we aren't already engaged
  if digitalRead .PIN_MOTOR_FWD s = .LOW then
    print .reverse_ignored s
  else
    if s.CURRENT_POS > 1 ∨ s.HOMING_ACTIVE = true ∨ s.CURRENT_POS ≤ -1 then
      let s := rgb_set_led RED s
      let s := print (.reverse_homing s.HOMING) s
      let s := if s.HOMING ≥ 1 ∧ s.HOMING < 5 then rgb_set_led YELLOW s else s
      digitalWrite .PIN_MOTOR_REV .LOW s
    else
      print (.range_error s.CURRENT_POS) s

/-! ## Sensor debouncer -/

/-- The interrupt handler.  The sensor input is at level `r1` when the handler
is entered and at level `r2` when it is sampled again after the settle delay;
`delay(50)` inside the handler is `wait 50`, since no further interrupt is taken
while the handler runs. -/
def isr_prox_sensor (r1 r2 : Level) (s : State) : State :=
  let PREV_SOURCE := s.SOURCE
  let s := s.set_SOURCE SENSOR
  let s := s.set_PIN_PROX_SENSOR r1
  let s :=
    if (digitalRead .PIN_PROX_SENSOR s).toInt ≠ s.SENSOR_STATE then
      let s := wait 50 s
      let s := s.set_PIN_PROX_SENSOR r2
      let s := s.set_SENSOR_STATE ((digitalRead .PIN_PROX_SENSOR s).toInt)
      if s.PREV_SENSOR_STATE ≠ s.SENSOR_STATE ∧ s.SENSOR_OVERRIDE = LOW then
        if s.SENSOR_STATE = LOW then
          let s := motor_stop s
          let s :=
            if s.HOMING ≤ 0 ∨ s.HOMING ≥ 5 then rgb_set_led YELLOW s
            else rgb_set_led GREEN s
          let s :=
            if s.HOMING ≠ 0 ∧ s.HOME_DIRECTION = RIGHT then
              let s := s.set_TRIGGER_ORDER2 (s.TRIGGER_ORDER.push 'R')
              s.set_TRIGGER_ORDER s.TRIGGER_ORDER2
            else s
          if s.HOMING ≠ 0 ∧ s.HOME_DIRECTION = LEFT then
            let s := s.set_TRIGGER_ORDER2 (s.TRIGGER_ORDER.push 'L')
            s.set_TRIGGER_ORDER s.TRIGGER_ORDER2
          else s
        else s
      else s
    else s
  let s := s.set_PREV_SENSOR_STATE s.SENSOR_STATE
  s.set_SOURCE PREV_SOURCE

/-- The handler invocations of one delay, in order. -/
def runIsrs : List (Level × Level) → State → State
  | [], s => s
  | (r1, r2) :: rest, s => runIsrs rest (isr_prox_sensor r1 r2 s)

/-- The blocking `delay(ms)` of the main context: time passes and the handler
invocations scheduled for this delay run to completion. Handler invocations
that preempt the main context between two statements outside a delay are
taken up where they change the outcome, between the stores of TriggerOrder
(see `boundary_stores` and `homing_4_finish_irq`). -/
def delay (ms : Nat) (s : State) : State :=
  match s.pending with
  | [] => wait ms s
  | edges :: rest => runIsrs edges (wait ms (s.set_pending rest))

def sensor_bypass (s : State) : State :=
  let s := s.set_SENSOR_OVERRIDE 1
  let s := delay SENSOR_FALLOFF s
  s.set_SENSOR_OVERRIDE 0

def report_pos (s : State) : State :=
  print (.report_pos s.PREVIOUS_POS s.CURRENT_POS) s

def drag_lights (s : State) : State :=
  let s := rgb_set_led RED s
  let s := delay 333 s
  let s := rgb_set_led YELLOW s
  let s := delay 333 s
  let s := rgb_set_led GREEN s
  let s := delay 333 s
  let s := rgb_set_led OFF s
  delay 333 s

/-! ## Motion primitives -/

def move_right (s : State) : State :=
  let s := emit (.call .move_right) s
  let s := s.set_PREVIOUS_POS s.CURRENT_POS
  let s := motor_forward s
  let s := sensor_bypass s
  -- Blocking, Safety stop after x milliseconds in case sensor hasn't tripped
  let s := delay SAFETY_CUTOFF s
  let s := motor_stop s
  let s := if s.CURRENT_POS < 3 then s.set_CURRENT_POS (s.CURRENT_POS + 1) else s
  let s := report_pos s
  if s.CURRENT_POS = 4 then print (.moved_past_3 s.CURRENT_POS) s else s

def move_gr1 (s : State) : State :=
  let s := emit (.call .move_gr1) s
  let s := motor_forward s
  let s := sensor_bypass s
  let s := delay SENSOR_FALLOFF s
  motor_stop s

def move_left (s : State) : State :=
  let s := emit (.call .move_left) s
  let s := s.set_PREVIOUS_POS s.CURRENT_POS
  let s := motor_reverse s
  let s := sensor_bypass s
  -- Blocking, Safety stop after x milliseconds in case sensor hasn't tripped
  let s := delay SAFETY_CUTOFF s
  let s := motor_stop s
  let s := if s.CURRENT_POS > 1 then s.set_CURRENT_POS (s.CURRENT_POS - 1) else s
  let s := report_pos s
  if s.CURRENT_POS = 0 then print (.moved_past_1 s.CURRENT_POS) s else s

def move_gl1 (s : State) : State :=
  let s := emit (.call .move_gl1) s
  let s := motor_reverse s
  let s := sensor_bypass s
  let s := delay SENSOR_FALLOFF s
  motor_stop s

/-! ## Homing state machine -/

-- Move half the expected distance between points to try and locate a neighbor for reference
def homing_1 (s : State) : State :=
  let s :=
    if s.HOMING = 1 ∧ s.SENSOR_STATE ≠ 0 then
      let s := s.set_HOME_DIRECTION RIGHT
      let s := motor_forward s
      -- the non-blocking `delay_ms`, result discarded
      let s := (delay_ms HOMING_TIMEOUT_SHORT s).2
      let s := motor_stop s
      -- Return to start position and seek the same distance in opposite direction
      let s :=
        if s.SENSOR_STATE ≠ LOW then
          let s := s.set_HOME_DIRECTION LEFT
          let s := motor_reverse s
          let s := delay (HOMING_TIMEOUT_SHORT * 2) s
          let s := motor_stop s
          let s := delay 250 s
          -- If we still haven't found a starting reference, go further and try again
          if s.SENSOR_STATE ≠ LOW then
            let s := s.set_HOME_DIRECTION RIGHT
            let s := motor_forward s
            let s := delay (HOMING_TIMEOUT_SHORT * 3) s
            let s := motor_stop s
            delay 250 s
          else s
        else s
      if s.SENSOR_STATE ≠ LOW then
        print (.homing_1_no_stops s.SOURCE) s
      else
        if s.HOME_DIRECTION = RIGHT then print (.homing_1_right s.TRIGGER_ORDER) s
        else print (.homing_1_left s.TRIGGER_ORDER) s
    else s
  let s := s.set_TRIGGER_ORDER2 (s.TRIGGER_ORDER.push 'N')
  let s := s.set_TRIGGER_ORDER s.TRIGGER_ORDER2
  s.set_HOMING 2

def homing_2 (s : State) : State :=
  let s :=
    if s.HOMING = 2 ∧ s.SENSOR_STATE ≠ 0 then
      -- Seek in the opposite direction of the first detected point or last seek direction
      let s :=
        if s.HOME_DIRECTION = RIGHT then
          let s := s.set_HOME_DIRECTION LEFT
          let s := motor_reverse s
          let s := sensor_bypass s
          let s := delay (HOMING_TIMEOUT_SHORT * 2) s
          motor_stop s
        else if s.HOME_DIRECTION = LEFT then
          let s := s.set_HOME_DIRECTION RIGHT
          let s := motor_forward s
          let s := sensor_bypass s
          let s := delay (HOMING_TIMEOUT_SHORT * 2) s
          motor_stop s
        else
          print (.homing_2_invalid s.HOME_DIRECTION) s
      if s.SENSOR_STATE ≠ LOW then print (.homing_2_no_stops s.SOURCE) s else s
    else s
  let s := s.set_TRIGGER_ORDER2 (s.TRIGGER_ORDER.push 'N')
  let s := s.set_TRIGGER_ORDER s.TRIGGER_ORDER2
  s.set_HOMING 3

def homing_3 (s : State) : State :=
  let s :=
    if s.HOMING = 3 then
      -- Test left and see if we hit a stop point
      let s := s.set_HOME_DIRECTION LEFT
      let s := motor_reverse s
      let s := sensor_bypass s
      let s := delay HOMING_TIMEOUT_LONG s
      let s := motor_stop s
      if s.SENSOR_STATE = LOW then
        let s := s.set_HOME_DIRECTION RIGHT
        let s := motor_forward s
        let s := sensor_bypass s
        let s := delay HOMING_TIMEOUT_LONG s
        let s := motor_stop s
        if s.SENSOR_STATE = LOW then s.set_HOMING 4 else s
      else
        let s := print (.homing_3_no_left s.SOURCE) s
        let s := s.set_HOME_DIRECTION RIGHT
        let s := motor_forward s
        let s := sensor_bypass s
        let s := delay HOMING_TIMEOUT_LONG s
        let s := motor_stop s
        let s := delay 250 s
        if s.SENSOR_STATE = LOW then
          let s := print (.homing_3_on_start s.SOURCE) s
          s.set_HOMING 4
        else
          print (.homing_3_not_found s.SOURCE) s
    else s
  -- Denote we are at H3
  let s := s.set_TRIGGER_ORDER2 (s.TRIGGER_ORDER.push 'N')
  s.set_TRIGGER_ORDER s.TRIGGER_ORDER2

/-- Lines 561-604 of `homing_4`: the probing block guarded by `HOMING == 4`. -/
def homing_4_probe (s : State) : State :=
  if s.HOMING = 4 then
    -- Test RIGHT and see if we hit a stop point
    let s := s.set_HOME_DIRECTION RIGHT
    let s := motor_forward s
    let s := sensor_bypass s
    let s := delay HOMING_TIMEOUT_LONG s
    let s := motor_stop s
    if s.SENSOR_STATE = LOW then
      let s := s.set_HOME_DIRECTION LEFT
      let s := motor_reverse s
      let s := sensor_bypass s
      let s := delay HOMING_TIMEOUT_LONG s
      let s := motor_stop s
      if s.SENSOR_STATE = LOW then s.set_HOMING 5 else s
    else
      let s := s.set_HOME_DIRECTION LEFT
      let s := motor_reverse s
      let s := sensor_bypass s
      let s := delay HOMING_TIMEOUT_LONG s
      let s := motor_stop s
      if s.SENSOR_STATE = LOW then
        let s := print (.homing_4_on_start s.SOURCE) s
        s.set_HOMING 5
      else
        print (.homing_4_wrong s.SOURCE) s
  else s

/-- Lines 607-617 of `homing_4`: the chain of string comparisons that stores
the table index. -/
def homing_4_index (s : State) : State :=
  let s := if s.TRIGGER_ORDER = "RNNRNRL" then s.set_HOMED_POS 0 else s
  let s := if s.TRIGGER_ORDER = "NNRNRL" then s.set_HOMED_POS 1 else s
  let s := if s.TRIGGER_ORDER = "LNNRNRL" then s.set_HOMED_POS 2 else s
  let s := if s.TRIGGER_ORDER = "RNNLRNRL" then s.set_HOMED_POS 3 else s
  let s := if s.TRIGGER_ORDER = "LRNNLRNRL" then s.set_HOMED_POS 4 else s
  let s := if s.TRIGGER_ORDER = "NNLRNRL" then s.set_HOMED_POS 5 else s
  let s := if s.TRIGGER_ORDER = "LNNLRNRL" then s.set_HOMED_POS 6 else s
  let s := if s.TRIGGER_ORDER = "RNNLRNL" then s.set_HOMED_POS 7 else s
  let s := if s.TRIGGER_ORDER = "LRNNLRNL" then s.set_HOMED_POS 8 else s
  let s := if s.TRIGGER_ORDER = "NNLRNL" then s.set_HOMED_POS 9 else s
  if s.TRIGGER_ORDER = "LNNLRNL" then s.set_HOMED_POS 10 else s

/-- Line 621 of `homing_4`: `CURRENT_POS = HOMED_ARRAY[HOMED_POS].END_POS`. -/
def homing_4_assign (s : State) : State :=
  match HOMED_ARRAY_at s.HOMED_POS with
  | some row => s.set_CURRENT_POS row.END_POS
  | none => s.set_fault true

/-- Lines 607-621 of `homing_4`: the table lookup. -/
def homing_4_lookup (s : State) : State :=
  homing_4_assign (homing_4_index s)

/-- Lines 623-634 of `homing_4`: the recentering move after a resolved run. -/
def homing_4_recenter (s : State) : State :=
  if s.HOMING > 4 then
    if s.CURRENT_POS ≠ 2 then
      let s := print (.calibration_complete s.SOURCE) s
      if s.CURRENT_POS = 1 then move_right s else move_left s
    else
      -- If we are on the middle position already, report the POS
      report_pos s
  else s

/-- Lines 635-636 of `homing_4`: clear variables for re-use, play the animation. -/
def homing_4_finish (s : State) : State :=
  let s := s.set_TRIGGER_ORDER2 ""
  let s := s.set_TRIGGER_ORDER s.TRIGGER_ORDER2
  drag_lights s

def homing_4 (s : State) : State :=
  homing_4_finish (homing_4_recenter (homing_4_lookup (homing_4_probe s)))

/-! ## Command layer -/

/-- The state after the HOME command (the command always returns 0). -/
def HOMEcommand (s : State) : State :=
  let s := s.set_HOMING_ACTIVE true
  let s := s.set_HOMING 1
  let s := homing_1 s
  let s := homing_2 s
  let s := homing_3 s
  let s := homing_4 s
  s.set_HOMING_ACTIVE false

/-- Lines 805-845 of `MOVEcommand`: the word that `readWord()` returns is
converted to a command id. -/
def MOVEcommand_read (word : String) (s : State) : State :=
  let s : State := s.set_SOURCE CLI
  let s : State := s.set_RX_COMMAND 99
  let s : State := s.set_rxWord word
  -- Switch statements only work with integers, so convert to integers
  let s : State := if s.rxWord = "STOP" then s.set_RX_COMMAND STOP else s
  let s : State := if s.rxWord = "RIGHT" then s.set_RX_COMMAND RIGHT else s
  let s : State := if s.rxWord = "LEFT" then s.set_RX_COMMAND LEFT else s
  let s : State := if s.rxWord = "GOCNC" then s.set_RX_COMMAND CNC else s
  let s : State := if s.rxWord = "GOCHOPSAW" then s.set_RX_COMMAND CHOPSAW else s
  let s : State := if s.rxWord = "GOWORKBENCH" then s.set_RX_COMMAND WORKBENCH else s
  let s : State := if s.rxWord = "GL1" then s.set_RX_COMMAND GL1 else s
  let s : State := if s.rxWord = "GR1" then s.set_RX_COMMAND GR1 else s
  let s : State := if s.rxWord = "H1" then s.set_RX_COMMAND H1 else s
  let s : State := if s.rxWord = "H2" then s.set_RX_COMMAND H2 else s
  let s : State := if s.rxWord = "H3" then s.set_RX_COMMAND H3 else s
  if s.rxWord = "H4" then s.set_RX_COMMAND H4 else s

/-- Lines 873-887 of `MOVEcommand`: the body of `case CNC`. -/
def MOVEcommand_CNC (s : State) : State :=
  if s.CURRENT_POS = -1 then
    print (.not_homed_cnc s.SOURCE) s
  else
    let s := if s.CURRENT_POS = 1 then move_right (move_right s) else s
    let s := if s.CURRENT_POS = 2 then move_right s else s
    -- if (CURRENT_POS == 3): we're already where we need to be
    s

/-- Lines 891-904 of `MOVEcommand`: the body of `case CHOPSAW`. -/
def MOVEcommand_CHOPSAW (s : State) : State :=
  if s.CURRENT_POS = -1 then
    print (.not_homed_chopsaw s.SOURCE) s
  else
    let s := if s.CURRENT_POS = 1 then move_right s else s
    -- if (CURRENT_POS == 2): we're already where we need to be
    let s := if s.CURRENT_POS = 3 then move_left s else s
    s

/-- Lines 908-922 of `MOVEcommand`: the body of `case WORKBENCH`. -/
def MOVEcommand_WORKBENCH (s : State) : State :=
  if s.CURRENT_POS = -1 then
    print (.not_homed_workbench s.SOURCE) s
  else
    -- if (CURRENT_POS == 1): we're already where we need to be
    let s := if s.CURRENT_POS = 2 then move_left s else s
    let s := if s.CURRENT_POS = 3 then move_left (move_left s) else s
    s

/-- Lines 926-933 of `MOVEcommand`: the body of `case H1`. -/
def MOVEcommand_H1 (s : State) : State :=
  let s :=
    if digitalRead .PIN_PROX_SENSOR s = .LOW then s.set_HOMING 3
    else s.set_HOMING 1
  homing_1 s

/-- Lines 847-956 of `MOVEcommand`: the effect of the `switch (RX_COMMAND)`. -/
def MOVEcommand_switch (s : State) : State :=
  if s.RX_COMMAND = STOP then motor_stop s
  else if s.RX_COMMAND = RIGHT then move_right s
  else if s.RX_COMMAND = GR1 then move_gr1 s
  else if s.RX_COMMAND = LEFT then move_left s
  else if s.RX_COMMAND = GL1 then move_gl1 s
  else if s.RX_COMMAND = CNC then MOVEcommand_CNC s
  else if s.RX_COMMAND = CHOPSAW then MOVEcommand_CHOPSAW s
  else if s.RX_COMMAND = WORKBENCH then MOVEcommand_WORKBENCH s
  else if s.RX_COMMAND = H1 then MOVEcommand_H1 s
  else if s.RX_COMMAND = H2 then homing_2 s
  else if s.RX_COMMAND = H3 then homing_3 s
  else if s.RX_COMMAND = H4 then homing_4 s
  else print .invalid_command s

/-- The value `MOVEcommand` returns: 0 from every case, 1 from `default`. -/
def MOVEcommand_result (s : State) : Int :=
  if s.RX_COMMAND = STOP ∨ s.RX_COMMAND = RIGHT ∨ s.RX_COMMAND = GR1 ∨ s.RX_COMMAND = LEFT ∨
      s.RX_COMMAND = GL1 ∨ s.RX_COMMAND = CNC ∨ s.RX_COMMAND = CHOPSAW ∨
      s.RX_COMMAND = WORKBENCH ∨ s.RX_COMMAND = H1 ∨ s.RX_COMMAND = H2 ∨
      s.RX_COMMAND = H3 ∨ s.RX_COMMAND = H4 then 0
  else 1

/-- The state after the MOVE command; `word` is what `readWord()` returns. -/
def MOVEcommand (word : String) (s : State) : State :=
  MOVEcommand_switch (MOVEcommand_read word s)

/-! ## Start-up -/

/-- The globals at their initialisers, before `setup()`; `sensor` is the level
of the sensor input, `script` the sensor edges of the coming delays. -/
def powerOn (sensor : Level) (script : List (List (Level × Level))) : State :=
  { PIN_PROX_SENSOR := sensor
    PIN_MOTOR_FWD := .HIGH
    PIN_MOTOR_REV := .HIGH
    PIN_LED_RED := .HIGH
    PIN_LED_GREEN := .HIGH
    millis := 0
    PREV_SENSOR_STATE := HIGH
    SENSOR_STATE := HIGH
    SENSOR_OVERRIDE := LOW
    HOMING_ACTIVE := false
    HOMING := 0
    HOME_DIRECTION := 0
    HOMED_POS := 0
    CURRENT_POS := -1
    PREVIOUS_POS := -1
    TRIGGER_ORDER := ""
    TRIGGER_ORDER2 := ""
    SOURCE := 0
    state_start_timestamp := 0
    RX_COMMAND := 99
    rxWord := ""
    currColor := 99
    fault := false
    pending := script
    trace := [] }

/-- The pin writes and the sensor read of `setup()` (its serial banner is left out). -/
def setup (s : State) : State :=
  let s := digitalWrite .PIN_MOTOR_FWD .HIGH s
  let s := digitalWrite .PIN_MOTOR_REV .HIGH s
  let s := digitalWrite .PIN_LED_RED .HIGH s
  let s := digitalWrite .PIN_LED_GREEN .HIGH s
  s.set_SENSOR_STATE ((digitalRead .PIN_PROX_SENSOR s).toInt)

/-- The state in which `loop()` first runs. -/
def startup (sensor : Level) (script : List (List (Level × Level))) : State :=
  setup (powerOn sensor script)

/-- A state for examples: start-up with the sensor idle and no scripted sensor
edges, then Position and the homing-active flag as given. -/
def homedAt (p : Int) (active : Bool) : State :=
  ((startup .HIGH []).set_CURRENT_POS p).set_HOMING_ACTIVE active

/-- A state for examples: `homedAt p true` with the given homing stage and
accumulated trigger order. -/
def homingAt (p : Int) (stage : Int) (order : String) : State :=
  ((homedAt p true).set_HOMING stage).set_TRIGGER_ORDER order

/-- A state for examples: stage 4 about to run after the trigger order "NNLRN",
with a sensor script in which the right probe ends on a stop point, the sensor
is released as the carriage leaves it, and the left probe ends on a stop point. -/
def stage4Run : State :=
  (homingAt (-1) 4 "NNLRN").set_pending
    [[], [(.LOW, .LOW)], [(.HIGH, .HIGH)], [(.LOW, .LOW)]]

/-- Everything that can happen after start-up: a call of an interlock function,
a handler invocation between two commands, a motion primitive, a homing stage
function, or a command. -/
inductive Op
  | motor_forward
  | motor_reverse
  | motor_stop
  | isr (r1 r2 : Level)
  | move_right
  | move_left
  | move_gr1
  | move_gl1
  | homing_1
  | homing_2
  | homing_3
  | homing_4
  | MOVE (word : String)
  | HOME
  deriving DecidableEq, Repr

def Op.run : Op → State → State
  | .motor_forward, s => Vacrouter.motor_forward s
  | .motor_reverse, s => Vacrouter.motor_reverse s
  | .motor_stop, s => Vacrouter.motor_stop s
  | .isr r1 r2, s => isr_prox_sensor r1 r2 s
  | .move_right, s => Vacrouter.move_right s
  | .move_left, s => Vacrouter.move_left s
  | .move_gr1, s => Vacrouter.move_gr1 s
  | .move_gl1, s => Vacrouter.move_gl1 s
  | .homing_1, s => Vacrouter.homing_1 s
  | .homing_2, s => Vacrouter.homing_2 s
  | .homing_3, s => Vacrouter.homing_3 s
  | .homing_4, s => Vacrouter.homing_4 s
  | .MOVE word, s => MOVEcommand word s
  | .HOME, s => HOMEcommand s

/-- Run a sequence of operations, first to last. -/
def runOps : List Op → State → State
  | [], s => s
  | op :: rest, s => runOps rest (op.run s)

/-! ## Reading the trace -/

/-- The effect of one event on the levels of the (forward, reverse) drive lines. -/
def Event.lines (e : Event) (l : Level × Level) : Level × Level :=
  match e with
  | .write .PIN_MOTOR_FWD v => (v, l.2)
  | .write .PIN_MOTOR_REV v => (l.1, v)
  | _ => l

/-- The levels of the forward and reverse drive lines after the events of a
trace (most recent first), both deasserted before the first event. -/
def linesOf : List Event → Level × Level
  | [] => (.HIGH, .HIGH)
  | e :: t => e.lines (linesOf t)

/-- At no point of the trace were both drive lines asserted. -/
def Interlocked : List Event → Prop
  | [] => True
  | e :: t => linesOf (e :: t) ≠ (.LOW, .LOW) ∧ Interlocked t

/-- The drive lines are what the trace says they are, and at no point of the
trace were both asserted. -/
def Inv (s : State) : Prop :=
  linesOf s.trace = (s.PIN_MOTOR_FWD, s.PIN_MOTOR_REV) ∧ Interlocked s.trace

/-- Number of entries into the motion primitive `f` in a trace. -/
def calls (f : Fn) (t : List Event) : Nat := t.count (.call f)

/-- A refusal diagnostic of the interlock: opposing direction engaged, or range. -/
def isRefusal : Event → Bool
  | .print .forward_ignored => true
  | .print .reverse_ignored => true
  | .print (.range_error _) => true
  | _ => false

/-- Number of refusals logged in a trace. -/
def refusals (t : List Event) : Nat := t.countP isRefusal

/-- What the homing stage functions leave alone between a state `s` and a later
state `x`: the position bookkeeping, the homing-active flag, the stored table
index, and the number of entries into each motion primitive. -/
structure Steady (s x : State) : Prop where
  CURRENT_POS : x.CURRENT_POS = s.CURRENT_POS
  PREVIOUS_POS : x.PREVIOUS_POS = s.PREVIOUS_POS
  HOMING_ACTIVE : x.HOMING_ACTIVE = s.HOMING_ACTIVE
  HOMED_POS : x.HOMED_POS = s.HOMED_POS
  fault : x.fault = s.fault
  calls : ∀ f, calls f x.trace = calls f s.trace

/-- Number of times the forward line was asserted in a trace. -/
def fwdAsserts (t : List Event) : Nat := t.count (.write .PIN_MOTOR_FWD .LOW)

/-- Number of times the reverse line was asserted in a trace. -/
def revAsserts (t : List Event) : Nat := t.count (.write .PIN_MOTOR_REV .LOW)

/-- What a refused command leaves behind: one diagnostic `m` on top of the old
trace, and Position, PreviousPosition and both drive lines as they were. -/
def RefusedWith (m : Msg) (s x : State) : Prop :=
  x.trace = .print m :: s.trace ∧ x.CURRENT_POS = s.CURRENT_POS ∧
    x.PREVIOUS_POS = s.PREVIOUS_POS ∧ x.PIN_MOTOR_FWD = s.PIN_MOTOR_FWD ∧
    x.PIN_MOTOR_REV = s.PIN_MOTOR_REV

/-! ## Reading the sensor handler -/

/-- The handler commits a transition to Triggered: the input differed from
SensorState at entry (line 271), and the re-sample differs from
PreviousSensorState, the sensor is not overridden (line 276) and the re-sample
is LOW (line 277). -/
def commitsTrigger (r1 r2 : Level) (s : State) : Prop :=
  r1.toInt ≠ s.SENSOR_STATE ∧ s.PREV_SENSOR_STATE ≠ r2.toInt ∧ s.SENSOR_OVERRIDE = LOW ∧
    r2 = .LOW

instance commitsTrigger.decidable (r1 r2 : Level) (s : State) :
    Decidable (commitsTrigger r1 r2 s) := by
  unfold commitsTrigger; infer_instance

/-- What the handler does besides lines 277-297: when the input differed at
entry it waits out the settle delay and stores the re-sample in SensorState
(lines 272, 275); in either case PreviousSensorState follows SensorState
(line 301). -/
def sampled (r1 r2 : Level) (s : State) : State :=
  if r1.toInt ≠ s.SENSOR_STATE then
    (((wait 50 s).set_PIN_PROX_SENSOR r2).set_SENSOR_STATE r2.toInt).set_PREV_SENSOR_STATE r2.toInt
  else
    (s.set_PIN_PROX_SENSOR r1).set_PREV_SENSOR_STATE s.SENSOR_STATE

/-- The state in which the handler calls `motor_stop()` on line 279. -/
def atTrigger (s : State) : State :=
  ((wait 50 (s.set_SOURCE SENSOR)).set_PIN_PROX_SENSOR .LOW).set_SENSOR_STATE 0

/-- A state for examples: homing stage 3 probing left with the reverse line
asserted, trigger order "NN" so far. -/
def probingLeft : State :=
  motor_reverse ((homingAt (-1) 3 "NN").set_HOME_DIRECTION LEFT)

/-- A sensor script for examples, a homing run between two stop points: stage 1
finds a stop on its left probe, and every later probe leaves the stop it starts
on during the override window and ends on the next one. -/
def homingScript : List (List (Level × Level)) :=
  [[(.LOW, .LOW)], [],
   [(.HIGH, .HIGH)], [(.LOW, .LOW)], [(.HIGH, .HIGH)], [(.LOW, .LOW)],
   [(.HIGH, .HIGH)], [(.LOW, .LOW)], [(.HIGH, .HIGH)], [(.LOW, .LOW)],
   [], [], [], []]

/-! ## Reading the stored table index -/

/-- Between `s` and `x` the stored table index and the ghost fault flag are
unchanged. -/
structure SameIndex (s x : State) : Prop where
  HOMED_POS : x.HOMED_POS = s.HOMED_POS
  fault : x.fault = s.fault

/-- The stored table index is inside the table and no out-of-range read of the
table has happened. -/
def Indexed (s : State) : Prop :=
  (0 ≤ s.HOMED_POS ∧ s.HOMED_POS ≤ 10) ∧ s.fault = false

/-- The state in which an operation reaches the table lookup of `homing_4`
(line 607), for the operations that run `homing_4`: the stage function itself,
the HOME command, and MOVE H4. -/
def lookupState (op : Op) (s : State) : Option State :=
  match op with
  | .homing_4 => some (homing_4_probe s)
  | .HOME =>
    some (homing_4_probe (homing_3 (homing_2 (homing_1
      ((s.set_HOMING_ACTIVE true).set_HOMING 1)))))
  | .MOVE word =>
    if (MOVEcommand_read word s).RX_COMMAND = H4 then
      some (homing_4_probe (MOVEcommand_read word s))
    else none
  | _ => none

/-- TriggerOrder equals none of the 11 table keys. -/
def unmatched (t : State) : Prop := t.TRIGGER_ORDER ∉ sequenceTable.map Prod.fst

instance unmatched.decidable (t : State) : Decidable (unmatched t) := by
  unfold unmatched; infer_instance

/-- No lookup has matched while the operations `ops` ran from state `s`. -/
def neverMatched : List Op → State → Prop
  | [], _ => True
  | op :: rest, s =>
    (∀ t, lookupState op s = some t → unmatched t) ∧ neverMatched rest (op.run s)

/-! ## Reading TriggerOrder -/

/-- A list of the two direction symbols the sensor handler appends. -/
def LR (l : List Char) : Prop := ∀ c ∈ l, c = 'L' ∨ c = 'R'

/-- Between a state `s` and a later state `x`, TriggerOrder has only been
extended, and only by direction symbols. -/
def Ext (s x : State) : Prop :=
  ∃ l, LR l ∧ x.TRIGGER_ORDER.data = s.TRIGGER_ORDER.data ++ l

/-- Between `s` and `x`, TriggerOrder has been extended by direction symbols
and then by exactly one boundary symbol 'N', which is its last symbol. -/
def ExtN (s x : State) : Prop :=
  ∃ l, LR l ∧ x.TRIGGER_ORDER.data = s.TRIGGER_ORDER.data ++ l ++ ['N']

/-- A sensor script in which the handler never re-samples the input LOW: no
invocation in it can commit a transition to Triggered. -/
def quiet (script : List (List (Level × Level))) : Prop :=
  ∀ edges ∈ script, ∀ e ∈ edges, e.2 = Level.HIGH

instance quiet.decidable (script : List (List (Level × Level))) : Decidable (quiet script) := by
  unfold quiet; infer_instance

/-- Between `s` and `x` TriggerOrder is unchanged and the rest of the sensor
script is quiet. -/
def Calm (s x : State) : Prop :=
  x.TRIGGER_ORDER = s.TRIGGER_ORDER ∧ quiet x.pending

/-! ## Reading the homing run -/

/-- The state of a HOME command when it has set the stage counter, before
stage 1. -/
def homeStart (s : State) : State := (s.set_HOMING_ACTIVE true).set_HOMING 1

/-- The state of a HOME command after its stage 1. -/
def homeAfter1 (s : State) : State := homing_1 (homeStart s)

/-- The state of a HOME command after its stage 2. -/
def homeAfter2 (s : State) : State := homing_2 (homeAfter1 s)

/-- The state of a HOME command after its stage 3. -/
def homeAfter3 (s : State) : State := homing_3 (homeAfter2 s)

/-- The state of a HOME command after its stage 4, before the flag is cleared. -/
def homeAfter4 (s : State) : State := homing_4 (homeAfter3 s)

/-- The total of the blocking waits in a chronological list of events up to
the first write of HIGH to pin `p`: how long a drive line asserted just before
these events stays asserted. -/
def heldFor (p : Pin) : List Event → Nat
  | [] => 0
  | .wait ms :: t => ms + heldFor p t
  | .write q .HIGH :: t => if q = p then 0 else heldFor p t
  | _ :: t => heldFor p t

/-- The drive assertions of a chronological list of events, each with the time
the line then stays asserted. -/
def driveHolds : List Event → List (Pin × Nat)
  | [] => []
  | .write .PIN_MOTOR_FWD .LOW :: t =>
    (.PIN_MOTOR_FWD, heldFor .PIN_MOTOR_FWD t) :: driveHolds t
  | .write .PIN_MOTOR_REV .LOW :: t =>
    (.PIN_MOTOR_REV, heldFor .PIN_MOTOR_REV t) :: driveHolds t
  | _ :: t => driveHolds t

/-! ## Reading the drive -/

/-- Both drive lines are deasserted. -/
def Stopped (s : State) : Prop := s.PIN_MOTOR_FWD = .HIGH ∧ s.PIN_MOTOR_REV = .HIGH

instance Stopped.decidable (s : State) : Decidable (Stopped s) := by
  unfold Stopped; infer_instance

/-- An interlock refusal diagnostic: what `motor_forward` logs when it finds the
reverse line asserted, and `motor_reverse` when it finds the forward line
asserted. -/
def isIgnored : Event → Bool
  | .print .forward_ignored => true
  | .print .reverse_ignored => true
  | _ => false

/-- Number of interlock refusals logged in a trace. -/
def ignored (t : List Event) : Nat := t.countP isIgnored

/-- Between `s` and `x` no drive call was refused by the interlock. -/
def Clean (s x : State) : Prop := ignored x.trace = ignored s.trace

/-- Between `s` and `x` no drive call was refused by the interlock, and at `x`
both drive lines are deasserted. -/
def Good (s x : State) : Prop := Stopped x ∧ ignored x.trace = ignored s.trace

/-- The sensor handler is not masked: SensorOverride is clear. -/
def Unmasked (s : State) : Prop := s.SENSOR_OVERRIDE = 0

instance Unmasked.decidable (s : State) : Decidable (Unmasked s) := by
  unfold Unmasked; infer_instance

/-! ## Preemption between the stores of TriggerOrder

The handler is attached with `attachInterrupt(..., CHANGE)` (line 1019), so it
can also run between two statements of the main context. The definitions of this
section take handler invocations between the two stores with which the main
context writes TriggerOrder; with no invocation there they are the functions
above. -/

/-- Lines 415-455: the probing block of `homing_1`. -/
def homing_1_probe (s : State) : State :=
  if s.HOMING = 1 ∧ s.SENSOR_STATE ≠ 0 then
    let s := s.set_HOME_DIRECTION RIGHT
    let s := motor_forward s
    -- the non-blocking `delay_ms`, result discarded
    let s := (delay_ms HOMING_TIMEOUT_SHORT s).2
    let s := motor_stop s
    -- Return to start position and seek the same distance in opposite direction
    let s :=
      if s.SENSOR_STATE ≠ LOW then
        let s := s.set_HOME_DIRECTION LEFT
        let s := motor_reverse s
        let s := delay (HOMING_TIMEOUT_SHORT * 2) s
        let s := motor_stop s
        let s := delay 250 s
        -- If we still haven't found a starting reference, go further and try again
        if s.SENSOR_STATE ≠ LOW then
          let s := s.set_HOME_DIRECTION RIGHT
          let s := motor_forward s
          let s := delay (HOMING_TIMEOUT_SHORT * 3) s
          let s := motor_stop s
          delay 250 s
        else s
      else s
    if s.SENSOR_STATE ≠ LOW then
      print (.homing_1_no_stops s.SOURCE) s
    else
      if s.HOME_DIRECTION = RIGHT then print (.homing_1_right s.TRIGGER_ORDER) s
      else print (.homing_1_left s.TRIGGER_ORDER) s
  else s

/-- Lines 464-500: the probing block of `homing_2`. -/
def homing_2_probe (s : State) : State :=
  if s.HOMING = 2 ∧ s.SENSOR_STATE ≠ 0 then
    -- Seek in the opposite direction of the first detected point or last seek direction
    let s :=
      if s.HOME_DIRECTION = RIGHT then
        let s := s.set_HOME_DIRECTION LEFT
        let s := motor_reverse s
        let s := sensor_bypass s
        let s := delay (HOMING_TIMEOUT_SHORT * 2) s
        motor_stop s
      else if s.HOME_DIRECTION = LEFT then
        let s := s.set_HOME_DIRECTION RIGHT
        let s := motor_forward s
        let s := sensor_bypass s
        let s := delay (HOMING_TIMEOUT_SHORT * 2) s
        motor_stop s
      else
        print (.homing_2_invalid s.HOME_DIRECTION) s
    if s.SENSOR_STATE ≠ LOW then print (.homing_2_no_stops s.SOURCE) s else s
  else s

/-- Lines 510-551: the probing block of `homing_3`. -/
def homing_3_probe (s : State) : State :=
  if s.HOMING = 3 then
    -- Test left and see if we hit a stop point
    let s := s.set_HOME_DIRECTION LEFT
    let s := motor_reverse s
    let s := sensor_bypass s
    let s := delay HOMING_TIMEOUT_LONG s
    let s := motor_stop s
    if s.SENSOR_STATE = LOW then
      let s := s.set_HOME_DIRECTION RIGHT
      let s := motor_forward s
      let s := sensor_bypass s
      let s := delay HOMING_TIMEOUT_LONG s
      let s := motor_stop s
      if s.SENSOR_STATE = LOW then s.set_HOMING 4 else s
    else
      let s := print (.homing_3_no_left s.SOURCE) s
      let s := s.set_HOME_DIRECTION RIGHT
      let s := motor_forward s
      let s := sensor_bypass s
      let s := delay HOMING_TIMEOUT_LONG s
      let s := motor_stop s
      let s := delay 250 s
      if s.SENSOR_STATE = LOW then
        let s := print (.homing_3_on_start s.SOURCE) s
        s.set_HOMING 4
      else
        print (.homing_3_not_found s.SOURCE) s
  else s

/-- Lines 456-457, 501-502 and 552-553: the two stores with which a stage
function appends its boundary symbol, the handler invocations `edges` being
taken between the first store and the second. -/
def boundary_stores (edges : List (Level × Level)) (s : State) : State :=
  let s := s.set_TRIGGER_ORDER2 (s.TRIGGER_ORDER.push 'N')
  let s := runIsrs edges s
  s.set_TRIGGER_ORDER s.TRIGGER_ORDER2

/-- The function `homing_1` with the handler invocations `edges` taken between
lines 456 and 457. -/
def homing_1_irq (edges : List (Level × Level)) (s : State) : State :=
  let s := homing_1_probe s
  let s := boundary_stores edges s
  s.set_HOMING 2

/-- The function `homing_2` with the handler invocations `edges` taken between
lines 501 and 502. -/
def homing_2_irq (edges : List (Level × Level)) (s : State) : State :=
  let s := homing_2_probe s
  let s := boundary_stores edges s
  s.set_HOMING 3

/-- The function `homing_3` with the handler invocations `edges` taken between
lines 552 and 553. -/
def homing_3_irq (edges : List (Level × Level)) (s : State) : State :=
  let s := homing_3_probe s
  boundary_stores edges s

/-- Lines 635-636 of `homing_4` with the handler invocations `edges` taken
between the two stores of the chained assignment
`TRIGGER_ORDER = TRIGGER_ORDER2 = ""`. -/
def homing_4_finish_irq (edges : List (Level × Level)) (s : State) : State :=
  let s := s.set_TRIGGER_ORDER2 ""
  let s := runIsrs edges s
  let s := s.set_TRIGGER_ORDER s.TRIGGER_ORDER2
  drag_lights s

set_option linter.unusedTactic false
set_option linter.unreachableTactic false

/-! ## Frame lemmas

What the hardware-level functions leave alone: the position and homing globals,
and the numbers of motion-primitive entries, refusals and drive assertions in
the trace. -/

theorem print_refusals (m : Msg) (s : State) :
    refusals (print m s).trace = refusals s.trace + (if isRefusal (.print m) then 1 else 0) := by
  simp only [refusals, print, emit, List.countP_cons]

theorem write_fwd_low_fwdAsserts (s : State) :
    fwdAsserts (digitalWrite .PIN_MOTOR_FWD .LOW s).trace = fwdAsserts s.trace + 1 := by
  simp [fwdAsserts, digitalWrite]

theorem write_rev_low_revAsserts (s : State) :
    revAsserts (digitalWrite .PIN_MOTOR_REV .LOW s).trace = revAsserts s.trace + 1 := by
  simp [revAsserts, digitalWrite]

theorem print_refusals_of (m : Msg) (s : State) (h : isRefusal (.print m) = false) :
    refusals (print m s).trace = refusals s.trace := by
  simp [refusals, print, emit, h]

@[simp] theorem print_stop_issued_refusals (n : Int) (s : State) :
    refusals (print (.stop_issued n) s).trace = refusals s.trace :=
  print_refusals_of _ s rfl

@[simp] theorem print_PIN_MOTOR_FWD (m : Msg) (s : State) :
    (print m s).PIN_MOTOR_FWD = s.PIN_MOTOR_FWD := by
  rfl

@[simp] theorem print_PIN_MOTOR_REV (m : Msg) (s : State) :
    (print m s).PIN_MOTOR_REV = s.PIN_MOTOR_REV := by
  rfl

@[simp] theorem print_SENSOR_OVERRIDE (m : Msg) (s : State) :
    (print m s).SENSOR_OVERRIDE = s.SENSOR_OVERRIDE := by
  rfl

@[simp] theorem print_TRIGGER_ORDER (m : Msg) (s : State) :
    (print m s).TRIGGER_ORDER = s.TRIGGER_ORDER := by
  rfl

@[simp] theorem print_SENSOR_STATE (m : Msg) (s : State) :
    (print m s).SENSOR_STATE = s.SENSOR_STATE := by
  rfl

@[simp] theorem print_CURRENT_POS (m : Msg) (s : State) :
    (print m s).CURRENT_POS = s.CURRENT_POS := by
  rfl

@[simp] theorem print_PREVIOUS_POS (m : Msg) (s : State) :
    (print m s).PREVIOUS_POS = s.PREVIOUS_POS := by
  rfl

@[simp] theorem print_HOMING (m : Msg) (s : State) :
    (print m s).HOMING = s.HOMING := by
  rfl

@[simp] theorem print_HOMING_ACTIVE (m : Msg) (s : State) :
    (print m s).HOMING_ACTIVE = s.HOMING_ACTIVE := by
  rfl

@[simp] theorem print_HOME_DIRECTION (m : Msg) (s : State) :
    (print m s).HOME_DIRECTION = s.HOME_DIRECTION := by
  rfl

@[simp] theorem print_HOMED_POS (m : Msg) (s : State) :
    (print m s).HOMED_POS = s.HOMED_POS := by
  rfl

@[simp] theorem print_fault (m : Msg) (s : State) :
    (print m s).fault = s.fault := by
  rfl

@[simp] theorem print_calls (f : Fn) (m : Msg) (s : State) :
    calls f (print m s).trace = calls f s.trace := by
  simp [calls, refusals, fwdAsserts, revAsserts, isRefusal, print, emit]

@[simp] theorem print_fwdAsserts (m : Msg) (s : State) :
    fwdAsserts (print m s).trace = fwdAsserts s.trace := by
  simp [calls, refusals, fwdAsserts, revAsserts, isRefusal, print, emit]

@[simp] theorem print_revAsserts (m : Msg) (s : State) :
    revAsserts (print m s).trace = revAsserts s.trace := by
  simp [calls, refusals, fwdAsserts, revAsserts, isRefusal, print, emit]

@[simp] theorem emit_call_PIN_MOTOR_FWD (g : Fn) (s : State) :
    (emit (.call g) s).PIN_MOTOR_FWD = s.PIN_MOTOR_FWD := by
  rfl

@[simp] theorem emit_call_PIN_MOTOR_REV (g : Fn) (s : State) :
    (emit (.call g) s).PIN_MOTOR_REV = s.PIN_MOTOR_REV := by
  rfl

@[simp] theorem emit_call_SENSOR_OVERRIDE (g : Fn) (s : State) :
    (emit (.call g) s).SENSOR_OVERRIDE = s.SENSOR_OVERRIDE := by
  rfl

@[simp] theorem emit_call_TRIGGER_ORDER (g : Fn) (s : State) :
    (emit (.call g) s).TRIGGER_ORDER = s.TRIGGER_ORDER := by
  rfl

@[simp] theorem emit_call_SENSOR_STATE (g : Fn) (s : State) :
    (emit (.call g) s).SENSOR_STATE = s.SENSOR_STATE := by
  rfl

@[simp] theorem emit_call_CURRENT_POS (g : Fn) (s : State) :
    (emit (.call g) s).CURRENT_POS = s.CURRENT_POS := by
  rfl

@[simp] theorem emit_call_PREVIOUS_POS (g : Fn) (s : State) :
    (emit (.call g) s).PREVIOUS_POS = s.PREVIOUS_POS := by
  rfl

@[simp] theorem emit_call_HOMING (g : Fn) (s : State) :
    (emit (.call g) s).HOMING = s.HOMING := by
  rfl

@[simp] theorem emit_call_HOMING_ACTIVE (g : Fn) (s : State) :
    (emit (.call g) s).HOMING_ACTIVE = s.HOMING_ACTIVE := by
  rfl

@[simp] theorem emit_call_HOME_DIRECTION (g : Fn) (s : State) :
    (emit (.call g) s).HOME_DIRECTION = s.HOME_DIRECTION := by
  rfl

@[simp] theorem emit_call_HOMED_POS (g : Fn) (s : State) :
    (emit (.call g) s).HOMED_POS = s.HOMED_POS := by
  rfl

@[simp] theorem emit_call_fault (g : Fn) (s : State) :
    (emit (.call g) s).fault = s.fault := by
  rfl

@[simp] theorem emit_call_refusals (g : Fn) (s : State) :
    refusals (emit (.call g) s).trace = refusals s.trace := by
  simp [calls, refusals, fwdAsserts, revAsserts, isRefusal, emit]

@[simp] theorem emit_call_fwdAsserts (g : Fn) (s : State) :
    fwdAsserts (emit (.call g) s).trace = fwdAsserts s.trace := by
  simp [calls, refusals, fwdAsserts, revAsserts, isRefusal, emit]

@[simp] theorem emit_call_revAsserts (g : Fn) (s : State) :
    revAsserts (emit (.call g) s).trace = revAsserts s.trace := by
  simp [calls, refusals, fwdAsserts, revAsserts, isRefusal, emit]

@[simp] theorem wait_PIN_MOTOR_FWD (ms : Nat) (s : State) :
    (wait ms s).PIN_MOTOR_FWD = s.PIN_MOTOR_FWD := by
  rfl

@[simp] theorem wait_PIN_MOTOR_REV (ms : Nat) (s : State) :
    (wait ms s).PIN_MOTOR_REV = s.PIN_MOTOR_REV := by
  rfl

@[simp] theorem wait_SENSOR_OVERRIDE (ms : Nat) (s : State) :
    (wait ms s).SENSOR_OVERRIDE = s.SENSOR_OVERRIDE := by
  rfl

@[simp] theorem wait_TRIGGER_ORDER (ms : Nat) (s : State) :
    (wait ms s).TRIGGER_ORDER = s.TRIGGER_ORDER := by
  rfl

@[simp] theorem wait_SENSOR_STATE (ms : Nat) (s : State) :
    (wait ms s).SENSOR_STATE = s.SENSOR_STATE := by
  rfl

@[simp] theorem wait_CURRENT_POS (ms : Nat) (s : State) :
    (wait ms s).CURRENT_POS = s.CURRENT_POS := by
  rfl

@[simp] theorem wait_PREVIOUS_POS (ms : Nat) (s : State) :
    (wait ms s).PREVIOUS_POS = s.PREVIOUS_POS := by
  rfl

@[simp] theorem wait_HOMING (ms : Nat) (s : State) :
    (wait ms s).HOMING = s.HOMING := by
  rfl

@[simp] theorem wait_HOMING_ACTIVE (ms : Nat) (s : State) :
    (wait ms s).HOMING_ACTIVE = s.HOMING_ACTIVE := by
  rfl

@[simp] theorem wait_HOME_DIRECTION (ms : Nat) (s : State) :
    (wait ms s).HOME_DIRECTION = s.HOME_DIRECTION := by
  rfl

@[simp] theorem wait_HOMED_POS (ms : Nat) (s : State) :
    (wait ms s).HOMED_POS = s.HOMED_POS := by
  rfl

@[simp] theorem wait_fault (ms : Nat) (s : State) :
    (wait ms s).fault = s.fault := by
  rfl

@[simp] theorem wait_calls (f : Fn) (ms : Nat) (s : State) :
    calls f (wait ms s).trace = calls f s.trace := by
  simp [calls, refusals, fwdAsserts, revAsserts, isRefusal, wait]

@[simp] theorem wait_refusals (ms : Nat) (s : State) :
    refusals (wait ms s).trace = refusals s.trace := by
  simp [calls, refusals, fwdAsserts, revAsserts, isRefusal, wait]

@[simp] theorem wait_fwdAsserts (ms : Nat) (s : State) :
    fwdAsserts (wait ms s).trace = fwdAsserts s.trace := by
  simp [calls, refusals, fwdAsserts, revAsserts, isRefusal, wait]

@[simp] theorem wait_revAsserts (ms : Nat) (s : State) :
    revAsserts (wait ms s).trace = revAsserts s.trace := by
  simp [calls, refusals, fwdAsserts, revAsserts, isRefusal, wait]

@[simp] theorem write_high_SENSOR_OVERRIDE (q : Pin) (s : State) :
    (digitalWrite q .HIGH s).SENSOR_OVERRIDE = s.SENSOR_OVERRIDE := by
  cases q <;> rfl

@[simp] theorem write_high_TRIGGER_ORDER (q : Pin) (s : State) :
    (digitalWrite q .HIGH s).TRIGGER_ORDER = s.TRIGGER_ORDER := by
  cases q <;> rfl

@[simp] theorem write_high_SENSOR_STATE (q : Pin) (s : State) :
    (digitalWrite q .HIGH s).SENSOR_STATE = s.SENSOR_STATE := by
  cases q <;> rfl

@[simp] theorem write_high_CURRENT_POS (q : Pin) (s : State) :
    (digitalWrite q .HIGH s).CURRENT_POS = s.CURRENT_POS := by
  cases q <;> rfl

@[simp] theorem write_high_PREVIOUS_POS (q : Pin) (s : State) :
    (digitalWrite q .HIGH s).PREVIOUS_POS = s.PREVIOUS_POS := by
  cases q <;> rfl

@[simp] theorem write_high_HOMING (q : Pin) (s : State) :
    (digitalWrite q .HIGH s).HOMING = s.HOMING := by
  cases q <;> rfl

@[simp] theorem write_high_HOMING_ACTIVE (q : Pin) (s : State) :
    (digitalWrite q .HIGH s).HOMING_ACTIVE = s.HOMING_ACTIVE := by
  cases q <;> rfl

@[simp] theorem write_high_HOME_DIRECTION (q : Pin) (s : State) :
    (digitalWrite q .HIGH s).HOME_DIRECTION = s.HOME_DIRECTION := by
  cases q <;> rfl

@[simp] theorem write_high_HOMED_POS (q : Pin) (s : State) :
    (digitalWrite q .HIGH s).HOMED_POS = s.HOMED_POS := by
  cases q <;> rfl

@[simp] theorem write_high_fault (q : Pin) (s : State) :
    (digitalWrite q .HIGH s).fault = s.fault := by
  cases q <;> rfl

@[simp] theorem write_high_calls (f : Fn) (q : Pin) (s : State) :
    calls f (digitalWrite q .HIGH s).trace = calls f s.trace := by
  cases q <;> simp [calls, refusals, fwdAsserts, revAsserts, isRefusal, digitalWrite]

@[simp] theorem write_high_refusals (q : Pin) (s : State) :
    refusals (digitalWrite q .HIGH s).trace = refusals s.trace := by
  cases q <;> simp [calls, refusals, fwdAsserts, revAsserts, isRefusal, digitalWrite]

@[simp] theorem write_high_fwdAsserts (q : Pin) (s : State) :
    fwdAsserts (digitalWrite q .HIGH s).trace = fwdAsserts s.trace := by
  cases q <;> simp [calls, refusals, fwdAsserts, revAsserts, isRefusal, digitalWrite]

@[simp] theorem write_high_revAsserts (q : Pin) (s : State) :
    revAsserts (digitalWrite q .HIGH s).trace = revAsserts s.trace := by
  cases q <;> simp [calls, refusals, fwdAsserts, revAsserts, isRefusal, digitalWrite]

@[simp] theorem write_fwd_low_PIN_MOTOR_REV (s : State) :
    (digitalWrite .PIN_MOTOR_FWD .LOW s).PIN_MOTOR_REV = s.PIN_MOTOR_REV := by
  rfl

@[simp] theorem write_fwd_low_SENSOR_OVERRIDE (s : State) :
    (digitalWrite .PIN_MOTOR_FWD .LOW s).SENSOR_OVERRIDE = s.SENSOR_OVERRIDE := by
  rfl

@[simp] theorem write_fwd_low_TRIGGER_ORDER (s : State) :
    (digitalWrite .PIN_MOTOR_FWD .LOW s).TRIGGER_ORDER = s.TRIGGER_ORDER := by
  rfl

@[simp] theorem write_fwd_low_SENSOR_STATE (s : State) :
    (digitalWrite .PIN_MOTOR_FWD .LOW s).SENSOR_STATE = s.SENSOR_STATE := by
  rfl

@[simp] theorem write_fwd_low_CURRENT_POS (s : State) :
    (digitalWrite .PIN_MOTOR_FWD .LOW s).CURRENT_POS = s.CURRENT_POS := by
  rfl

@[simp] theorem write_fwd_low_PREVIOUS_POS (s : State) :
    (digitalWrite .PIN_MOTOR_FWD .LOW s).PREVIOUS_POS = s.PREVIOUS_POS := by
  rfl

@[simp] theorem write_fwd_low_HOMING (s : State) :
    (digitalWrite .PIN_MOTOR_FWD .LOW s).HOMING = s.HOMING := by
  rfl

@[simp] theorem write_fwd_low_HOMING_ACTIVE (s : State) :
    (digitalWrite .PIN_MOTOR_FWD .LOW s).HOMING_ACTIVE = s.HOMING_ACTIVE := by
  rfl

@[simp] theorem write_fwd_low_HOME_DIRECTION (s : State) :
    (digitalWrite .PIN_MOTOR_FWD .LOW s).HOME_DIRECTION = s.HOME_DIRECTION := by
  rfl

@[simp] theorem write_fwd_low_HOMED_POS (s : State) :
    (digitalWrite .PIN_MOTOR_FWD .LOW s).HOMED_POS = s.HOMED_POS := by
  rfl

@[simp] theorem write_fwd_low_fault (s : State) :
    (digitalWrite .PIN_MOTOR_FWD .LOW s).fault = s.fault := by
  rfl

@[simp] theorem write_fwd_low_calls (f : Fn) (s : State) :
    calls f (digitalWrite .PIN_MOTOR_FWD .LOW s).trace = calls f s.trace := by
  simp [calls, refusals, fwdAsserts, revAsserts, isRefusal, digitalWrite]

@[simp] theorem write_fwd_low_refusals (s : State) :
    refusals (digitalWrite .PIN_MOTOR_FWD .LOW s).trace = refusals s.trace := by
  simp [calls, refusals, fwdAsserts, revAsserts, isRefusal, digitalWrite]

@[simp] theorem write_fwd_low_revAsserts (s : State) :
    revAsserts (digitalWrite .PIN_MOTOR_FWD .LOW s).trace = revAsserts s.trace := by
  simp [calls, refusals, fwdAsserts, revAsserts, isRefusal, digitalWrite]

@[simp] theorem write_rev_low_PIN_MOTOR_FWD (s : State) :
    (digitalWrite .PIN_MOTOR_REV .LOW s).PIN_MOTOR_FWD = s.PIN_MOTOR_FWD := by
  rfl

@[simp] theorem write_rev_low_SENSOR_OVERRIDE (s : State) :
    (digitalWrite .PIN_MOTOR_REV .LOW s).SENSOR_OVERRIDE = s.SENSOR_OVERRIDE := by
  rfl

@[simp] theorem write_rev_low_TRIGGER_ORDER (s : State) :
    (digitalWrite .PIN_MOTOR_REV .LOW s).TRIGGER_ORDER = s.TRIGGER_ORDER := by
  rfl

@[simp] theorem write_rev_low_SENSOR_STATE (s : State) :
    (digitalWrite .PIN_MOTOR_REV .LOW s).SENSOR_STATE = s.SENSOR_STATE := by
  rfl

@[simp] theorem write_rev_low_CURRENT_POS (s : State) :
    (digitalWrite .PIN_MOTOR_REV .LOW s).CURRENT_POS = s.CURRENT_POS := by
  rfl

@[simp] theorem write_rev_low_PREVIOUS_POS (s : State) :
    (digitalWrite .PIN_MOTOR_REV .LOW s).PREVIOUS_POS = s.PREVIOUS_POS := by
  rfl

@[simp] theorem write_rev_low_HOMING (s : State) :
    (digitalWrite .PIN_MOTOR_REV .LOW s).HOMING = s.HOMING := by
  rfl

@[simp] theorem write_rev_low_HOMING_ACTIVE (s : State) :
    (digitalWrite .PIN_MOTOR_REV .LOW s).HOMING_ACTIVE = s.HOMING_ACTIVE := by
  rfl

@[simp] theorem write_rev_low_HOME_DIRECTION (s : State) :
    (digitalWrite .PIN_MOTOR_REV .LOW s).HOME_DIRECTION = s.HOME_DIRECTION := by
  rfl

@[simp] theorem write_rev_low_HOMED_POS (s : State) :
    (digitalWrite .PIN_MOTOR_REV .LOW s).HOMED_POS = s.HOMED_POS := by
  rfl

@[simp] theorem write_rev_low_fault (s : State) :
    (digitalWrite .PIN_MOTOR_REV .LOW s).fault = s.fault := by
  rfl

@[simp] theorem write_rev_low_calls (f : Fn) (s : State) :
    calls f (digitalWrite .PIN_MOTOR_REV .LOW s).trace = calls f s.trace := by
  simp [calls, refusals, fwdAsserts, revAsserts, isRefusal, digitalWrite]

@[simp] theorem write_rev_low_refusals (s : State) :
    refusals (digitalWrite .PIN_MOTOR_REV .LOW s).trace = refusals s.trace := by
  simp [calls, refusals, fwdAsserts, revAsserts, isRefusal, digitalWrite]

@[simp] theorem write_rev_low_fwdAsserts (s : State) :
    fwdAsserts (digitalWrite .PIN_MOTOR_REV .LOW s).trace = fwdAsserts s.trace := by
  simp [calls, refusals, fwdAsserts, revAsserts, isRefusal, digitalWrite]

@[simp] theorem write_led_red_PIN_MOTOR_FWD (v : Level) (s : State) :
    (digitalWrite .PIN_LED_RED v s).PIN_MOTOR_FWD = s.PIN_MOTOR_FWD := by
  rfl

@[simp] theorem write_led_red_PIN_MOTOR_REV (v : Level) (s : State) :
    (digitalWrite .PIN_LED_RED v s).PIN_MOTOR_REV = s.PIN_MOTOR_REV := by
  rfl

@[simp] theorem write_led_red_SENSOR_OVERRIDE (v : Level) (s : State) :
    (digitalWrite .PIN_LED_RED v s).SENSOR_OVERRIDE = s.SENSOR_OVERRIDE := by
  rfl

@[simp] theorem write_led_red_TRIGGER_ORDER (v : Level) (s : State) :
    (digitalWrite .PIN_LED_RED v s).TRIGGER_ORDER = s.TRIGGER_ORDER := by
  rfl

@[simp] theorem write_led_red_SENSOR_STATE (v : Level) (s : State) :
    (digitalWrite .PIN_LED_RED v s).SENSOR_STATE = s.SENSOR_STATE := by
  rfl

@[simp] theorem write_led_red_CURRENT_POS (v : Level) (s : State) :
    (digitalWrite .PIN_LED_RED v s).CURRENT_POS = s.CURRENT_POS := by
  rfl

@[simp] theorem write_led_red_PREVIOUS_POS (v : Level) (s : State) :
    (digitalWrite .PIN_LED_RED v s).PREVIOUS_POS = s.PREVIOUS_POS := by
  rfl

@[simp] theorem write_led_red_HOMING (v : Level) (s : State) :
    (digitalWrite .PIN_LED_RED v s).HOMING = s.HOMING := by
  rfl

@[simp] theorem write_led_red_HOMING_ACTIVE (v : Level) (s : State) :
    (digitalWrite .PIN_LED_RED v s).HOMING_ACTIVE = s.HOMING_ACTIVE := by
  rfl

@[simp] theorem write_led_red_HOME_DIRECTION (v : Level) (s : State) :
    (digitalWrite .PIN_LED_RED v s).HOME_DIRECTION = s.HOME_DIRECTION := by
  rfl

@[simp] theorem write_led_red_HOMED_POS (v : Level) (s : State) :
    (digitalWrite .PIN_LED_RED v s).HOMED_POS = s.HOMED_POS := by
  rfl

@[simp] theorem write_led_red_fault (v : Level) (s : State) :
    (digitalWrite .PIN_LED_RED v s).fault = s.fault := by
  rfl

@[simp] theorem write_led_red_calls (f : Fn) (v : Level) (s : State) :
    calls f (digitalWrite .PIN_LED_RED v s).trace = calls f s.trace := by
  simp [calls, refusals, fwdAsserts, revAsserts, isRefusal, digitalWrite]

@[simp] theorem write_led_red_refusals (v : Level) (s : State) :
    refusals (digitalWrite .PIN_LED_RED v s).trace = refusals s.trace := by
  simp [calls, refusals, fwdAsserts, revAsserts, isRefusal, digitalWrite]

@[simp] theorem write_led_red_fwdAsserts (v : Level) (s : State) :
    fwdAsserts (digitalWrite .PIN_LED_RED v s).trace = fwdAsserts s.trace := by
  simp [calls, refusals, fwdAsserts, revAsserts, isRefusal, digitalWrite]

@[simp] theorem write_led_red_revAsserts (v : Level) (s : State) :
    revAsserts (digitalWrite .PIN_LED_RED v s).trace = revAsserts s.trace := by
  simp [calls, refusals, fwdAsserts, revAsserts, isRefusal, digitalWrite]

@[simp] theorem write_led_green_PIN_MOTOR_FWD (v : Level) (s : State) :
    (digitalWrite .PIN_LED_GREEN v s).PIN_MOTOR_FWD = s.PIN_MOTOR_FWD := by
  rfl

@[simp] theorem write_led_green_PIN_MOTOR_REV (v : Level) (s : State) :
    (digitalWrite .PIN_LED_GREEN v s).PIN_MOTOR_REV = s.PIN_MOTOR_REV := by
  rfl

@[simp] theorem write_led_green_SENSOR_OVERRIDE (v : Level) (s : State) :
    (digitalWrite .PIN_LED_GREEN v s).SENSOR_OVERRIDE = s.SENSOR_OVERRIDE := by
  rfl

@[simp] theorem write_led_green_TRIGGER_ORDER (v : Level) (s : State) :
    (digitalWrite .PIN_LED_GREEN v s).TRIGGER_ORDER = s.TRIGGER_ORDER := by
  rfl

@[simp] theorem write_led_green_SENSOR_STATE (v : Level) (s : State) :
    (digitalWrite .PIN_LED_GREEN v s).SENSOR_STATE = s.SENSOR_STATE := by
  rfl

@[simp] theorem write_led_green_CURRENT_POS (v : Level) (s : State) :
    (digitalWrite .PIN_LED_GREEN v s).CURRENT_POS = s.CURRENT_POS := by
  rfl

@[simp] theorem write_led_green_PREVIOUS_POS (v : Level) (s : State) :
    (digitalWrite .PIN_LED_GREEN v s).PREVIOUS_POS = s.PREVIOUS_POS := by
  rfl

@[simp] theorem write_led_green_HOMING (v : Level) (s : State) :
    (digitalWrite .PIN_LED_GREEN v s).HOMING = s.HOMING := by
  rfl

@[simp] theorem write_led_green_HOMING_ACTIVE (v : Level) (s : State) :
    (digitalWrite .PIN_LED_GREEN v s).HOMING_ACTIVE = s.HOMING_ACTIVE := by
  rfl

@[simp] theorem write_led_green_HOME_DIRECTION (v : Level) (s : State) :
    (digitalWrite .PIN_LED_GREEN v s).HOME_DIRECTION = s.HOME_DIRECTION := by
  rfl

@[simp] theorem write_led_green_HOMED_POS (v : Level) (s : State) :
    (digitalWrite .PIN_LED_GREEN v s).HOMED_POS = s.HOMED_POS := by
  rfl

@[simp] theorem write_led_green_fault (v : Level) (s : State) :
    (digitalWrite .PIN_LED_GREEN v s).fault = s.fault := by
  rfl

@[simp] theorem write_led_green_calls (f : Fn) (v : Level) (s : State) :
    calls f (digitalWrite .PIN_LED_GREEN v s).trace = calls f s.trace := by
  simp [calls, refusals, fwdAsserts, revAsserts, isRefusal, digitalWrite]

@[simp] theorem write_led_green_refusals (v : Level) (s : State) :
    refusals (digitalWrite .PIN_LED_GREEN v s).trace = refusals s.trace := by
  simp [calls, refusals, fwdAsserts, revAsserts, isRefusal, digitalWrite]

@[simp] theorem write_led_green_fwdAsserts (v : Level) (s : State) :
    fwdAsserts (digitalWrite .PIN_LED_GREEN v s).trace = fwdAsserts s.trace := by
  simp [calls, refusals, fwdAsserts, revAsserts, isRefusal, digitalWrite]

@[simp] theorem write_led_green_revAsserts (v : Level) (s : State) :
    revAsserts (digitalWrite .PIN_LED_GREEN v s).trace = revAsserts s.trace := by
  simp [calls, refusals, fwdAsserts, revAsserts, isRefusal, digitalWrite]

@[simp] theorem delay_ms_PIN_MOTOR_FWD (d : Nat) (s : State) :
    ((delay_ms d s).2).PIN_MOTOR_FWD = s.PIN_MOTOR_FWD := by
  unfold delay_ms
  dsimp only
  split <;> rfl

@[simp] theorem delay_ms_PIN_MOTOR_REV (d : Nat) (s : State) :
    ((delay_ms d s).2).PIN_MOTOR_REV = s.PIN_MOTOR_REV := by
  unfold delay_ms
  dsimp only
  split <;> rfl

@[simp] theorem delay_ms_SENSOR_OVERRIDE (d : Nat) (s : State) :
    ((delay_ms d s).2).SENSOR_OVERRIDE = s.SENSOR_OVERRIDE := by
  unfold delay_ms
  dsimp only
  split <;> rfl

@[simp] theorem delay_ms_TRIGGER_ORDER (d : Nat) (s : State) :
    ((delay_ms d s).2).TRIGGER_ORDER = s.TRIGGER_ORDER := by
  unfold delay_ms
  dsimp only
  split <;> rfl

@[simp] theorem delay_ms_SENSOR_STATE (d : Nat) (s : State) :
    ((delay_ms d s).2).SENSOR_STATE = s.SENSOR_STATE := by
  unfold delay_ms
  dsimp only
  split <;> rfl

@[simp] theorem delay_ms_CURRENT_POS (d : Nat) (s : State) :
    ((delay_ms d s).2).CURRENT_POS = s.CURRENT_POS := by
  unfold delay_ms
  dsimp only
  split <;> rfl

@[simp] theorem delay_ms_PREVIOUS_POS (d : Nat) (s : State) :
    ((delay_ms d s).2).PREVIOUS_POS = s.PREVIOUS_POS := by
  unfold delay_ms
  dsimp only
  split <;> rfl

@[simp] theorem delay_ms_HOMING (d : Nat) (s : State) :
    ((delay_ms d s).2).HOMING = s.HOMING := by
  unfold delay_ms
  dsimp only
  split <;> rfl

@[simp] theorem delay_ms_HOMING_ACTIVE (d : Nat) (s : State) :
    ((delay_ms d s).2).HOMING_ACTIVE = s.HOMING_ACTIVE := by
  unfold delay_ms
  dsimp only
  split <;> rfl

@[simp] theorem delay_ms_HOME_DIRECTION (d : Nat) (s : State) :
    ((delay_ms d s).2).HOME_DIRECTION = s.HOME_DIRECTION := by
  unfold delay_ms
  dsimp only
  split <;> rfl

@[simp] theorem delay_ms_HOMED_POS (d : Nat) (s : State) :
    ((delay_ms d s).2).HOMED_POS = s.HOMED_POS := by
  unfold delay_ms
  dsimp only
  split <;> rfl

@[simp] theorem delay_ms_fault (d : Nat) (s : State) :
    ((delay_ms d s).2).fault = s.fault := by
  unfold delay_ms
  dsimp only
  split <;> rfl

@[simp] theorem delay_ms_calls (f : Fn) (d : Nat) (s : State) :
    calls f ((delay_ms d s).2).trace = calls f s.trace := by
  unfold delay_ms
  dsimp only
  split <;> rfl

@[simp] theorem delay_ms_refusals (d : Nat) (s : State) :
    refusals ((delay_ms d s).2).trace = refusals s.trace := by
  unfold delay_ms
  dsimp only
  split <;> rfl

@[simp] theorem delay_ms_fwdAsserts (d : Nat) (s : State) :
    fwdAsserts ((delay_ms d s).2).trace = fwdAsserts s.trace := by
  unfold delay_ms
  dsimp only
  split <;> rfl

@[simp] theorem delay_ms_revAsserts (d : Nat) (s : State) :
    revAsserts ((delay_ms d s).2).trace = revAsserts s.trace := by
  unfold delay_ms
  dsimp only
  split <;> rfl

@[simp] theorem rgb_set_led_PIN_MOTOR_FWD (c : Nat) (s : State) :
    (rgb_set_led c s).PIN_MOTOR_FWD = s.PIN_MOTOR_FWD := by
  unfold rgb_set_led
  dsimp only
  repeat' split
  all_goals first | rfl | simp only [print_PIN_MOTOR_FWD, emit_call_PIN_MOTOR_FWD,
      wait_PIN_MOTOR_FWD, write_rev_low_PIN_MOTOR_FWD, write_led_red_PIN_MOTOR_FWD,
      write_led_green_PIN_MOTOR_FWD, delay_ms_PIN_MOTOR_FWD, State.set_PIN_PROX_SENSOR,
      State.set_PREV_SENSOR_STATE, State.set_SENSOR_STATE, State.set_SENSOR_OVERRIDE,
      State.set_HOMING_ACTIVE, State.set_HOMING, State.set_HOME_DIRECTION, State.set_HOMED_POS,
      State.set_CURRENT_POS, State.set_PREVIOUS_POS, State.set_TRIGGER_ORDER,
      State.set_TRIGGER_ORDER2, State.set_SOURCE, State.set_state_start_timestamp,
      State.set_RX_COMMAND, State.set_rxWord, State.set_currColor, State.set_fault,
      State.set_pending]

@[simp] theorem rgb_set_led_PIN_MOTOR_REV (c : Nat) (s : State) :
    (rgb_set_led c s).PIN_MOTOR_REV = s.PIN_MOTOR_REV := by
  unfold rgb_set_led
  dsimp only
  repeat' split
  all_goals first | rfl | simp only [print_PIN_MOTOR_REV, emit_call_PIN_MOTOR_REV,
      wait_PIN_MOTOR_REV, write_fwd_low_PIN_MOTOR_REV, write_led_red_PIN_MOTOR_REV,
      write_led_green_PIN_MOTOR_REV, delay_ms_PIN_MOTOR_REV, State.set_PIN_PROX_SENSOR,
      State.set_PREV_SENSOR_STATE, State.set_SENSOR_STATE, State.set_SENSOR_OVERRIDE,
      State.set_HOMING_ACTIVE, State.set_HOMING, State.set_HOME_DIRECTION, State.set_HOMED_POS,
      State.set_CURRENT_POS, State.set_PREVIOUS_POS, State.set_TRIGGER_ORDER,
      State.set_TRIGGER_ORDER2, State.set_SOURCE, State.set_state_start_timestamp,
      State.set_RX_COMMAND, State.set_rxWord, State.set_currColor, State.set_fault,
      State.set_pending]

@[simp] theorem rgb_set_led_SENSOR_OVERRIDE (c : Nat) (s : State) :
    (rgb_set_led c s).SENSOR_OVERRIDE = s.SENSOR_OVERRIDE := by
  unfold rgb_set_led
  dsimp only
  repeat' split
  all_goals first | rfl | simp only [print_SENSOR_OVERRIDE, emit_call_SENSOR_OVERRIDE,
      wait_SENSOR_OVERRIDE, write_high_SENSOR_OVERRIDE, write_fwd_low_SENSOR_OVERRIDE,
      write_rev_low_SENSOR_OVERRIDE, write_led_red_SENSOR_OVERRIDE,
      write_led_green_SENSOR_OVERRIDE, delay_ms_SENSOR_OVERRIDE, State.set_PIN_PROX_SENSOR,
      State.set_PREV_SENSOR_STATE, State.set_SENSOR_STATE, State.set_SENSOR_OVERRIDE,
      State.set_HOMING_ACTIVE, State.set_HOMING, State.set_HOME_DIRECTION, State.set_HOMED_POS,
      State.set_CURRENT_POS, State.set_PREVIOUS_POS, State.set_TRIGGER_ORDER,
      State.set_TRIGGER_ORDER2, State.set_SOURCE, State.set_state_start_timestamp,
      State.set_RX_COMMAND, State.set_rxWord, State.set_currColor, State.set_fault,
      State.set_pending]

@[simp] theorem rgb_set_led_TRIGGER_ORDER (c : Nat) (s : State) :
    (rgb_set_led c s).TRIGGER_ORDER = s.TRIGGER_ORDER := by
  unfold rgb_set_led
  dsimp only
  repeat' split
  all_goals first | rfl | simp only [print_TRIGGER_ORDER, emit_call_TRIGGER_ORDER,
      wait_TRIGGER_ORDER, write_high_TRIGGER_ORDER, write_fwd_low_TRIGGER_ORDER,
      write_rev_low_TRIGGER_ORDER, write_led_red_TRIGGER_ORDER, write_led_green_TRIGGER_ORDER,
      delay_ms_TRIGGER_ORDER, State.set_PIN_PROX_SENSOR, State.set_PREV_SENSOR_STATE,
      State.set_SENSOR_STATE, State.set_SENSOR_OVERRIDE, State.set_HOMING_ACTIVE,
      State.set_HOMING, State.set_HOME_DIRECTION, State.set_HOMED_POS, State.set_CURRENT_POS,
      State.set_PREVIOUS_POS, State.set_TRIGGER_ORDER, State.set_TRIGGER_ORDER2, State.set_SOURCE,
      State.set_state_start_timestamp, State.set_RX_COMMAND, State.set_rxWord,
      State.set_currColor, State.set_fault, State.set_pending]

@[simp] theorem rgb_set_led_SENSOR_STATE (c : Nat) (s : State) :
    (rgb_set_led c s).SENSOR_STATE = s.SENSOR_STATE := by
  unfold rgb_set_led
  dsimp only
  repeat' split
  all_goals first | rfl | simp only [print_SENSOR_STATE, emit_call_SENSOR_STATE,
      wait_SENSOR_STATE, write_high_SENSOR_STATE, write_fwd_low_SENSOR_STATE,
      write_rev_low_SENSOR_STATE, write_led_red_SENSOR_STATE, write_led_green_SENSOR_STATE,
      delay_ms_SENSOR_STATE, State.set_PIN_PROX_SENSOR, State.set_PREV_SENSOR_STATE,
      State.set_SENSOR_STATE, State.set_SENSOR_OVERRIDE, State.set_HOMING_ACTIVE,
      State.set_HOMING, State.set_HOME_DIRECTION, State.set_HOMED_POS, State.set_CURRENT_POS,
      State.set_PREVIOUS_POS, State.set_TRIGGER_ORDER, State.set_TRIGGER_ORDER2, State.set_SOURCE,
      State.set_state_start_timestamp, State.set_RX_COMMAND, State.set_rxWord,
      State.set_currColor, State.set_fault, State.set_pending]

@[simp] theorem rgb_set_led_CURRENT_POS (c : Nat) (s : State) :
    (rgb_set_led c s).CURRENT_POS = s.CURRENT_POS := by
  unfold rgb_set_led
  dsimp only
  repeat' split
  all_goals first | rfl | simp only [print_CURRENT_POS, emit_call_CURRENT_POS, wait_CURRENT_POS,
      write_high_CURRENT_POS, write_fwd_low_CURRENT_POS, write_rev_low_CURRENT_POS,
      write_led_red_CURRENT_POS, write_led_green_CURRENT_POS, delay_ms_CURRENT_POS,
      State.set_PIN_PROX_SENSOR, State.set_PREV_SENSOR_STATE, State.set_SENSOR_STATE,
      State.set_SENSOR_OVERRIDE, State.set_HOMING_ACTIVE, State.set_HOMING,
      State.set_HOME_DIRECTION, State.set_HOMED_POS, State.set_CURRENT_POS,
      State.set_PREVIOUS_POS, State.set_TRIGGER_ORDER, State.set_TRIGGER_ORDER2, State.set_SOURCE,
      State.set_state_start_timestamp, State.set_RX_COMMAND, State.set_rxWord,
      State.set_currColor, State.set_fault, State.set_pending]

@[simp] theorem rgb_set_led_PREVIOUS_POS (c : Nat) (s : State) :
    (rgb_set_led c s).PREVIOUS_POS = s.PREVIOUS_POS := by
  unfold rgb_set_led
  dsimp only
  repeat' split
  all_goals first | rfl | simp only [print_PREVIOUS_POS, emit_call_PREVIOUS_POS,
      wait_PREVIOUS_POS, write_high_PREVIOUS_POS, write_fwd_low_PREVIOUS_POS,
      write_rev_low_PREVIOUS_POS, write_led_red_PREVIOUS_POS, write_led_green_PREVIOUS_POS,
      delay_ms_PREVIOUS_POS, State.set_PIN_PROX_SENSOR, State.set_PREV_SENSOR_STATE,
      State.set_SENSOR_STATE, State.set_SENSOR_OVERRIDE, State.set_HOMING_ACTIVE,
      State.set_HOMING, State.set_HOME_DIRECTION, State.set_HOMED_POS, State.set_CURRENT_POS,
      State.set_PREVIOUS_POS, State.set_TRIGGER_ORDER, State.set_TRIGGER_ORDER2, State.set_SOURCE,
      State.set_state_start_timestamp, State.set_RX_COMMAND, State.set_rxWord,
      State.set_currColor, State.set_fault, State.set_pending]

@[simp] theorem rgb_set_led_HOMING (c : Nat) (s : State) :
    (rgb_set_led c s).HOMING = s.HOMING := by
  unfold rgb_set_led
  dsimp only
  repeat' split
  all_goals first | rfl | simp only [print_HOMING, emit_call_HOMING, wait_HOMING,
      write_high_HOMING, write_fwd_low_HOMING, write_rev_low_HOMING, write_led_red_HOMING,
      write_led_green_HOMING, delay_ms_HOMING, State.set_PIN_PROX_SENSOR,
      State.set_PREV_SENSOR_STATE, State.set_SENSOR_STATE, State.set_SENSOR_OVERRIDE,
      State.set_HOMING_ACTIVE, State.set_HOMING, State.set_HOME_DIRECTION, State.set_HOMED_POS,
      State.set_CURRENT_POS, State.set_PREVIOUS_POS, State.set_TRIGGER_ORDER,
      State.set_TRIGGER_ORDER2, State.set_SOURCE, State.set_state_start_timestamp,
      State.set_RX_COMMAND, State.set_rxWord, State.set_currColor, State.set_fault,
      State.set_pending]

@[simp] theorem rgb_set_led_HOMING_ACTIVE (c : Nat) (s : State) :
    (rgb_set_led c s).HOMING_ACTIVE = s.HOMING_ACTIVE := by
  unfold rgb_set_led
  dsimp only
  repeat' split
  all_goals first | rfl | simp only [print_HOMING_ACTIVE, emit_call_HOMING_ACTIVE,
      wait_HOMING_ACTIVE, write_high_HOMING_ACTIVE, write_fwd_low_HOMING_ACTIVE,
      write_rev_low_HOMING_ACTIVE, write_led_red_HOMING_ACTIVE, write_led_green_HOMING_ACTIVE,
      delay_ms_HOMING_ACTIVE, State.set_PIN_PROX_SENSOR, State.set_PREV_SENSOR_STATE,
      State.set_SENSOR_STATE, State.set_SENSOR_OVERRIDE, State.set_HOMING_ACTIVE,
      State.set_HOMING, State.set_HOME_DIRECTION, State.set_HOMED_POS, State.set_CURRENT_POS,
      State.set_PREVIOUS_POS, State.set_TRIGGER_ORDER, State.set_TRIGGER_ORDER2, State.set_SOURCE,
      State.set_state_start_timestamp, State.set_RX_COMMAND, State.set_rxWord,
      State.set_currColor, State.set_fault, State.set_pending]

@[simp] theorem rgb_set_led_HOME_DIRECTION (c : Nat) (s : State) :
    (rgb_set_led c s).HOME_DIRECTION = s.HOME_DIRECTION := by
  unfold rgb_set_led
  dsimp only
  repeat' split
  all_goals first | rfl | simp only [print_HOME_DIRECTION, emit_call_HOME_DIRECTION,
      wait_HOME_DIRECTION, write_high_HOME_DIRECTION, write_fwd_low_HOME_DIRECTION,
      write_rev_low_HOME_DIRECTION, write_led_red_HOME_DIRECTION, write_led_green_HOME_DIRECTION,
      delay_ms_HOME_DIRECTION, State.set_PIN_PROX_SENSOR, State.set_PREV_SENSOR_STATE,
      State.set_SENSOR_STATE, State.set_SENSOR_OVERRIDE, State.set_HOMING_ACTIVE,
      State.set_HOMING, State.set_HOME_DIRECTION, State.set_HOMED_POS, State.set_CURRENT_POS,
      State.set_PREVIOUS_POS, State.set_TRIGGER_ORDER, State.set_TRIGGER_ORDER2, State.set_SOURCE,
      State.set_state_start_timestamp, State.set_RX_COMMAND, State.set_rxWord,
      State.set_currColor, State.set_fault, State.set_pending]

@[simp] theorem rgb_set_led_HOMED_POS (c : Nat) (s : State) :
    (rgb_set_led c s).HOMED_POS = s.HOMED_POS := by
  unfold rgb_set_led
  dsimp only
  repeat' split
  all_goals first | rfl | simp only [print_HOMED_POS, emit_call_HOMED_POS, wait_HOMED_POS,
      write_high_HOMED_POS, write_fwd_low_HOMED_POS, write_rev_low_HOMED_POS,
      write_led_red_HOMED_POS, write_led_green_HOMED_POS, delay_ms_HOMED_POS,
      State.set_PIN_PROX_SENSOR, State.set_PREV_SENSOR_STATE, State.set_SENSOR_STATE,
      State.set_SENSOR_OVERRIDE, State.set_HOMING_ACTIVE, State.set_HOMING,
      State.set_HOME_DIRECTION, State.set_HOMED_POS, State.set_CURRENT_POS,
      State.set_PREVIOUS_POS, State.set_TRIGGER_ORDER, State.set_TRIGGER_ORDER2, State.set_SOURCE,
      State.set_state_start_timestamp, State.set_RX_COMMAND, State.set_rxWord,
      State.set_currColor, State.set_fault, State.set_pending]

@[simp] theorem rgb_set_led_fault (c : Nat) (s : State) :
    (rgb_set_led c s).fault = s.fault := by
  unfold rgb_set_led
  dsimp only
  repeat' split
  all_goals first | rfl | simp only [print_fault, emit_call_fault, wait_fault, write_high_fault,
      write_fwd_low_fault, write_rev_low_fault, write_led_red_fault, write_led_green_fault,
      delay_ms_fault, State.set_PIN_PROX_SENSOR, State.set_PREV_SENSOR_STATE,
      State.set_SENSOR_STATE, State.set_SENSOR_OVERRIDE, State.set_HOMING_ACTIVE,
      State.set_HOMING, State.set_HOME_DIRECTION, State.set_HOMED_POS, State.set_CURRENT_POS,
      State.set_PREVIOUS_POS, State.set_TRIGGER_ORDER, State.set_TRIGGER_ORDER2, State.set_SOURCE,
      State.set_state_start_timestamp, State.set_RX_COMMAND, State.set_rxWord,
      State.set_currColor, State.set_fault, State.set_pending]

@[simp] theorem rgb_set_led_calls (f : Fn) (c : Nat) (s : State) :
    calls f (rgb_set_led c s).trace = calls f s.trace := by
  unfold rgb_set_led
  dsimp only
  repeat' split
  all_goals first | rfl | simp only [print_calls, wait_calls, write_high_calls,
      write_fwd_low_calls, write_rev_low_calls, write_led_red_calls, write_led_green_calls,
      delay_ms_calls, State.set_PIN_PROX_SENSOR, State.set_PREV_SENSOR_STATE,
      State.set_SENSOR_STATE, State.set_SENSOR_OVERRIDE, State.set_HOMING_ACTIVE,
      State.set_HOMING, State.set_HOME_DIRECTION, State.set_HOMED_POS, State.set_CURRENT_POS,
      State.set_PREVIOUS_POS, State.set_TRIGGER_ORDER, State.set_TRIGGER_ORDER2, State.set_SOURCE,
      State.set_state_start_timestamp, State.set_RX_COMMAND, State.set_rxWord,
      State.set_currColor, State.set_fault, State.set_pending]

@[simp] theorem rgb_set_led_refusals (c : Nat) (s : State) :
    refusals (rgb_set_led c s).trace = refusals s.trace := by
  unfold rgb_set_led
  dsimp only
  repeat' split
  all_goals first | rfl | simp only [print_stop_issued_refusals, emit_call_refusals,
      wait_refusals, write_high_refusals, write_fwd_low_refusals, write_rev_low_refusals,
      write_led_red_refusals, write_led_green_refusals, delay_ms_refusals,
      State.set_PIN_PROX_SENSOR, State.set_PREV_SENSOR_STATE, State.set_SENSOR_STATE,
      State.set_SENSOR_OVERRIDE, State.set_HOMING_ACTIVE, State.set_HOMING,
      State.set_HOME_DIRECTION, State.set_HOMED_POS, State.set_CURRENT_POS,
      State.set_PREVIOUS_POS, State.set_TRIGGER_ORDER, State.set_TRIGGER_ORDER2, State.set_SOURCE,
      State.set_state_start_timestamp, State.set_RX_COMMAND, State.set_rxWord,
      State.set_currColor, State.set_fault, State.set_pending]

@[simp] theorem rgb_set_led_fwdAsserts (c : Nat) (s : State) :
    fwdAsserts (rgb_set_led c s).trace = fwdAsserts s.trace := by
  unfold rgb_set_led
  dsimp only
  repeat' split
  all_goals first | rfl | simp only [print_fwdAsserts, emit_call_fwdAsserts, wait_fwdAsserts,
      write_high_fwdAsserts, write_rev_low_fwdAsserts, write_led_red_fwdAsserts,
      write_led_green_fwdAsserts, delay_ms_fwdAsserts, State.set_PIN_PROX_SENSOR,
      State.set_PREV_SENSOR_STATE, State.set_SENSOR_STATE, State.set_SENSOR_OVERRIDE,
      State.set_HOMING_ACTIVE, State.set_HOMING, State.set_HOME_DIRECTION, State.set_HOMED_POS,
      State.set_CURRENT_POS, State.set_PREVIOUS_POS, State.set_TRIGGER_ORDER,
      State.set_TRIGGER_ORDER2, State.set_SOURCE, State.set_state_start_timestamp,
      State.set_RX_COMMAND, State.set_rxWord, State.set_currColor, State.set_fault,
      State.set_pending]

@[simp] theorem rgb_set_led_revAsserts (c : Nat) (s : State) :
    revAsserts (rgb_set_led c s).trace = revAsserts s.trace := by
  unfold rgb_set_led
  dsimp only
  repeat' split
  all_goals first | rfl | simp only [print_revAsserts, emit_call_revAsserts, wait_revAsserts,
      write_high_revAsserts, write_fwd_low_revAsserts, write_led_red_revAsserts,
      write_led_green_revAsserts, delay_ms_revAsserts, State.set_PIN_PROX_SENSOR,
      State.set_PREV_SENSOR_STATE, State.set_SENSOR_STATE, State.set_SENSOR_OVERRIDE,
      State.set_HOMING_ACTIVE, State.set_HOMING, State.set_HOME_DIRECTION, State.set_HOMED_POS,
      State.set_CURRENT_POS, State.set_PREVIOUS_POS, State.set_TRIGGER_ORDER,
      State.set_TRIGGER_ORDER2, State.set_SOURCE, State.set_state_start_timestamp,
      State.set_RX_COMMAND, State.set_rxWord, State.set_currColor, State.set_fault,
      State.set_pending]

@[simp] theorem motor_stop_SENSOR_OVERRIDE (s : State) :
    (motor_stop s).SENSOR_OVERRIDE = s.SENSOR_OVERRIDE := by
  unfold motor_stop
  simp only [apply_ite State.SENSOR_OVERRIDE, print_SENSOR_OVERRIDE, emit_call_SENSOR_OVERRIDE,
      wait_SENSOR_OVERRIDE, write_high_SENSOR_OVERRIDE, write_fwd_low_SENSOR_OVERRIDE,
      write_rev_low_SENSOR_OVERRIDE, write_led_red_SENSOR_OVERRIDE,
      write_led_green_SENSOR_OVERRIDE, delay_ms_SENSOR_OVERRIDE, rgb_set_led_SENSOR_OVERRIDE,
      State.set_PIN_PROX_SENSOR, State.set_PREV_SENSOR_STATE, State.set_SENSOR_STATE,
      State.set_SENSOR_OVERRIDE, State.set_HOMING_ACTIVE, State.set_HOMING,
      State.set_HOME_DIRECTION, State.set_HOMED_POS, State.set_CURRENT_POS,
      State.set_PREVIOUS_POS, State.set_TRIGGER_ORDER, State.set_TRIGGER_ORDER2, State.set_SOURCE,
      State.set_state_start_timestamp, State.set_RX_COMMAND, State.set_rxWord,
      State.set_currColor, State.set_fault, State.set_pending, ite_self]

@[simp] theorem motor_stop_TRIGGER_ORDER (s : State) :
    (motor_stop s).TRIGGER_ORDER = s.TRIGGER_ORDER := by
  unfold motor_stop
  simp only [apply_ite State.TRIGGER_ORDER, print_TRIGGER_ORDER, emit_call_TRIGGER_ORDER,
      wait_TRIGGER_ORDER, write_high_TRIGGER_ORDER, write_fwd_low_TRIGGER_ORDER,
      write_rev_low_TRIGGER_ORDER, write_led_red_TRIGGER_ORDER, write_led_green_TRIGGER_ORDER,
      delay_ms_TRIGGER_ORDER, rgb_set_led_TRIGGER_ORDER, State.set_PIN_PROX_SENSOR,
      State.set_PREV_SENSOR_STATE, State.set_SENSOR_STATE, State.set_SENSOR_OVERRIDE,
      State.set_HOMING_ACTIVE, State.set_HOMING, State.set_HOME_DIRECTION, State.set_HOMED_POS,
      State.set_CURRENT_POS, State.set_PREVIOUS_POS, State.set_TRIGGER_ORDER,
      State.set_TRIGGER_ORDER2, State.set_SOURCE, State.set_state_start_timestamp,
      State.set_RX_COMMAND, State.set_rxWord, State.set_currColor, State.set_fault,
      State.set_pending, ite_self]

@[simp] theorem motor_stop_SENSOR_STATE (s : State) :
    (motor_stop s).SENSOR_STATE = s.SENSOR_STATE := by
  unfold motor_stop
  simp only [apply_ite State.SENSOR_STATE, print_SENSOR_STATE, emit_call_SENSOR_STATE,
      wait_SENSOR_STATE, write_high_SENSOR_STATE, write_fwd_low_SENSOR_STATE,
      write_rev_low_SENSOR_STATE, write_led_red_SENSOR_STATE, write_led_green_SENSOR_STATE,
      delay_ms_SENSOR_STATE, rgb_set_led_SENSOR_STATE, State.set_PIN_PROX_SENSOR,
      State.set_PREV_SENSOR_STATE, State.set_SENSOR_STATE, State.set_SENSOR_OVERRIDE,
      State.set_HOMING_ACTIVE, State.set_HOMING, State.set_HOME_DIRECTION, State.set_HOMED_POS,
      State.set_CURRENT_POS, State.set_PREVIOUS_POS, State.set_TRIGGER_ORDER,
      State.set_TRIGGER_ORDER2, State.set_SOURCE, State.set_state_start_timestamp,
      State.set_RX_COMMAND, State.set_rxWord, State.set_currColor, State.set_fault,
      State.set_pending, ite_self]

@[simp] theorem motor_stop_CURRENT_POS (s : State) :
    (motor_stop s).CURRENT_POS = s.CURRENT_POS := by
  unfold motor_stop
  simp only [apply_ite State.CURRENT_POS, print_CURRENT_POS, emit_call_CURRENT_POS,
      wait_CURRENT_POS, write_high_CURRENT_POS, write_fwd_low_CURRENT_POS,
      write_rev_low_CURRENT_POS, write_led_red_CURRENT_POS, write_led_green_CURRENT_POS,
      delay_ms_CURRENT_POS, rgb_set_led_CURRENT_POS, State.set_PIN_PROX_SENSOR,
      State.set_PREV_SENSOR_STATE, State.set_SENSOR_STATE, State.set_SENSOR_OVERRIDE,
      State.set_HOMING_ACTIVE, State.set_HOMING, State.set_HOME_DIRECTION, State.set_HOMED_POS,
      State.set_CURRENT_POS, State.set_PREVIOUS_POS, State.set_TRIGGER_ORDER,
      State.set_TRIGGER_ORDER2, State.set_SOURCE, State.set_state_start_timestamp,
      State.set_RX_COMMAND, State.set_rxWord, State.set_currColor, State.set_fault,
      State.set_pending, ite_self]

@[simp] theorem motor_stop_PREVIOUS_POS (s : State) :
    (motor_stop s).PREVIOUS_POS = s.PREVIOUS_POS := by
  unfold motor_stop
  simp only [apply_ite State.PREVIOUS_POS, print_PREVIOUS_POS, emit_call_PREVIOUS_POS,
      wait_PREVIOUS_POS, write_high_PREVIOUS_POS, write_fwd_low_PREVIOUS_POS,
      write_rev_low_PREVIOUS_POS, write_led_red_PREVIOUS_POS, write_led_green_PREVIOUS_POS,
      delay_ms_PREVIOUS_POS, rgb_set_led_PREVIOUS_POS, State.set_PIN_PROX_SENSOR,
      State.set_PREV_SENSOR_STATE, State.set_SENSOR_STATE, State.set_SENSOR_OVERRIDE,
      State.set_HOMING_ACTIVE, State.set_HOMING, State.set_HOME_DIRECTION, State.set_HOMED_POS,
      State.set_CURRENT_POS, State.set_PREVIOUS_POS, State.set_TRIGGER_ORDER,
      State.set_TRIGGER_ORDER2, State.set_SOURCE, State.set_state_start_timestamp,
      State.set_RX_COMMAND, State.set_rxWord, State.set_currColor, State.set_fault,
      State.set_pending, ite_self]

@[simp] theorem motor_stop_HOMING (s : State) :
    (motor_stop s).HOMING = s.HOMING := by
  unfold motor_stop
  simp only [apply_ite State.HOMING, print_HOMING, emit_call_HOMING, wait_HOMING,
      write_high_HOMING, write_fwd_low_HOMING, write_rev_low_HOMING, write_led_red_HOMING,
      write_led_green_HOMING, delay_ms_HOMING, rgb_set_led_HOMING, State.set_PIN_PROX_SENSOR,
      State.set_PREV_SENSOR_STATE, State.set_SENSOR_STATE, State.set_SENSOR_OVERRIDE,
      State.set_HOMING_ACTIVE, State.set_HOMING, State.set_HOME_DIRECTION, State.set_HOMED_POS,
      State.set_CURRENT_POS, State.set_PREVIOUS_POS, State.set_TRIGGER_ORDER,
      State.set_TRIGGER_ORDER2, State.set_SOURCE, State.set_state_start_timestamp,
      State.set_RX_COMMAND, State.set_rxWord, State.set_currColor, State.set_fault,
      State.set_pending, ite_self]

@[simp] theorem motor_stop_HOMING_ACTIVE (s : State) :
    (motor_stop s).HOMING_ACTIVE = s.HOMING_ACTIVE := by
  unfold motor_stop
  simp only [apply_ite State.HOMING_ACTIVE, print_HOMING_ACTIVE, emit_call_HOMING_ACTIVE,
      wait_HOMING_ACTIVE, write_high_HOMING_ACTIVE, write_fwd_low_HOMING_ACTIVE,
      write_rev_low_HOMING_ACTIVE, write_led_red_HOMING_ACTIVE, write_led_green_HOMING_ACTIVE,
      delay_ms_HOMING_ACTIVE, rgb_set_led_HOMING_ACTIVE, State.set_PIN_PROX_SENSOR,
      State.set_PREV_SENSOR_STATE, State.set_SENSOR_STATE, State.set_SENSOR_OVERRIDE,
      State.set_HOMING_ACTIVE, State.set_HOMING, State.set_HOME_DIRECTION, State.set_HOMED_POS,
      State.set_CURRENT_POS, State.set_PREVIOUS_POS, State.set_TRIGGER_ORDER,
      State.set_TRIGGER_ORDER2, State.set_SOURCE, State.set_state_start_timestamp,
      State.set_RX_COMMAND, State.set_rxWord, State.set_currColor, State.set_fault,
      State.set_pending, ite_self]

@[simp] theorem motor_stop_HOME_DIRECTION (s : State) :
    (motor_stop s).HOME_DIRECTION = s.HOME_DIRECTION := by
  unfold motor_stop
  simp only [apply_ite State.HOME_DIRECTION, print_HOME_DIRECTION, emit_call_HOME_DIRECTION,
      wait_HOME_DIRECTION, write_high_HOME_DIRECTION, write_fwd_low_HOME_DIRECTION,
      write_rev_low_HOME_DIRECTION, write_led_red_HOME_DIRECTION, write_led_green_HOME_DIRECTION,
      delay_ms_HOME_DIRECTION, rgb_set_led_HOME_DIRECTION, State.set_PIN_PROX_SENSOR,
      State.set_PREV_SENSOR_STATE, State.set_SENSOR_STATE, State.set_SENSOR_OVERRIDE,
      State.set_HOMING_ACTIVE, State.set_HOMING, State.set_HOME_DIRECTION, State.set_HOMED_POS,
      State.set_CURRENT_POS, State.set_PREVIOUS_POS, State.set_TRIGGER_ORDER,
      State.set_TRIGGER_ORDER2, State.set_SOURCE, State.set_state_start_timestamp,
      State.set_RX_COMMAND, State.set_rxWord, State.set_currColor, State.set_fault,
      State.set_pending, ite_self]

@[simp] theorem motor_stop_HOMED_POS (s : State) :
    (motor_stop s).HOMED_POS = s.HOMED_POS := by
  unfold motor_stop
  simp only [apply_ite State.HOMED_POS, print_HOMED_POS, emit_call_HOMED_POS, wait_HOMED_POS,
      write_high_HOMED_POS, write_fwd_low_HOMED_POS, write_rev_low_HOMED_POS,
      write_led_red_HOMED_POS, write_led_green_HOMED_POS, delay_ms_HOMED_POS,
      rgb_set_led_HOMED_POS, State.set_PIN_PROX_SENSOR, State.set_PREV_SENSOR_STATE,
      State.set_SENSOR_STATE, State.set_SENSOR_OVERRIDE, State.set_HOMING_ACTIVE,
      State.set_HOMING, State.set_HOME_DIRECTION, State.set_HOMED_POS, State.set_CURRENT_POS,
      State.set_PREVIOUS_POS, State.set_TRIGGER_ORDER, State.set_TRIGGER_ORDER2, State.set_SOURCE,
      State.set_state_start_timestamp, State.set_RX_COMMAND, State.set_rxWord,
      State.set_currColor, State.set_fault, State.set_pending, ite_self]

@[simp] theorem motor_stop_fault (s : State) :
    (motor_stop s).fault = s.fault := by
  unfold motor_stop
  simp only [apply_ite State.fault, print_fault, emit_call_fault, wait_fault, write_high_fault,
      write_fwd_low_fault, write_rev_low_fault, write_led_red_fault, write_led_green_fault,
      delay_ms_fault, rgb_set_led_fault, State.set_PIN_PROX_SENSOR, State.set_PREV_SENSOR_STATE,
      State.set_SENSOR_STATE, State.set_SENSOR_OVERRIDE, State.set_HOMING_ACTIVE,
      State.set_HOMING, State.set_HOME_DIRECTION, State.set_HOMED_POS, State.set_CURRENT_POS,
      State.set_PREVIOUS_POS, State.set_TRIGGER_ORDER, State.set_TRIGGER_ORDER2, State.set_SOURCE,
      State.set_state_start_timestamp, State.set_RX_COMMAND, State.set_rxWord,
      State.set_currColor, State.set_fault, State.set_pending, ite_self]

@[simp] theorem motor_stop_calls (f : Fn) (s : State) :
    calls f (motor_stop s).trace = calls f s.trace := by
  unfold motor_stop
  simp only [apply_ite State.trace, apply_ite (calls f), print_calls, wait_calls,
      write_high_calls, write_fwd_low_calls, write_rev_low_calls, write_led_red_calls,
      write_led_green_calls, delay_ms_calls, rgb_set_led_calls, State.set_PIN_PROX_SENSOR,
      State.set_PREV_SENSOR_STATE, State.set_SENSOR_STATE, State.set_SENSOR_OVERRIDE,
      State.set_HOMING_ACTIVE, State.set_HOMING, State.set_HOME_DIRECTION, State.set_HOMED_POS,
      State.set_CURRENT_POS, State.set_PREVIOUS_POS, State.set_TRIGGER_ORDER,
      State.set_TRIGGER_ORDER2, State.set_SOURCE, State.set_state_start_timestamp,
      State.set_RX_COMMAND, State.set_rxWord, State.set_currColor, State.set_fault,
      State.set_pending, ite_self]

@[simp] theorem motor_stop_refusals (s : State) :
    refusals (motor_stop s).trace = refusals s.trace := by
  unfold motor_stop
  simp only [apply_ite State.trace, apply_ite refusals, print_stop_issued_refusals,
      emit_call_refusals, wait_refusals, write_high_refusals, write_fwd_low_refusals,
      write_rev_low_refusals, write_led_red_refusals, write_led_green_refusals, delay_ms_refusals,
      rgb_set_led_refusals, State.set_PIN_PROX_SENSOR, State.set_PREV_SENSOR_STATE,
      State.set_SENSOR_STATE, State.set_SENSOR_OVERRIDE, State.set_HOMING_ACTIVE,
      State.set_HOMING, State.set_HOME_DIRECTION, State.set_HOMED_POS, State.set_CURRENT_POS,
      State.set_PREVIOUS_POS, State.set_TRIGGER_ORDER, State.set_TRIGGER_ORDER2, State.set_SOURCE,
      State.set_state_start_timestamp, State.set_RX_COMMAND, State.set_rxWord,
      State.set_currColor, State.set_fault, State.set_pending, ite_self]

@[simp] theorem motor_stop_fwdAsserts (s : State) :
    fwdAsserts (motor_stop s).trace = fwdAsserts s.trace := by
  unfold motor_stop
  simp only [apply_ite State.trace, apply_ite fwdAsserts, print_fwdAsserts, emit_call_fwdAsserts,
      wait_fwdAsserts, write_high_fwdAsserts, write_rev_low_fwdAsserts, write_led_red_fwdAsserts,
      write_led_green_fwdAsserts, delay_ms_fwdAsserts, rgb_set_led_fwdAsserts,
      State.set_PIN_PROX_SENSOR, State.set_PREV_SENSOR_STATE, State.set_SENSOR_STATE,
      State.set_SENSOR_OVERRIDE, State.set_HOMING_ACTIVE, State.set_HOMING,
      State.set_HOME_DIRECTION, State.set_HOMED_POS, State.set_CURRENT_POS,
      State.set_PREVIOUS_POS, State.set_TRIGGER_ORDER, State.set_TRIGGER_ORDER2, State.set_SOURCE,
      State.set_state_start_timestamp, State.set_RX_COMMAND, State.set_rxWord,
      State.set_currColor, State.set_fault, State.set_pending, ite_self]

@[simp] theorem motor_stop_revAsserts (s : State) :
    revAsserts (motor_stop s).trace = revAsserts s.trace := by
  unfold motor_stop
  simp only [apply_ite State.trace, apply_ite revAsserts, print_revAsserts, emit_call_revAsserts,
      wait_revAsserts, write_high_revAsserts, write_fwd_low_revAsserts, write_led_red_revAsserts,
      write_led_green_revAsserts, delay_ms_revAsserts, rgb_set_led_revAsserts,
      State.set_PIN_PROX_SENSOR, State.set_PREV_SENSOR_STATE, State.set_SENSOR_STATE,
      State.set_SENSOR_OVERRIDE, State.set_HOMING_ACTIVE, State.set_HOMING,
      State.set_HOME_DIRECTION, State.set_HOMED_POS, State.set_CURRENT_POS,
      State.set_PREVIOUS_POS, State.set_TRIGGER_ORDER, State.set_TRIGGER_ORDER2, State.set_SOURCE,
      State.set_state_start_timestamp, State.set_RX_COMMAND, State.set_rxWord,
      State.set_currColor, State.set_fault, State.set_pending, ite_self]

@[simp] theorem isr_prox_sensor_SENSOR_OVERRIDE (r1 r2 : Level) (s : State) :
    (isr_prox_sensor r1 r2 s).SENSOR_OVERRIDE = s.SENSOR_OVERRIDE := by
  unfold isr_prox_sensor
  simp only [apply_ite State.SENSOR_OVERRIDE, print_SENSOR_OVERRIDE, emit_call_SENSOR_OVERRIDE,
      wait_SENSOR_OVERRIDE, write_high_SENSOR_OVERRIDE, write_fwd_low_SENSOR_OVERRIDE,
      write_rev_low_SENSOR_OVERRIDE, write_led_red_SENSOR_OVERRIDE,
      write_led_green_SENSOR_OVERRIDE, delay_ms_SENSOR_OVERRIDE, rgb_set_led_SENSOR_OVERRIDE,
      motor_stop_SENSOR_OVERRIDE, State.set_PIN_PROX_SENSOR, State.set_PREV_SENSOR_STATE,
      State.set_SENSOR_STATE, State.set_SENSOR_OVERRIDE, State.set_HOMING_ACTIVE,
      State.set_HOMING, State.set_HOME_DIRECTION, State.set_HOMED_POS, State.set_CURRENT_POS,
      State.set_PREVIOUS_POS, State.set_TRIGGER_ORDER, State.set_TRIGGER_ORDER2, State.set_SOURCE,
      State.set_state_start_timestamp, State.set_RX_COMMAND, State.set_rxWord,
      State.set_currColor, State.set_fault, State.set_pending, ite_self]

@[simp] theorem isr_prox_sensor_CURRENT_POS (r1 r2 : Level) (s : State) :
    (isr_prox_sensor r1 r2 s).CURRENT_POS = s.CURRENT_POS := by
  unfold isr_prox_sensor
  simp only [apply_ite State.CURRENT_POS, print_CURRENT_POS, emit_call_CURRENT_POS,
      wait_CURRENT_POS, write_high_CURRENT_POS, write_fwd_low_CURRENT_POS,
      write_rev_low_CURRENT_POS, write_led_red_CURRENT_POS, write_led_green_CURRENT_POS,
      delay_ms_CURRENT_POS, rgb_set_led_CURRENT_POS, motor_stop_CURRENT_POS,
      State.set_PIN_PROX_SENSOR, State.set_PREV_SENSOR_STATE, State.set_SENSOR_STATE,
      State.set_SENSOR_OVERRIDE, State.set_HOMING_ACTIVE, State.set_HOMING,
      State.set_HOME_DIRECTION, State.set_HOMED_POS, State.set_CURRENT_POS,
      State.set_PREVIOUS_POS, State.set_TRIGGER_ORDER, State.set_TRIGGER_ORDER2, State.set_SOURCE,
      State.set_state_start_timestamp, State.set_RX_COMMAND, State.set_rxWord,
      State.set_currColor, State.set_fault, State.set_pending, ite_self]

@[simp] theorem isr_prox_sensor_PREVIOUS_POS (r1 r2 : Level) (s : State) :
    (isr_prox_sensor r1 r2 s).PREVIOUS_POS = s.PREVIOUS_POS := by
  unfold isr_prox_sensor
  simp only [apply_ite State.PREVIOUS_POS, print_PREVIOUS_POS, emit_call_PREVIOUS_POS,
      wait_PREVIOUS_POS, write_high_PREVIOUS_POS, write_fwd_low_PREVIOUS_POS,
      write_rev_low_PREVIOUS_POS, write_led_red_PREVIOUS_POS, write_led_green_PREVIOUS_POS,
      delay_ms_PREVIOUS_POS, rgb_set_led_PREVIOUS_POS, motor_stop_PREVIOUS_POS,
      State.set_PIN_PROX_SENSOR, State.set_PREV_SENSOR_STATE, State.set_SENSOR_STATE,
      State.set_SENSOR_OVERRIDE, State.set_HOMING_ACTIVE, State.set_HOMING,
      State.set_HOME_DIRECTION, State.set_HOMED_POS, State.set_CURRENT_POS,
      State.set_PREVIOUS_POS, State.set_TRIGGER_ORDER, State.set_TRIGGER_ORDER2, State.set_SOURCE,
      State.set_state_start_timestamp, State.set_RX_COMMAND, State.set_rxWord,
      State.set_currColor, State.set_fault, State.set_pending, ite_self]

@[simp] theorem isr_prox_sensor_HOMING (r1 r2 : Level) (s : State) :
    (isr_prox_sensor r1 r2 s).HOMING = s.HOMING := by
  unfold isr_prox_sensor
  simp only [apply_ite State.HOMING, print_HOMING, emit_call_HOMING, wait_HOMING,
      write_high_HOMING, write_fwd_low_HOMING, write_rev_low_HOMING, write_led_red_HOMING,
      write_led_green_HOMING, delay_ms_HOMING, rgb_set_led_HOMING, motor_stop_HOMING,
      State.set_PIN_PROX_SENSOR, State.set_PREV_SENSOR_STATE, State.set_SENSOR_STATE,
      State.set_SENSOR_OVERRIDE, State.set_HOMING_ACTIVE, State.set_HOMING,
      State.set_HOME_DIRECTION, State.set_HOMED_POS, State.set_CURRENT_POS,
      State.set_PREVIOUS_POS, State.set_TRIGGER_ORDER, State.set_TRIGGER_ORDER2, State.set_SOURCE,
      State.set_state_start_timestamp, State.set_RX_COMMAND, State.set_rxWord,
      State.set_currColor, State.set_fault, State.set_pending, ite_self]

@[simp] theorem isr_prox_sensor_HOMING_ACTIVE (r1 r2 : Level) (s : State) :
    (isr_prox_sensor r1 r2 s).HOMING_ACTIVE = s.HOMING_ACTIVE := by
  unfold isr_prox_sensor
  simp only [apply_ite State.HOMING_ACTIVE, print_HOMING_ACTIVE, emit_call_HOMING_ACTIVE,
      wait_HOMING_ACTIVE, write_high_HOMING_ACTIVE, write_fwd_low_HOMING_ACTIVE,
      write_rev_low_HOMING_ACTIVE, write_led_red_HOMING_ACTIVE, write_led_green_HOMING_ACTIVE,
      delay_ms_HOMING_ACTIVE, rgb_set_led_HOMING_ACTIVE, motor_stop_HOMING_ACTIVE,
      State.set_PIN_PROX_SENSOR, State.set_PREV_SENSOR_STATE, State.set_SENSOR_STATE,
      State.set_SENSOR_OVERRIDE, State.set_HOMING_ACTIVE, State.set_HOMING,
      State.set_HOME_DIRECTION, State.set_HOMED_POS, State.set_CURRENT_POS,
      State.set_PREVIOUS_POS, State.set_TRIGGER_ORDER, State.set_TRIGGER_ORDER2, State.set_SOURCE,
      State.set_state_start_timestamp, State.set_RX_COMMAND, State.set_rxWord,
      State.set_currColor, State.set_fault, State.set_pending, ite_self]

@[simp] theorem isr_prox_sensor_HOME_DIRECTION (r1 r2 : Level) (s : State) :
    (isr_prox_sensor r1 r2 s).HOME_DIRECTION = s.HOME_DIRECTION := by
  unfold isr_prox_sensor
  simp only [apply_ite State.HOME_DIRECTION, print_HOME_DIRECTION, emit_call_HOME_DIRECTION,
      wait_HOME_DIRECTION, write_high_HOME_DIRECTION, write_fwd_low_HOME_DIRECTION,
      write_rev_low_HOME_DIRECTION, write_led_red_HOME_DIRECTION, write_led_green_HOME_DIRECTION,
      delay_ms_HOME_DIRECTION, rgb_set_led_HOME_DIRECTION, motor_stop_HOME_DIRECTION,
      State.set_PIN_PROX_SENSOR, State.set_PREV_SENSOR_STATE, State.set_SENSOR_STATE,
      State.set_SENSOR_OVERRIDE, State.set_HOMING_ACTIVE, State.set_HOMING,
      State.set_HOME_DIRECTION, State.set_HOMED_POS, State.set_CURRENT_POS,
      State.set_PREVIOUS_POS, State.set_TRIGGER_ORDER, State.set_TRIGGER_ORDER2, State.set_SOURCE,
      State.set_state_start_timestamp, State.set_RX_COMMAND, State.set_rxWord,
      State.set_currColor, State.set_fault, State.set_pending, ite_self]

@[simp] theorem isr_prox_sensor_HOMED_POS (r1 r2 : Level) (s : State) :
    (isr_prox_sensor r1 r2 s).HOMED_POS = s.HOMED_POS := by
  unfold isr_prox_sensor
  simp only [apply_ite State.HOMED_POS, print_HOMED_POS, emit_call_HOMED_POS, wait_HOMED_POS,
      write_high_HOMED_POS, write_fwd_low_HOMED_POS, write_rev_low_HOMED_POS,
      write_led_red_HOMED_POS, write_led_green_HOMED_POS, delay_ms_HOMED_POS,
      rgb_set_led_HOMED_POS, motor_stop_HOMED_POS, State.set_PIN_PROX_SENSOR,
      State.set_PREV_SENSOR_STATE, State.set_SENSOR_STATE, State.set_SENSOR_OVERRIDE,
      State.set_HOMING_ACTIVE, State.set_HOMING, State.set_HOME_DIRECTION, State.set_HOMED_POS,
      State.set_CURRENT_POS, State.set_PREVIOUS_POS, State.set_TRIGGER_ORDER,
      State.set_TRIGGER_ORDER2, State.set_SOURCE, State.set_state_start_timestamp,
      State.set_RX_COMMAND, State.set_rxWord, State.set_currColor, State.set_fault,
      State.set_pending, ite_self]

@[simp] theorem isr_prox_sensor_fault (r1 r2 : Level) (s : State) :
    (isr_prox_sensor r1 r2 s).fault = s.fault := by
  unfold isr_prox_sensor
  simp only [apply_ite State.fault, print_fault, emit_call_fault, wait_fault, write_high_fault,
      write_fwd_low_fault, write_rev_low_fault, write_led_red_fault, write_led_green_fault,
      delay_ms_fault, rgb_set_led_fault, motor_stop_fault, State.set_PIN_PROX_SENSOR,
      State.set_PREV_SENSOR_STATE, State.set_SENSOR_STATE, State.set_SENSOR_OVERRIDE,
      State.set_HOMING_ACTIVE, State.set_HOMING, State.set_HOME_DIRECTION, State.set_HOMED_POS,
      State.set_CURRENT_POS, State.set_PREVIOUS_POS, State.set_TRIGGER_ORDER,
      State.set_TRIGGER_ORDER2, State.set_SOURCE, State.set_state_start_timestamp,
      State.set_RX_COMMAND, State.set_rxWord, State.set_currColor, State.set_fault,
      State.set_pending, ite_self]

@[simp] theorem isr_prox_sensor_calls (f : Fn) (r1 r2 : Level) (s : State) :
    calls f (isr_prox_sensor r1 r2 s).trace = calls f s.trace := by
  unfold isr_prox_sensor
  simp only [apply_ite State.trace, apply_ite (calls f), print_calls, wait_calls,
      write_high_calls, write_fwd_low_calls, write_rev_low_calls, write_led_red_calls,
      write_led_green_calls, delay_ms_calls, rgb_set_led_calls, motor_stop_calls,
      State.set_PIN_PROX_SENSOR, State.set_PREV_SENSOR_STATE, State.set_SENSOR_STATE,
      State.set_SENSOR_OVERRIDE, State.set_HOMING_ACTIVE, State.set_HOMING,
      State.set_HOME_DIRECTION, State.set_HOMED_POS, State.set_CURRENT_POS,
      State.set_PREVIOUS_POS, State.set_TRIGGER_ORDER, State.set_TRIGGER_ORDER2, State.set_SOURCE,
      State.set_state_start_timestamp, State.set_RX_COMMAND, State.set_rxWord,
      State.set_currColor, State.set_fault, State.set_pending, ite_self]

@[simp] theorem isr_prox_sensor_refusals (r1 r2 : Level) (s : State) :
    refusals (isr_prox_sensor r1 r2 s).trace = refusals s.trace := by
  unfold isr_prox_sensor
  simp only [apply_ite State.trace, apply_ite refusals, print_stop_issued_refusals,
      emit_call_refusals, wait_refusals, write_high_refusals, write_fwd_low_refusals,
      write_rev_low_refusals, write_led_red_refusals, write_led_green_refusals, delay_ms_refusals,
      rgb_set_led_refusals, motor_stop_refusals, State.set_PIN_PROX_SENSOR,
      State.set_PREV_SENSOR_STATE, State.set_SENSOR_STATE, State.set_SENSOR_OVERRIDE,
      State.set_HOMING_ACTIVE, State.set_HOMING, State.set_HOME_DIRECTION, State.set_HOMED_POS,
      State.set_CURRENT_POS, State.set_PREVIOUS_POS, State.set_TRIGGER_ORDER,
      State.set_TRIGGER_ORDER2, State.set_SOURCE, State.set_state_start_timestamp,
      State.set_RX_COMMAND, State.set_rxWord, State.set_currColor, State.set_fault,
      State.set_pending, ite_self]

@[simp] theorem isr_prox_sensor_fwdAsserts (r1 r2 : Level) (s : State) :
    fwdAsserts (isr_prox_sensor r1 r2 s).trace = fwdAsserts s.trace := by
  unfold isr_prox_sensor
  simp only [apply_ite State.trace, apply_ite fwdAsserts, print_fwdAsserts, emit_call_fwdAsserts,
      wait_fwdAsserts, write_high_fwdAsserts, write_rev_low_fwdAsserts, write_led_red_fwdAsserts,
      write_led_green_fwdAsserts, delay_ms_fwdAsserts, rgb_set_led_fwdAsserts,
      motor_stop_fwdAsserts, State.set_PIN_PROX_SENSOR, State.set_PREV_SENSOR_STATE,
      State.set_SENSOR_STATE, State.set_SENSOR_OVERRIDE, State.set_HOMING_ACTIVE,
      State.set_HOMING, State.set_HOME_DIRECTION, State.set_HOMED_POS, State.set_CURRENT_POS,
      State.set_PREVIOUS_POS, State.set_TRIGGER_ORDER, State.set_TRIGGER_ORDER2, State.set_SOURCE,
      State.set_state_start_timestamp, State.set_RX_COMMAND, State.set_rxWord,
      State.set_currColor, State.set_fault, State.set_pending, ite_self]

@[simp] theorem isr_prox_sensor_revAsserts (r1 r2 : Level) (s : State) :
    revAsserts (isr_prox_sensor r1 r2 s).trace = revAsserts s.trace := by
  unfold isr_prox_sensor
  simp only [apply_ite State.trace, apply_ite revAsserts, print_revAsserts, emit_call_revAsserts,
      wait_revAsserts, write_high_revAsserts, write_fwd_low_revAsserts, write_led_red_revAsserts,
      write_led_green_revAsserts, delay_ms_revAsserts, rgb_set_led_revAsserts,
      motor_stop_revAsserts, State.set_PIN_PROX_SENSOR, State.set_PREV_SENSOR_STATE,
      State.set_SENSOR_STATE, State.set_SENSOR_OVERRIDE, State.set_HOMING_ACTIVE,
      State.set_HOMING, State.set_HOME_DIRECTION, State.set_HOMED_POS, State.set_CURRENT_POS,
      State.set_PREVIOUS_POS, State.set_TRIGGER_ORDER, State.set_TRIGGER_ORDER2, State.set_SOURCE,
      State.set_state_start_timestamp, State.set_RX_COMMAND, State.set_rxWord,
      State.set_currColor, State.set_fault, State.set_pending, ite_self]

@[simp] theorem runIsrs_SENSOR_OVERRIDE (edges : List (Level × Level)) (s : State) :
    (runIsrs edges s).SENSOR_OVERRIDE = s.SENSOR_OVERRIDE := by
  induction edges generalizing s with
  | nil => rfl
  | cons e rest ih => unfold runIsrs; rw [ih]; simp only [print_SENSOR_OVERRIDE,
      emit_call_SENSOR_OVERRIDE, wait_SENSOR_OVERRIDE, write_high_SENSOR_OVERRIDE,
      write_fwd_low_SENSOR_OVERRIDE, write_rev_low_SENSOR_OVERRIDE, write_led_red_SENSOR_OVERRIDE,
      write_led_green_SENSOR_OVERRIDE, delay_ms_SENSOR_OVERRIDE, rgb_set_led_SENSOR_OVERRIDE,
      motor_stop_SENSOR_OVERRIDE, isr_prox_sensor_SENSOR_OVERRIDE, State.set_PIN_PROX_SENSOR,
      State.set_PREV_SENSOR_STATE, State.set_SENSOR_STATE, State.set_SENSOR_OVERRIDE,
      State.set_HOMING_ACTIVE, State.set_HOMING, State.set_HOME_DIRECTION, State.set_HOMED_POS,
      State.set_CURRENT_POS, State.set_PREVIOUS_POS, State.set_TRIGGER_ORDER,
      State.set_TRIGGER_ORDER2, State.set_SOURCE, State.set_state_start_timestamp,
      State.set_RX_COMMAND, State.set_rxWord, State.set_currColor, State.set_fault,
      State.set_pending]

@[simp] theorem runIsrs_CURRENT_POS (edges : List (Level × Level)) (s : State) :
    (runIsrs edges s).CURRENT_POS = s.CURRENT_POS := by
  induction edges generalizing s with
  | nil => rfl
  | cons e rest ih => unfold runIsrs; rw [ih]; simp only [print_CURRENT_POS,
      emit_call_CURRENT_POS, wait_CURRENT_POS, write_high_CURRENT_POS, write_fwd_low_CURRENT_POS,
      write_rev_low_CURRENT_POS, write_led_red_CURRENT_POS, write_led_green_CURRENT_POS,
      delay_ms_CURRENT_POS, rgb_set_led_CURRENT_POS, motor_stop_CURRENT_POS,
      isr_prox_sensor_CURRENT_POS, State.set_PIN_PROX_SENSOR, State.set_PREV_SENSOR_STATE,
      State.set_SENSOR_STATE, State.set_SENSOR_OVERRIDE, State.set_HOMING_ACTIVE,
      State.set_HOMING, State.set_HOME_DIRECTION, State.set_HOMED_POS, State.set_CURRENT_POS,
      State.set_PREVIOUS_POS, State.set_TRIGGER_ORDER, State.set_TRIGGER_ORDER2, State.set_SOURCE,
      State.set_state_start_timestamp, State.set_RX_COMMAND, State.set_rxWord,
      State.set_currColor, State.set_fault, State.set_pending]

@[simp] theorem runIsrs_PREVIOUS_POS (edges : List (Level × Level)) (s : State) :
    (runIsrs edges s).PREVIOUS_POS = s.PREVIOUS_POS := by
  induction edges generalizing s with
  | nil => rfl
  | cons e rest ih => unfold runIsrs; rw [ih]; simp only [print_PREVIOUS_POS,
      emit_call_PREVIOUS_POS, wait_PREVIOUS_POS, write_high_PREVIOUS_POS,
      write_fwd_low_PREVIOUS_POS, write_rev_low_PREVIOUS_POS, write_led_red_PREVIOUS_POS,
      write_led_green_PREVIOUS_POS, delay_ms_PREVIOUS_POS, rgb_set_led_PREVIOUS_POS,
      motor_stop_PREVIOUS_POS, isr_prox_sensor_PREVIOUS_POS, State.set_PIN_PROX_SENSOR,
      State.set_PREV_SENSOR_STATE, State.set_SENSOR_STATE, State.set_SENSOR_OVERRIDE,
      State.set_HOMING_ACTIVE, State.set_HOMING, State.set_HOME_DIRECTION, State.set_HOMED_POS,
      State.set_CURRENT_POS, State.set_PREVIOUS_POS, State.set_TRIGGER_ORDER,
      State.set_TRIGGER_ORDER2, State.set_SOURCE, State.set_state_start_timestamp,
      State.set_RX_COMMAND, State.set_rxWord, State.set_currColor, State.set_fault,
      State.set_pending]

@[simp] theorem runIsrs_HOMING (edges : List (Level × Level)) (s : State) :
    (runIsrs edges s).HOMING = s.HOMING := by
  induction edges generalizing s with
  | nil => rfl
  | cons e rest ih => unfold runIsrs; rw [ih]; simp only [print_HOMING, emit_call_HOMING,
      wait_HOMING, write_high_HOMING, write_fwd_low_HOMING, write_rev_low_HOMING,
      write_led_red_HOMING, write_led_green_HOMING, delay_ms_HOMING, rgb_set_led_HOMING,
      motor_stop_HOMING, isr_prox_sensor_HOMING, State.set_PIN_PROX_SENSOR,
      State.set_PREV_SENSOR_STATE, State.set_SENSOR_STATE, State.set_SENSOR_OVERRIDE,
      State.set_HOMING_ACTIVE, State.set_HOMING, State.set_HOME_DIRECTION, State.set_HOMED_POS,
      State.set_CURRENT_POS, State.set_PREVIOUS_POS, State.set_TRIGGER_ORDER,
      State.set_TRIGGER_ORDER2, State.set_SOURCE, State.set_state_start_timestamp,
      State.set_RX_COMMAND, State.set_rxWord, State.set_currColor, State.set_fault,
      State.set_pending]

@[simp] theorem runIsrs_HOMING_ACTIVE (edges : List (Level × Level)) (s : State) :
    (runIsrs edges s).HOMING_ACTIVE = s.HOMING_ACTIVE := by
  induction edges generalizing s with
  | nil => rfl
  | cons e rest ih => unfold runIsrs; rw [ih]; simp only [print_HOMING_ACTIVE,
      emit_call_HOMING_ACTIVE, wait_HOMING_ACTIVE, write_high_HOMING_ACTIVE,
      write_fwd_low_HOMING_ACTIVE, write_rev_low_HOMING_ACTIVE, write_led_red_HOMING_ACTIVE,
      write_led_green_HOMING_ACTIVE, delay_ms_HOMING_ACTIVE, rgb_set_led_HOMING_ACTIVE,
      motor_stop_HOMING_ACTIVE, isr_prox_sensor_HOMING_ACTIVE, State.set_PIN_PROX_SENSOR,
      State.set_PREV_SENSOR_STATE, State.set_SENSOR_STATE, State.set_SENSOR_OVERRIDE,
      State.set_HOMING_ACTIVE, State.set_HOMING, State.set_HOME_DIRECTION, State.set_HOMED_POS,
      State.set_CURRENT_POS, State.set_PREVIOUS_POS, State.set_TRIGGER_ORDER,
      State.set_TRIGGER_ORDER2, State.set_SOURCE, State.set_state_start_timestamp,
      State.set_RX_COMMAND, State.set_rxWord, State.set_currColor, State.set_fault,
      State.set_pending]

@[simp] theorem runIsrs_HOME_DIRECTION (edges : List (Level × Level)) (s : State) :
    (runIsrs edges s).HOME_DIRECTION = s.HOME_DIRECTION := by
  induction edges generalizing s with
  | nil => rfl
  | cons e rest ih => unfold runIsrs; rw [ih]; simp only [print_HOME_DIRECTION,
      emit_call_HOME_DIRECTION, wait_HOME_DIRECTION, write_high_HOME_DIRECTION,
      write_fwd_low_HOME_DIRECTION, write_rev_low_HOME_DIRECTION, write_led_red_HOME_DIRECTION,
      write_led_green_HOME_DIRECTION, delay_ms_HOME_DIRECTION, rgb_set_led_HOME_DIRECTION,
      motor_stop_HOME_DIRECTION, isr_prox_sensor_HOME_DIRECTION, State.set_PIN_PROX_SENSOR,
      State.set_PREV_SENSOR_STATE, State.set_SENSOR_STATE, State.set_SENSOR_OVERRIDE,
      State.set_HOMING_ACTIVE, State.set_HOMING, State.set_HOME_DIRECTION, State.set_HOMED_POS,
      State.set_CURRENT_POS, State.set_PREVIOUS_POS, State.set_TRIGGER_ORDER,
      State.set_TRIGGER_ORDER2, State.set_SOURCE, State.set_state_start_timestamp,
      State.set_RX_COMMAND, State.set_rxWord, State.set_currColor, State.set_fault,
      State.set_pending]

@[simp] theorem runIsrs_HOMED_POS (edges : List (Level × Level)) (s : State) :
    (runIsrs edges s).HOMED_POS = s.HOMED_POS := by
  induction edges generalizing s with
  | nil => rfl
  | cons e rest ih => unfold runIsrs; rw [ih]; simp only [print_HOMED_POS, emit_call_HOMED_POS,
      wait_HOMED_POS, write_high_HOMED_POS, write_fwd_low_HOMED_POS, write_rev_low_HOMED_POS,
      write_led_red_HOMED_POS, write_led_green_HOMED_POS, delay_ms_HOMED_POS,
      rgb_set_led_HOMED_POS, motor_stop_HOMED_POS, isr_prox_sensor_HOMED_POS,
      State.set_PIN_PROX_SENSOR, State.set_PREV_SENSOR_STATE, State.set_SENSOR_STATE,
      State.set_SENSOR_OVERRIDE, State.set_HOMING_ACTIVE, State.set_HOMING,
      State.set_HOME_DIRECTION, State.set_HOMED_POS, State.set_CURRENT_POS,
      State.set_PREVIOUS_POS, State.set_TRIGGER_ORDER, State.set_TRIGGER_ORDER2, State.set_SOURCE,
      State.set_state_start_timestamp, State.set_RX_COMMAND, State.set_rxWord,
      State.set_currColor, State.set_fault, State.set_pending]

@[simp] theorem runIsrs_fault (edges : List (Level × Level)) (s : State) :
    (runIsrs edges s).fault = s.fault := by
  induction edges generalizing s with
  | nil => rfl
  | cons e rest ih => unfold runIsrs; rw [ih]; simp only [print_fault, emit_call_fault,
      wait_fault, write_high_fault, write_fwd_low_fault, write_rev_low_fault, write_led_red_fault,
      write_led_green_fault, delay_ms_fault, rgb_set_led_fault, motor_stop_fault,
      isr_prox_sensor_fault, State.set_PIN_PROX_SENSOR, State.set_PREV_SENSOR_STATE,
      State.set_SENSOR_STATE, State.set_SENSOR_OVERRIDE, State.set_HOMING_ACTIVE,
      State.set_HOMING, State.set_HOME_DIRECTION, State.set_HOMED_POS, State.set_CURRENT_POS,
      State.set_PREVIOUS_POS, State.set_TRIGGER_ORDER, State.set_TRIGGER_ORDER2, State.set_SOURCE,
      State.set_state_start_timestamp, State.set_RX_COMMAND, State.set_rxWord,
      State.set_currColor, State.set_fault, State.set_pending]

@[simp] theorem runIsrs_calls (f : Fn) (edges : List (Level × Level)) (s : State) :
    calls f (runIsrs edges s).trace = calls f s.trace := by
  induction edges generalizing s with
  | nil => rfl
  | cons e rest ih => unfold runIsrs; rw [ih]; simp only [print_calls, wait_calls,
      write_high_calls, write_fwd_low_calls, write_rev_low_calls, write_led_red_calls,
      write_led_green_calls, delay_ms_calls, rgb_set_led_calls, motor_stop_calls,
      isr_prox_sensor_calls, State.set_PIN_PROX_SENSOR, State.set_PREV_SENSOR_STATE,
      State.set_SENSOR_STATE, State.set_SENSOR_OVERRIDE, State.set_HOMING_ACTIVE,
      State.set_HOMING, State.set_HOME_DIRECTION, State.set_HOMED_POS, State.set_CURRENT_POS,
      State.set_PREVIOUS_POS, State.set_TRIGGER_ORDER, State.set_TRIGGER_ORDER2, State.set_SOURCE,
      State.set_state_start_timestamp, State.set_RX_COMMAND, State.set_rxWord,
      State.set_currColor, State.set_fault, State.set_pending]

@[simp] theorem runIsrs_refusals (edges : List (Level × Level)) (s : State) :
    refusals (runIsrs edges s).trace = refusals s.trace := by
  induction edges generalizing s with
  | nil => rfl
  | cons e rest ih => unfold runIsrs; rw [ih]; simp only [print_stop_issued_refusals,
      emit_call_refusals, wait_refusals, write_high_refusals, write_fwd_low_refusals,
      write_rev_low_refusals, write_led_red_refusals, write_led_green_refusals, delay_ms_refusals,
      rgb_set_led_refusals, motor_stop_refusals, isr_prox_sensor_refusals,
      State.set_PIN_PROX_SENSOR, State.set_PREV_SENSOR_STATE, State.set_SENSOR_STATE,
      State.set_SENSOR_OVERRIDE, State.set_HOMING_ACTIVE, State.set_HOMING,
      State.set_HOME_DIRECTION, State.set_HOMED_POS, State.set_CURRENT_POS,
      State.set_PREVIOUS_POS, State.set_TRIGGER_ORDER, State.set_TRIGGER_ORDER2, State.set_SOURCE,
      State.set_state_start_timestamp, State.set_RX_COMMAND, State.set_rxWord,
      State.set_currColor, State.set_fault, State.set_pending]

@[simp] theorem runIsrs_fwdAsserts (edges : List (Level × Level)) (s : State) :
    fwdAsserts (runIsrs edges s).trace = fwdAsserts s.trace := by
  induction edges generalizing s with
  | nil => rfl
  | cons e rest ih => unfold runIsrs; rw [ih]; simp only [print_fwdAsserts, emit_call_fwdAsserts,
      wait_fwdAsserts, write_high_fwdAsserts, write_rev_low_fwdAsserts, write_led_red_fwdAsserts,
      write_led_green_fwdAsserts, delay_ms_fwdAsserts, rgb_set_led_fwdAsserts,
      motor_stop_fwdAsserts, isr_prox_sensor_fwdAsserts, State.set_PIN_PROX_SENSOR,
      State.set_PREV_SENSOR_STATE, State.set_SENSOR_STATE, State.set_SENSOR_OVERRIDE,
      State.set_HOMING_ACTIVE, State.set_HOMING, State.set_HOME_DIRECTION, State.set_HOMED_POS,
      State.set_CURRENT_POS, State.set_PREVIOUS_POS, State.set_TRIGGER_ORDER,
      State.set_TRIGGER_ORDER2, State.set_SOURCE, State.set_state_start_timestamp,
      State.set_RX_COMMAND, State.set_rxWord, State.set_currColor, State.set_fault,
      State.set_pending]

@[simp] theorem runIsrs_revAsserts (edges : List (Level × Level)) (s : State) :
    revAsserts (runIsrs edges s).trace = revAsserts s.trace := by
  induction edges generalizing s with
  | nil => rfl
  | cons e rest ih => unfold runIsrs; rw [ih]; simp only [print_revAsserts, emit_call_revAsserts,
      wait_revAsserts, write_high_revAsserts, write_fwd_low_revAsserts, write_led_red_revAsserts,
      write_led_green_revAsserts, delay_ms_revAsserts, rgb_set_led_revAsserts,
      motor_stop_revAsserts, isr_prox_sensor_revAsserts, State.set_PIN_PROX_SENSOR,
      State.set_PREV_SENSOR_STATE, State.set_SENSOR_STATE, State.set_SENSOR_OVERRIDE,
      State.set_HOMING_ACTIVE, State.set_HOMING, State.set_HOME_DIRECTION, State.set_HOMED_POS,
      State.set_CURRENT_POS, State.set_PREVIOUS_POS, State.set_TRIGGER_ORDER,
      State.set_TRIGGER_ORDER2, State.set_SOURCE, State.set_state_start_timestamp,
      State.set_RX_COMMAND, State.set_rxWord, State.set_currColor, State.set_fault,
      State.set_pending]

@[simp] theorem delay_SENSOR_OVERRIDE (ms : Nat) (s : State) :
    (delay ms s).SENSOR_OVERRIDE = s.SENSOR_OVERRIDE := by
  unfold delay
  split <;> simp only [print_SENSOR_OVERRIDE, emit_call_SENSOR_OVERRIDE, wait_SENSOR_OVERRIDE,
      write_high_SENSOR_OVERRIDE, write_fwd_low_SENSOR_OVERRIDE, write_rev_low_SENSOR_OVERRIDE,
      write_led_red_SENSOR_OVERRIDE, write_led_green_SENSOR_OVERRIDE, delay_ms_SENSOR_OVERRIDE,
      rgb_set_led_SENSOR_OVERRIDE, motor_stop_SENSOR_OVERRIDE, isr_prox_sensor_SENSOR_OVERRIDE,
      runIsrs_SENSOR_OVERRIDE, State.set_PIN_PROX_SENSOR, State.set_PREV_SENSOR_STATE,
      State.set_SENSOR_STATE, State.set_SENSOR_OVERRIDE, State.set_HOMING_ACTIVE,
      State.set_HOMING, State.set_HOME_DIRECTION, State.set_HOMED_POS, State.set_CURRENT_POS,
      State.set_PREVIOUS_POS, State.set_TRIGGER_ORDER, State.set_TRIGGER_ORDER2, State.set_SOURCE,
      State.set_state_start_timestamp, State.set_RX_COMMAND, State.set_rxWord,
      State.set_currColor, State.set_fault, State.set_pending]

@[simp] theorem delay_CURRENT_POS (ms : Nat) (s : State) :
    (delay ms s).CURRENT_POS = s.CURRENT_POS := by
  unfold delay
  split <;> simp only [print_CURRENT_POS, emit_call_CURRENT_POS, wait_CURRENT_POS,
      write_high_CURRENT_POS, write_fwd_low_CURRENT_POS, write_rev_low_CURRENT_POS,
      write_led_red_CURRENT_POS, write_led_green_CURRENT_POS, delay_ms_CURRENT_POS,
      rgb_set_led_CURRENT_POS, motor_stop_CURRENT_POS, isr_prox_sensor_CURRENT_POS,
      runIsrs_CURRENT_POS, State.set_PIN_PROX_SENSOR, State.set_PREV_SENSOR_STATE,
      State.set_SENSOR_STATE, State.set_SENSOR_OVERRIDE, State.set_HOMING_ACTIVE,
      State.set_HOMING, State.set_HOME_DIRECTION, State.set_HOMED_POS, State.set_CURRENT_POS,
      State.set_PREVIOUS_POS, State.set_TRIGGER_ORDER, State.set_TRIGGER_ORDER2, State.set_SOURCE,
      State.set_state_start_timestamp, State.set_RX_COMMAND, State.set_rxWord,
      State.set_currColor, State.set_fault, State.set_pending]

@[simp] theorem delay_PREVIOUS_POS (ms : Nat) (s : State) :
    (delay ms s).PREVIOUS_POS = s.PREVIOUS_POS := by
  unfold delay
  split <;> simp only [print_PREVIOUS_POS, emit_call_PREVIOUS_POS, wait_PREVIOUS_POS,
      write_high_PREVIOUS_POS, write_fwd_low_PREVIOUS_POS, write_rev_low_PREVIOUS_POS,
      write_led_red_PREVIOUS_POS, write_led_green_PREVIOUS_POS, delay_ms_PREVIOUS_POS,
      rgb_set_led_PREVIOUS_POS, motor_stop_PREVIOUS_POS, isr_prox_sensor_PREVIOUS_POS,
      runIsrs_PREVIOUS_POS, State.set_PIN_PROX_SENSOR, State.set_PREV_SENSOR_STATE,
      State.set_SENSOR_STATE, State.set_SENSOR_OVERRIDE, State.set_HOMING_ACTIVE,
      State.set_HOMING, State.set_HOME_DIRECTION, State.set_HOMED_POS, State.set_CURRENT_POS,
      State.set_PREVIOUS_POS, State.set_TRIGGER_ORDER, State.set_TRIGGER_ORDER2, State.set_SOURCE,
      State.set_state_start_timestamp, State.set_RX_COMMAND, State.set_rxWord,
      State.set_currColor, State.set_fault, State.set_pending]

@[simp] theorem delay_HOMING (ms : Nat) (s : State) :
    (delay ms s).HOMING = s.HOMING := by
  unfold delay
  split <;> simp only [print_HOMING, emit_call_HOMING, wait_HOMING, write_high_HOMING,
      write_fwd_low_HOMING, write_rev_low_HOMING, write_led_red_HOMING, write_led_green_HOMING,
      delay_ms_HOMING, rgb_set_led_HOMING, motor_stop_HOMING, isr_prox_sensor_HOMING,
      runIsrs_HOMING, State.set_PIN_PROX_SENSOR, State.set_PREV_SENSOR_STATE,
      State.set_SENSOR_STATE, State.set_SENSOR_OVERRIDE, State.set_HOMING_ACTIVE,
      State.set_HOMING, State.set_HOME_DIRECTION, State.set_HOMED_POS, State.set_CURRENT_POS,
      State.set_PREVIOUS_POS, State.set_TRIGGER_ORDER, State.set_TRIGGER_ORDER2, State.set_SOURCE,
      State.set_state_start_timestamp, State.set_RX_COMMAND, State.set_rxWord,
      State.set_currColor, State.set_fault, State.set_pending]

@[simp] theorem delay_HOMING_ACTIVE (ms : Nat) (s : State) :
    (delay ms s).HOMING_ACTIVE = s.HOMING_ACTIVE := by
  unfold delay
  split <;> simp only [print_HOMING_ACTIVE, emit_call_HOMING_ACTIVE, wait_HOMING_ACTIVE,
      write_high_HOMING_ACTIVE, write_fwd_low_HOMING_ACTIVE, write_rev_low_HOMING_ACTIVE,
      write_led_red_HOMING_ACTIVE, write_led_green_HOMING_ACTIVE, delay_ms_HOMING_ACTIVE,
      rgb_set_led_HOMING_ACTIVE, motor_stop_HOMING_ACTIVE, isr_prox_sensor_HOMING_ACTIVE,
      runIsrs_HOMING_ACTIVE, State.set_PIN_PROX_SENSOR, State.set_PREV_SENSOR_STATE,
      State.set_SENSOR_STATE, State.set_SENSOR_OVERRIDE, State.set_HOMING_ACTIVE,
      State.set_HOMING, State.set_HOME_DIRECTION, State.set_HOMED_POS, State.set_CURRENT_POS,
      State.set_PREVIOUS_POS, State.set_TRIGGER_ORDER, State.set_TRIGGER_ORDER2, State.set_SOURCE,
      State.set_state_start_timestamp, State.set_RX_COMMAND, State.set_rxWord,
      State.set_currColor, State.set_fault, State.set_pending]

@[simp] theorem delay_HOME_DIRECTION (ms : Nat) (s : State) :
    (delay ms s).HOME_DIRECTION = s.HOME_DIRECTION := by
  unfold delay
  split <;> simp only [print_HOME_DIRECTION, emit_call_HOME_DIRECTION, wait_HOME_DIRECTION,
      write_high_HOME_DIRECTION, write_fwd_low_HOME_DIRECTION, write_rev_low_HOME_DIRECTION,
      write_led_red_HOME_DIRECTION, write_led_green_HOME_DIRECTION, delay_ms_HOME_DIRECTION,
      rgb_set_led_HOME_DIRECTION, motor_stop_HOME_DIRECTION, isr_prox_sensor_HOME_DIRECTION,
      runIsrs_HOME_DIRECTION, State.set_PIN_PROX_SENSOR, State.set_PREV_SENSOR_STATE,
      State.set_SENSOR_STATE, State.set_SENSOR_OVERRIDE, State.set_HOMING_ACTIVE,
      State.set_HOMING, State.set_HOME_DIRECTION, State.set_HOMED_POS, State.set_CURRENT_POS,
      State.set_PREVIOUS_POS, State.set_TRIGGER_ORDER, State.set_TRIGGER_ORDER2, State.set_SOURCE,
      State.set_state_start_timestamp, State.set_RX_COMMAND, State.set_rxWord,
      State.set_currColor, State.set_fault, State.set_pending]

@[simp] theorem delay_HOMED_POS (ms : Nat) (s : State) :
    (delay ms s).HOMED_POS = s.HOMED_POS := by
  unfold delay
  split <;> simp only [print_HOMED_POS, emit_call_HOMED_POS, wait_HOMED_POS, write_high_HOMED_POS,
      write_fwd_low_HOMED_POS, write_rev_low_HOMED_POS, write_led_red_HOMED_POS,
      write_led_green_HOMED_POS, delay_ms_HOMED_POS, rgb_set_led_HOMED_POS, motor_stop_HOMED_POS,
      isr_prox_sensor_HOMED_POS, runIsrs_HOMED_POS, State.set_PIN_PROX_SENSOR,
      State.set_PREV_SENSOR_STATE, State.set_SENSOR_STATE, State.set_SENSOR_OVERRIDE,
      State.set_HOMING_ACTIVE, State.set_HOMING, State.set_HOME_DIRECTION, State.set_HOMED_POS,
      State.set_CURRENT_POS, State.set_PREVIOUS_POS, State.set_TRIGGER_ORDER,
      State.set_TRIGGER_ORDER2, State.set_SOURCE, State.set_state_start_timestamp,
      State.set_RX_COMMAND, State.set_rxWord, State.set_currColor, State.set_fault,
      State.set_pending]

@[simp] theorem delay_fault (ms : Nat) (s : State) :
    (delay ms s).fault = s.fault := by
  unfold delay
  split <;> simp only [print_fault, emit_call_fault, wait_fault, write_high_fault,
      write_fwd_low_fault, write_rev_low_fault, write_led_red_fault, write_led_green_fault,
      delay_ms_fault, rgb_set_led_fault, motor_stop_fault, isr_prox_sensor_fault, runIsrs_fault,
      State.set_PIN_PROX_SENSOR, State.set_PREV_SENSOR_STATE, State.set_SENSOR_STATE,
      State.set_SENSOR_OVERRIDE, State.set_HOMING_ACTIVE, State.set_HOMING,
      State.set_HOME_DIRECTION, State.set_HOMED_POS, State.set_CURRENT_POS,
      State.set_PREVIOUS_POS, State.set_TRIGGER_ORDER, State.set_TRIGGER_ORDER2, State.set_SOURCE,
      State.set_state_start_timestamp, State.set_RX_COMMAND, State.set_rxWord,
      State.set_currColor, State.set_fault, State.set_pending]

@[simp] theorem delay_calls (f : Fn) (ms : Nat) (s : State) :
    calls f (delay ms s).trace = calls f s.trace := by
  unfold delay
  split <;> simp only [print_calls, wait_calls, write_high_calls, write_fwd_low_calls,
      write_rev_low_calls, write_led_red_calls, write_led_green_calls, delay_ms_calls,
      rgb_set_led_calls, motor_stop_calls, isr_prox_sensor_calls, runIsrs_calls,
      State.set_PIN_PROX_SENSOR, State.set_PREV_SENSOR_STATE, State.set_SENSOR_STATE,
      State.set_SENSOR_OVERRIDE, State.set_HOMING_ACTIVE, State.set_HOMING,
      State.set_HOME_DIRECTION, State.set_HOMED_POS, State.set_CURRENT_POS,
      State.set_PREVIOUS_POS, State.set_TRIGGER_ORDER, State.set_TRIGGER_ORDER2, State.set_SOURCE,
      State.set_state_start_timestamp, State.set_RX_COMMAND, State.set_rxWord,
      State.set_currColor, State.set_fault, State.set_pending]

@[simp] theorem delay_refusals (ms : Nat) (s : State) :
    refusals (delay ms s).trace = refusals s.trace := by
  unfold delay
  split <;> simp only [print_stop_issued_refusals, emit_call_refusals, wait_refusals,
      write_high_refusals, write_fwd_low_refusals, write_rev_low_refusals, write_led_red_refusals,
      write_led_green_refusals, delay_ms_refusals, rgb_set_led_refusals, motor_stop_refusals,
      isr_prox_sensor_refusals, runIsrs_refusals, State.set_PIN_PROX_SENSOR,
      State.set_PREV_SENSOR_STATE, State.set_SENSOR_STATE, State.set_SENSOR_OVERRIDE,
      State.set_HOMING_ACTIVE, State.set_HOMING, State.set_HOME_DIRECTION, State.set_HOMED_POS,
      State.set_CURRENT_POS, State.set_PREVIOUS_POS, State.set_TRIGGER_ORDER,
      State.set_TRIGGER_ORDER2, State.set_SOURCE, State.set_state_start_timestamp,
      State.set_RX_COMMAND, State.set_rxWord, State.set_currColor, State.set_fault,
      State.set_pending]

@[simp] theorem delay_fwdAsserts (ms : Nat) (s : State) :
    fwdAsserts (delay ms s).trace = fwdAsserts s.trace := by
  unfold delay
  split <;> simp only [print_fwdAsserts, emit_call_fwdAsserts, wait_fwdAsserts,
      write_high_fwdAsserts, write_rev_low_fwdAsserts, write_led_red_fwdAsserts,
      write_led_green_fwdAsserts, delay_ms_fwdAsserts, rgb_set_led_fwdAsserts,
      motor_stop_fwdAsserts, isr_prox_sensor_fwdAsserts, runIsrs_fwdAsserts,
      State.set_PIN_PROX_SENSOR, State.set_PREV_SENSOR_STATE, State.set_SENSOR_STATE,
      State.set_SENSOR_OVERRIDE, State.set_HOMING_ACTIVE, State.set_HOMING,
      State.set_HOME_DIRECTION, State.set_HOMED_POS, State.set_CURRENT_POS,
      State.set_PREVIOUS_POS, State.set_TRIGGER_ORDER, State.set_TRIGGER_ORDER2, State.set_SOURCE,
      State.set_state_start_timestamp, State.set_RX_COMMAND, State.set_rxWord,
      State.set_currColor, State.set_fault, State.set_pending]

@[simp] theorem delay_revAsserts (ms : Nat) (s : State) :
    revAsserts (delay ms s).trace = revAsserts s.trace := by
  unfold delay
  split <;> simp only [print_revAsserts, emit_call_revAsserts, wait_revAsserts,
      write_high_revAsserts, write_fwd_low_revAsserts, write_led_red_revAsserts,
      write_led_green_revAsserts, delay_ms_revAsserts, rgb_set_led_revAsserts,
      motor_stop_revAsserts, isr_prox_sensor_revAsserts, runIsrs_revAsserts,
      State.set_PIN_PROX_SENSOR, State.set_PREV_SENSOR_STATE, State.set_SENSOR_STATE,
      State.set_SENSOR_OVERRIDE, State.set_HOMING_ACTIVE, State.set_HOMING,
      State.set_HOME_DIRECTION, State.set_HOMED_POS, State.set_CURRENT_POS,
      State.set_PREVIOUS_POS, State.set_TRIGGER_ORDER, State.set_TRIGGER_ORDER2, State.set_SOURCE,
      State.set_state_start_timestamp, State.set_RX_COMMAND, State.set_rxWord,
      State.set_currColor, State.set_fault, State.set_pending]

@[simp] theorem sensor_bypass_CURRENT_POS (s : State) :
    (sensor_bypass s).CURRENT_POS = s.CURRENT_POS := by
  unfold sensor_bypass
  simp only [print_CURRENT_POS, emit_call_CURRENT_POS, wait_CURRENT_POS, write_high_CURRENT_POS,
      write_fwd_low_CURRENT_POS, write_rev_low_CURRENT_POS, write_led_red_CURRENT_POS,
      write_led_green_CURRENT_POS, delay_ms_CURRENT_POS, rgb_set_led_CURRENT_POS,
      motor_stop_CURRENT_POS, isr_prox_sensor_CURRENT_POS, runIsrs_CURRENT_POS, delay_CURRENT_POS,
      State.set_PIN_PROX_SENSOR, State.set_PREV_SENSOR_STATE, State.set_SENSOR_STATE,
      State.set_SENSOR_OVERRIDE, State.set_HOMING_ACTIVE, State.set_HOMING,
      State.set_HOME_DIRECTION, State.set_HOMED_POS, State.set_CURRENT_POS,
      State.set_PREVIOUS_POS, State.set_TRIGGER_ORDER, State.set_TRIGGER_ORDER2, State.set_SOURCE,
      State.set_state_start_timestamp, State.set_RX_COMMAND, State.set_rxWord,
      State.set_currColor, State.set_fault, State.set_pending]

@[simp] theorem sensor_bypass_PREVIOUS_POS (s : State) :
    (sensor_bypass s).PREVIOUS_POS = s.PREVIOUS_POS := by
  unfold sensor_bypass
  simp only [print_PREVIOUS_POS, emit_call_PREVIOUS_POS, wait_PREVIOUS_POS,
      write_high_PREVIOUS_POS, write_fwd_low_PREVIOUS_POS, write_rev_low_PREVIOUS_POS,
      write_led_red_PREVIOUS_POS, write_led_green_PREVIOUS_POS, delay_ms_PREVIOUS_POS,
      rgb_set_led_PREVIOUS_POS, motor_stop_PREVIOUS_POS, isr_prox_sensor_PREVIOUS_POS,
      runIsrs_PREVIOUS_POS, delay_PREVIOUS_POS, State.set_PIN_PROX_SENSOR,
      State.set_PREV_SENSOR_STATE, State.set_SENSOR_STATE, State.set_SENSOR_OVERRIDE,
      State.set_HOMING_ACTIVE, State.set_HOMING, State.set_HOME_DIRECTION, State.set_HOMED_POS,
      State.set_CURRENT_POS, State.set_PREVIOUS_POS, State.set_TRIGGER_ORDER,
      State.set_TRIGGER_ORDER2, State.set_SOURCE, State.set_state_start_timestamp,
      State.set_RX_COMMAND, State.set_rxWord, State.set_currColor, State.set_fault,
      State.set_pending]

@[simp] theorem sensor_bypass_HOMING (s : State) :
    (sensor_bypass s).HOMING = s.HOMING := by
  unfold sensor_bypass
  simp only [print_HOMING, emit_call_HOMING, wait_HOMING, write_high_HOMING, write_fwd_low_HOMING,
      write_rev_low_HOMING, write_led_red_HOMING, write_led_green_HOMING, delay_ms_HOMING,
      rgb_set_led_HOMING, motor_stop_HOMING, isr_prox_sensor_HOMING, runIsrs_HOMING, delay_HOMING,
      State.set_PIN_PROX_SENSOR, State.set_PREV_SENSOR_STATE, State.set_SENSOR_STATE,
      State.set_SENSOR_OVERRIDE, State.set_HOMING_ACTIVE, State.set_HOMING,
      State.set_HOME_DIRECTION, State.set_HOMED_POS, State.set_CURRENT_POS,
      State.set_PREVIOUS_POS, State.set_TRIGGER_ORDER, State.set_TRIGGER_ORDER2, State.set_SOURCE,
      State.set_state_start_timestamp, State.set_RX_COMMAND, State.set_rxWord,
      State.set_currColor, State.set_fault, State.set_pending]

@[simp] theorem sensor_bypass_HOMING_ACTIVE (s : State) :
    (sensor_bypass s).HOMING_ACTIVE = s.HOMING_ACTIVE := by
  unfold sensor_bypass
  simp only [print_HOMING_ACTIVE, emit_call_HOMING_ACTIVE, wait_HOMING_ACTIVE,
      write_high_HOMING_ACTIVE, write_fwd_low_HOMING_ACTIVE, write_rev_low_HOMING_ACTIVE,
      write_led_red_HOMING_ACTIVE, write_led_green_HOMING_ACTIVE, delay_ms_HOMING_ACTIVE,
      rgb_set_led_HOMING_ACTIVE, motor_stop_HOMING_ACTIVE, isr_prox_sensor_HOMING_ACTIVE,
      runIsrs_HOMING_ACTIVE, delay_HOMING_ACTIVE, State.set_PIN_PROX_SENSOR,
      State.set_PREV_SENSOR_STATE, State.set_SENSOR_STATE, State.set_SENSOR_OVERRIDE,
      State.set_HOMING_ACTIVE, State.set_HOMING, State.set_HOME_DIRECTION, State.set_HOMED_POS,
      State.set_CURRENT_POS, State.set_PREVIOUS_POS, State.set_TRIGGER_ORDER,
      State.set_TRIGGER_ORDER2, State.set_SOURCE, State.set_state_start_timestamp,
      State.set_RX_COMMAND, State.set_rxWord, State.set_currColor, State.set_fault,
      State.set_pending]

@[simp] theorem sensor_bypass_HOME_DIRECTION (s : State) :
    (sensor_bypass s).HOME_DIRECTION = s.HOME_DIRECTION := by
  unfold sensor_bypass
  simp only [print_HOME_DIRECTION, emit_call_HOME_DIRECTION, wait_HOME_DIRECTION,
      write_high_HOME_DIRECTION, write_fwd_low_HOME_DIRECTION, write_rev_low_HOME_DIRECTION,
      write_led_red_HOME_DIRECTION, write_led_green_HOME_DIRECTION, delay_ms_HOME_DIRECTION,
      rgb_set_led_HOME_DIRECTION, motor_stop_HOME_DIRECTION, isr_prox_sensor_HOME_DIRECTION,
      runIsrs_HOME_DIRECTION, delay_HOME_DIRECTION, State.set_PIN_PROX_SENSOR,
      State.set_PREV_SENSOR_STATE, State.set_SENSOR_STATE, State.set_SENSOR_OVERRIDE,
      State.set_HOMING_ACTIVE, State.set_HOMING, State.set_HOME_DIRECTION, State.set_HOMED_POS,
      State.set_CURRENT_POS, State.set_PREVIOUS_POS, State.set_TRIGGER_ORDER,
      State.set_TRIGGER_ORDER2, State.set_SOURCE, State.set_state_start_timestamp,
      State.set_RX_COMMAND, State.set_rxWord, State.set_currColor, State.set_fault,
      State.set_pending]

@[simp] theorem sensor_bypass_HOMED_POS (s : State) :
    (sensor_bypass s).HOMED_POS = s.HOMED_POS := by
  unfold sensor_bypass
  simp only [print_HOMED_POS, emit_call_HOMED_POS, wait_HOMED_POS, write_high_HOMED_POS,
      write_fwd_low_HOMED_POS, write_rev_low_HOMED_POS, write_led_red_HOMED_POS,
      write_led_green_HOMED_POS, delay_ms_HOMED_POS, rgb_set_led_HOMED_POS, motor_stop_HOMED_POS,
      isr_prox_sensor_HOMED_POS, runIsrs_HOMED_POS, delay_HOMED_POS, State.set_PIN_PROX_SENSOR,
      State.set_PREV_SENSOR_STATE, State.set_SENSOR_STATE, State.set_SENSOR_OVERRIDE,
      State.set_HOMING_ACTIVE, State.set_HOMING, State.set_HOME_DIRECTION, State.set_HOMED_POS,
      State.set_CURRENT_POS, State.set_PREVIOUS_POS, State.set_TRIGGER_ORDER,
      State.set_TRIGGER_ORDER2, State.set_SOURCE, State.set_state_start_timestamp,
      State.set_RX_COMMAND, State.set_rxWord, State.set_currColor, State.set_fault,
      State.set_pending]

@[simp] theorem sensor_bypass_fault (s : State) :
    (sensor_bypass s).fault = s.fault := by
  unfold sensor_bypass
  simp only [print_fault, emit_call_fault, wait_fault, write_high_fault, write_fwd_low_fault,
      write_rev_low_fault, write_led_red_fault, write_led_green_fault, delay_ms_fault,
      rgb_set_led_fault, motor_stop_fault, isr_prox_sensor_fault, runIsrs_fault, delay_fault,
      State.set_PIN_PROX_SENSOR, State.set_PREV_SENSOR_STATE, State.set_SENSOR_STATE,
      State.set_SENSOR_OVERRIDE, State.set_HOMING_ACTIVE, State.set_HOMING,
      State.set_HOME_DIRECTION, State.set_HOMED_POS, State.set_CURRENT_POS,
      State.set_PREVIOUS_POS, State.set_TRIGGER_ORDER, State.set_TRIGGER_ORDER2, State.set_SOURCE,
      State.set_state_start_timestamp, State.set_RX_COMMAND, State.set_rxWord,
      State.set_currColor, State.set_fault, State.set_pending]

@[simp] theorem sensor_bypass_calls (f : Fn) (s : State) :
    calls f (sensor_bypass s).trace = calls f s.trace := by
  unfold sensor_bypass
  simp only [print_calls, wait_calls, write_high_calls, write_fwd_low_calls, write_rev_low_calls,
      write_led_red_calls, write_led_green_calls, delay_ms_calls, rgb_set_led_calls,
      motor_stop_calls, isr_prox_sensor_calls, runIsrs_calls, delay_calls,
      State.set_PIN_PROX_SENSOR, State.set_PREV_SENSOR_STATE, State.set_SENSOR_STATE,
      State.set_SENSOR_OVERRIDE, State.set_HOMING_ACTIVE, State.set_HOMING,
      State.set_HOME_DIRECTION, State.set_HOMED_POS, State.set_CURRENT_POS,
      State.set_PREVIOUS_POS, State.set_TRIGGER_ORDER, State.set_TRIGGER_ORDER2, State.set_SOURCE,
      State.set_state_start_timestamp, State.set_RX_COMMAND, State.set_rxWord,
      State.set_currColor, State.set_fault, State.set_pending]

@[simp] theorem sensor_bypass_refusals (s : State) :
    refusals (sensor_bypass s).trace = refusals s.trace := by
  unfold sensor_bypass
  simp only [print_stop_issued_refusals, emit_call_refusals, wait_refusals, write_high_refusals,
      write_fwd_low_refusals, write_rev_low_refusals, write_led_red_refusals,
      write_led_green_refusals, delay_ms_refusals, rgb_set_led_refusals, motor_stop_refusals,
      isr_prox_sensor_refusals, runIsrs_refusals, delay_refusals, State.set_PIN_PROX_SENSOR,
      State.set_PREV_SENSOR_STATE, State.set_SENSOR_STATE, State.set_SENSOR_OVERRIDE,
      State.set_HOMING_ACTIVE, State.set_HOMING, State.set_HOME_DIRECTION, State.set_HOMED_POS,
      State.set_CURRENT_POS, State.set_PREVIOUS_POS, State.set_TRIGGER_ORDER,
      State.set_TRIGGER_ORDER2, State.set_SOURCE, State.set_state_start_timestamp,
      State.set_RX_COMMAND, State.set_rxWord, State.set_currColor, State.set_fault,
      State.set_pending]

@[simp] theorem sensor_bypass_fwdAsserts (s : State) :
    fwdAsserts (sensor_bypass s).trace = fwdAsserts s.trace := by
  unfold sensor_bypass
  simp only [print_fwdAsserts, emit_call_fwdAsserts, wait_fwdAsserts, write_high_fwdAsserts,
      write_rev_low_fwdAsserts, write_led_red_fwdAsserts, write_led_green_fwdAsserts,
      delay_ms_fwdAsserts, rgb_set_led_fwdAsserts, motor_stop_fwdAsserts,
      isr_prox_sensor_fwdAsserts, runIsrs_fwdAsserts, delay_fwdAsserts, State.set_PIN_PROX_SENSOR,
      State.set_PREV_SENSOR_STATE, State.set_SENSOR_STATE, State.set_SENSOR_OVERRIDE,
      State.set_HOMING_ACTIVE, State.set_HOMING, State.set_HOME_DIRECTION, State.set_HOMED_POS,
      State.set_CURRENT_POS, State.set_PREVIOUS_POS, State.set_TRIGGER_ORDER,
      State.set_TRIGGER_ORDER2, State.set_SOURCE, State.set_state_start_timestamp,
      State.set_RX_COMMAND, State.set_rxWord, State.set_currColor, State.set_fault,
      State.set_pending]

@[simp] theorem sensor_bypass_revAsserts (s : State) :
    revAsserts (sensor_bypass s).trace = revAsserts s.trace := by
  unfold sensor_bypass
  simp only [print_revAsserts, emit_call_revAsserts, wait_revAsserts, write_high_revAsserts,
      write_fwd_low_revAsserts, write_led_red_revAsserts, write_led_green_revAsserts,
      delay_ms_revAsserts, rgb_set_led_revAsserts, motor_stop_revAsserts,
      isr_prox_sensor_revAsserts, runIsrs_revAsserts, delay_revAsserts, State.set_PIN_PROX_SENSOR,
      State.set_PREV_SENSOR_STATE, State.set_SENSOR_STATE, State.set_SENSOR_OVERRIDE,
      State.set_HOMING_ACTIVE, State.set_HOMING, State.set_HOME_DIRECTION, State.set_HOMED_POS,
      State.set_CURRENT_POS, State.set_PREVIOUS_POS, State.set_TRIGGER_ORDER,
      State.set_TRIGGER_ORDER2, State.set_SOURCE, State.set_state_start_timestamp,
      State.set_RX_COMMAND, State.set_rxWord, State.set_currColor, State.set_fault,
      State.set_pending]

@[simp] theorem drag_lights_SENSOR_OVERRIDE (s : State) :
    (drag_lights s).SENSOR_OVERRIDE = s.SENSOR_OVERRIDE := by
  unfold drag_lights
  simp only [print_SENSOR_OVERRIDE, emit_call_SENSOR_OVERRIDE, wait_SENSOR_OVERRIDE,
      write_high_SENSOR_OVERRIDE, write_fwd_low_SENSOR_OVERRIDE, write_rev_low_SENSOR_OVERRIDE,
      write_led_red_SENSOR_OVERRIDE, write_led_green_SENSOR_OVERRIDE, delay_ms_SENSOR_OVERRIDE,
      rgb_set_led_SENSOR_OVERRIDE, motor_stop_SENSOR_OVERRIDE, isr_prox_sensor_SENSOR_OVERRIDE,
      runIsrs_SENSOR_OVERRIDE, delay_SENSOR_OVERRIDE, State.set_PIN_PROX_SENSOR,
      State.set_PREV_SENSOR_STATE, State.set_SENSOR_STATE, State.set_SENSOR_OVERRIDE,
      State.set_HOMING_ACTIVE, State.set_HOMING, State.set_HOME_DIRECTION, State.set_HOMED_POS,
      State.set_CURRENT_POS, State.set_PREVIOUS_POS, State.set_TRIGGER_ORDER,
      State.set_TRIGGER_ORDER2, State.set_SOURCE, State.set_state_start_timestamp,
      State.set_RX_COMMAND, State.set_rxWord, State.set_currColor, State.set_fault,
      State.set_pending]

@[simp] theorem drag_lights_CURRENT_POS (s : State) :
    (drag_lights s).CURRENT_POS = s.CURRENT_POS := by
  unfold drag_lights
  simp only [print_CURRENT_POS, emit_call_CURRENT_POS, wait_CURRENT_POS, write_high_CURRENT_POS,
      write_fwd_low_CURRENT_POS, write_rev_low_CURRENT_POS, write_led_red_CURRENT_POS,
      write_led_green_CURRENT_POS, delay_ms_CURRENT_POS, rgb_set_led_CURRENT_POS,
      motor_stop_CURRENT_POS, isr_prox_sensor_CURRENT_POS, runIsrs_CURRENT_POS, delay_CURRENT_POS,
      sensor_bypass_CURRENT_POS, State.set_PIN_PROX_SENSOR, State.set_PREV_SENSOR_STATE,
      State.set_SENSOR_STATE, State.set_SENSOR_OVERRIDE, State.set_HOMING_ACTIVE,
      State.set_HOMING, State.set_HOME_DIRECTION, State.set_HOMED_POS, State.set_CURRENT_POS,
      State.set_PREVIOUS_POS, State.set_TRIGGER_ORDER, State.set_TRIGGER_ORDER2, State.set_SOURCE,
      State.set_state_start_timestamp, State.set_RX_COMMAND, State.set_rxWord,
      State.set_currColor, State.set_fault, State.set_pending]

@[simp] theorem drag_lights_PREVIOUS_POS (s : State) :
    (drag_lights s).PREVIOUS_POS = s.PREVIOUS_POS := by
  unfold drag_lights
  simp only [print_PREVIOUS_POS, emit_call_PREVIOUS_POS, wait_PREVIOUS_POS,
      write_high_PREVIOUS_POS, write_fwd_low_PREVIOUS_POS, write_rev_low_PREVIOUS_POS,
      write_led_red_PREVIOUS_POS, write_led_green_PREVIOUS_POS, delay_ms_PREVIOUS_POS,
      rgb_set_led_PREVIOUS_POS, motor_stop_PREVIOUS_POS, isr_prox_sensor_PREVIOUS_POS,
      runIsrs_PREVIOUS_POS, delay_PREVIOUS_POS, sensor_bypass_PREVIOUS_POS,
      State.set_PIN_PROX_SENSOR, State.set_PREV_SENSOR_STATE, State.set_SENSOR_STATE,
      State.set_SENSOR_OVERRIDE, State.set_HOMING_ACTIVE, State.set_HOMING,
      State.set_HOME_DIRECTION, State.set_HOMED_POS, State.set_CURRENT_POS,
      State.set_PREVIOUS_POS, State.set_TRIGGER_ORDER, State.set_TRIGGER_ORDER2, State.set_SOURCE,
      State.set_state_start_timestamp, State.set_RX_COMMAND, State.set_rxWord,
      State.set_currColor, State.set_fault, State.set_pending]

@[simp] theorem drag_lights_HOMING (s : State) :
    (drag_lights s).HOMING = s.HOMING := by
  unfold drag_lights
  simp only [print_HOMING, emit_call_HOMING, wait_HOMING, write_high_HOMING, write_fwd_low_HOMING,
      write_rev_low_HOMING, write_led_red_HOMING, write_led_green_HOMING, delay_ms_HOMING,
      rgb_set_led_HOMING, motor_stop_HOMING, isr_prox_sensor_HOMING, runIsrs_HOMING, delay_HOMING,
      sensor_bypass_HOMING, State.set_PIN_PROX_SENSOR, State.set_PREV_SENSOR_STATE,
      State.set_SENSOR_STATE, State.set_SENSOR_OVERRIDE, State.set_HOMING_ACTIVE,
      State.set_HOMING, State.set_HOME_DIRECTION, State.set_HOMED_POS, State.set_CURRENT_POS,
      State.set_PREVIOUS_POS, State.set_TRIGGER_ORDER, State.set_TRIGGER_ORDER2, State.set_SOURCE,
      State.set_state_start_timestamp, State.set_RX_COMMAND, State.set_rxWord,
      State.set_currColor, State.set_fault, State.set_pending]

@[simp] theorem drag_lights_HOMING_ACTIVE (s : State) :
    (drag_lights s).HOMING_ACTIVE = s.HOMING_ACTIVE := by
  unfold drag_lights
  simp only [print_HOMING_ACTIVE, emit_call_HOMING_ACTIVE, wait_HOMING_ACTIVE,
      write_high_HOMING_ACTIVE, write_fwd_low_HOMING_ACTIVE, write_rev_low_HOMING_ACTIVE,
      write_led_red_HOMING_ACTIVE, write_led_green_HOMING_ACTIVE, delay_ms_HOMING_ACTIVE,
      rgb_set_led_HOMING_ACTIVE, motor_stop_HOMING_ACTIVE, isr_prox_sensor_HOMING_ACTIVE,
      runIsrs_HOMING_ACTIVE, delay_HOMING_ACTIVE, sensor_bypass_HOMING_ACTIVE,
      State.set_PIN_PROX_SENSOR, State.set_PREV_SENSOR_STATE, State.set_SENSOR_STATE,
      State.set_SENSOR_OVERRIDE, State.set_HOMING_ACTIVE, State.set_HOMING,
      State.set_HOME_DIRECTION, State.set_HOMED_POS, State.set_CURRENT_POS,
      State.set_PREVIOUS_POS, State.set_TRIGGER_ORDER, State.set_TRIGGER_ORDER2, State.set_SOURCE,
      State.set_state_start_timestamp, State.set_RX_COMMAND, State.set_rxWord,
      State.set_currColor, State.set_fault, State.set_pending]

@[simp] theorem drag_lights_HOME_DIRECTION (s : State) :
    (drag_lights s).HOME_DIRECTION = s.HOME_DIRECTION := by
  unfold drag_lights
  simp only [print_HOME_DIRECTION, emit_call_HOME_DIRECTION, wait_HOME_DIRECTION,
      write_high_HOME_DIRECTION, write_fwd_low_HOME_DIRECTION, write_rev_low_HOME_DIRECTION,
      write_led_red_HOME_DIRECTION, write_led_green_HOME_DIRECTION, delay_ms_HOME_DIRECTION,
      rgb_set_led_HOME_DIRECTION, motor_stop_HOME_DIRECTION, isr_prox_sensor_HOME_DIRECTION,
      runIsrs_HOME_DIRECTION, delay_HOME_DIRECTION, sensor_bypass_HOME_DIRECTION,
      State.set_PIN_PROX_SENSOR, State.set_PREV_SENSOR_STATE, State.set_SENSOR_STATE,
      State.set_SENSOR_OVERRIDE, State.set_HOMING_ACTIVE, State.set_HOMING,
      State.set_HOME_DIRECTION, State.set_HOMED_POS, State.set_CURRENT_POS,
      State.set_PREVIOUS_POS, State.set_TRIGGER_ORDER, State.set_TRIGGER_ORDER2, State.set_SOURCE,
      State.set_state_start_timestamp, State.set_RX_COMMAND, State.set_rxWord,
      State.set_currColor, State.set_fault, State.set_pending]

@[simp] theorem drag_lights_HOMED_POS (s : State) :
    (drag_lights s).HOMED_POS = s.HOMED_POS := by
  unfold drag_lights
  simp only [print_HOMED_POS, emit_call_HOMED_POS, wait_HOMED_POS, write_high_HOMED_POS,
      write_fwd_low_HOMED_POS, write_rev_low_HOMED_POS, write_led_red_HOMED_POS,
      write_led_green_HOMED_POS, delay_ms_HOMED_POS, rgb_set_led_HOMED_POS, motor_stop_HOMED_POS,
      isr_prox_sensor_HOMED_POS, runIsrs_HOMED_POS, delay_HOMED_POS, sensor_bypass_HOMED_POS,
      State.set_PIN_PROX_SENSOR, State.set_PREV_SENSOR_STATE, State.set_SENSOR_STATE,
      State.set_SENSOR_OVERRIDE, State.set_HOMING_ACTIVE, State.set_HOMING,
      State.set_HOME_DIRECTION, State.set_HOMED_POS, State.set_CURRENT_POS,
      State.set_PREVIOUS_POS, State.set_TRIGGER_ORDER, State.set_TRIGGER_ORDER2, State.set_SOURCE,
      State.set_state_start_timestamp, State.set_RX_COMMAND, State.set_rxWord,
      State.set_currColor, State.set_fault, State.set_pending]

@[simp] theorem drag_lights_fault (s : State) :
    (drag_lights s).fault = s.fault := by
  unfold drag_lights
  simp only [print_fault, emit_call_fault, wait_fault, write_high_fault, write_fwd_low_fault,
      write_rev_low_fault, write_led_red_fault, write_led_green_fault, delay_ms_fault,
      rgb_set_led_fault, motor_stop_fault, isr_prox_sensor_fault, runIsrs_fault, delay_fault,
      sensor_bypass_fault, State.set_PIN_PROX_SENSOR, State.set_PREV_SENSOR_STATE,
      State.set_SENSOR_STATE, State.set_SENSOR_OVERRIDE, State.set_HOMING_ACTIVE,
      State.set_HOMING, State.set_HOME_DIRECTION, State.set_HOMED_POS, State.set_CURRENT_POS,
      State.set_PREVIOUS_POS, State.set_TRIGGER_ORDER, State.set_TRIGGER_ORDER2, State.set_SOURCE,
      State.set_state_start_timestamp, State.set_RX_COMMAND, State.set_rxWord,
      State.set_currColor, State.set_fault, State.set_pending]

@[simp] theorem drag_lights_calls (f : Fn) (s : State) :
    calls f (drag_lights s).trace = calls f s.trace := by
  unfold drag_lights
  simp only [print_calls, wait_calls, write_high_calls, write_fwd_low_calls, write_rev_low_calls,
      write_led_red_calls, write_led_green_calls, delay_ms_calls, rgb_set_led_calls,
      motor_stop_calls, isr_prox_sensor_calls, runIsrs_calls, delay_calls, sensor_bypass_calls,
      State.set_PIN_PROX_SENSOR, State.set_PREV_SENSOR_STATE, State.set_SENSOR_STATE,
      State.set_SENSOR_OVERRIDE, State.set_HOMING_ACTIVE, State.set_HOMING,
      State.set_HOME_DIRECTION, State.set_HOMED_POS, State.set_CURRENT_POS,
      State.set_PREVIOUS_POS, State.set_TRIGGER_ORDER, State.set_TRIGGER_ORDER2, State.set_SOURCE,
      State.set_state_start_timestamp, State.set_RX_COMMAND, State.set_rxWord,
      State.set_currColor, State.set_fault, State.set_pending]

@[simp] theorem drag_lights_refusals (s : State) :
    refusals (drag_lights s).trace = refusals s.trace := by
  unfold drag_lights
  simp only [print_stop_issued_refusals, emit_call_refusals, wait_refusals, write_high_refusals,
      write_fwd_low_refusals, write_rev_low_refusals, write_led_red_refusals,
      write_led_green_refusals, delay_ms_refusals, rgb_set_led_refusals, motor_stop_refusals,
      isr_prox_sensor_refusals, runIsrs_refusals, delay_refusals, sensor_bypass_refusals,
      State.set_PIN_PROX_SENSOR, State.set_PREV_SENSOR_STATE, State.set_SENSOR_STATE,
      State.set_SENSOR_OVERRIDE, State.set_HOMING_ACTIVE, State.set_HOMING,
      State.set_HOME_DIRECTION, State.set_HOMED_POS, State.set_CURRENT_POS,
      State.set_PREVIOUS_POS, State.set_TRIGGER_ORDER, State.set_TRIGGER_ORDER2, State.set_SOURCE,
      State.set_state_start_timestamp, State.set_RX_COMMAND, State.set_rxWord,
      State.set_currColor, State.set_fault, State.set_pending]

@[simp] theorem drag_lights_fwdAsserts (s : State) :
    fwdAsserts (drag_lights s).trace = fwdAsserts s.trace := by
  unfold drag_lights
  simp only [print_fwdAsserts, emit_call_fwdAsserts, wait_fwdAsserts, write_high_fwdAsserts,
      write_rev_low_fwdAsserts, write_led_red_fwdAsserts, write_led_green_fwdAsserts,
      delay_ms_fwdAsserts, rgb_set_led_fwdAsserts, motor_stop_fwdAsserts,
      isr_prox_sensor_fwdAsserts, runIsrs_fwdAsserts, delay_fwdAsserts, sensor_bypass_fwdAsserts,
      State.set_PIN_PROX_SENSOR, State.set_PREV_SENSOR_STATE, State.set_SENSOR_STATE,
      State.set_SENSOR_OVERRIDE, State.set_HOMING_ACTIVE, State.set_HOMING,
      State.set_HOME_DIRECTION, State.set_HOMED_POS, State.set_CURRENT_POS,
      State.set_PREVIOUS_POS, State.set_TRIGGER_ORDER, State.set_TRIGGER_ORDER2, State.set_SOURCE,
      State.set_state_start_timestamp, State.set_RX_COMMAND, State.set_rxWord,
      State.set_currColor, State.set_fault, State.set_pending]

@[simp] theorem drag_lights_revAsserts (s : State) :
    revAsserts (drag_lights s).trace = revAsserts s.trace := by
  unfold drag_lights
  simp only [print_revAsserts, emit_call_revAsserts, wait_revAsserts, write_high_revAsserts,
      write_fwd_low_revAsserts, write_led_red_revAsserts, write_led_green_revAsserts,
      delay_ms_revAsserts, rgb_set_led_revAsserts, motor_stop_revAsserts,
      isr_prox_sensor_revAsserts, runIsrs_revAsserts, delay_revAsserts, sensor_bypass_revAsserts,
      State.set_PIN_PROX_SENSOR, State.set_PREV_SENSOR_STATE, State.set_SENSOR_STATE,
      State.set_SENSOR_OVERRIDE, State.set_HOMING_ACTIVE, State.set_HOMING,
      State.set_HOME_DIRECTION, State.set_HOMED_POS, State.set_CURRENT_POS,
      State.set_PREVIOUS_POS, State.set_TRIGGER_ORDER, State.set_TRIGGER_ORDER2, State.set_SOURCE,
      State.set_state_start_timestamp, State.set_RX_COMMAND, State.set_rxWord,
      State.set_currColor, State.set_fault, State.set_pending]

@[simp] theorem motor_forward_PIN_MOTOR_REV (s : State) :
    (motor_forward s).PIN_MOTOR_REV = s.PIN_MOTOR_REV := by
  unfold motor_forward
  simp only [apply_ite State.PIN_MOTOR_REV, print_PIN_MOTOR_REV, emit_call_PIN_MOTOR_REV,
      wait_PIN_MOTOR_REV, write_fwd_low_PIN_MOTOR_REV, write_led_red_PIN_MOTOR_REV,
      write_led_green_PIN_MOTOR_REV, delay_ms_PIN_MOTOR_REV, rgb_set_led_PIN_MOTOR_REV,
      State.set_PIN_PROX_SENSOR, State.set_PREV_SENSOR_STATE, State.set_SENSOR_STATE,
      State.set_SENSOR_OVERRIDE, State.set_HOMING_ACTIVE, State.set_HOMING,
      State.set_HOME_DIRECTION, State.set_HOMED_POS, State.set_CURRENT_POS,
      State.set_PREVIOUS_POS, State.set_TRIGGER_ORDER, State.set_TRIGGER_ORDER2, State.set_SOURCE,
      State.set_state_start_timestamp, State.set_RX_COMMAND, State.set_rxWord,
      State.set_currColor, State.set_fault, State.set_pending, ite_self]

@[simp] theorem motor_forward_SENSOR_OVERRIDE (s : State) :
    (motor_forward s).SENSOR_OVERRIDE = s.SENSOR_OVERRIDE := by
  unfold motor_forward
  simp only [apply_ite State.SENSOR_OVERRIDE, print_SENSOR_OVERRIDE, emit_call_SENSOR_OVERRIDE,
      wait_SENSOR_OVERRIDE, write_high_SENSOR_OVERRIDE, write_fwd_low_SENSOR_OVERRIDE,
      write_rev_low_SENSOR_OVERRIDE, write_led_red_SENSOR_OVERRIDE,
      write_led_green_SENSOR_OVERRIDE, delay_ms_SENSOR_OVERRIDE, rgb_set_led_SENSOR_OVERRIDE,
      motor_stop_SENSOR_OVERRIDE, isr_prox_sensor_SENSOR_OVERRIDE, runIsrs_SENSOR_OVERRIDE,
      delay_SENSOR_OVERRIDE, drag_lights_SENSOR_OVERRIDE, State.set_PIN_PROX_SENSOR,
      State.set_PREV_SENSOR_STATE, State.set_SENSOR_STATE, State.set_SENSOR_OVERRIDE,
      State.set_HOMING_ACTIVE, State.set_HOMING, State.set_HOME_DIRECTION, State.set_HOMED_POS,
      State.set_CURRENT_POS, State.set_PREVIOUS_POS, State.set_TRIGGER_ORDER,
      State.set_TRIGGER_ORDER2, State.set_SOURCE, State.set_state_start_timestamp,
      State.set_RX_COMMAND, State.set_rxWord, State.set_currColor, State.set_fault,
      State.set_pending, ite_self]

@[simp] theorem motor_forward_TRIGGER_ORDER (s : State) :
    (motor_forward s).TRIGGER_ORDER = s.TRIGGER_ORDER := by
  unfold motor_forward
  simp only [apply_ite State.TRIGGER_ORDER, print_TRIGGER_ORDER, emit_call_TRIGGER_ORDER,
      wait_TRIGGER_ORDER, write_high_TRIGGER_ORDER, write_fwd_low_TRIGGER_ORDER,
      write_rev_low_TRIGGER_ORDER, write_led_red_TRIGGER_ORDER, write_led_green_TRIGGER_ORDER,
      delay_ms_TRIGGER_ORDER, rgb_set_led_TRIGGER_ORDER, motor_stop_TRIGGER_ORDER,
      State.set_PIN_PROX_SENSOR, State.set_PREV_SENSOR_STATE, State.set_SENSOR_STATE,
      State.set_SENSOR_OVERRIDE, State.set_HOMING_ACTIVE, State.set_HOMING,
      State.set_HOME_DIRECTION, State.set_HOMED_POS, State.set_CURRENT_POS,
      State.set_PREVIOUS_POS, State.set_TRIGGER_ORDER, State.set_TRIGGER_ORDER2, State.set_SOURCE,
      State.set_state_start_timestamp, State.set_RX_COMMAND, State.set_rxWord,
      State.set_currColor, State.set_fault, State.set_pending, ite_self]

@[simp] theorem motor_forward_SENSOR_STATE (s : State) :
    (motor_forward s).SENSOR_STATE = s.SENSOR_STATE := by
  unfold motor_forward
  simp only [apply_ite State.SENSOR_STATE, print_SENSOR_STATE, emit_call_SENSOR_STATE,
      wait_SENSOR_STATE, write_high_SENSOR_STATE, write_fwd_low_SENSOR_STATE,
      write_rev_low_SENSOR_STATE, write_led_red_SENSOR_STATE, write_led_green_SENSOR_STATE,
      delay_ms_SENSOR_STATE, rgb_set_led_SENSOR_STATE, motor_stop_SENSOR_STATE,
      State.set_PIN_PROX_SENSOR, State.set_PREV_SENSOR_STATE, State.set_SENSOR_STATE,
      State.set_SENSOR_OVERRIDE, State.set_HOMING_ACTIVE, State.set_HOMING,
      State.set_HOME_DIRECTION, State.set_HOMED_POS, State.set_CURRENT_POS,
      State.set_PREVIOUS_POS, State.set_TRIGGER_ORDER, State.set_TRIGGER_ORDER2, State.set_SOURCE,
      State.set_state_start_timestamp, State.set_RX_COMMAND, State.set_rxWord,
      State.set_currColor, State.set_fault, State.set_pending, ite_self]

@[simp] theorem motor_forward_CURRENT_POS (s : State) :
    (motor_forward s).CURRENT_POS = s.CURRENT_POS := by
  unfold motor_forward
  simp only [apply_ite State.CURRENT_POS, print_CURRENT_POS, emit_call_CURRENT_POS,
      wait_CURRENT_POS, write_high_CURRENT_POS, write_fwd_low_CURRENT_POS,
      write_rev_low_CURRENT_POS, write_led_red_CURRENT_POS, write_led_green_CURRENT_POS,
      delay_ms_CURRENT_POS, rgb_set_led_CURRENT_POS, motor_stop_CURRENT_POS,
      isr_prox_sensor_CURRENT_POS, runIsrs_CURRENT_POS, delay_CURRENT_POS,
      sensor_bypass_CURRENT_POS, drag_lights_CURRENT_POS, State.set_PIN_PROX_SENSOR,
      State.set_PREV_SENSOR_STATE, State.set_SENSOR_STATE, State.set_SENSOR_OVERRIDE,
      State.set_HOMING_ACTIVE, State.set_HOMING, State.set_HOME_DIRECTION, State.set_HOMED_POS,
      State.set_CURRENT_POS, State.set_PREVIOUS_POS, State.set_TRIGGER_ORDER,
      State.set_TRIGGER_ORDER2, State.set_SOURCE, State.set_state_start_timestamp,
      State.set_RX_COMMAND, State.set_rxWord, State.set_currColor, State.set_fault,
      State.set_pending, ite_self]

@[simp] theorem motor_forward_PREVIOUS_POS (s : State) :
    (motor_forward s).PREVIOUS_POS = s.PREVIOUS_POS := by
  unfold motor_forward
  simp only [apply_ite State.PREVIOUS_POS, print_PREVIOUS_POS, emit_call_PREVIOUS_POS,
      wait_PREVIOUS_POS, write_high_PREVIOUS_POS, write_fwd_low_PREVIOUS_POS,
      write_rev_low_PREVIOUS_POS, write_led_red_PREVIOUS_POS, write_led_green_PREVIOUS_POS,
      delay_ms_PREVIOUS_POS, rgb_set_led_PREVIOUS_POS, motor_stop_PREVIOUS_POS,
      isr_prox_sensor_PREVIOUS_POS, runIsrs_PREVIOUS_POS, delay_PREVIOUS_POS,
      sensor_bypass_PREVIOUS_POS, drag_lights_PREVIOUS_POS, State.set_PIN_PROX_SENSOR,
      State.set_PREV_SENSOR_STATE, State.set_SENSOR_STATE, State.set_SENSOR_OVERRIDE,
      State.set_HOMING_ACTIVE, State.set_HOMING, State.set_HOME_DIRECTION, State.set_HOMED_POS,
      State.set_CURRENT_POS, State.set_PREVIOUS_POS, State.set_TRIGGER_ORDER,
      State.set_TRIGGER_ORDER2, State.set_SOURCE, State.set_state_start_timestamp,
      State.set_RX_COMMAND, State.set_rxWord, State.set_currColor, State.set_fault,
      State.set_pending, ite_self]

@[simp] theorem motor_forward_HOMING (s : State) :
    (motor_forward s).HOMING = s.HOMING := by
  unfold motor_forward
  simp only [apply_ite State.HOMING, print_HOMING, emit_call_HOMING, wait_HOMING,
      write_high_HOMING, write_fwd_low_HOMING, write_rev_low_HOMING, write_led_red_HOMING,
      write_led_green_HOMING, delay_ms_HOMING, rgb_set_led_HOMING, motor_stop_HOMING,
      isr_prox_sensor_HOMING, runIsrs_HOMING, delay_HOMING, sensor_bypass_HOMING,
      drag_lights_HOMING, State.set_PIN_PROX_SENSOR, State.set_PREV_SENSOR_STATE,
      State.set_SENSOR_STATE, State.set_SENSOR_OVERRIDE, State.set_HOMING_ACTIVE,
      State.set_HOMING, State.set_HOME_DIRECTION, State.set_HOMED_POS, State.set_CURRENT_POS,
      State.set_PREVIOUS_POS, State.set_TRIGGER_ORDER, State.set_TRIGGER_ORDER2, State.set_SOURCE,
      State.set_state_start_timestamp, State.set_RX_COMMAND, State.set_rxWord,
      State.set_currColor, State.set_fault, State.set_pending, ite_self]

@[simp] theorem motor_forward_HOMING_ACTIVE (s : State) :
    (motor_forward s).HOMING_ACTIVE = s.HOMING_ACTIVE := by
  unfold motor_forward
  simp only [apply_ite State.HOMING_ACTIVE, print_HOMING_ACTIVE, emit_call_HOMING_ACTIVE,
      wait_HOMING_ACTIVE, write_high_HOMING_ACTIVE, write_fwd_low_HOMING_ACTIVE,
      write_rev_low_HOMING_ACTIVE, write_led_red_HOMING_ACTIVE, write_led_green_HOMING_ACTIVE,
      delay_ms_HOMING_ACTIVE, rgb_set_led_HOMING_ACTIVE, motor_stop_HOMING_ACTIVE,
      isr_prox_sensor_HOMING_ACTIVE, runIsrs_HOMING_ACTIVE, delay_HOMING_ACTIVE,
      sensor_bypass_HOMING_ACTIVE, drag_lights_HOMING_ACTIVE, State.set_PIN_PROX_SENSOR,
      State.set_PREV_SENSOR_STATE, State.set_SENSOR_STATE, State.set_SENSOR_OVERRIDE,
      State.set_HOMING_ACTIVE, State.set_HOMING, State.set_HOME_DIRECTION, State.set_HOMED_POS,
      State.set_CURRENT_POS, State.set_PREVIOUS_POS, State.set_TRIGGER_ORDER,
      State.set_TRIGGER_ORDER2, State.set_SOURCE, State.set_state_start_timestamp,
      State.set_RX_COMMAND, State.set_rxWord, State.set_currColor, State.set_fault,
      State.set_pending, ite_self]

@[simp] theorem motor_forward_HOME_DIRECTION (s : State) :
    (motor_forward s).HOME_DIRECTION = s.HOME_DIRECTION := by
  unfold motor_forward
  simp only [apply_ite State.HOME_DIRECTION, print_HOME_DIRECTION, emit_call_HOME_DIRECTION,
      wait_HOME_DIRECTION, write_high_HOME_DIRECTION, write_fwd_low_HOME_DIRECTION,
      write_rev_low_HOME_DIRECTION, write_led_red_HOME_DIRECTION, write_led_green_HOME_DIRECTION,
      delay_ms_HOME_DIRECTION, rgb_set_led_HOME_DIRECTION, motor_stop_HOME_DIRECTION,
      isr_prox_sensor_HOME_DIRECTION, runIsrs_HOME_DIRECTION, delay_HOME_DIRECTION,
      sensor_bypass_HOME_DIRECTION, drag_lights_HOME_DIRECTION, State.set_PIN_PROX_SENSOR,
      State.set_PREV_SENSOR_STATE, State.set_SENSOR_STATE, State.set_SENSOR_OVERRIDE,
      State.set_HOMING_ACTIVE, State.set_HOMING, State.set_HOME_DIRECTION, State.set_HOMED_POS,
      State.set_CURRENT_POS, State.set_PREVIOUS_POS, State.set_TRIGGER_ORDER,
      State.set_TRIGGER_ORDER2, State.set_SOURCE, State.set_state_start_timestamp,
      State.set_RX_COMMAND, State.set_rxWord, State.set_currColor, State.set_fault,
      State.set_pending, ite_self]

@[simp] theorem motor_forward_HOMED_POS (s : State) :
    (motor_forward s).HOMED_POS = s.HOMED_POS := by
  unfold motor_forward
  simp only [apply_ite State.HOMED_POS, print_HOMED_POS, emit_call_HOMED_POS, wait_HOMED_POS,
      write_high_HOMED_POS, write_fwd_low_HOMED_POS, write_rev_low_HOMED_POS,
      write_led_red_HOMED_POS, write_led_green_HOMED_POS, delay_ms_HOMED_POS,
      rgb_set_led_HOMED_POS, motor_stop_HOMED_POS, isr_prox_sensor_HOMED_POS, runIsrs_HOMED_POS,
      delay_HOMED_POS, sensor_bypass_HOMED_POS, drag_lights_HOMED_POS, State.set_PIN_PROX_SENSOR,
      State.set_PREV_SENSOR_STATE, State.set_SENSOR_STATE, State.set_SENSOR_OVERRIDE,
      State.set_HOMING_ACTIVE, State.set_HOMING, State.set_HOME_DIRECTION, State.set_HOMED_POS,
      State.set_CURRENT_POS, State.set_PREVIOUS_POS, State.set_TRIGGER_ORDER,
      State.set_TRIGGER_ORDER2, State.set_SOURCE, State.set_state_start_timestamp,
      State.set_RX_COMMAND, State.set_rxWord, State.set_currColor, State.set_fault,
      State.set_pending, ite_self]

@[simp] theorem motor_forward_fault (s : State) :
    (motor_forward s).fault = s.fault := by
  unfold motor_forward
  simp only [apply_ite State.fault, print_fault, emit_call_fault, wait_fault, write_high_fault,
      write_fwd_low_fault, write_rev_low_fault, write_led_red_fault, write_led_green_fault,
      delay_ms_fault, rgb_set_led_fault, motor_stop_fault, isr_prox_sensor_fault, runIsrs_fault,
      delay_fault, sensor_bypass_fault, drag_lights_fault, State.set_PIN_PROX_SENSOR,
      State.set_PREV_SENSOR_STATE, State.set_SENSOR_STATE, State.set_SENSOR_OVERRIDE,
      State.set_HOMING_ACTIVE, State.set_HOMING, State.set_HOME_DIRECTION, State.set_HOMED_POS,
      State.set_CURRENT_POS, State.set_PREVIOUS_POS, State.set_TRIGGER_ORDER,
      State.set_TRIGGER_ORDER2, State.set_SOURCE, State.set_state_start_timestamp,
      State.set_RX_COMMAND, State.set_rxWord, State.set_currColor, State.set_fault,
      State.set_pending, ite_self]

@[simp] theorem motor_forward_calls (f : Fn) (s : State) :
    calls f (motor_forward s).trace = calls f s.trace := by
  unfold motor_forward
  simp only [apply_ite State.trace, apply_ite (calls f), print_calls, wait_calls,
      write_high_calls, write_fwd_low_calls, write_rev_low_calls, write_led_red_calls,
      write_led_green_calls, delay_ms_calls, rgb_set_led_calls, motor_stop_calls,
      isr_prox_sensor_calls, runIsrs_calls, delay_calls, sensor_bypass_calls, drag_lights_calls,
      State.set_PIN_PROX_SENSOR, State.set_PREV_SENSOR_STATE, State.set_SENSOR_STATE,
      State.set_SENSOR_OVERRIDE, State.set_HOMING_ACTIVE, State.set_HOMING,
      State.set_HOME_DIRECTION, State.set_HOMED_POS, State.set_CURRENT_POS,
      State.set_PREVIOUS_POS, State.set_TRIGGER_ORDER, State.set_TRIGGER_ORDER2, State.set_SOURCE,
      State.set_state_start_timestamp, State.set_RX_COMMAND, State.set_rxWord,
      State.set_currColor, State.set_fault, State.set_pending, ite_self]

@[simp] theorem motor_forward_revAsserts (s : State) :
    revAsserts (motor_forward s).trace = revAsserts s.trace := by
  unfold motor_forward
  simp only [apply_ite State.trace, apply_ite revAsserts, print_revAsserts, emit_call_revAsserts,
      wait_revAsserts, write_high_revAsserts, write_fwd_low_revAsserts, write_led_red_revAsserts,
      write_led_green_revAsserts, delay_ms_revAsserts, rgb_set_led_revAsserts,
      motor_stop_revAsserts, isr_prox_sensor_revAsserts, runIsrs_revAsserts, delay_revAsserts,
      sensor_bypass_revAsserts, drag_lights_revAsserts, State.set_PIN_PROX_SENSOR,
      State.set_PREV_SENSOR_STATE, State.set_SENSOR_STATE, State.set_SENSOR_OVERRIDE,
      State.set_HOMING_ACTIVE, State.set_HOMING, State.set_HOME_DIRECTION, State.set_HOMED_POS,
      State.set_CURRENT_POS, State.set_PREVIOUS_POS, State.set_TRIGGER_ORDER,
      State.set_TRIGGER_ORDER2, State.set_SOURCE, State.set_state_start_timestamp,
      State.set_RX_COMMAND, State.set_rxWord, State.set_currColor, State.set_fault,
      State.set_pending, ite_self]

@[simp] theorem motor_reverse_PIN_MOTOR_FWD (s : State) :
    (motor_reverse s).PIN_MOTOR_FWD = s.PIN_MOTOR_FWD := by
  unfold motor_reverse
  simp only [apply_ite State.PIN_MOTOR_FWD, print_PIN_MOTOR_FWD, emit_call_PIN_MOTOR_FWD,
      wait_PIN_MOTOR_FWD, write_rev_low_PIN_MOTOR_FWD, write_led_red_PIN_MOTOR_FWD,
      write_led_green_PIN_MOTOR_FWD, delay_ms_PIN_MOTOR_FWD, rgb_set_led_PIN_MOTOR_FWD,
      State.set_PIN_PROX_SENSOR, State.set_PREV_SENSOR_STATE, State.set_SENSOR_STATE,
      State.set_SENSOR_OVERRIDE, State.set_HOMING_ACTIVE, State.set_HOMING,
      State.set_HOME_DIRECTION, State.set_HOMED_POS, State.set_CURRENT_POS,
      State.set_PREVIOUS_POS, State.set_TRIGGER_ORDER, State.set_TRIGGER_ORDER2, State.set_SOURCE,
      State.set_state_start_timestamp, State.set_RX_COMMAND, State.set_rxWord,
      State.set_currColor, State.set_fault, State.set_pending, ite_self]

@[simp] theorem motor_reverse_SENSOR_OVERRIDE (s : State) :
    (motor_reverse s).SENSOR_OVERRIDE = s.SENSOR_OVERRIDE := by
  unfold motor_reverse
  simp only [apply_ite State.SENSOR_OVERRIDE, print_SENSOR_OVERRIDE, emit_call_SENSOR_OVERRIDE,
      wait_SENSOR_OVERRIDE, write_high_SENSOR_OVERRIDE, write_fwd_low_SENSOR_OVERRIDE,
      write_rev_low_SENSOR_OVERRIDE, write_led_red_SENSOR_OVERRIDE,
      write_led_green_SENSOR_OVERRIDE, delay_ms_SENSOR_OVERRIDE, rgb_set_led_SENSOR_OVERRIDE,
      motor_stop_SENSOR_OVERRIDE, isr_prox_sensor_SENSOR_OVERRIDE, runIsrs_SENSOR_OVERRIDE,
      delay_SENSOR_OVERRIDE, drag_lights_SENSOR_OVERRIDE, motor_forward_SENSOR_OVERRIDE,
      State.set_PIN_PROX_SENSOR, State.set_PREV_SENSOR_STATE, State.set_SENSOR_STATE,
      State.set_SENSOR_OVERRIDE, State.set_HOMING_ACTIVE, State.set_HOMING,
      State.set_HOME_DIRECTION, State.set_HOMED_POS, State.set_CURRENT_POS,
      State.set_PREVIOUS_POS, State.set_TRIGGER_ORDER, State.set_TRIGGER_ORDER2, State.set_SOURCE,
      State.set_state_start_timestamp, State.set_RX_COMMAND, State.set_rxWord,
      State.set_currColor, State.set_fault, State.set_pending, ite_self]

@[simp] theorem motor_reverse_TRIGGER_ORDER (s : State) :
    (motor_reverse s).TRIGGER_ORDER = s.TRIGGER_ORDER := by
  unfold motor_reverse
  simp only [apply_ite State.TRIGGER_ORDER, print_TRIGGER_ORDER, emit_call_TRIGGER_ORDER,
      wait_TRIGGER_ORDER, write_high_TRIGGER_ORDER, write_fwd_low_TRIGGER_ORDER,
      write_rev_low_TRIGGER_ORDER, write_led_red_TRIGGER_ORDER, write_led_green_TRIGGER_ORDER,
      delay_ms_TRIGGER_ORDER, rgb_set_led_TRIGGER_ORDER, motor_stop_TRIGGER_ORDER,
      motor_forward_TRIGGER_ORDER, State.set_PIN_PROX_SENSOR, State.set_PREV_SENSOR_STATE,
      State.set_SENSOR_STATE, State.set_SENSOR_OVERRIDE, State.set_HOMING_ACTIVE,
      State.set_HOMING, State.set_HOME_DIRECTION, State.set_HOMED_POS, State.set_CURRENT_POS,
      State.set_PREVIOUS_POS, State.set_TRIGGER_ORDER, State.set_TRIGGER_ORDER2, State.set_SOURCE,
      State.set_state_start_timestamp, State.set_RX_COMMAND, State.set_rxWord,
      State.set_currColor, State.set_fault, State.set_pending, ite_self]

@[simp] theorem motor_reverse_SENSOR_STATE (s : State) :
    (motor_reverse s).SENSOR_STATE = s.SENSOR_STATE := by
  unfold motor_reverse
  simp only [apply_ite State.SENSOR_STATE, print_SENSOR_STATE, emit_call_SENSOR_STATE,
      wait_SENSOR_STATE, write_high_SENSOR_STATE, write_fwd_low_SENSOR_STATE,
      write_rev_low_SENSOR_STATE, write_led_red_SENSOR_STATE, write_led_green_SENSOR_STATE,
      delay_ms_SENSOR_STATE, rgb_set_led_SENSOR_STATE, motor_stop_SENSOR_STATE,
      motor_forward_SENSOR_STATE, State.set_PIN_PROX_SENSOR, State.set_PREV_SENSOR_STATE,
      State.set_SENSOR_STATE, State.set_SENSOR_OVERRIDE, State.set_HOMING_ACTIVE,
      State.set_HOMING, State.set_HOME_DIRECTION, State.set_HOMED_POS, State.set_CURRENT_POS,
      State.set_PREVIOUS_POS, State.set_TRIGGER_ORDER, State.set_TRIGGER_ORDER2, State.set_SOURCE,
      State.set_state_start_timestamp, State.set_RX_COMMAND, State.set_rxWord,
      State.set_currColor, State.set_fault, State.set_pending, ite_self]

@[simp] theorem motor_reverse_CURRENT_POS (s : State) :
    (motor_reverse s).CURRENT_POS = s.CURRENT_POS := by
  unfold motor_reverse
  simp only [apply_ite State.CURRENT_POS, print_CURRENT_POS, emit_call_CURRENT_POS,
      wait_CURRENT_POS, write_high_CURRENT_POS, write_fwd_low_CURRENT_POS,
      write_rev_low_CURRENT_POS, write_led_red_CURRENT_POS, write_led_green_CURRENT_POS,
      delay_ms_CURRENT_POS, rgb_set_led_CURRENT_POS, motor_stop_CURRENT_POS,
      isr_prox_sensor_CURRENT_POS, runIsrs_CURRENT_POS, delay_CURRENT_POS,
      sensor_bypass_CURRENT_POS, drag_lights_CURRENT_POS, motor_forward_CURRENT_POS,
      State.set_PIN_PROX_SENSOR, State.set_PREV_SENSOR_STATE, State.set_SENSOR_STATE,
      State.set_SENSOR_OVERRIDE, State.set_HOMING_ACTIVE, State.set_HOMING,
      State.set_HOME_DIRECTION, State.set_HOMED_POS, State.set_CURRENT_POS,
      State.set_PREVIOUS_POS, State.set_TRIGGER_ORDER, State.set_TRIGGER_ORDER2, State.set_SOURCE,
      State.set_state_start_timestamp, State.set_RX_COMMAND, State.set_rxWord,
      State.set_currColor, State.set_fault, State.set_pending, ite_self]

@[simp] theorem motor_reverse_PREVIOUS_POS (s : State) :
    (motor_reverse s).PREVIOUS_POS = s.PREVIOUS_POS := by
  unfold motor_reverse
  simp only [apply_ite State.PREVIOUS_POS, print_PREVIOUS_POS, emit_call_PREVIOUS_POS,
      wait_PREVIOUS_POS, write_high_PREVIOUS_POS, write_fwd_low_PREVIOUS_POS,
      write_rev_low_PREVIOUS_POS, write_led_red_PREVIOUS_POS, write_led_green_PREVIOUS_POS,
      delay_ms_PREVIOUS_POS, rgb_set_led_PREVIOUS_POS, motor_stop_PREVIOUS_POS,
      isr_prox_sensor_PREVIOUS_POS, runIsrs_PREVIOUS_POS, delay_PREVIOUS_POS,
      sensor_bypass_PREVIOUS_POS, drag_lights_PREVIOUS_POS, motor_forward_PREVIOUS_POS,
      State.set_PIN_PROX_SENSOR, State.set_PREV_SENSOR_STATE, State.set_SENSOR_STATE,
      State.set_SENSOR_OVERRIDE, State.set_HOMING_ACTIVE, State.set_HOMING,
      State.set_HOME_DIRECTION, State.set_HOMED_POS, State.set_CURRENT_POS,
      State.set_PREVIOUS_POS, State.set_TRIGGER_ORDER, State.set_TRIGGER_ORDER2, State.set_SOURCE,
      State.set_state_start_timestamp, State.set_RX_COMMAND, State.set_rxWord,
      State.set_currColor, State.set_fault, State.set_pending, ite_self]

@[simp] theorem motor_reverse_HOMING (s : State) :
    (motor_reverse s).HOMING = s.HOMING := by
  unfold motor_reverse
  simp only [apply_ite State.HOMING, print_HOMING, emit_call_HOMING, wait_HOMING,
      write_high_HOMING, write_fwd_low_HOMING, write_rev_low_HOMING, write_led_red_HOMING,
      write_led_green_HOMING, delay_ms_HOMING, rgb_set_led_HOMING, motor_stop_HOMING,
      isr_prox_sensor_HOMING, runIsrs_HOMING, delay_HOMING, sensor_bypass_HOMING,
      drag_lights_HOMING, motor_forward_HOMING, State.set_PIN_PROX_SENSOR,
      State.set_PREV_SENSOR_STATE, State.set_SENSOR_STATE, State.set_SENSOR_OVERRIDE,
      State.set_HOMING_ACTIVE, State.set_HOMING, State.set_HOME_DIRECTION, State.set_HOMED_POS,
      State.set_CURRENT_POS, State.set_PREVIOUS_POS, State.set_TRIGGER_ORDER,
      State.set_TRIGGER_ORDER2, State.set_SOURCE, State.set_state_start_timestamp,
      State.set_RX_COMMAND, State.set_rxWord, State.set_currColor, State.set_fault,
      State.set_pending, ite_self]

@[simp] theorem motor_reverse_HOMING_ACTIVE (s : State) :
    (motor_reverse s).HOMING_ACTIVE = s.HOMING_ACTIVE := by
  unfold motor_reverse
  simp only [apply_ite State.HOMING_ACTIVE, print_HOMING_ACTIVE, emit_call_HOMING_ACTIVE,
      wait_HOMING_ACTIVE, write_high_HOMING_ACTIVE, write_fwd_low_HOMING_ACTIVE,
      write_rev_low_HOMING_ACTIVE, write_led_red_HOMING_ACTIVE, write_led_green_HOMING_ACTIVE,
      delay_ms_HOMING_ACTIVE, rgb_set_led_HOMING_ACTIVE, motor_stop_HOMING_ACTIVE,
      isr_prox_sensor_HOMING_ACTIVE, runIsrs_HOMING_ACTIVE, delay_HOMING_ACTIVE,
      sensor_bypass_HOMING_ACTIVE, drag_lights_HOMING_ACTIVE, motor_forward_HOMING_ACTIVE,
      State.set_PIN_PROX_SENSOR, State.set_PREV_SENSOR_STATE, State.set_SENSOR_STATE,
      State.set_SENSOR_OVERRIDE, State.set_HOMING_ACTIVE, State.set_HOMING,
      State.set_HOME_DIRECTION, State.set_HOMED_POS, State.set_CURRENT_POS,
      State.set_PREVIOUS_POS, State.set_TRIGGER_ORDER, State.set_TRIGGER_ORDER2, State.set_SOURCE,
      State.set_state_start_timestamp, State.set_RX_COMMAND, State.set_rxWord,
      State.set_currColor, State.set_fault, State.set_pending, ite_self]

@[simp] theorem motor_reverse_HOME_DIRECTION (s : State) :
    (motor_reverse s).HOME_DIRECTION = s.HOME_DIRECTION := by
  unfold motor_reverse
  simp only [apply_ite State.HOME_DIRECTION, print_HOME_DIRECTION, emit_call_HOME_DIRECTION,
      wait_HOME_DIRECTION, write_high_HOME_DIRECTION, write_fwd_low_HOME_DIRECTION,
      write_rev_low_HOME_DIRECTION, write_led_red_HOME_DIRECTION, write_led_green_HOME_DIRECTION,
      delay_ms_HOME_DIRECTION, rgb_set_led_HOME_DIRECTION, motor_stop_HOME_DIRECTION,
      isr_prox_sensor_HOME_DIRECTION, runIsrs_HOME_DIRECTION, delay_HOME_DIRECTION,
      sensor_bypass_HOME_DIRECTION, drag_lights_HOME_DIRECTION, motor_forward_HOME_DIRECTION,
      State.set_PIN_PROX_SENSOR, State.set_PREV_SENSOR_STATE, State.set_SENSOR_STATE,
      State.set_SENSOR_OVERRIDE, State.set_HOMING_ACTIVE, State.set_HOMING,
      State.set_HOME_DIRECTION, State.set_HOMED_POS, State.set_CURRENT_POS,
      State.set_PREVIOUS_POS, State.set_TRIGGER_ORDER, State.set_TRIGGER_ORDER2, State.set_SOURCE,
      State.set_state_start_timestamp, State.set_RX_COMMAND, State.set_rxWord,
      State.set_currColor, State.set_fault, State.set_pending, ite_self]

@[simp] theorem motor_reverse_HOMED_POS (s : State) :
    (motor_reverse s).HOMED_POS = s.HOMED_POS := by
  unfold motor_reverse
  simp only [apply_ite State.HOMED_POS, print_HOMED_POS, emit_call_HOMED_POS, wait_HOMED_POS,
      write_high_HOMED_POS, write_fwd_low_HOMED_POS, write_rev_low_HOMED_POS,
      write_led_red_HOMED_POS, write_led_green_HOMED_POS, delay_ms_HOMED_POS,
      rgb_set_led_HOMED_POS, motor_stop_HOMED_POS, isr_prox_sensor_HOMED_POS, runIsrs_HOMED_POS,
      delay_HOMED_POS, sensor_bypass_HOMED_POS, drag_lights_HOMED_POS, motor_forward_HOMED_POS,
      State.set_PIN_PROX_SENSOR, State.set_PREV_SENSOR_STATE, State.set_SENSOR_STATE,
      State.set_SENSOR_OVERRIDE, State.set_HOMING_ACTIVE, State.set_HOMING,
      State.set_HOME_DIRECTION, State.set_HOMED_POS, State.set_CURRENT_POS,
      State.set_PREVIOUS_POS, State.set_TRIGGER_ORDER, State.set_TRIGGER_ORDER2, State.set_SOURCE,
      State.set_state_start_timestamp, State.set_RX_COMMAND, State.set_rxWord,
      State.set_currColor, State.set_fault, State.set_pending, ite_self]

@[simp] theorem motor_reverse_fault (s : State) :
    (motor_reverse s).fault = s.fault := by
  unfold motor_reverse
  simp only [apply_ite State.fault, print_fault, emit_call_fault, wait_fault, write_high_fault,
      write_fwd_low_fault, write_rev_low_fault, write_led_red_fault, write_led_green_fault,
      delay_ms_fault, rgb_set_led_fault, motor_stop_fault, isr_prox_sensor_fault, runIsrs_fault,
      delay_fault, sensor_bypass_fault, drag_lights_fault, motor_forward_fault,
      State.set_PIN_PROX_SENSOR, State.set_PREV_SENSOR_STATE, State.set_SENSOR_STATE,
      State.set_SENSOR_OVERRIDE, State.set_HOMING_ACTIVE, State.set_HOMING,
      State.set_HOME_DIRECTION, State.set_HOMED_POS, State.set_CURRENT_POS,
      State.set_PREVIOUS_POS, State.set_TRIGGER_ORDER, State.set_TRIGGER_ORDER2, State.set_SOURCE,
      State.set_state_start_timestamp, State.set_RX_COMMAND, State.set_rxWord,
      State.set_currColor, State.set_fault, State.set_pending, ite_self]

@[simp] theorem motor_reverse_calls (f : Fn) (s : State) :
    calls f (motor_reverse s).trace = calls f s.trace := by
  unfold motor_reverse
  simp only [apply_ite State.trace, apply_ite (calls f), print_calls, wait_calls,
      write_high_calls, write_fwd_low_calls, write_rev_low_calls, write_led_red_calls,
      write_led_green_calls, delay_ms_calls, rgb_set_led_calls, motor_stop_calls,
      isr_prox_sensor_calls, runIsrs_calls, delay_calls, sensor_bypass_calls, drag_lights_calls,
      motor_forward_calls, State.set_PIN_PROX_SENSOR, State.set_PREV_SENSOR_STATE,
      State.set_SENSOR_STATE, State.set_SENSOR_OVERRIDE, State.set_HOMING_ACTIVE,
      State.set_HOMING, State.set_HOME_DIRECTION, State.set_HOMED_POS, State.set_CURRENT_POS,
      State.set_PREVIOUS_POS, State.set_TRIGGER_ORDER, State.set_TRIGGER_ORDER2, State.set_SOURCE,
      State.set_state_start_timestamp, State.set_RX_COMMAND, State.set_rxWord,
      State.set_currColor, State.set_fault, State.set_pending, ite_self]

@[simp] theorem motor_reverse_fwdAsserts (s : State) :
    fwdAsserts (motor_reverse s).trace = fwdAsserts s.trace := by
  unfold motor_reverse
  simp only [apply_ite State.trace, apply_ite fwdAsserts, print_fwdAsserts, emit_call_fwdAsserts,
      wait_fwdAsserts, write_high_fwdAsserts, write_rev_low_fwdAsserts, write_led_red_fwdAsserts,
      write_led_green_fwdAsserts, delay_ms_fwdAsserts, rgb_set_led_fwdAsserts,
      motor_stop_fwdAsserts, isr_prox_sensor_fwdAsserts, runIsrs_fwdAsserts, delay_fwdAsserts,
      sensor_bypass_fwdAsserts, drag_lights_fwdAsserts, State.set_PIN_PROX_SENSOR,
      State.set_PREV_SENSOR_STATE, State.set_SENSOR_STATE, State.set_SENSOR_OVERRIDE,
      State.set_HOMING_ACTIVE, State.set_HOMING, State.set_HOME_DIRECTION, State.set_HOMED_POS,
      State.set_CURRENT_POS, State.set_PREVIOUS_POS, State.set_TRIGGER_ORDER,
      State.set_TRIGGER_ORDER2, State.set_SOURCE, State.set_state_start_timestamp,
      State.set_RX_COMMAND, State.set_rxWord, State.set_currColor, State.set_fault,
      State.set_pending, ite_self]

@[simp] theorem report_pos_PIN_MOTOR_FWD (s : State) :
    (report_pos s).PIN_MOTOR_FWD = s.PIN_MOTOR_FWD := by
  rfl

@[simp] theorem report_pos_PIN_MOTOR_REV (s : State) :
    (report_pos s).PIN_MOTOR_REV = s.PIN_MOTOR_REV := by
  rfl

@[simp] theorem report_pos_SENSOR_OVERRIDE (s : State) :
    (report_pos s).SENSOR_OVERRIDE = s.SENSOR_OVERRIDE := by
  rfl

@[simp] theorem report_pos_TRIGGER_ORDER (s : State) :
    (report_pos s).TRIGGER_ORDER = s.TRIGGER_ORDER := by
  rfl

@[simp] theorem report_pos_SENSOR_STATE (s : State) :
    (report_pos s).SENSOR_STATE = s.SENSOR_STATE := by
  rfl

@[simp] theorem report_pos_CURRENT_POS (s : State) :
    (report_pos s).CURRENT_POS = s.CURRENT_POS := by
  rfl

@[simp] theorem report_pos_PREVIOUS_POS (s : State) :
    (report_pos s).PREVIOUS_POS = s.PREVIOUS_POS := by
  rfl

@[simp] theorem report_pos_HOMING (s : State) :
    (report_pos s).HOMING = s.HOMING := by
  rfl

@[simp] theorem report_pos_HOMING_ACTIVE (s : State) :
    (report_pos s).HOMING_ACTIVE = s.HOMING_ACTIVE := by
  rfl

@[simp] theorem report_pos_HOME_DIRECTION (s : State) :
    (report_pos s).HOME_DIRECTION = s.HOME_DIRECTION := by
  rfl

@[simp] theorem report_pos_HOMED_POS (s : State) :
    (report_pos s).HOMED_POS = s.HOMED_POS := by
  rfl

@[simp] theorem report_pos_fault (s : State) :
    (report_pos s).fault = s.fault := by
  rfl

@[simp] theorem report_pos_calls (f : Fn) (s : State) :
    calls f (report_pos s).trace = calls f s.trace := by
  exact print_calls f _ s

@[simp] theorem report_pos_refusals (s : State) :
    refusals (report_pos s).trace = refusals s.trace := by
  exact print_refusals_of _ s rfl

@[simp] theorem report_pos_fwdAsserts (s : State) :
    fwdAsserts (report_pos s).trace = fwdAsserts s.trace := by
  exact print_fwdAsserts _ s

@[simp] theorem report_pos_revAsserts (s : State) :
    revAsserts (report_pos s).trace = revAsserts s.trace := by
  exact print_revAsserts _ s

/-! ## What the homing stages leave alone -/

theorem Steady.rfl (s : State) : Steady s s :=
  ⟨Eq.refl _, Eq.refl _, Eq.refl _, Eq.refl _, Eq.refl _, fun _ => Eq.refl _⟩

theorem Steady.trans {s x y : State} (h1 : Steady s x) (h2 : Steady x y) : Steady s y :=
  ⟨h2.CURRENT_POS.trans h1.CURRENT_POS, h2.PREVIOUS_POS.trans h1.PREVIOUS_POS,
    h2.HOMING_ACTIVE.trans h1.HOMING_ACTIVE, h2.HOMED_POS.trans h1.HOMED_POS,
    h2.fault.trans h1.fault, fun f => (h2.calls f).trans (h1.calls f)⟩

theorem steady_ite {c : Prop} [Decidable c] {s a b : State} (ha : Steady s a)
    (hb : Steady s b) : Steady s (if c then a else b) := by
  split <;> assumption

theorem steady_motor_stop {s x : State} (h : Steady s x) :
    Steady s (motor_stop x) :=
  ⟨(motor_stop_CURRENT_POS _).trans h.CURRENT_POS, (motor_stop_PREVIOUS_POS _).trans h.PREVIOUS_POS,
    (motor_stop_HOMING_ACTIVE _).trans h.HOMING_ACTIVE, (motor_stop_HOMED_POS _).trans h.HOMED_POS,
    (motor_stop_fault _).trans h.fault, fun f => (motor_stop_calls f _).trans (h.calls f)⟩

theorem steady_motor_forward {s x : State} (h : Steady s x) :
    Steady s (motor_forward x) :=
  ⟨(motor_forward_CURRENT_POS _).trans h.CURRENT_POS, (motor_forward_PREVIOUS_POS _).trans h.PREVIOUS_POS,
    (motor_forward_HOMING_ACTIVE _).trans h.HOMING_ACTIVE, (motor_forward_HOMED_POS _).trans h.HOMED_POS,
    (motor_forward_fault _).trans h.fault, fun f => (motor_forward_calls f _).trans (h.calls f)⟩

theorem steady_motor_reverse {s x : State} (h : Steady s x) :
    Steady s (motor_reverse x) :=
  ⟨(motor_reverse_CURRENT_POS _).trans h.CURRENT_POS, (motor_reverse_PREVIOUS_POS _).trans h.PREVIOUS_POS,
    (motor_reverse_HOMING_ACTIVE _).trans h.HOMING_ACTIVE, (motor_reverse_HOMED_POS _).trans h.HOMED_POS,
    (motor_reverse_fault _).trans h.fault, fun f => (motor_reverse_calls f _).trans (h.calls f)⟩

theorem steady_delay (ms : Nat) {s x : State} (h : Steady s x) :
    Steady s (delay ms x) :=
  ⟨(delay_CURRENT_POS _ _).trans h.CURRENT_POS, (delay_PREVIOUS_POS _ _).trans h.PREVIOUS_POS,
    (delay_HOMING_ACTIVE _ _).trans h.HOMING_ACTIVE, (delay_HOMED_POS _ _).trans h.HOMED_POS,
    (delay_fault _ _).trans h.fault, fun f => (delay_calls f _ _).trans (h.calls f)⟩

theorem steady_delay_ms (d : Nat) {s x : State} (h : Steady s x) :
    Steady s ((delay_ms d x).2) :=
  ⟨(delay_ms_CURRENT_POS _ _).trans h.CURRENT_POS, (delay_ms_PREVIOUS_POS _ _).trans h.PREVIOUS_POS,
    (delay_ms_HOMING_ACTIVE _ _).trans h.HOMING_ACTIVE, (delay_ms_HOMED_POS _ _).trans h.HOMED_POS,
    (delay_ms_fault _ _).trans h.fault, fun f => (delay_ms_calls f _ _).trans (h.calls f)⟩

theorem steady_sensor_bypass {s x : State} (h : Steady s x) :
    Steady s (sensor_bypass x) :=
  ⟨(sensor_bypass_CURRENT_POS _).trans h.CURRENT_POS, (sensor_bypass_PREVIOUS_POS _).trans h.PREVIOUS_POS,
    (sensor_bypass_HOMING_ACTIVE _).trans h.HOMING_ACTIVE, (sensor_bypass_HOMED_POS _).trans h.HOMED_POS,
    (sensor_bypass_fault _).trans h.fault, fun f => (sensor_bypass_calls f _).trans (h.calls f)⟩

theorem steady_print (m : Msg) {s x : State} (h : Steady s x) :
    Steady s (print m x) :=
  ⟨(print_CURRENT_POS _ _).trans h.CURRENT_POS, (print_PREVIOUS_POS _ _).trans h.PREVIOUS_POS,
    (print_HOMING_ACTIVE _ _).trans h.HOMING_ACTIVE, (print_HOMED_POS _ _).trans h.HOMED_POS,
    (print_fault _ _).trans h.fault, fun f => (print_calls f _ _).trans (h.calls f)⟩

theorem steady_report_pos {s x : State} (h : Steady s x) :
    Steady s (report_pos x) :=
  ⟨(report_pos_CURRENT_POS _).trans h.CURRENT_POS, (report_pos_PREVIOUS_POS _).trans h.PREVIOUS_POS,
    (report_pos_HOMING_ACTIVE _).trans h.HOMING_ACTIVE, (report_pos_HOMED_POS _).trans h.HOMED_POS,
    (report_pos_fault _).trans h.fault, fun f => (report_pos_calls f _).trans (h.calls f)⟩

theorem steady_drag_lights {s x : State} (h : Steady s x) :
    Steady s (drag_lights x) :=
  ⟨(drag_lights_CURRENT_POS _).trans h.CURRENT_POS, (drag_lights_PREVIOUS_POS _).trans h.PREVIOUS_POS,
    (drag_lights_HOMING_ACTIVE _).trans h.HOMING_ACTIVE, (drag_lights_HOMED_POS _).trans h.HOMED_POS,
    (drag_lights_fault _).trans h.fault, fun f => (drag_lights_calls f _).trans (h.calls f)⟩

theorem steady_rgb_set_led (c : Nat) {s x : State} (h : Steady s x) :
    Steady s (rgb_set_led c x) :=
  ⟨(rgb_set_led_CURRENT_POS _ _).trans h.CURRENT_POS, (rgb_set_led_PREVIOUS_POS _ _).trans h.PREVIOUS_POS,
    (rgb_set_led_HOMING_ACTIVE _ _).trans h.HOMING_ACTIVE, (rgb_set_led_HOMED_POS _ _).trans h.HOMED_POS,
    (rgb_set_led_fault _ _).trans h.fault, fun f => (rgb_set_led_calls f _ _).trans (h.calls f)⟩

theorem steady_set_PIN_PROX_SENSOR (v : Level) {s x : State} (h : Steady s x) :
    Steady s (x.set_PIN_PROX_SENSOR v) :=
  ⟨h.CURRENT_POS, h.PREVIOUS_POS, h.HOMING_ACTIVE, h.HOMED_POS, h.fault, h.calls⟩

theorem steady_set_PREV_SENSOR_STATE (v : Int) {s x : State} (h : Steady s x) :
    Steady s (x.set_PREV_SENSOR_STATE v) :=
  ⟨h.CURRENT_POS, h.PREVIOUS_POS, h.HOMING_ACTIVE, h.HOMED_POS, h.fault, h.calls⟩

theorem steady_set_SENSOR_STATE (v : Int) {s x : State} (h : Steady s x) :
    Steady s (x.set_SENSOR_STATE v) :=
  ⟨h.CURRENT_POS, h.PREVIOUS_POS, h.HOMING_ACTIVE, h.HOMED_POS, h.fault, h.calls⟩

theorem steady_set_SENSOR_OVERRIDE (v : Int) {s x : State} (h : Steady s x) :
    Steady s (x.set_SENSOR_OVERRIDE v) :=
  ⟨h.CURRENT_POS, h.PREVIOUS_POS, h.HOMING_ACTIVE, h.HOMED_POS, h.fault, h.calls⟩

theorem steady_set_HOMING (v : Int) {s x : State} (h : Steady s x) :
    Steady s (x.set_HOMING v) :=
  ⟨h.CURRENT_POS, h.PREVIOUS_POS, h.HOMING_ACTIVE, h.HOMED_POS, h.fault, h.calls⟩

theorem steady_set_HOME_DIRECTION (v : Int) {s x : State} (h : Steady s x) :
    Steady s (x.set_HOME_DIRECTION v) :=
  ⟨h.CURRENT_POS, h.PREVIOUS_POS, h.HOMING_ACTIVE, h.HOMED_POS, h.fault, h.calls⟩

theorem steady_set_TRIGGER_ORDER (v : String) {s x : State} (h : Steady s x) :
    Steady s (x.set_TRIGGER_ORDER v) :=
  ⟨h.CURRENT_POS, h.PREVIOUS_POS, h.HOMING_ACTIVE, h.HOMED_POS, h.fault, h.calls⟩

theorem steady_set_TRIGGER_ORDER2 (v : String) {s x : State} (h : Steady s x) :
    Steady s (x.set_TRIGGER_ORDER2 v) :=
  ⟨h.CURRENT_POS, h.PREVIOUS_POS, h.HOMING_ACTIVE, h.HOMED_POS, h.fault, h.calls⟩

theorem steady_set_SOURCE (v : Int) {s x : State} (h : Steady s x) :
    Steady s (x.set_SOURCE v) :=
  ⟨h.CURRENT_POS, h.PREVIOUS_POS, h.HOMING_ACTIVE, h.HOMED_POS, h.fault, h.calls⟩

theorem steady_set_state_start_timestamp (v : Nat) {s x : State} (h : Steady s x) :
    Steady s (x.set_state_start_timestamp v) :=
  ⟨h.CURRENT_POS, h.PREVIOUS_POS, h.HOMING_ACTIVE, h.HOMED_POS, h.fault, h.calls⟩

theorem steady_set_RX_COMMAND (v : Int) {s x : State} (h : Steady s x) :
    Steady s (x.set_RX_COMMAND v) :=
  ⟨h.CURRENT_POS, h.PREVIOUS_POS, h.HOMING_ACTIVE, h.HOMED_POS, h.fault, h.calls⟩

theorem steady_set_rxWord (v : String) {s x : State} (h : Steady s x) :
    Steady s (x.set_rxWord v) :=
  ⟨h.CURRENT_POS, h.PREVIOUS_POS, h.HOMING_ACTIVE, h.HOMED_POS, h.fault, h.calls⟩

theorem steady_set_currColor (v : Nat) {s x : State} (h : Steady s x) :
    Steady s (x.set_currColor v) :=
  ⟨h.CURRENT_POS, h.PREVIOUS_POS, h.HOMING_ACTIVE, h.HOMED_POS, h.fault, h.calls⟩

theorem steady_set_pending (v : List (List (Level × Level))) {s x : State} (h : Steady s x) :
    Steady s (x.set_pending v) :=
  ⟨h.CURRENT_POS, h.PREVIOUS_POS, h.HOMING_ACTIVE, h.HOMED_POS, h.fault, h.calls⟩

theorem steady_homing_1 {s x : State} (h : Steady s x) : Steady s (homing_1 x) := by
  unfold homing_1
  repeat' with_reducible first
    | exact h | apply steady_motor_stop | apply steady_motor_forward | apply steady_motor_reverse
    | apply steady_delay | apply steady_delay_ms | apply steady_print
    | apply steady_set_HOME_DIRECTION | apply steady_set_HOMING | apply steady_set_TRIGGER_ORDER
    | apply steady_set_TRIGGER_ORDER2 | apply steady_ite

theorem steady_homing_2 {s x : State} (h : Steady s x) : Steady s (homing_2 x) := by
  unfold homing_2
  repeat' with_reducible first
    | exact h | apply steady_motor_stop | apply steady_motor_forward | apply steady_motor_reverse
    | apply steady_delay | apply steady_sensor_bypass | apply steady_print
    | apply steady_set_HOME_DIRECTION | apply steady_set_HOMING | apply steady_set_TRIGGER_ORDER
    | apply steady_set_TRIGGER_ORDER2 | apply steady_ite

theorem steady_homing_3 {s x : State} (h : Steady s x) : Steady s (homing_3 x) := by
  unfold homing_3
  repeat' with_reducible first
    | exact h | apply steady_motor_stop | apply steady_motor_forward | apply steady_motor_reverse
    | apply steady_delay | apply steady_sensor_bypass | apply steady_print
    | apply steady_set_HOME_DIRECTION | apply steady_set_HOMING | apply steady_set_TRIGGER_ORDER
    | apply steady_set_TRIGGER_ORDER2 | apply steady_ite

theorem steady_homing_4_probe {s x : State} (h : Steady s x) : Steady s (homing_4_probe x) := by
  unfold homing_4_probe
  repeat' with_reducible first
    | exact h | apply steady_motor_stop | apply steady_motor_forward | apply steady_motor_reverse
    | apply steady_delay | apply steady_sensor_bypass | apply steady_print
    | apply steady_set_HOME_DIRECTION | apply steady_set_HOMING | apply steady_ite

theorem steady_homing_4_finish {s x : State} (h : Steady s x) : Steady s (homing_4_finish x) := by
  unfold homing_4_finish
  repeat' with_reducible first
    | exact h | apply steady_drag_lights | apply steady_set_TRIGGER_ORDER
    | apply steady_set_TRIGGER_ORDER2 | apply steady_ite

/-! ## The interlock invariant -/

theorem Inv.not_both {s : State} (h : Inv s) :
    ¬(s.PIN_MOTOR_FWD = .LOW ∧ s.PIN_MOTOR_REV = .LOW) := by
  obtain ⟨hl, hi⟩ := h
  rintro ⟨hf, hr⟩
  rw [hf, hr] at hl
  cases ht : s.trace with
  | nil => rw [ht] at hl; simp [linesOf] at hl
  | cons e t => rw [ht] at hl hi; exact hi.1 hl

/-- Logging one event keeps the invariant when the lines follow the event and
are not both asserted afterwards. -/
theorem Inv.push {s t : State} (e : Event) (h : Inv s)
    (htr : t.trace = e :: s.trace)
    (hl : (t.PIN_MOTOR_FWD, t.PIN_MOTOR_REV) = e.lines (s.PIN_MOTOR_FWD, s.PIN_MOTOR_REV))
    (hs : ¬(t.PIN_MOTOR_FWD = .LOW ∧ t.PIN_MOTOR_REV = .LOW)) : Inv t := by
  obtain ⟨h1, h2⟩ := h
  have e1 : linesOf t.trace = (t.PIN_MOTOR_FWD, t.PIN_MOTOR_REV) := by
    rw [htr, hl, ← h1]; rfl
  refine ⟨e1, ?_⟩
  rw [htr]
  refine ⟨?_, h2⟩
  rw [← htr, e1]
  intro hc
  exact hs ⟨congrArg Prod.fst hc, congrArg Prod.snd hc⟩

theorem inv_print (m : Msg) {s : State} (h : Inv s) : Inv (print m s) :=
  h.push (.print m) rfl rfl h.not_both

theorem inv_call (f : Fn) {s : State} (h : Inv s) : Inv (emit (.call f) s) :=
  h.push (.call f) rfl rfl h.not_both

theorem inv_wait (ms : Nat) {s : State} (h : Inv s) : Inv (wait ms s) :=
  h.push (.wait ms) rfl rfl h.not_both

theorem inv_write_led_red (v : Level) {s : State} (h : Inv s) :
    Inv (digitalWrite .PIN_LED_RED v s) :=
  h.push (.write .PIN_LED_RED v) rfl rfl h.not_both

theorem inv_write_led_green (v : Level) {s : State} (h : Inv s) :
    Inv (digitalWrite .PIN_LED_GREEN v s) :=
  h.push (.write .PIN_LED_GREEN v) rfl rfl h.not_both

theorem inv_write_fwd_high {s : State} (h : Inv s) :
    Inv (digitalWrite .PIN_MOTOR_FWD .HIGH s) :=
  h.push (.write .PIN_MOTOR_FWD .HIGH) rfl rfl (by rintro ⟨hf, -⟩; cases hf)

theorem inv_write_rev_high {s : State} (h : Inv s) :
    Inv (digitalWrite .PIN_MOTOR_REV .HIGH s) :=
  h.push (.write .PIN_MOTOR_REV .HIGH) rfl rfl (by rintro ⟨-, hr⟩; cases hr)

theorem inv_write_fwd_low {s : State} (h : Inv s) (hr : ¬ s.PIN_MOTOR_REV = .LOW) :
    Inv (digitalWrite .PIN_MOTOR_FWD .LOW s) :=
  h.push (.write .PIN_MOTOR_FWD .LOW) rfl rfl (by rintro ⟨-, h2⟩; exact hr h2)

theorem inv_write_rev_low {s : State} (h : Inv s) (hf : ¬ s.PIN_MOTOR_FWD = .LOW) :
    Inv (digitalWrite .PIN_MOTOR_REV .LOW s) :=
  h.push (.write .PIN_MOTOR_REV .LOW) rfl rfl (by rintro ⟨h1, -⟩; exact hf h1)

theorem inv_ite {c : Prop} [Decidable c] {a b : State} (ha : Inv a) (hb : Inv b) :
    Inv (if c then a else b) := by
  split <;> assumption

/-! Assignments to globals other than the drive lines keep the invariant. -/

theorem inv_set_PIN_PROX_SENSOR (v : Level) {s : State} (h : Inv s) :
    Inv (s.set_PIN_PROX_SENSOR v) := h

theorem inv_set_PREV_SENSOR_STATE (v : Int) {s : State} (h : Inv s) :
    Inv (s.set_PREV_SENSOR_STATE v) := h

theorem inv_set_SENSOR_STATE (v : Int) {s : State} (h : Inv s) :
    Inv (s.set_SENSOR_STATE v) := h

theorem inv_set_SENSOR_OVERRIDE (v : Int) {s : State} (h : Inv s) :
    Inv (s.set_SENSOR_OVERRIDE v) := h

theorem inv_set_HOMING_ACTIVE (v : Bool) {s : State} (h : Inv s) :
    Inv (s.set_HOMING_ACTIVE v) := h

theorem inv_set_HOMING (v : Int) {s : State} (h : Inv s) :
    Inv (s.set_HOMING v) := h

theorem inv_set_HOME_DIRECTION (v : Int) {s : State} (h : Inv s) :
    Inv (s.set_HOME_DIRECTION v) := h

theorem inv_set_HOMED_POS (v : Int) {s : State} (h : Inv s) :
    Inv (s.set_HOMED_POS v) := h

theorem inv_set_CURRENT_POS (v : Int) {s : State} (h : Inv s) :
    Inv (s.set_CURRENT_POS v) := h

theorem inv_set_PREVIOUS_POS (v : Int) {s : State} (h : Inv s) :
    Inv (s.set_PREVIOUS_POS v) := h

theorem inv_set_TRIGGER_ORDER (v : String) {s : State} (h : Inv s) :
    Inv (s.set_TRIGGER_ORDER v) := h

theorem inv_set_TRIGGER_ORDER2 (v : String) {s : State} (h : Inv s) :
    Inv (s.set_TRIGGER_ORDER2 v) := h

theorem inv_set_SOURCE (v : Int) {s : State} (h : Inv s) :
    Inv (s.set_SOURCE v) := h

theorem inv_set_state_start_timestamp (v : Nat) {s : State} (h : Inv s) :
    Inv (s.set_state_start_timestamp v) := h

theorem inv_set_RX_COMMAND (v : Int) {s : State} (h : Inv s) :
    Inv (s.set_RX_COMMAND v) := h

theorem inv_set_rxWord (v : String) {s : State} (h : Inv s) :
    Inv (s.set_rxWord v) := h

theorem inv_set_currColor (v : Nat) {s : State} (h : Inv s) :
    Inv (s.set_currColor v) := h

theorem inv_set_fault (v : Bool) {s : State} (h : Inv s) :
    Inv (s.set_fault v) := h

theorem inv_set_pending (v : List (List (Level × Level))) {s : State} (h : Inv s) :
    Inv (s.set_pending v) := h

theorem inv_rgb_set_led (c : Nat) {s : State} (h : Inv s) : Inv (rgb_set_led c s) := by
  unfold rgb_set_led
  split
  · split
    · exact inv_write_led_green _ (inv_write_led_red _ (inv_set_currColor _ h))
    · exact inv_set_currColor _ h
  · exact h

theorem inv_motor_stop {s : State} (h : Inv s) : Inv (motor_stop s) := by
  unfold motor_stop
  split
  · exact inv_ite (inv_rgb_set_led _ (inv_write_rev_high (inv_write_fwd_high (inv_print _ h))))
      (inv_write_rev_high (inv_write_fwd_high (inv_print _ h)))
  · exact h

theorem rgb_set_led_rev (c : Nat) (s : State) :
    (rgb_set_led c s).PIN_MOTOR_REV = s.PIN_MOTOR_REV := by
  unfold rgb_set_led
  split
  · split <;> rfl
  · rfl

theorem rgb_set_led_fwd (c : Nat) (s : State) :
    (rgb_set_led c s).PIN_MOTOR_FWD = s.PIN_MOTOR_FWD := by
  unfold rgb_set_led
  split
  · split <;> rfl
  · rfl

theorem inv_motor_forward {s : State} (h : Inv s) : Inv (motor_forward s) := by
  unfold motor_forward
  split
  · exact inv_print _ h
  · rename_i hr
    split
    · refine inv_write_fwd_low (inv_ite (inv_rgb_set_led _ (inv_print _ (inv_rgb_set_led _ h)))
        (inv_print _ (inv_rgb_set_led _ h))) ?_
      split
      · rw [rgb_set_led_rev]; show ¬ (rgb_set_led RED s).PIN_MOTOR_REV = .LOW
        rw [rgb_set_led_rev]; exact hr
      · show ¬ (rgb_set_led RED s).PIN_MOTOR_REV = .LOW
        rw [rgb_set_led_rev]; exact hr
    · exact inv_print _ h

theorem inv_motor_reverse {s : State} (h : Inv s) : Inv (motor_reverse s) := by
  unfold motor_reverse
  split
  · exact inv_print _ h
  · rename_i hf
    split
    · refine inv_write_rev_low (inv_ite (inv_rgb_set_led _ (inv_print _ (inv_rgb_set_led _ h)))
        (inv_print _ (inv_rgb_set_led _ h))) ?_
      split
      · rw [rgb_set_led_fwd]; show ¬ (rgb_set_led RED s).PIN_MOTOR_FWD = .LOW
        rw [rgb_set_led_fwd]; exact hf
      · show ¬ (rgb_set_led RED s).PIN_MOTOR_FWD = .LOW
        rw [rgb_set_led_fwd]; exact hf
    · exact inv_print _ h

theorem inv_isr_prox_sensor (r1 r2 : Level) {s : State} (h : Inv s) :
    Inv (isr_prox_sensor r1 r2 s) := by
  unfold isr_prox_sensor
  repeat' with_reducible first
    | exact h | apply inv_rgb_set_led | apply inv_motor_stop | apply inv_wait
    | apply inv_set_PREV_SENSOR_STATE | apply inv_set_SOURCE | apply inv_set_TRIGGER_ORDER
    | apply inv_set_TRIGGER_ORDER2 | apply inv_set_SENSOR_STATE | apply inv_set_PIN_PROX_SENSOR
    | apply inv_ite

theorem inv_runIsrs (edges : List (Level × Level)) {s : State} (h : Inv s) :
    Inv (runIsrs edges s) := by
  induction edges generalizing s with
  | nil => exact h
  | cons e rest ih => exact ih (inv_isr_prox_sensor e.1 e.2 h)

theorem inv_delay (ms : Nat) {s : State} (h : Inv s) : Inv (delay ms s) := by
  unfold delay
  split
  · exact inv_wait _ h
  · exact inv_runIsrs _ (inv_wait _ (inv_set_pending _ h))

theorem inv_sensor_bypass {s : State} (h : Inv s) : Inv (sensor_bypass s) := by
  unfold sensor_bypass
  exact inv_set_SENSOR_OVERRIDE _ (inv_delay _ (inv_set_SENSOR_OVERRIDE _ h))

theorem inv_report_pos {s : State} (h : Inv s) : Inv (report_pos s) := inv_print _ h

theorem inv_drag_lights {s : State} (h : Inv s) : Inv (drag_lights s) := by
  unfold drag_lights
  repeat' with_reducible first | exact h | apply inv_delay | apply inv_rgb_set_led

theorem inv_delay_ms (d : Nat) {s : State} (h : Inv s) : Inv (delay_ms d s).2 := by
  unfold delay_ms
  dsimp only
  split
  · exact h
  · exact h

theorem inv_ite_set_HOMED_POS {c : Prop} [Decidable c] (v : Int) {s : State} (h : Inv s) :
    Inv (if c then s.set_HOMED_POS v else s) := by
  split <;> exact h

theorem inv_ite_set_RX_COMMAND {c : Prop} [Decidable c] (v : Int) {s : State} (h : Inv s) :
    Inv (if c then s.set_RX_COMMAND v else s) := by
  split <;> exact h


theorem inv_move_right {s : State} (h : Inv s) : Inv (move_right s) := by
  unfold move_right
  repeat' with_reducible first
    | exact h | apply inv_motor_stop | apply inv_delay | apply inv_sensor_bypass
    | apply inv_motor_forward | apply inv_motor_reverse | apply inv_report_pos | apply inv_print
    | apply inv_call | apply inv_delay_ms | apply inv_set_CURRENT_POS | apply inv_set_PREVIOUS_POS
    | apply inv_ite

theorem inv_move_left {s : State} (h : Inv s) : Inv (move_left s) := by
  unfold move_left
  repeat' with_reducible first
    | exact h | apply inv_motor_stop | apply inv_delay | apply inv_sensor_bypass
    | apply inv_motor_forward | apply inv_motor_reverse | apply inv_report_pos | apply inv_print
    | apply inv_call | apply inv_delay_ms | apply inv_set_CURRENT_POS | apply inv_set_PREVIOUS_POS
    | apply inv_ite

theorem inv_move_gr1 {s : State} (h : Inv s) : Inv (move_gr1 s) := by
  unfold move_gr1
  repeat' with_reducible first
    | exact h | apply inv_motor_stop | apply inv_delay | apply inv_sensor_bypass
    | apply inv_motor_forward | apply inv_motor_reverse | apply inv_report_pos | apply inv_print
    | apply inv_call | apply inv_delay_ms | apply inv_ite

theorem inv_move_gl1 {s : State} (h : Inv s) : Inv (move_gl1 s) := by
  unfold move_gl1
  repeat' with_reducible first
    | exact h | apply inv_motor_stop | apply inv_delay | apply inv_sensor_bypass
    | apply inv_motor_forward | apply inv_motor_reverse | apply inv_report_pos | apply inv_print
    | apply inv_call | apply inv_delay_ms | apply inv_ite

theorem inv_homing_1 {s : State} (h : Inv s) : Inv (homing_1 s) := by
  unfold homing_1
  repeat' with_reducible first
    | exact h | apply inv_motor_stop | apply inv_delay | apply inv_sensor_bypass
    | apply inv_motor_forward | apply inv_motor_reverse | apply inv_report_pos | apply inv_print
    | apply inv_call | apply inv_delay_ms | apply inv_set_HOME_DIRECTION | apply inv_set_HOMING
    | apply inv_set_TRIGGER_ORDER | apply inv_set_TRIGGER_ORDER2 | apply inv_ite

theorem inv_homing_2 {s : State} (h : Inv s) : Inv (homing_2 s) := by
  unfold homing_2
  repeat' with_reducible first
    | exact h | apply inv_motor_stop | apply inv_delay | apply inv_sensor_bypass
    | apply inv_motor_forward | apply inv_motor_reverse | apply inv_report_pos | apply inv_print
    | apply inv_call | apply inv_delay_ms | apply inv_set_HOME_DIRECTION | apply inv_set_HOMING
    | apply inv_set_TRIGGER_ORDER | apply inv_set_TRIGGER_ORDER2 | apply inv_ite

theorem inv_homing_3 {s : State} (h : Inv s) : Inv (homing_3 s) := by
  unfold homing_3
  repeat' with_reducible first
    | exact h | apply inv_motor_stop | apply inv_delay | apply inv_sensor_bypass
    | apply inv_motor_forward | apply inv_motor_reverse | apply inv_report_pos | apply inv_print
    | apply inv_call | apply inv_delay_ms | apply inv_set_HOME_DIRECTION | apply inv_set_HOMING
    | apply inv_set_TRIGGER_ORDER | apply inv_set_TRIGGER_ORDER2 | apply inv_ite

theorem inv_homing_4_probe {s : State} (h : Inv s) : Inv (homing_4_probe s) := by
  unfold homing_4_probe
  repeat' with_reducible first
    | exact h | apply inv_motor_stop | apply inv_delay | apply inv_sensor_bypass
    | apply inv_motor_forward | apply inv_motor_reverse | apply inv_report_pos | apply inv_print
    | apply inv_call | apply inv_delay_ms | apply inv_set_HOME_DIRECTION | apply inv_set_HOMING
    | apply inv_set_TRIGGER_ORDER | apply inv_set_TRIGGER_ORDER2 | apply inv_ite

theorem inv_homing_4_index {s : State} (h : Inv s) : Inv (homing_4_index s) := by
  unfold homing_4_index
  repeat' with_reducible first | exact h | apply inv_ite_set_HOMED_POS

theorem inv_homing_4_assign {s : State} (h : Inv s) : Inv (homing_4_assign s) := by
  unfold homing_4_assign
  split
  · exact inv_set_CURRENT_POS _ h
  · exact inv_set_fault _ h

theorem inv_homing_4_lookup {s : State} (h : Inv s) : Inv (homing_4_lookup s) :=
  inv_homing_4_assign (inv_homing_4_index h)

theorem inv_homing_4_recenter {s : State} (h : Inv s) : Inv (homing_4_recenter s) := by
  unfold homing_4_recenter
  repeat' with_reducible first
    | exact h | apply inv_motor_stop | apply inv_delay | apply inv_sensor_bypass
    | apply inv_motor_forward | apply inv_motor_reverse | apply inv_report_pos | apply inv_print
    | apply inv_call | apply inv_delay_ms | apply inv_move_right | apply inv_move_left
    | apply inv_ite

theorem inv_homing_4_finish {s : State} (h : Inv s) : Inv (homing_4_finish s) := by
  unfold homing_4_finish
  repeat' with_reducible first
    | exact h | apply inv_motor_stop | apply inv_delay | apply inv_sensor_bypass
    | apply inv_motor_forward | apply inv_motor_reverse | apply inv_report_pos | apply inv_print
    | apply inv_call | apply inv_delay_ms | apply inv_drag_lights | apply inv_set_TRIGGER_ORDER
    | apply inv_set_TRIGGER_ORDER2 | apply inv_ite

theorem inv_homing_4 {s : State} (h : Inv s) : Inv (homing_4 s) :=
  inv_homing_4_finish (inv_homing_4_recenter (inv_homing_4_lookup (inv_homing_4_probe h)))

theorem inv_HOMEcommand {s : State} (h : Inv s) : Inv (HOMEcommand s) := by
  unfold HOMEcommand
  exact inv_set_HOMING_ACTIVE _ (inv_homing_4 (inv_homing_3 (inv_homing_2 (inv_homing_1
    (inv_set_HOMING _ (inv_set_HOMING_ACTIVE _ h))))))

theorem inv_MOVEcommand_read (word : String) {s : State} (h : Inv s) :
    Inv (MOVEcommand_read word s) := by
  unfold MOVEcommand_read
  repeat' with_reducible first
    | exact h | apply inv_ite_set_RX_COMMAND | apply inv_set_RX_COMMAND | apply inv_set_rxWord
    | apply inv_set_SOURCE

theorem inv_MOVEcommand_CNC {s : State} (h : Inv s) : Inv (MOVEcommand_CNC s) := by
  unfold MOVEcommand_CNC
  repeat' with_reducible first
    | exact h | apply inv_move_right | apply inv_print | apply inv_ite

theorem inv_MOVEcommand_CHOPSAW {s : State} (h : Inv s) : Inv (MOVEcommand_CHOPSAW s) := by
  unfold MOVEcommand_CHOPSAW
  repeat' with_reducible first
    | exact h | apply inv_move_right | apply inv_move_left | apply inv_print | apply inv_ite

theorem inv_MOVEcommand_WORKBENCH {s : State} (h : Inv s) : Inv (MOVEcommand_WORKBENCH s) := by
  unfold MOVEcommand_WORKBENCH
  repeat' with_reducible first
    | exact h | apply inv_move_left | apply inv_print | apply inv_ite

theorem inv_MOVEcommand_H1 {s : State} (h : Inv s) : Inv (MOVEcommand_H1 s) := by
  unfold MOVEcommand_H1
  repeat' with_reducible first
    | exact h | apply inv_homing_1 | apply inv_set_HOMING | apply inv_ite

theorem inv_MOVEcommand_switch {s : State} (h : Inv s) : Inv (MOVEcommand_switch s) := by
  unfold MOVEcommand_switch
  refine inv_ite (inv_motor_stop h) ?_
  refine inv_ite (inv_move_right h) ?_
  refine inv_ite (inv_move_gr1 h) ?_
  refine inv_ite (inv_move_left h) ?_
  refine inv_ite (inv_move_gl1 h) ?_
  refine inv_ite (inv_MOVEcommand_CNC h) ?_
  refine inv_ite (inv_MOVEcommand_CHOPSAW h) ?_
  refine inv_ite (inv_MOVEcommand_WORKBENCH h) ?_
  refine inv_ite (inv_MOVEcommand_H1 h) ?_
  refine inv_ite (inv_homing_2 h) ?_
  refine inv_ite (inv_homing_3 h) ?_
  refine inv_ite (inv_homing_4 h) ?_
  exact inv_print _ h

theorem inv_MOVEcommand (word : String) {s : State} (h : Inv s) :
    Inv (MOVEcommand word s) :=
  inv_MOVEcommand_switch (inv_MOVEcommand_read word h)

theorem inv_startup (sensor : Level) (script : List (List (Level × Level))) :
    Inv (startup sensor script) := by
  have h0 : Inv (powerOn sensor script) := ⟨rfl, trivial⟩
  exact inv_set_SENSOR_STATE _ (inv_write_led_green _ (inv_write_led_red _
    (inv_write_rev_high (inv_write_fwd_high h0))))

theorem inv_run (op : Op) {s : State} (h : Inv s) : Inv (op.run s) := by
  cases op with
  | motor_forward => exact inv_motor_forward h
  | motor_reverse => exact inv_motor_reverse h
  | motor_stop => exact inv_motor_stop h
  | isr r1 r2 => exact inv_isr_prox_sensor r1 r2 h
  | move_right => exact inv_move_right h
  | move_left => exact inv_move_left h
  | move_gr1 => exact inv_move_gr1 h
  | move_gl1 => exact inv_move_gl1 h
  | homing_1 => exact inv_homing_1 h
  | homing_2 => exact inv_homing_2 h
  | homing_3 => exact inv_homing_3 h
  | homing_4 => exact inv_homing_4 h
  | MOVE word => exact inv_MOVEcommand word h
  | HOME => exact inv_HOMEcommand h

theorem inv_runOps (ops : List Op) {s : State} (h : Inv s) : Inv (runOps ops s) := by
  induction ops generalizing s with
  | nil => exact h
  | cons op rest ih => exact ih (inv_run op h)

/-- C1. Interlock invariant: in every state reached from the post-setup state by
any sequence of interlock calls, handler invocations, motion primitives, homing
stage functions and MOVE / HOME commands, under any script of sensor edges, the
forward and the reverse line are not both asserted, and they were not both
asserted at any earlier point of the run either (every suffix of the trace is
a prefix of the run). -/
theorem interlock_invariant (sensor : Level) (script : List (List (Level × Level)))
    (ops : List Op) :
    ¬((runOps ops (startup sensor script)).PIN_MOTOR_FWD = .LOW ∧
        (runOps ops (startup sensor script)).PIN_MOTOR_REV = .LOW) ∧
      Interlocked (runOps ops (startup sensor script)).trace ∧
      linesOf (runOps ops (startup sensor script)).trace =
        ((runOps ops (startup sensor script)).PIN_MOTOR_FWD,
         (runOps ops (startup sensor script)).PIN_MOTOR_REV) :=
  have h := inv_runOps ops (inv_startup sensor script)
  ⟨h.not_both, h.2, h.1⟩

/-! ## The interlock functions -/

theorem motor_stop_lines (s : State) :
    (motor_stop s).PIN_MOTOR_FWD = .HIGH ∧ (motor_stop s).PIN_MOTOR_REV = .HIGH := by
  unfold motor_stop
  dsimp only
  split
  · split
    · simp only [rgb_set_led_PIN_MOTOR_FWD, rgb_set_led_PIN_MOTOR_REV]
      exact ⟨rfl, rfl⟩
    · exact ⟨rfl, rfl⟩
  · rename_i h
    simp only [digitalRead, not_or] at h
    cases hf : s.PIN_MOTOR_FWD <;> cases hr : s.PIN_MOTOR_REV <;> simp_all

theorem motor_stop_of_stopped (s : State) (hf : s.PIN_MOTOR_FWD = .HIGH)
    (hr : s.PIN_MOTOR_REV = .HIGH) : motor_stop s = s := by
  unfold motor_stop
  simp [digitalRead, hf, hr]

theorem motor_stop_idem (s : State) : motor_stop (motor_stop s) = motor_stop s :=
  motor_stop_of_stopped _ (motor_stop_lines s).1 (motor_stop_lines s).2

theorem motor_forward_interlock (s : State) (h : s.PIN_MOTOR_REV = .LOW) :
    motor_forward s = print .forward_ignored s := by
  unfold motor_forward
  simp [digitalRead, h]

theorem motor_reverse_interlock (s : State) (h : s.PIN_MOTOR_FWD = .LOW) :
    motor_reverse s = print .reverse_ignored s := by
  unfold motor_reverse
  simp [digitalRead, h]

theorem motor_forward_range (s : State) (h : ¬ s.PIN_MOTOR_REV = .LOW)
    (hc : ¬(s.CURRENT_POS < 3 ∨ s.HOMING_ACTIVE = true ∨ s.CURRENT_POS ≤ -1)) :
    motor_forward s = print (.range_error s.CURRENT_POS) s := by
  unfold motor_forward
  rw [if_neg (by simpa [digitalRead] using h), if_neg hc]

theorem motor_reverse_range (s : State) (h : ¬ s.PIN_MOTOR_FWD = .LOW)
    (hc : ¬(s.CURRENT_POS > 1 ∨ s.HOMING_ACTIVE = true ∨ s.CURRENT_POS ≤ -1)) :
    motor_reverse s = print (.range_error s.CURRENT_POS) s := by
  unfold motor_reverse
  rw [if_neg (by simpa [digitalRead] using h), if_neg hc]

/-- What an accepted `motor_forward` does to the forward line and to the trace. -/
theorem motor_forward_engage (s : State) (h : ¬ s.PIN_MOTOR_REV = .LOW)
    (hc : s.CURRENT_POS < 3 ∨ s.HOMING_ACTIVE = true ∨ s.CURRENT_POS ≤ -1) :
    (motor_forward s).PIN_MOTOR_FWD = .LOW ∧
      (motor_forward s).trace.head? = some (.write .PIN_MOTOR_FWD .LOW) ∧
      fwdAsserts (motor_forward s).trace = fwdAsserts s.trace + 1 ∧
      refusals (motor_forward s).trace = refusals s.trace := by
  unfold motor_forward
  rw [if_neg (by simpa [digitalRead] using h), if_pos hc]
  dsimp only
  refine ⟨rfl, rfl, ?_, ?_⟩
  · split <;> simp only [write_fwd_low_fwdAsserts, rgb_set_led_fwdAsserts, print_fwdAsserts]
  · split <;> simp only [write_fwd_low_refusals, rgb_set_led_refusals, print_refusals, isRefusal,
      Bool.false_eq_true, if_false, Nat.add_zero]

/-- What an accepted `motor_reverse` does to the reverse line and to the trace. -/
theorem motor_reverse_engage (s : State) (h : ¬ s.PIN_MOTOR_FWD = .LOW)
    (hc : s.CURRENT_POS > 1 ∨ s.HOMING_ACTIVE = true ∨ s.CURRENT_POS ≤ -1) :
    (motor_reverse s).PIN_MOTOR_REV = .LOW ∧
      (motor_reverse s).trace.head? = some (.write .PIN_MOTOR_REV .LOW) ∧
      revAsserts (motor_reverse s).trace = revAsserts s.trace + 1 ∧
      refusals (motor_reverse s).trace = refusals s.trace := by
  unfold motor_reverse
  rw [if_neg (by simpa [digitalRead] using h), if_pos hc]
  dsimp only
  refine ⟨rfl, rfl, ?_, ?_⟩
  · split <;> simp only [write_rev_low_revAsserts, rgb_set_led_revAsserts, print_revAsserts]
  · split <;> simp only [write_rev_low_refusals, rgb_set_led_refusals, print_refusals, isRefusal,
      Bool.false_eq_true, if_false, Nat.add_zero]

theorem motor_reverse_refused_iterate (t : State) (h : t.PIN_MOTOR_FWD = .LOW) (n : Nat) :
    motor_reverse^[n] t =
      { t with trace := List.replicate n (.print .reverse_ignored) ++ t.trace } := by
  induction n with
  | zero => rfl
  | succ n ih =>
    rw [Function.iterate_succ_apply', ih]
    refine Eq.trans (motor_reverse_interlock _ ?_) ?_
    · exact h
    · rfl

theorem motor_forward_refused_iterate (t : State) (h : t.PIN_MOTOR_REV = .LOW) (n : Nat) :
    motor_forward^[n] t =
      { t with trace := List.replicate n (.print .forward_ignored) ++ t.trace } := by
  induction n with
  | zero => rfl
  | succ n ih =>
    rw [Function.iterate_succ_apply', ih]
    refine Eq.trans (motor_forward_interlock _ ?_) ?_
    · exact h
    · rfl

theorem motor_reverse_after_stop (u : State) (h : ¬ u.PIN_MOTOR_FWD = .LOW) :
    (motor_reverse u).trace.head? ≠ some (.print .reverse_ignored) := by
  by_cases hc : u.CURRENT_POS > 1 ∨ u.HOMING_ACTIVE = true ∨ u.CURRENT_POS ≤ -1
  · rw [(motor_reverse_engage u h hc).2.1]; simp
  · rw [motor_reverse_range u h hc]; simp [print, emit]

theorem motor_forward_after_stop (u : State) (h : ¬ u.PIN_MOTOR_REV = .LOW) :
    (motor_forward u).trace.head? ≠ some (.print .forward_ignored) := by
  by_cases hc : u.CURRENT_POS < 3 ∨ u.HOMING_ACTIVE = true ∨ u.CURRENT_POS ≤ -1
  · rw [(motor_forward_engage u h hc).2.1]; simp
  · rw [motor_forward_range u h hc]; simp [print, emit]

/-- C2. Once `motor_forward` has asserted the forward line, every following call of
`motor_reverse` (any number `n` of them) is refused with the interlock
diagnostic and leaves the whole state as it was but for the `n` logged
diagnostics; after `motor_stop` the next `motor_reverse` is not refused by the
interlock.  Symmetrically with forward and reverse exchanged. -/
theorem interlock_refusal_until_stop (s : State) :
    ((motor_forward s).PIN_MOTOR_FWD = .LOW →
        (∀ n, motor_reverse^[n] (motor_forward s) =
          { motor_forward s with
            trace := List.replicate n (.print .reverse_ignored) ++ (motor_forward s).trace }) ∧
        (∀ n, (motor_reverse (motor_stop (motor_reverse^[n] (motor_forward s)))).trace.head? ≠
          some (.print .reverse_ignored))) ∧
    ((motor_reverse s).PIN_MOTOR_REV = .LOW →
        (∀ n, motor_forward^[n] (motor_reverse s) =
          { motor_reverse s with
            trace := List.replicate n (.print .forward_ignored) ++ (motor_reverse s).trace }) ∧
        (∀ n, (motor_forward (motor_stop (motor_forward^[n] (motor_reverse s)))).trace.head? ≠
          some (.print .forward_ignored))) := by
  refine ⟨fun h => ⟨motor_reverse_refused_iterate _ h, fun n => ?_⟩,
    fun h => ⟨motor_forward_refused_iterate _ h, fun n => ?_⟩⟩
  · apply motor_reverse_after_stop
    rw [(motor_stop_lines _).1]; simp
  · apply motor_forward_after_stop
    rw [(motor_stop_lines _).2]; simp

theorem interlock_refusal_until_stop_witness :
    (motor_forward (startup .HIGH [])).PIN_MOTOR_FWD = .LOW ∧
      (motor_reverse (motor_reverse (motor_forward (startup .HIGH []))) =
        { motor_forward (startup .HIGH []) with
          trace := [.print .reverse_ignored, .print .reverse_ignored] ++
            (motor_forward (startup .HIGH [])).trace }) ∧
      (motor_reverse (motor_stop (motor_reverse (motor_forward (startup .HIGH []))))).trace.head? ≠
        some (.print .reverse_ignored) ∧
      (motor_reverse (startup .HIGH [])).PIN_MOTOR_REV = .LOW ∧
      (motor_forward (motor_forward (motor_reverse (startup .HIGH []))) =
        { motor_reverse (startup .HIGH []) with
          trace := [.print .forward_ignored, .print .forward_ignored] ++
            (motor_reverse (startup .HIGH [])).trace }) ∧
      (motor_forward (motor_stop (motor_forward (motor_reverse (startup .HIGH []))))).trace.head? ≠
        some (.print .forward_ignored) :=
  ⟨by decide,
   ((interlock_refusal_until_stop (startup .HIGH [])).1 (by decide)).1 2,
   ((interlock_refusal_until_stop (startup .HIGH [])).1 (by decide)).2 1,
   by decide,
   ((interlock_refusal_until_stop (startup .HIGH [])).2 (by decide)).1 2,
   ((interlock_refusal_until_stop (startup .HIGH [])).2 (by decide)).2 1⟩

/-- C3. With the reverse line not asserted, `motor_forward` either asserts the
forward line, exactly when Position < 3 or Position is unknown (-1) or a homing
run is active, or else refuses with the range diagnostic and changes nothing
else.  With the forward line not asserted, and Position in its domain (not
below -1), `motor_reverse` does the same with the test Position > 1. -/
theorem drive_legality (s : State) :
    (¬ s.PIN_MOTOR_REV = .LOW →
      ((s.CURRENT_POS < 3 ∨ s.CURRENT_POS = -1 ∨ s.HOMING_ACTIVE = true) ∧
          (motor_forward s).PIN_MOTOR_FWD = .LOW ∧
          fwdAsserts (motor_forward s).trace = fwdAsserts s.trace + 1 ∧
          refusals (motor_forward s).trace = refusals s.trace) ∨
      (¬(s.CURRENT_POS < 3 ∨ s.CURRENT_POS = -1 ∨ s.HOMING_ACTIVE = true) ∧
          motor_forward s = print (.range_error s.CURRENT_POS) s)) ∧
    (¬ s.PIN_MOTOR_FWD = .LOW → -1 ≤ s.CURRENT_POS →
      ((s.CURRENT_POS > 1 ∨ s.CURRENT_POS = -1 ∨ s.HOMING_ACTIVE = true) ∧
          (motor_reverse s).PIN_MOTOR_REV = .LOW ∧
          revAsserts (motor_reverse s).trace = revAsserts s.trace + 1 ∧
          refusals (motor_reverse s).trace = refusals s.trace) ∨
      (¬(s.CURRENT_POS > 1 ∨ s.CURRENT_POS = -1 ∨ s.HOMING_ACTIVE = true) ∧
          motor_reverse s = print (.range_error s.CURRENT_POS) s)) := by
  constructor
  · intro hr
    by_cases hc : s.CURRENT_POS < 3 ∨ s.HOMING_ACTIVE = true ∨ s.CURRENT_POS ≤ -1
    · have e := motor_forward_engage s hr hc
      refine Or.inl ⟨?_, e.1, e.2.2.1, e.2.2.2⟩
      rcases hc with h | h | h
      · exact Or.inl h
      · exact Or.inr (Or.inr h)
      · exact Or.inl (by omega)
    · refine Or.inr ⟨?_, motor_forward_range s hr hc⟩
      rintro (h | h | h)
      · exact hc (Or.inl h)
      · exact hc (Or.inr (Or.inr (by omega)))
      · exact hc (Or.inr (Or.inl h))
  · intro hf hdom
    by_cases hc : s.CURRENT_POS > 1 ∨ s.HOMING_ACTIVE = true ∨ s.CURRENT_POS ≤ -1
    · have e := motor_reverse_engage s hf hc
      refine Or.inl ⟨?_, e.1, e.2.2.1, e.2.2.2⟩
      rcases hc with h | h | h
      · exact Or.inl h
      · exact Or.inr (Or.inr h)
      · exact Or.inr (Or.inl (by omega))
    · refine Or.inr ⟨?_, motor_reverse_range s hf hc⟩
      rintro (h | h | h)
      · exact hc (Or.inl h)
      · exact hc (Or.inr (Or.inr (by omega)))
      · exact hc (Or.inr (Or.inl h))

/-- C4. After `motor_stop` both drive lines are deasserted, Position,
PreviousPosition, HomingStage and TriggerOrder are what they were, and a second
`motor_stop` changes nothing at all. -/
theorem motor_stop_contract (s : State) :
    (motor_stop s).PIN_MOTOR_FWD = .HIGH ∧ (motor_stop s).PIN_MOTOR_REV = .HIGH ∧
      (motor_stop s).CURRENT_POS = s.CURRENT_POS ∧
      (motor_stop s).PREVIOUS_POS = s.PREVIOUS_POS ∧
      (motor_stop s).HOMING = s.HOMING ∧
      (motor_stop s).TRIGGER_ORDER = s.TRIGGER_ORDER ∧
      motor_stop (motor_stop s) = motor_stop s :=
  ⟨(motor_stop_lines s).1, (motor_stop_lines s).2, motor_stop_CURRENT_POS s,
    motor_stop_PREVIOUS_POS s, motor_stop_HOMING s, motor_stop_TRIGGER_ORDER s,
    motor_stop_idem s⟩

theorem drive_legality_witness :
    motor_forward (homedAt 3 false) = print (.range_error 3) (homedAt 3 false) ∧
      motor_reverse (homedAt 1 false) = print (.range_error 1) (homedAt 1 false) ∧
      (motor_forward (homedAt 1 false)).PIN_MOTOR_FWD = .LOW ∧
      (motor_reverse (homedAt 3 false)).PIN_MOTOR_REV = .LOW :=
  ⟨(((drive_legality (homedAt 3 false)).1 (by decide)).resolve_left
      (fun h => absurd h.1 (by decide))).2,
   (((drive_legality (homedAt 1 false)).2 (by decide) (by decide)).resolve_left
      (fun h => absurd h.1 (by decide))).2,
   (((drive_legality (homedAt 1 false)).1 (by decide)).resolve_right
      (fun h => absurd (by decide) h.1)).2.1,
   (((drive_legality (homedAt 3 false)).2 (by decide) (by decide)).resolve_right
      (fun h => absurd (by decide) h.1)).2.1⟩

/-! ## The motion primitives -/

theorem emit_call_calls_self (f g : Fn) (s : State) :
    calls f (emit (.call g) s).trace = calls f s.trace + (if g = f then 1 else 0) := by
  simp [calls, emit, List.count_cons]

theorem move_right_CURRENT_POS (s : State) :
    (move_right s).CURRENT_POS = if s.CURRENT_POS < 3 then s.CURRENT_POS + 1 else s.CURRENT_POS := by
  unfold move_right
  simp [apply_ite State.CURRENT_POS]

theorem move_left_CURRENT_POS (s : State) :
    (move_left s).CURRENT_POS = if s.CURRENT_POS > 1 then s.CURRENT_POS - 1 else s.CURRENT_POS := by
  unfold move_left
  simp [apply_ite State.CURRENT_POS]

theorem move_right_calls (f : Fn) (s : State) :
    calls f (move_right s).trace = calls f s.trace + (if Fn.move_right = f then 1 else 0) := by
  unfold move_right
  simp [apply_ite State.trace, apply_ite (calls f), emit_call_calls_self]

theorem move_left_calls (f : Fn) (s : State) :
    calls f (move_left s).trace = calls f s.trace + (if Fn.move_left = f then 1 else 0) := by
  unfold move_left
  simp [apply_ite State.trace, apply_ite (calls f), emit_call_calls_self]

theorem motor_forward_refusals (s : State) :
    refusals (motor_forward s).trace = refusals s.trace +
      (if s.PIN_MOTOR_REV = .LOW ∨
          ¬(s.CURRENT_POS < 3 ∨ s.HOMING_ACTIVE = true ∨ s.CURRENT_POS ≤ -1) then 1 else 0) := by
  by_cases hr : s.PIN_MOTOR_REV = .LOW
  · rw [motor_forward_interlock s hr, print_refusals, if_pos (Or.inl hr)]; rfl
  · by_cases hc : s.CURRENT_POS < 3 ∨ s.HOMING_ACTIVE = true ∨ s.CURRENT_POS ≤ -1
    · rw [(motor_forward_engage s hr hc).2.2.2, if_neg (by tauto)]; rfl
    · rw [motor_forward_range s hr hc, print_refusals, if_pos (Or.inr hc)]; rfl

theorem motor_reverse_refusals (s : State) :
    refusals (motor_reverse s).trace = refusals s.trace +
      (if s.PIN_MOTOR_FWD = .LOW ∨
          ¬(s.CURRENT_POS > 1 ∨ s.HOMING_ACTIVE = true ∨ s.CURRENT_POS ≤ -1) then 1 else 0) := by
  by_cases hf : s.PIN_MOTOR_FWD = .LOW
  · rw [motor_reverse_interlock s hf, print_refusals, if_pos (Or.inl hf)]; rfl
  · by_cases hc : s.CURRENT_POS > 1 ∨ s.HOMING_ACTIVE = true ∨ s.CURRENT_POS ≤ -1
    · rw [(motor_reverse_engage s hf hc).2.2.2, if_neg (by tauto)]; rfl
    · rw [motor_reverse_range s hf hc, print_refusals, if_pos (Or.inr hc)]; rfl

theorem move_right_refusals (s : State) :
    refusals (move_right s).trace = refusals s.trace +
      (if s.PIN_MOTOR_REV = .LOW ∨
          ¬(s.CURRENT_POS < 3 ∨ s.HOMING_ACTIVE = true ∨ s.CURRENT_POS ≤ -1) then 1 else 0) := by
  unfold move_right
  simp [apply_ite State.trace, apply_ite refusals, motor_forward_refusals, print_refusals,
    isRefusal]

theorem move_left_refusals (s : State) :
    refusals (move_left s).trace = refusals s.trace +
      (if s.PIN_MOTOR_FWD = .LOW ∨
          ¬(s.CURRENT_POS > 1 ∨ s.HOMING_ACTIVE = true ∨ s.CURRENT_POS ≤ -1) then 1 else 0) := by
  unfold move_left
  simp [apply_ite State.trace, apply_ite refusals, motor_reverse_refusals, print_refusals,
    isRefusal]

theorem motor_forward_fwdAsserts (s : State) :
    fwdAsserts (motor_forward s).trace = fwdAsserts s.trace +
      (if ¬ s.PIN_MOTOR_REV = .LOW ∧
          (s.CURRENT_POS < 3 ∨ s.HOMING_ACTIVE = true ∨ s.CURRENT_POS ≤ -1) then 1 else 0) := by
  by_cases hr : s.PIN_MOTOR_REV = .LOW
  · rw [motor_forward_interlock s hr, print_fwdAsserts, if_neg (by tauto)]; rfl
  · by_cases hc : s.CURRENT_POS < 3 ∨ s.HOMING_ACTIVE = true ∨ s.CURRENT_POS ≤ -1
    · rw [(motor_forward_engage s hr hc).2.2.1, if_pos ⟨hr, hc⟩]
    · rw [motor_forward_range s hr hc, print_fwdAsserts, if_neg (by tauto)]; rfl

theorem motor_reverse_revAsserts (s : State) :
    revAsserts (motor_reverse s).trace = revAsserts s.trace +
      (if ¬ s.PIN_MOTOR_FWD = .LOW ∧
          (s.CURRENT_POS > 1 ∨ s.HOMING_ACTIVE = true ∨ s.CURRENT_POS ≤ -1) then 1 else 0) := by
  by_cases hf : s.PIN_MOTOR_FWD = .LOW
  · rw [motor_reverse_interlock s hf, print_revAsserts, if_neg (by tauto)]; rfl
  · by_cases hc : s.CURRENT_POS > 1 ∨ s.HOMING_ACTIVE = true ∨ s.CURRENT_POS ≤ -1
    · rw [(motor_reverse_engage s hf hc).2.2.1, if_pos ⟨hf, hc⟩]
    · rw [motor_reverse_range s hf hc, print_revAsserts, if_neg (by tauto)]; rfl

theorem move_right_fwdAsserts (s : State) :
    fwdAsserts (move_right s).trace = fwdAsserts s.trace +
      (if ¬ s.PIN_MOTOR_REV = .LOW ∧
          (s.CURRENT_POS < 3 ∨ s.HOMING_ACTIVE = true ∨ s.CURRENT_POS ≤ -1) then 1 else 0) := by
  unfold move_right
  simp [apply_ite State.trace, apply_ite fwdAsserts, motor_forward_fwdAsserts]

theorem move_left_revAsserts (s : State) :
    revAsserts (move_left s).trace = revAsserts s.trace +
      (if ¬ s.PIN_MOTOR_FWD = .LOW ∧
          (s.CURRENT_POS > 1 ∨ s.HOMING_ACTIVE = true ∨ s.CURRENT_POS ≤ -1) then 1 else 0) := by
  unfold move_left
  simp [apply_ite State.trace, apply_ite revAsserts, motor_reverse_revAsserts]

theorem move_right_at_limit (s : State) (hr : ¬ s.PIN_MOTOR_REV = .LOW)
    (ha : s.HOMING_ACTIVE = false) (hp : s.CURRENT_POS = 3) :
    move_right s = report_pos (motor_stop (delay SAFETY_CUTOFF (sensor_bypass
      (print (.range_error 3) ((emit (.call .move_right) s).set_PREVIOUS_POS 3))))) := by
  have h1 : motor_forward ((emit (.call .move_right) s).set_PREVIOUS_POS 3) =
      print (.range_error 3) ((emit (.call .move_right) s).set_PREVIOUS_POS 3) := by
    have e := motor_forward_range ((emit (.call .move_right) s).set_PREVIOUS_POS 3) hr
      (by simp [ha, hp])
    simpa [hp] using e
  have h0 : (emit (.call .move_right) s).CURRENT_POS = 3 := hp
  unfold move_right
  simp only [h0, h1]
  rw [if_neg (by simp [hp])]
  rw [if_neg (by simp [hp])]

theorem move_left_at_limit (s : State) (hf : ¬ s.PIN_MOTOR_FWD = .LOW)
    (ha : s.HOMING_ACTIVE = false) (hp : s.CURRENT_POS = 1) :
    move_left s = report_pos (motor_stop (delay SAFETY_CUTOFF (sensor_bypass
      (print (.range_error 1) ((emit (.call .move_left) s).set_PREVIOUS_POS 1))))) := by
  have h1 : motor_reverse ((emit (.call .move_left) s).set_PREVIOUS_POS 1) =
      print (.range_error 1) ((emit (.call .move_left) s).set_PREVIOUS_POS 1) := by
    have e := motor_reverse_range ((emit (.call .move_left) s).set_PREVIOUS_POS 1) hf
      (by simp [ha, hp])
    simpa [hp] using e
  have h0 : (emit (.call .move_left) s).CURRENT_POS = 1 := hp
  unfold move_left
  simp only [h0, h1]
  rw [if_neg (by simp [hp])]
  rw [if_neg (by simp [hp])]

/-- C5. With the motor stopped and no homing run active, `move_right` at
Position 3 is refused with the range diagnostic: the one drive request of the
call is answered by that diagnostic and nothing else, the forward line is not
asserted at any point of the call, whatever the sensor does meanwhile, and
Position is still 3 afterwards.  Symmetrically for `move_left` at Position 1 and
the reverse line. -/
theorem move_at_limit_refused (s : State) (hf : s.PIN_MOTOR_FWD = .HIGH)
    (hr : s.PIN_MOTOR_REV = .HIGH) (ha : s.HOMING_ACTIVE = false) :
    (s.CURRENT_POS = 3 →
      move_right s = report_pos (motor_stop (delay SAFETY_CUTOFF (sensor_bypass
        (print (.range_error 3) ((emit (.call .move_right) s).set_PREVIOUS_POS 3))))) ∧
      fwdAsserts (move_right s).trace = fwdAsserts s.trace ∧
      refusals (move_right s).trace = refusals s.trace + 1 ∧
      (move_right s).CURRENT_POS = 3) ∧
    (s.CURRENT_POS = 1 →
      move_left s = report_pos (motor_stop (delay SAFETY_CUTOFF (sensor_bypass
        (print (.range_error 1) ((emit (.call .move_left) s).set_PREVIOUS_POS 1))))) ∧
      revAsserts (move_left s).trace = revAsserts s.trace ∧
      refusals (move_left s).trace = refusals s.trace + 1 ∧
      (move_left s).CURRENT_POS = 1) := by
  constructor
  · intro hp
    refine ⟨move_right_at_limit s (by simp [hr]) ha hp, ?_, ?_, ?_⟩
    · rw [move_right_fwdAsserts]; simp [hp, ha]
    · rw [move_right_refusals]; simp [hp, ha]
    · rw [move_right_CURRENT_POS]; simp [hp]
  · intro hp
    refine ⟨move_left_at_limit s (by simp [hf]) ha hp, ?_, ?_, ?_⟩
    · rw [move_left_revAsserts]; simp [hp, ha]
    · rw [move_left_refusals]; simp [hp, ha]
    · rw [move_left_CURRENT_POS]; simp [hp]

theorem move_at_limit_refused_witness :
    ((move_right (homedAt 3 false)).CURRENT_POS = 3 ∧
        fwdAsserts (move_right (homedAt 3 false)).trace = fwdAsserts (homedAt 3 false).trace) ∧
      ((move_left (homedAt 1 false)).CURRENT_POS = 1 ∧
        revAsserts (move_left (homedAt 1 false)).trace = revAsserts (homedAt 1 false).trace) :=
  ⟨have h := (move_at_limit_refused (homedAt 3 false) (by decide) (by decide) (by decide)).1
      (by decide)
   ⟨h.2.2.2, h.2.1⟩,
   have h := (move_at_limit_refused (homedAt 1 false) (by decide) (by decide) (by decide)).2
      (by decide)
   ⟨h.2.2.2, h.2.1⟩⟩

/-- With no homing run active and Position p in {1,2,3}, `move_right` followed
by `move_left`, neither refused by the interlock or the range check (no refusal
is logged during the two calls), restores Position to p. -/
theorem move_right_left_of_inactive (s : State) (ha : s.HOMING_ACTIVE = false)
    (hp : s.CURRENT_POS = 1 ∨ s.CURRENT_POS = 2 ∨ s.CURRENT_POS = 3)
    (hn : refusals (move_left (move_right s)).trace = refusals s.trace) :
    (move_left (move_right s)).CURRENT_POS = s.CURRENT_POS := by
  rw [move_left_CURRENT_POS, move_right_CURRENT_POS]
  rcases hp with h | h | h
  · simp [h]
  · simp [h]
  · exfalso
    rw [move_left_refusals, move_right_refusals] at hn
    have : (if s.PIN_MOTOR_REV = .LOW ∨
        ¬(s.CURRENT_POS < 3 ∨ s.HOMING_ACTIVE = true ∨ s.CURRENT_POS ≤ -1) then 1 else 0) = 1 := by
      simp [h, ha]
    omega

/-- C7, at the failing input. MOVE RIGHT issued as the first command after
start-up, where Position is -1 (unknown), is not refused and leaves Position 0,
a value outside {-1, 1, 2, 3}; a second MOVE RIGHT makes it 1. -/
theorem position_zero_after_unhomed_move_right :
    (startup .HIGH []).CURRENT_POS = -1 ∧
      (runOps [.MOVE "RIGHT"] (startup .HIGH [])).CURRENT_POS = 0 ∧
      fwdAsserts (runOps [.MOVE "RIGHT"] (startup .HIGH [])).trace = 1 ∧
      refusals (runOps [.MOVE "RIGHT"] (startup .HIGH [])).trace = 0 ∧
      (runOps [.MOVE "RIGHT", .MOVE "RIGHT"] (startup .HIGH [])).CURRENT_POS = 1 := by
  decide

/-! ## Table resolution -/

theorem homing_4_index_TRIGGER_ORDER (s : State) :
    (homing_4_index s).TRIGGER_ORDER = s.TRIGGER_ORDER := by
  unfold homing_4_index
  simp only [apply_ite State.TRIGGER_ORDER, State.set_HOMED_POS, ite_self]

/-- The index the comparison chain stores: the last comparison that matches wins. -/
theorem homing_4_index_HOMED_POS (s : State) :
    (homing_4_index s).HOMED_POS =
      if s.TRIGGER_ORDER = "LNNLRNL" then 10
      else if s.TRIGGER_ORDER = "NNLRNL" then 9
      else if s.TRIGGER_ORDER = "LRNNLRNL" then 8
      else if s.TRIGGER_ORDER = "RNNLRNL" then 7
      else if s.TRIGGER_ORDER = "LNNLRNRL" then 6
      else if s.TRIGGER_ORDER = "NNLRNRL" then 5
      else if s.TRIGGER_ORDER = "LRNNLRNRL" then 4
      else if s.TRIGGER_ORDER = "RNNLRNRL" then 3
      else if s.TRIGGER_ORDER = "LNNRNRL" then 2
      else if s.TRIGGER_ORDER = "NNRNRL" then 1
      else if s.TRIGGER_ORDER = "RNNRNRL" then 0
      else s.HOMED_POS := by
  unfold homing_4_index
  simp only [apply_ite State.TRIGGER_ORDER, apply_ite State.HOMED_POS, State.set_HOMED_POS,
    ite_self]

theorem homing_4_assign_of (t : State) (row : HOMED_CFG)
    (h : HOMED_ARRAY_at t.HOMED_POS = some row) :
    homing_4_assign t = t.set_CURRENT_POS row.END_POS := by
  unfold homing_4_assign
  simp only [h]

theorem lookup_of_index (s : State) (i : Int) (row : HOMED_CFG)
    (hi : (homing_4_index s).HOMED_POS = i) (hrow : HOMED_ARRAY_at i = some row) :
    (homing_4_lookup s).CURRENT_POS = row.END_POS ∧ (homing_4_lookup s).HOMED_POS = i := by
  unfold homing_4_lookup
  rw [homing_4_assign_of _ row (by rw [hi]; exact hrow)]
  simp only [State.set_CURRENT_POS, hi, and_self]

theorem lookup_no_match (t : State) (h : t.TRIGGER_ORDER ∉ sequenceTable.map Prod.fst) :
    (homing_4_index t).HOMED_POS = t.HOMED_POS := by
  rw [homing_4_index_HOMED_POS]
  simp only [sequenceTable, List.map, List.mem_cons, List.mem_nil_iff, or_false, not_or] at h
  simp only [h, if_false]

theorem lookup_of_entry (s : State) (k : String) (p : Int) (hk : (k, p) ∈ sequenceTable)
    (ht : s.TRIGGER_ORDER = k) :
    (homing_4_lookup s).CURRENT_POS = p ∧
      ∃ idx, (k, idx) ∈ sequenceDefines ∧ (homing_4_lookup s).HOMED_POS = idx ∧
        ∃ row, HOMED_ARRAY_at idx = some row ∧ row.TORDER = idx ∧ row.END_POS = p := by
  simp only [sequenceTable, List.mem_cons, Prod.mk.injEq, List.mem_nil_iff, or_false] at hk
  rcases hk with h | h | h | h | h | h | h | h | h | h | h
  · obtain ⟨rfl, rfl⟩ := h
    have hi : (homing_4_index s).HOMED_POS = 0 := by
      rw [homing_4_index_HOMED_POS, ht]; simp
    have hl := lookup_of_index s 0 ⟨RNNRNRL, XA, A⟩ hi rfl
    exact ⟨hl.1, ⟨0, by decide, hl.2, _, rfl, rfl, rfl⟩⟩
  · obtain ⟨rfl, rfl⟩ := h
    have hi : (homing_4_index s).HOMED_POS = 1 := by
      rw [homing_4_index_HOMED_POS, ht]; simp
    have hl := lookup_of_index s 1 ⟨NNRNRL, AA, A⟩ hi rfl
    exact ⟨hl.1, ⟨1, by decide, hl.2, _, rfl, rfl, rfl⟩⟩
  · obtain ⟨rfl, rfl⟩ := h
    have hi : (homing_4_index s).HOMED_POS = 2 := by
      rw [homing_4_index_HOMED_POS, ht]; simp
    have hl := lookup_of_index s 2 ⟨LNNRNRL, ABA, A⟩ hi rfl
    exact ⟨hl.1, ⟨2, by decide, hl.2, _, rfl, rfl, rfl⟩⟩
  · obtain ⟨rfl, rfl⟩ := h
    have hi : (homing_4_index s).HOMED_POS = 3 := by
      rw [homing_4_index_HOMED_POS, ht]; simp
    have hl := lookup_of_index s 3 ⟨RNNLRNRL, ABB, B⟩ hi rfl
    exact ⟨hl.1, ⟨3, by decide, hl.2, _, rfl, rfl, rfl⟩⟩
  · obtain ⟨rfl, rfl⟩ := h
    have hi : (homing_4_index s).HOMED_POS = 4 := by
      rw [homing_4_index_HOMED_POS, ht]; simp
    have hl := lookup_of_index s 4 ⟨LRNNLRNRL, ABB, B⟩ hi rfl
    exact ⟨hl.1, ⟨4, by decide, hl.2, _, rfl, rfl, rfl⟩⟩
  · obtain ⟨rfl, rfl⟩ := h
    have hi : (homing_4_index s).HOMED_POS = 5 := by
      rw [homing_4_index_HOMED_POS, ht]; simp
    have hl := lookup_of_index s 5 ⟨NNLRNRL, BB, B⟩ hi rfl
    exact ⟨hl.1, ⟨5, by decide, hl.2, _, rfl, rfl, rfl⟩⟩
  · obtain ⟨rfl, rfl⟩ := h
    have hi : (homing_4_index s).HOMED_POS = 6 := by
      rw [homing_4_index_HOMED_POS, ht]; simp
    have hl := lookup_of_index s 6 ⟨LNNLRNRL, BB, B⟩ hi rfl
    exact ⟨hl.1, ⟨6, by decide, hl.2, _, rfl, rfl, rfl⟩⟩
  · obtain ⟨rfl, rfl⟩ := h
    have hi : (homing_4_index s).HOMED_POS = 7 := by
      rw [homing_4_index_HOMED_POS, ht]; simp
    have hl := lookup_of_index s 7 ⟨RNNLRNL, BCC, C⟩ hi rfl
    exact ⟨hl.1, ⟨7, by decide, hl.2, _, rfl, rfl, rfl⟩⟩
  · obtain ⟨rfl, rfl⟩ := h
    have hi : (homing_4_index s).HOMED_POS = 8 := by
      rw [homing_4_index_HOMED_POS, ht]; simp
    have hl := lookup_of_index s 8 ⟨LRNNLRNL, BCC, C⟩ hi rfl
    exact ⟨hl.1, ⟨8, by decide, hl.2, _, rfl, rfl, rfl⟩⟩
  · obtain ⟨rfl, rfl⟩ := h
    have hi : (homing_4_index s).HOMED_POS = 9 := by
      rw [homing_4_index_HOMED_POS, ht]; simp
    have hl := lookup_of_index s 9 ⟨NNLRNL, CC, C⟩ hi rfl
    exact ⟨hl.1, ⟨9, by decide, hl.2, _, rfl, rfl, rfl⟩⟩
  · obtain ⟨rfl, rfl⟩ := h
    have hi : (homing_4_index s).HOMED_POS = 10 := by
      rw [homing_4_index_HOMED_POS, ht]; simp
    have hl := lookup_of_index s 10 ⟨LNNLRNL, CC, C⟩ hi rfl
    exact ⟨hl.1, ⟨10, by decide, hl.2, _, rfl, rfl, rfl⟩⟩

/-- C8. Table resolution: when TriggerOrder equals one of the 11 strings of the
fixed table at stage 4's lookup, the lookup sets Position to the end-position
the table gives for it, and the index stored by the comparison chain is the
value of the `#define` of the same name and selects the `HOMED_ARRAY` row
whose first column is that `#define`.  The 11 keys are pairwise distinct, and
the match is exact: a TriggerOrder equal to none of them stores no index. -/
theorem table_resolution (s : State) (k : String) (p : Int) (hk : (k, p) ∈ sequenceTable)
    (ht : s.TRIGGER_ORDER = k) :
    ((homing_4_lookup s).CURRENT_POS = p ∧
      ∃ idx, (k, idx) ∈ sequenceDefines ∧ (homing_4_lookup s).HOMED_POS = idx ∧
        ∃ row, HOMED_ARRAY_at idx = some row ∧ row.TORDER = idx ∧ row.END_POS = p) ∧
    sequenceTable.length = 11 ∧ (sequenceTable.map Prod.fst).Nodup ∧
    (∀ t : State, t.TRIGGER_ORDER ∉ sequenceTable.map Prod.fst →
      (homing_4_index t).HOMED_POS = t.HOMED_POS) :=
  ⟨lookup_of_entry s k p hk ht, rfl, by decide, lookup_no_match⟩

theorem table_resolution_witness :
    (homing_4_lookup (homingAt (-1) 5 "NNLRNRL")).CURRENT_POS = 2 ∧
      (homing_4_lookup (homingAt (-1) 5 "RNNRNRL")).CURRENT_POS = 1 ∧
      (homing_4_index (homingAt (-1) 5 "NNLRNRLL")).HOMED_POS =
        (homingAt (-1) 5 "NNLRNRLL").HOMED_POS :=
  ⟨(table_resolution (homingAt (-1) 5 "NNLRNRL") "NNLRNRL" 2 (by decide) rfl).1.1,
   (table_resolution (homingAt (-1) 5 "RNNRNRL") "RNNRNRL" 1 (by decide) rfl).1.1,
   (table_resolution (homingAt (-1) 5 "NNLRNRL") "NNLRNRL" 2 (by decide) rfl).2.2.2
     (homingAt (-1) 5 "NNLRNRLL") (by decide)⟩

/-! ## Recentering after a resolved homing run -/

theorem homing_4_index_trace (s : State) : (homing_4_index s).trace = s.trace := by
  unfold homing_4_index
  simp only [apply_ite State.trace, State.set_HOMED_POS, ite_self]

theorem homing_4_index_HOMING (s : State) : (homing_4_index s).HOMING = s.HOMING := by
  unfold homing_4_index
  simp only [apply_ite State.HOMING, State.set_HOMED_POS, ite_self]

theorem homing_4_lookup_trace (s : State) : (homing_4_lookup s).trace = s.trace := by
  unfold homing_4_lookup homing_4_assign
  split <;> simp only [State.set_CURRENT_POS, State.set_fault, homing_4_index_trace]

theorem homing_4_lookup_HOMING (s : State) : (homing_4_lookup s).HOMING = s.HOMING := by
  unfold homing_4_lookup homing_4_assign
  split <;> simp only [State.set_CURRENT_POS, State.set_fault, homing_4_index_HOMING]

theorem homing_4_finish_CURRENT_POS (s : State) :
    (homing_4_finish s).CURRENT_POS = s.CURRENT_POS :=
  (steady_homing_4_finish (Steady.rfl s)).CURRENT_POS

theorem homing_4_finish_calls (f : Fn) (s : State) :
    calls f (homing_4_finish s).trace = calls f s.trace :=
  (steady_homing_4_finish (Steady.rfl s)).calls f

theorem homing_4_probe_calls (f : Fn) (s : State) :
    calls f (homing_4_probe s).trace = calls f s.trace :=
  (steady_homing_4_probe (Steady.rfl s)).calls f

/-- The recentering block of a resolved run, by the Position the lookup produced. -/
theorem homing_4_recenter_resolved (r : State) (h5 : r.HOMING > 4) :
    homing_4_recenter r =
      if r.CURRENT_POS = 2 then report_pos r
      else if r.CURRENT_POS = 1 then move_right (print (.calibration_complete r.SOURCE) r)
      else move_left (print (.calibration_complete r.SOURCE) r) := by
  unfold homing_4_recenter
  rw [if_pos h5]
  by_cases h2 : r.CURRENT_POS = 2
  · rw [if_neg (not_not.mpr h2), if_pos h2]
  · rw [if_pos h2, if_neg h2]
    rfl

/-- C9. Recentering after a resolved homing run (the stage counter is past 4
when the probing block of `homing_4` is done).  If the lookup resolves
Position 2, no motion primitive is entered and the position is only reported;
if it resolves 1, `move_right` is entered exactly once and no other motion
primitive; if it resolves 3, `move_left` is entered exactly once and no other
motion primitive.  In all three cases Position is 2 when `homing_4` returns,
whatever the sensor does meanwhile. -/
theorem recentering (s : State) (h5 : (homing_4_probe s).HOMING > 4) :
    ((homing_4_lookup (homing_4_probe s)).CURRENT_POS = 2 →
      homing_4 s = homing_4_finish (report_pos (homing_4_lookup (homing_4_probe s))) ∧
      (∀ f, calls f (homing_4 s).trace = calls f s.trace) ∧
      (homing_4 s).CURRENT_POS = 2) ∧
    ((homing_4_lookup (homing_4_probe s)).CURRENT_POS = 1 →
      (∀ f, calls f (homing_4 s).trace =
        calls f s.trace + (if Fn.move_right = f then 1 else 0)) ∧
      (homing_4 s).CURRENT_POS = 2) ∧
    ((homing_4_lookup (homing_4_probe s)).CURRENT_POS = 3 →
      (∀ f, calls f (homing_4 s).trace =
        calls f s.trace + (if Fn.move_left = f then 1 else 0)) ∧
      (homing_4 s).CURRENT_POS = 2) := by
  have hr := homing_4_recenter_resolved (homing_4_lookup (homing_4_probe s))
    (by rw [homing_4_lookup_HOMING]; exact h5)
  refine ⟨fun hp => ?_, fun hp => ?_, fun hp => ?_⟩
  · rw [if_pos hp] at hr
    unfold homing_4
    rw [hr]
    refine ⟨rfl, fun f => ?_, ?_⟩
    · rw [homing_4_finish_calls, report_pos_calls, homing_4_lookup_trace, homing_4_probe_calls]
    · rw [homing_4_finish_CURRENT_POS, report_pos_CURRENT_POS, hp]
  · rw [if_neg (by rw [hp]; decide), if_pos hp] at hr
    unfold homing_4
    rw [hr]
    refine ⟨fun f => ?_, ?_⟩
    · rw [homing_4_finish_calls, move_right_calls, print_calls, homing_4_lookup_trace,
        homing_4_probe_calls]
    · rw [homing_4_finish_CURRENT_POS, move_right_CURRENT_POS, print_CURRENT_POS, hp]
      decide
  · rw [if_neg (by rw [hp]; decide), if_neg (by rw [hp]; decide)] at hr
    unfold homing_4
    rw [hr]
    refine ⟨fun f => ?_, ?_⟩
    · rw [homing_4_finish_calls, move_left_calls, print_calls, homing_4_lookup_trace,
        homing_4_probe_calls]
    · rw [homing_4_finish_CURRENT_POS, move_left_CURRENT_POS, print_CURRENT_POS, hp]
      decide

theorem recentering_witness :
    ((homing_4 (homingAt (-1) 5 "NNLRNRL")).CURRENT_POS = 2 ∧
        calls .move_right (homing_4 (homingAt (-1) 5 "NNLRNRL")).trace = 0 ∧
        calls .move_left (homing_4 (homingAt (-1) 5 "NNLRNRL")).trace = 0) ∧
      ((homing_4 (homingAt (-1) 5 "RNNRNRL")).CURRENT_POS = 2 ∧
        calls .move_right (homing_4 (homingAt (-1) 5 "RNNRNRL")).trace = 1 ∧
        calls .move_left (homing_4 (homingAt (-1) 5 "RNNRNRL")).trace = 0) ∧
      ((homing_4 (homingAt (-1) 5 "NNLRNL")).CURRENT_POS = 2 ∧
        calls .move_right (homing_4 (homingAt (-1) 5 "NNLRNL")).trace = 0 ∧
        calls .move_left (homing_4 (homingAt (-1) 5 "NNLRNL")).trace = 1) ∧
      ((homing_4_probe stage4Run).TRIGGER_ORDER = "NNLRNRL" ∧
        (homing_4 stage4Run).CURRENT_POS = 2 ∧
        calls .move_right (homing_4 stage4Run).trace = 0 ∧
        calls .move_left (homing_4 stage4Run).trace = 0) :=
  ⟨have h := (recentering (homingAt (-1) 5 "NNLRNRL") (by decide)).1 (by decide)
   ⟨h.2.2, h.2.1 .move_right, h.2.1 .move_left⟩,
   have h := (recentering (homingAt (-1) 5 "RNNRNRL") (by decide)).2.1 (by decide)
   ⟨h.2, h.1 .move_right, h.1 .move_left⟩,
   have h := (recentering (homingAt (-1) 5 "NNLRNL") (by decide)).2.2 (by decide)
   ⟨h.2, h.1 .move_right, h.1 .move_left⟩,
   have h := (recentering stage4Run (by decide)).1 (by decide)
   ⟨by decide, h.2.2, h.2.1 .move_right, h.2.1 .move_left⟩⟩

/-! ## Composite moves -/

theorem MOVEcommand_read_CURRENT_POS (word : String) (s : State) :
    (MOVEcommand_read word s).CURRENT_POS = s.CURRENT_POS := by
  unfold MOVEcommand_read
  simp only [apply_ite State.CURRENT_POS, State.set_RX_COMMAND, State.set_rxWord,
    State.set_SOURCE, ite_self]

theorem MOVEcommand_read_trace (word : String) (s : State) :
    (MOVEcommand_read word s).trace = s.trace := by
  unfold MOVEcommand_read
  simp only [apply_ite State.trace, State.set_RX_COMMAND, State.set_rxWord,
    State.set_SOURCE, ite_self]

/-- The command id the conversion chain stores: the last comparison that matches wins. -/
theorem MOVEcommand_read_RX_COMMAND (word : String) (s : State) :
    (MOVEcommand_read word s).RX_COMMAND =
      if word = "H4" then H4
      else if word = "H3" then H3
      else if word = "H2" then H2
      else if word = "H1" then H1
      else if word = "GR1" then GR1
      else if word = "GL1" then GL1
      else if word = "GOWORKBENCH" then WORKBENCH
      else if word = "GOCHOPSAW" then CHOPSAW
      else if word = "GOCNC" then CNC
      else if word = "LEFT" then LEFT
      else if word = "RIGHT" then RIGHT
      else if word = "STOP" then STOP
      else 99 := by
  unfold MOVEcommand_read
  simp only [apply_ite State.RX_COMMAND, apply_ite State.rxWord, State.set_RX_COMMAND,
    State.set_rxWord, State.set_SOURCE, ite_self]

theorem MOVEcommand_GOCNC (s : State) :
    MOVEcommand "GOCNC" s = MOVEcommand_CNC (MOVEcommand_read "GOCNC" s) := by
  have h : (MOVEcommand_read "GOCNC" s).RX_COMMAND = CNC := by
    rw [MOVEcommand_read_RX_COMMAND]; decide
  unfold MOVEcommand MOVEcommand_switch
  rw [h]
  rw [if_neg (by decide), if_neg (by decide), if_neg (by decide), if_neg (by decide), if_neg (by decide), if_pos rfl]

theorem MOVEcommand_GOCHOPSAW (s : State) :
    MOVEcommand "GOCHOPSAW" s = MOVEcommand_CHOPSAW (MOVEcommand_read "GOCHOPSAW" s) := by
  have h : (MOVEcommand_read "GOCHOPSAW" s).RX_COMMAND = CHOPSAW := by
    rw [MOVEcommand_read_RX_COMMAND]; decide
  unfold MOVEcommand MOVEcommand_switch
  rw [h]
  rw [if_neg (by decide), if_neg (by decide), if_neg (by decide), if_neg (by decide), if_neg (by decide), if_neg (by decide), if_pos rfl]

theorem MOVEcommand_GOWORKBENCH (s : State) :
    MOVEcommand "GOWORKBENCH" s =
      MOVEcommand_WORKBENCH (MOVEcommand_read "GOWORKBENCH" s) := by
  have h : (MOVEcommand_read "GOWORKBENCH" s).RX_COMMAND = WORKBENCH := by
    rw [MOVEcommand_read_RX_COMMAND]; decide
  unfold MOVEcommand MOVEcommand_switch
  rw [h]
  rw [if_neg (by decide), if_neg (by decide), if_neg (by decide), if_neg (by decide), if_neg (by decide), if_neg (by decide), if_neg (by decide), if_pos rfl]

theorem MOVEcommand_CNC_homed (t : State)
    (hp : t.CURRENT_POS = 1 ∨ t.CURRENT_POS = 2 ∨ t.CURRENT_POS = 3) :
    (MOVEcommand_CNC t).CURRENT_POS = 3 ∧
      ∀ f, calls f (MOVEcommand_CNC t).trace =
        calls f t.trace + (if Fn.move_right = f then (3 - t.CURRENT_POS).toNat else 0) := by
  unfold MOVEcommand_CNC
  refine ⟨?_, fun f => ?_⟩
  · rcases hp with h | h | h <;>
      simp [apply_ite State.CURRENT_POS, move_right_CURRENT_POS, h]
  · rcases hp with h | h | h <;>
      simp [apply_ite State.CURRENT_POS, apply_ite State.trace, apply_ite (calls f),
        move_right_CURRENT_POS, move_right_calls, h]
    all_goals split
    all_goals simp

theorem MOVEcommand_CHOPSAW_homed (t : State)
    (hp : t.CURRENT_POS = 1 ∨ t.CURRENT_POS = 2 ∨ t.CURRENT_POS = 3) :
    (MOVEcommand_CHOPSAW t).CURRENT_POS = 2 ∧
      ∀ f, calls f (MOVEcommand_CHOPSAW t).trace =
        calls f t.trace + (if Fn.move_right = f then (2 - t.CURRENT_POS).toNat else 0) +
          (if Fn.move_left = f then (t.CURRENT_POS - 2).toNat else 0) := by
  unfold MOVEcommand_CHOPSAW
  refine ⟨?_, fun f => ?_⟩
  · rcases hp with h | h | h <;>
      simp [apply_ite State.CURRENT_POS, move_right_CURRENT_POS, move_left_CURRENT_POS, h]
  · rcases hp with h | h | h <;>
      simp [apply_ite State.CURRENT_POS, apply_ite State.trace, apply_ite (calls f),
        move_right_CURRENT_POS, move_right_calls, move_left_CURRENT_POS, move_left_calls, h]

theorem MOVEcommand_WORKBENCH_homed (t : State)
    (hp : t.CURRENT_POS = 1 ∨ t.CURRENT_POS = 2 ∨ t.CURRENT_POS = 3) :
    (MOVEcommand_WORKBENCH t).CURRENT_POS = 1 ∧
      ∀ f, calls f (MOVEcommand_WORKBENCH t).trace =
        calls f t.trace + (if Fn.move_left = f then (t.CURRENT_POS - 1).toNat else 0) := by
  unfold MOVEcommand_WORKBENCH
  refine ⟨?_, fun f => ?_⟩
  · rcases hp with h | h | h <;>
      simp [apply_ite State.CURRENT_POS, move_left_CURRENT_POS, h]
  · rcases hp with h | h | h <;>
      simp [apply_ite State.CURRENT_POS, apply_ite State.trace, apply_ite (calls f),
        move_left_CURRENT_POS, move_left_calls, h]
    all_goals split
    all_goals simp

/-- C10. Composite moves: for every homed Position p in {1,2,3}, MOVE GOCNC
ends with Position 3, MOVE GOCHOPSAW with Position 2 and MOVE GOWORKBENCH with
Position 1, and each enters exactly |target - p| full moves, all in the
direction of the target, and no other motion primitive, whatever the sensor
does meanwhile. -/
theorem composite_moves (s : State)
    (hp : s.CURRENT_POS = 1 ∨ s.CURRENT_POS = 2 ∨ s.CURRENT_POS = 3) :
    ((MOVEcommand "GOCNC" s).CURRENT_POS = 3 ∧
      ∀ f, calls f (MOVEcommand "GOCNC" s).trace =
        calls f s.trace + (if Fn.move_right = f then (3 - s.CURRENT_POS).toNat else 0)) ∧
    ((MOVEcommand "GOCHOPSAW" s).CURRENT_POS = 2 ∧
      ∀ f, calls f (MOVEcommand "GOCHOPSAW" s).trace =
        calls f s.trace + (if Fn.move_right = f then (2 - s.CURRENT_POS).toNat else 0) +
          (if Fn.move_left = f then (s.CURRENT_POS - 2).toNat else 0)) ∧
    ((MOVEcommand "GOWORKBENCH" s).CURRENT_POS = 1 ∧
      ∀ f, calls f (MOVEcommand "GOWORKBENCH" s).trace =
        calls f s.trace + (if Fn.move_left = f then (s.CURRENT_POS - 1).toNat else 0)) := by
  refine ⟨?_, ?_, ?_⟩
  · have h := MOVEcommand_CNC_homed (MOVEcommand_read "GOCNC" s)
      (by rw [MOVEcommand_read_CURRENT_POS]; exact hp)
    rw [MOVEcommand_read_CURRENT_POS, MOVEcommand_read_trace] at h
    rw [MOVEcommand_GOCNC]
    exact h
  · have h := MOVEcommand_CHOPSAW_homed (MOVEcommand_read "GOCHOPSAW" s)
      (by rw [MOVEcommand_read_CURRENT_POS]; exact hp)
    rw [MOVEcommand_read_CURRENT_POS, MOVEcommand_read_trace] at h
    rw [MOVEcommand_GOCHOPSAW]
    exact h
  · have h := MOVEcommand_WORKBENCH_homed (MOVEcommand_read "GOWORKBENCH" s)
      (by rw [MOVEcommand_read_CURRENT_POS]; exact hp)
    rw [MOVEcommand_read_CURRENT_POS, MOVEcommand_read_trace] at h
    rw [MOVEcommand_GOWORKBENCH]
    exact h

theorem composite_moves_witness :
    ((MOVEcommand "GOCNC" (homedAt 1 false)).CURRENT_POS = 3 ∧
        calls .move_right (MOVEcommand "GOCNC" (homedAt 1 false)).trace = 2 ∧
        calls .move_left (MOVEcommand "GOCNC" (homedAt 1 false)).trace = 0) ∧
      ((MOVEcommand "GOCNC" (homedAt 3 false)).CURRENT_POS = 3 ∧
        calls .move_right (MOVEcommand "GOCNC" (homedAt 3 false)).trace = 0 ∧
        calls .move_left (MOVEcommand "GOCNC" (homedAt 3 false)).trace = 0) ∧
      ((MOVEcommand "GOWORKBENCH" (homedAt 3 false)).CURRENT_POS = 1 ∧
        calls .move_left (MOVEcommand "GOWORKBENCH" (homedAt 3 false)).trace = 2) :=
  ⟨have h := (composite_moves (homedAt 1 false) (by decide)).1
   ⟨h.1, h.2 .move_right, h.2 .move_left⟩,
   have h := (composite_moves (homedAt 3 false) (by decide)).1
   ⟨h.1, h.2 .move_right, h.2 .move_left⟩,
   have h := (composite_moves (homedAt 3 false) (by decide)).2.2
   ⟨h.1, h.2 .move_left⟩⟩

/-! ## Refusal of composite moves before homing -/

theorem MOVEcommand_read_PREVIOUS_POS (word : String) (s : State) :
    (MOVEcommand_read word s).PREVIOUS_POS = s.PREVIOUS_POS := by
  unfold MOVEcommand_read
  simp only [apply_ite State.PREVIOUS_POS, State.set_RX_COMMAND, State.set_rxWord,
    State.set_SOURCE, ite_self]

theorem MOVEcommand_read_PIN_MOTOR_FWD (word : String) (s : State) :
    (MOVEcommand_read word s).PIN_MOTOR_FWD = s.PIN_MOTOR_FWD := by
  unfold MOVEcommand_read
  simp only [apply_ite State.PIN_MOTOR_FWD, State.set_RX_COMMAND, State.set_rxWord,
    State.set_SOURCE, ite_self]

theorem MOVEcommand_read_PIN_MOTOR_REV (word : String) (s : State) :
    (MOVEcommand_read word s).PIN_MOTOR_REV = s.PIN_MOTOR_REV := by
  unfold MOVEcommand_read
  simp only [apply_ite State.PIN_MOTOR_REV, State.set_RX_COMMAND, State.set_rxWord,
    State.set_SOURCE, ite_self]

theorem MOVEcommand_read_SOURCE (word : String) (s : State) :
    (MOVEcommand_read word s).SOURCE = CLI := by
  unfold MOVEcommand_read
  simp only [apply_ite State.SOURCE, State.set_RX_COMMAND, State.set_rxWord,
    State.set_SOURCE, ite_self]

theorem refusedWith_print_read (m : Msg) (word : String) (s : State) :
    RefusedWith m s (print m (MOVEcommand_read word s)) := by
  refine ⟨?_, ?_, ?_, ?_, ?_⟩
  · simp only [print, emit, MOVEcommand_read_trace]
  · simp only [print_CURRENT_POS, MOVEcommand_read_CURRENT_POS]
  · simp only [print_PREVIOUS_POS, MOVEcommand_read_PREVIOUS_POS]
  · simp only [print_PIN_MOTOR_FWD, MOVEcommand_read_PIN_MOTOR_FWD]
  · simp only [print_PIN_MOTOR_REV, MOVEcommand_read_PIN_MOTOR_REV]

/-- C11. NotHomed: when Position is -1, each of MOVE GOCNC, MOVE GOCHOPSAW and
MOVE GOWORKBENCH only prints its "Machine not homed" diagnostic: the trace gains
that one line and nothing else (no entry into a move primitive, no write to a
drive line), and Position, PreviousPosition and both drive lines are unchanged. -/
theorem not_homed_refused (s : State) (h : s.CURRENT_POS = -1) :
    RefusedWith (.not_homed_cnc CLI) s (MOVEcommand "GOCNC" s) ∧
    RefusedWith (.not_homed_chopsaw CLI) s (MOVEcommand "GOCHOPSAW" s) ∧
    RefusedWith (.not_homed_workbench CLI) s (MOVEcommand "GOWORKBENCH" s) := by
  refine ⟨?_, ?_, ?_⟩
  · rw [MOVEcommand_GOCNC]
    unfold MOVEcommand_CNC
    rw [if_pos (by rw [MOVEcommand_read_CURRENT_POS]; exact h), MOVEcommand_read_SOURCE]
    exact refusedWith_print_read _ _ _
  · rw [MOVEcommand_GOCHOPSAW]
    unfold MOVEcommand_CHOPSAW
    rw [if_pos (by rw [MOVEcommand_read_CURRENT_POS]; exact h), MOVEcommand_read_SOURCE]
    exact refusedWith_print_read _ _ _
  · rw [MOVEcommand_GOWORKBENCH]
    unfold MOVEcommand_WORKBENCH
    rw [if_pos (by rw [MOVEcommand_read_CURRENT_POS]; exact h), MOVEcommand_read_SOURCE]
    exact refusedWith_print_read _ _ _

theorem not_homed_refused_witness :
    (startup .HIGH []).CURRENT_POS = -1 ∧
      (MOVEcommand "GOCNC" (startup .HIGH [])).trace =
        .print (.not_homed_cnc CLI) :: (startup .HIGH []).trace ∧
      (MOVEcommand "GOCHOPSAW" (startup .HIGH [])).CURRENT_POS = -1 ∧
      (MOVEcommand "GOWORKBENCH" (startup .HIGH [])).PREVIOUS_POS = -1 :=
  ⟨by decide, (not_homed_refused (startup .HIGH []) (by decide)).1.1,
    (not_homed_refused (startup .HIGH []) (by decide)).2.1.2.1,
    (not_homed_refused (startup .HIGH []) (by decide)).2.2.2.2.1⟩

/-! ## The sensor handler -/

theorem toInt_LOW : Level.LOW.toInt = 0 := rfl

theorem toInt_HIGH : Level.HIGH.toInt = 1 := rfl

/-- Without a committed trigger the handler only samples. -/
theorem isr_of_not_commit (r1 r2 : Level) (s : State) (h : ¬ commitsTrigger r1 r2 s) :
    isr_prox_sensor r1 r2 s = sampled r1 r2 s := by
  unfold commitsTrigger at h
  unfold isr_prox_sensor sampled
  by_cases h1 : r1.toInt = s.SENSOR_STATE
  · simp [digitalRead, h1]
  · cases r2
    · have h2 : s.PREV_SENSOR_STATE ≠ 0 → ¬ s.SENSOR_OVERRIDE = 0 := by
        intro hp ho
        exact h ⟨h1, hp, ho, rfl⟩
      by_cases hp : s.PREV_SENSOR_STATE = 0
      · simp [digitalRead, h1, wait, toInt_LOW, hp]
      · simp [digitalRead, h1, wait, toInt_LOW, hp, h2 hp]
    · simp [digitalRead, h1, wait, toInt_HIGH]

theorem sampled_PIN_MOTOR_FWD (r1 r2 : Level) (s : State) :
    (sampled r1 r2 s).PIN_MOTOR_FWD = s.PIN_MOTOR_FWD := by
  unfold sampled
  split
  all_goals rfl

theorem sampled_PIN_MOTOR_REV (r1 r2 : Level) (s : State) :
    (sampled r1 r2 s).PIN_MOTOR_REV = s.PIN_MOTOR_REV := by
  unfold sampled
  split
  all_goals rfl

theorem sampled_TRIGGER_ORDER (r1 r2 : Level) (s : State) :
    (sampled r1 r2 s).TRIGGER_ORDER = s.TRIGGER_ORDER := by
  unfold sampled
  split
  all_goals rfl

theorem sampled_TRIGGER_ORDER2 (r1 r2 : Level) (s : State) :
    (sampled r1 r2 s).TRIGGER_ORDER2 = s.TRIGGER_ORDER2 := by
  unfold sampled
  split
  all_goals rfl

theorem sampled_currColor (r1 r2 : Level) (s : State) :
    (sampled r1 r2 s).currColor = s.currColor := by
  unfold sampled
  split
  all_goals rfl

theorem sampled_pending (r1 r2 : Level) (s : State) :
    (sampled r1 r2 s).pending = s.pending := by
  unfold sampled
  split
  all_goals rfl

theorem sampled_trace (r1 r2 : Level) (s : State) :
    (sampled r1 r2 s).trace = if r1.toInt ≠ s.SENSOR_STATE then .wait 50 :: s.trace else s.trace := by
  unfold sampled
  split
  all_goals rfl

/-- TriggerOrder after one handler invocation, for every state and samples. -/
theorem isr_TRIGGER_ORDER (r1 r2 : Level) (s : State) :
    (isr_prox_sensor r1 r2 s).TRIGGER_ORDER =
      if commitsTrigger r1 r2 s then
        if s.HOMING ≠ 0 ∧ s.HOME_DIRECTION = RIGHT then s.TRIGGER_ORDER.push 'R'
        else if s.HOMING ≠ 0 ∧ s.HOME_DIRECTION = LEFT then s.TRIGGER_ORDER.push 'L'
        else s.TRIGGER_ORDER
      else s.TRIGGER_ORDER := by
  unfold isr_prox_sensor commitsTrigger
  simp only [digitalRead, State.set_SOURCE, State.set_PIN_PROX_SENSOR, State.set_SENSOR_STATE,
    State.set_PREV_SENSOR_STATE, State.set_TRIGGER_ORDER, State.set_TRIGGER_ORDER2, wait,
    apply_ite State.TRIGGER_ORDER, apply_ite State.HOMING, apply_ite State.HOME_DIRECTION,
    rgb_set_led_TRIGGER_ORDER, rgb_set_led_HOMING, rgb_set_led_HOME_DIRECTION,
    motor_stop_TRIGGER_ORDER, motor_stop_HOMING, motor_stop_HOME_DIRECTION, ite_self]
  by_cases h1 : r1.toInt = s.SENSOR_STATE
  · simp [h1]
  · cases r2
    · by_cases hp : s.PREV_SENSOR_STATE = 0
      · simp [h1, hp, toInt_LOW]
      · by_cases ho : s.SENSOR_OVERRIDE = 0
        · by_cases hR : s.HOME_DIRECTION = RIGHT
          · by_cases h0 : s.HOMING = 0
            · simp [h1, hp, ho, hR, h0, toInt_LOW]
            · simp [h1, hp, ho, hR, h0, toInt_LOW]
          · simp [h1, hp, ho, hR, toInt_LOW]
        · simp [h1, hp, ho, toInt_LOW]
    · simp [h1, toInt_HIGH]

/-- After every handler invocation PreviousSensorState equals SensorState. -/
theorem isr_synced (r1 r2 : Level) (s : State) :
    (isr_prox_sensor r1 r2 s).PREV_SENSOR_STATE = (isr_prox_sensor r1 r2 s).SENSOR_STATE := by
  unfold isr_prox_sensor
  rfl

/-- Debounce where PreviousSensorState equals SensorState: a re-sample equal to
the stable state commits nothing. -/
theorem isr_debounced (r1 r2 : Level) (s : State) (hs : s.PREV_SENSOR_STATE = s.SENSOR_STATE)
    (hb : r2.toInt = s.SENSOR_STATE) :
    isr_prox_sensor r1 r2 s = sampled r1 r2 s ∧
      (isr_prox_sensor r1 r2 s).SENSOR_STATE = s.SENSOR_STATE := by
  have hn : ¬ commitsTrigger r1 r2 s := fun h => h.2.1 (hs.trans hb.symm)
  rw [isr_of_not_commit r1 r2 s hn]
  refine ⟨rfl, ?_⟩
  unfold sampled
  split
  · exact hb
  · rfl

theorem rgb_set_led_currColor (c : Nat) (s : State) : (rgb_set_led c s).currColor = c := by
  unfold rgb_set_led
  split
  · split
    all_goals rfl
  · rename_i h
    exact not_not.mp h

theorem rgb_set_led_YELLOW_pins (s : State) (h : s.currColor ≠ YELLOW) :
    (rgb_set_led YELLOW s).PIN_LED_RED = .LOW ∧ (rgb_set_led YELLOW s).PIN_LED_GREEN = .LOW := by
  unfold rgb_set_led
  rw [if_pos h]
  exact ⟨rfl, rfl⟩

theorem rgb_set_led_GREEN_pins (s : State) (h : s.currColor ≠ GREEN) :
    (rgb_set_led GREEN s).PIN_LED_RED = .HIGH ∧ (rgb_set_led GREEN s).PIN_LED_GREEN = .LOW := by
  unfold rgb_set_led
  rw [if_pos h]
  exact ⟨rfl, rfl⟩

theorem rgb_set_led_trace_mono (c : Nat) (s : State) (e : Event) (h : e ∈ s.trace) :
    e ∈ (rgb_set_led c s).trace := by
  unfold rgb_set_led
  split
  · split
    · exact List.mem_cons_of_mem _ (List.mem_cons_of_mem _ h)
    · exact h
  · exact h

/-- The call `motor_stop()` of the handler, where SensorState is 0: the
indicator is left to the handler. -/
theorem motor_stop_of_triggered (t : State) (h : t.SENSOR_STATE = 0) :
    motor_stop t =
      if t.PIN_MOTOR_FWD = .LOW ∨ t.PIN_MOTOR_REV = .LOW then
        digitalWrite .PIN_MOTOR_REV .HIGH
          (digitalWrite .PIN_MOTOR_FWD .HIGH (print (.stop_issued t.SOURCE) t))
      else t := by
  unfold motor_stop
  simp only [digitalRead]
  split
  · have e : (digitalWrite Pin.PIN_MOTOR_REV Level.HIGH
        (digitalWrite Pin.PIN_MOTOR_FWD Level.HIGH
          (print (Msg.stop_issued t.SOURCE) t))).SENSOR_STATE = 0 := h
    simp only [e, ne_eq, not_true_eq_false, if_false]
  · rfl

theorem motor_stop_atTrigger (s : State) :
    (motor_stop (atTrigger s)).currColor = s.currColor ∧
      ((s.PIN_MOTOR_FWD = .LOW ∨ s.PIN_MOTOR_REV = .LOW) →
        .print (.stop_issued SENSOR) ∈ (motor_stop (atTrigger s)).trace) := by
  rw [motor_stop_of_triggered _ rfl]
  refine ⟨?_, fun h => ?_⟩
  · split
    all_goals rfl
  · have h2 : (atTrigger s).PIN_MOTOR_FWD = .LOW ∨ (atTrigger s).PIN_MOTOR_REV = .LOW := h
    rw [if_pos h2]
    exact List.mem_cons_of_mem _ (List.mem_cons_of_mem _ (List.mem_cons_self _ _))

theorem isr_commit_PIN_MOTOR_FWD (r1 : Level) (s : State) (h : commitsTrigger r1 .LOW s) :
    (isr_prox_sensor r1 .LOW s).PIN_MOTOR_FWD =
      Level.HIGH := by
  obtain ⟨h1, hp, ho, -⟩ := h
  rw [toInt_LOW] at hp
  unfold isr_prox_sensor
  simp only [digitalRead, State.set_SOURCE, State.set_PIN_PROX_SENSOR, State.set_SENSOR_STATE,
    State.set_PREV_SENSOR_STATE, State.set_TRIGGER_ORDER, State.set_TRIGGER_ORDER2, wait,
    toInt_LOW, ne_eq, h1, not_false_eq_true, if_true, hp, ho, and_self,
    apply_ite State.PIN_MOTOR_FWD, apply_ite State.HOMING, apply_ite State.HOME_DIRECTION,
    rgb_set_led_HOMING, rgb_set_led_HOME_DIRECTION, motor_stop_HOMING, motor_stop_HOME_DIRECTION,
    rgb_set_led_PIN_MOTOR_FWD, (motor_stop_lines _).1, ite_self]

theorem isr_commit_PIN_MOTOR_REV (r1 : Level) (s : State) (h : commitsTrigger r1 .LOW s) :
    (isr_prox_sensor r1 .LOW s).PIN_MOTOR_REV =
      Level.HIGH := by
  obtain ⟨h1, hp, ho, -⟩ := h
  rw [toInt_LOW] at hp
  unfold isr_prox_sensor
  simp only [digitalRead, State.set_SOURCE, State.set_PIN_PROX_SENSOR, State.set_SENSOR_STATE,
    State.set_PREV_SENSOR_STATE, State.set_TRIGGER_ORDER, State.set_TRIGGER_ORDER2, wait,
    toInt_LOW, ne_eq, h1, not_false_eq_true, if_true, hp, ho, and_self,
    apply_ite State.PIN_MOTOR_REV, apply_ite State.HOMING, apply_ite State.HOME_DIRECTION,
    rgb_set_led_HOMING, rgb_set_led_HOME_DIRECTION, motor_stop_HOMING, motor_stop_HOME_DIRECTION,
    rgb_set_led_PIN_MOTOR_REV, (motor_stop_lines _).2, ite_self]

theorem isr_commit_SENSOR_STATE (r1 : Level) (s : State) (h : commitsTrigger r1 .LOW s) :
    (isr_prox_sensor r1 .LOW s).SENSOR_STATE =
      0 := by
  obtain ⟨h1, hp, ho, -⟩ := h
  rw [toInt_LOW] at hp
  unfold isr_prox_sensor
  simp only [digitalRead, State.set_SOURCE, State.set_PIN_PROX_SENSOR, State.set_SENSOR_STATE,
    State.set_PREV_SENSOR_STATE, State.set_TRIGGER_ORDER, State.set_TRIGGER_ORDER2, wait,
    toInt_LOW, ne_eq, h1, not_false_eq_true, if_true, hp, ho, and_self,
    apply_ite State.SENSOR_STATE, apply_ite State.HOMING, apply_ite State.HOME_DIRECTION,
    rgb_set_led_HOMING, rgb_set_led_HOME_DIRECTION, motor_stop_HOMING, motor_stop_HOME_DIRECTION,
    rgb_set_led_SENSOR_STATE, motor_stop_SENSOR_STATE, ite_self]

theorem isr_commit_PREV_SENSOR_STATE (r1 : Level) (s : State) (h : commitsTrigger r1 .LOW s) :
    (isr_prox_sensor r1 .LOW s).PREV_SENSOR_STATE =
      0 := by
  obtain ⟨h1, hp, ho, -⟩ := h
  rw [toInt_LOW] at hp
  unfold isr_prox_sensor
  simp only [digitalRead, State.set_SOURCE, State.set_PIN_PROX_SENSOR, State.set_SENSOR_STATE,
    State.set_PREV_SENSOR_STATE, State.set_TRIGGER_ORDER, State.set_TRIGGER_ORDER2, wait,
    toInt_LOW, ne_eq, h1, not_false_eq_true, if_true, hp, ho, and_self,
    apply_ite State.PREV_SENSOR_STATE, apply_ite State.HOMING, apply_ite State.HOME_DIRECTION,
    rgb_set_led_HOMING, rgb_set_led_HOME_DIRECTION, motor_stop_HOMING, motor_stop_HOME_DIRECTION,
    apply_ite State.SENSOR_STATE, rgb_set_led_SENSOR_STATE, motor_stop_SENSOR_STATE, ite_self]

theorem isr_commit_currColor (r1 : Level) (s : State) (h : commitsTrigger r1 .LOW s) :
    (isr_prox_sensor r1 .LOW s).currColor =
      (if s.HOMING ≤ 0 ∨ s.HOMING ≥ 5 then YELLOW else GREEN) := by
  obtain ⟨h1, hp, ho, -⟩ := h
  rw [toInt_LOW] at hp
  unfold isr_prox_sensor
  simp only [digitalRead, State.set_SOURCE, State.set_PIN_PROX_SENSOR, State.set_SENSOR_STATE,
    State.set_PREV_SENSOR_STATE, State.set_TRIGGER_ORDER, State.set_TRIGGER_ORDER2, wait,
    toInt_LOW, ne_eq, h1, not_false_eq_true, if_true, hp, ho, and_self,
    apply_ite State.currColor, apply_ite State.HOMING, apply_ite State.HOME_DIRECTION,
    rgb_set_led_HOMING, rgb_set_led_HOME_DIRECTION, motor_stop_HOMING, motor_stop_HOME_DIRECTION,
    rgb_set_led_currColor, ite_self]

theorem isr_commit_trace (r1 : Level) (s : State) (h : commitsTrigger r1 .LOW s) :
    (isr_prox_sensor r1 .LOW s).trace =
      (rgb_set_led (if s.HOMING ≤ 0 ∨ s.HOMING ≥ 5 then YELLOW else GREEN)
        (motor_stop (atTrigger s))).trace := by
  obtain ⟨h1, hp, ho, -⟩ := h
  rw [toInt_LOW] at hp
  unfold isr_prox_sensor
  simp only [digitalRead, State.set_SOURCE, State.set_PIN_PROX_SENSOR, State.set_SENSOR_STATE,
    State.set_PREV_SENSOR_STATE, State.set_TRIGGER_ORDER, State.set_TRIGGER_ORDER2, wait,
    toInt_LOW, ne_eq, h1, not_false_eq_true, if_true, hp, ho, and_self,
    apply_ite State.trace, apply_ite State.HOMING, apply_ite State.HOME_DIRECTION,
    rgb_set_led_HOMING, rgb_set_led_HOME_DIRECTION, motor_stop_HOMING, motor_stop_HOME_DIRECTION,
    atTrigger, ite_self]
  split
  all_goals rfl

theorem isr_commit_PIN_LED_RED (r1 : Level) (s : State) (h : commitsTrigger r1 .LOW s) :
    (isr_prox_sensor r1 .LOW s).PIN_LED_RED =
      (rgb_set_led (if s.HOMING ≤ 0 ∨ s.HOMING ≥ 5 then YELLOW else GREEN)
        (motor_stop (atTrigger s))).PIN_LED_RED := by
  obtain ⟨h1, hp, ho, -⟩ := h
  rw [toInt_LOW] at hp
  unfold isr_prox_sensor
  simp only [digitalRead, State.set_SOURCE, State.set_PIN_PROX_SENSOR, State.set_SENSOR_STATE,
    State.set_PREV_SENSOR_STATE, State.set_TRIGGER_ORDER, State.set_TRIGGER_ORDER2, wait,
    toInt_LOW, ne_eq, h1, not_false_eq_true, if_true, hp, ho, and_self,
    apply_ite State.PIN_LED_RED, apply_ite State.HOMING, apply_ite State.HOME_DIRECTION,
    rgb_set_led_HOMING, rgb_set_led_HOME_DIRECTION, motor_stop_HOMING, motor_stop_HOME_DIRECTION,
    atTrigger, ite_self]
  split
  all_goals rfl

theorem isr_commit_PIN_LED_GREEN (r1 : Level) (s : State) (h : commitsTrigger r1 .LOW s) :
    (isr_prox_sensor r1 .LOW s).PIN_LED_GREEN =
      (rgb_set_led (if s.HOMING ≤ 0 ∨ s.HOMING ≥ 5 then YELLOW else GREEN)
        (motor_stop (atTrigger s))).PIN_LED_GREEN := by
  obtain ⟨h1, hp, ho, -⟩ := h
  rw [toInt_LOW] at hp
  unfold isr_prox_sensor
  simp only [digitalRead, State.set_SOURCE, State.set_PIN_PROX_SENSOR, State.set_SENSOR_STATE,
    State.set_PREV_SENSOR_STATE, State.set_TRIGGER_ORDER, State.set_TRIGGER_ORDER2, wait,
    toInt_LOW, ne_eq, h1, not_false_eq_true, if_true, hp, ho, and_self,
    apply_ite State.PIN_LED_GREEN, apply_ite State.HOMING, apply_ite State.HOME_DIRECTION,
    rgb_set_led_HOMING, rgb_set_led_HOME_DIRECTION, motor_stop_HOMING, motor_stop_HOME_DIRECTION,
    atTrigger, ite_self]
  split
  all_goals rfl

/-- C12. Override: in every state in which SensorOverride is set (nonzero) and
for every pair of sensor samples, the handler does no more than sample the
input: it does not reach its call of motor_stop, both drive lines keep their
levels, TriggerOrder (and its scratch copy) and the indicator colour are
unchanged, and the only event it can add to the trace is its settle delay. -/
theorem override_masks_sensor (s : State) (r1 r2 : Level) (h : s.SENSOR_OVERRIDE ≠ LOW) :
    isr_prox_sensor r1 r2 s = sampled r1 r2 s ∧
    (isr_prox_sensor r1 r2 s).PIN_MOTOR_FWD = s.PIN_MOTOR_FWD ∧
    (isr_prox_sensor r1 r2 s).PIN_MOTOR_REV = s.PIN_MOTOR_REV ∧
    (isr_prox_sensor r1 r2 s).TRIGGER_ORDER = s.TRIGGER_ORDER ∧
    (isr_prox_sensor r1 r2 s).TRIGGER_ORDER2 = s.TRIGGER_ORDER2 ∧
    (isr_prox_sensor r1 r2 s).currColor = s.currColor ∧
    (isr_prox_sensor r1 r2 s).trace =
      if r1.toInt ≠ s.SENSOR_STATE then .wait 50 :: s.trace else s.trace := by
  have hn : ¬ commitsTrigger r1 r2 s := fun hc => h hc.2.2.1
  rw [isr_of_not_commit r1 r2 s hn]
  exact ⟨rfl, sampled_PIN_MOTOR_FWD _ _ _, sampled_PIN_MOTOR_REV _ _ _,
    sampled_TRIGGER_ORDER _ _ _, sampled_TRIGGER_ORDER2 _ _ _, sampled_currColor _ _ _,
    sampled_trace _ _ _⟩

theorem override_masks_sensor_witness :
    (probingLeft.set_SENSOR_OVERRIDE 1).PIN_MOTOR_REV = .LOW ∧
      (isr_prox_sensor .LOW .LOW (probingLeft.set_SENSOR_OVERRIDE 1)).PIN_MOTOR_REV = .LOW ∧
      (isr_prox_sensor .LOW .LOW (probingLeft.set_SENSOR_OVERRIDE 1)).TRIGGER_ORDER = "NN" ∧
      (isr_prox_sensor .LOW .LOW probingLeft).PIN_MOTOR_REV = .HIGH ∧
      (isr_prox_sensor .LOW .LOW probingLeft).TRIGGER_ORDER = "NNL" :=
  ⟨by decide,
    (override_masks_sensor (probingLeft.set_SENSOR_OVERRIDE 1) .LOW .LOW (by decide)).2.2.1.trans
      (by decide),
    (override_masks_sensor (probingLeft.set_SENSOR_OVERRIDE 1) .LOW .LOW (by decide)).2.2.2.1.trans
      (by decide),
    by decide, by decide⟩

/-- C13, at the failing input. `setup()` stores the sampled input in SensorState
but leaves PreviousSensorState at its initialiser HIGH, so after a start-up with
the sensor triggered the stable state is 0 while PreviousSensorState is 1. A
handler invocation whose re-sample is back at the stable state (entry sample
HIGH, re-sample LOW) is then committed as a transition to Triggered: invoked
right after start-up it changes the indicator to Yellow; arriving during the
left probe of a manually stepped stage 3 it stops the motor (the handler's stop
diagnostic is logged) and appends 'L' to TriggerOrder, which ends as "NNLN"
where the same run without the bounce ends as "NNN". -/
theorem bounce_committed_after_triggered_startup :
    ((startup .LOW []).SENSOR_STATE = 0 ∧ (startup .LOW []).PREV_SENSOR_STATE = 1 ∧
      (startup .LOW []).currColor = 99) ∧
    ((isr_prox_sensor .HIGH .LOW (startup .LOW [])).SENSOR_STATE = 0 ∧
      (isr_prox_sensor .HIGH .LOW (startup .LOW [])).currColor = YELLOW ∧
      (isr_prox_sensor .HIGH .LOW (startup .LOW [])).PIN_LED_RED = .LOW ∧
      (isr_prox_sensor .HIGH .LOW (startup .LOW [])).PIN_LED_GREEN = .LOW) ∧
    ((runOps [.MOVE "H1", .MOVE "H2", .MOVE "H3"]
        (startup .LOW [[], [(.HIGH, .LOW)]])).TRIGGER_ORDER = "NNLN" ∧
      .print (.stop_issued SENSOR) ∈ (runOps [.MOVE "H1", .MOVE "H2", .MOVE "H3"]
        (startup .LOW [[], [(.HIGH, .LOW)]])).trace ∧
      (runOps [.MOVE "H1", .MOVE "H2", .MOVE "H3"] (startup .LOW [])).TRIGGER_ORDER = "NNN" ∧
      .print (.stop_issued SENSOR) ∉ (runOps [.MOVE "H1", .MOVE "H2", .MOVE "H3"]
        (startup .LOW [])).trace) := by
  decide

/-- C14. Committed transitions. When the handler commits a transition to
Triggered (input differed at entry, re-sample LOW and different from
PreviousSensorState, SensorOverride clear), both drive lines are deasserted
afterwards, the stop diagnostic with source SENSOR is in the trace if a line
was asserted, and the indicator colour is Yellow when HomingStage is 0 or at
least 5 and Green when it is in 1..4, the LED pins being driven accordingly
whenever the colour changes. When the input differed at entry and the re-sample
is HIGH, the handler changes SensorState and PreviousSensorState (both become
1) and nothing else of the sketch: beyond them only the settle delay and the
level of the input pin differ from the state before. -/
theorem commit_effects (s : State) (r1 : Level) :
    (commitsTrigger r1 .LOW s →
      ((isr_prox_sensor r1 .LOW s).PIN_MOTOR_FWD = .HIGH ∧
        (isr_prox_sensor r1 .LOW s).PIN_MOTOR_REV = .HIGH) ∧
      ((s.PIN_MOTOR_FWD = .LOW ∨ s.PIN_MOTOR_REV = .LOW) →
        .print (.stop_issued SENSOR) ∈ (isr_prox_sensor r1 .LOW s).trace) ∧
      ((s.HOMING = 0 ∨ s.HOMING ≥ 5) →
        (isr_prox_sensor r1 .LOW s).currColor = YELLOW ∧
        (s.currColor ≠ YELLOW → (isr_prox_sensor r1 .LOW s).PIN_LED_RED = .LOW ∧
          (isr_prox_sensor r1 .LOW s).PIN_LED_GREEN = .LOW)) ∧
      ((1 ≤ s.HOMING ∧ s.HOMING ≤ 4) →
        (isr_prox_sensor r1 .LOW s).currColor = GREEN ∧
        (s.currColor ≠ GREEN → (isr_prox_sensor r1 .LOW s).PIN_LED_RED = .HIGH ∧
          (isr_prox_sensor r1 .LOW s).PIN_LED_GREEN = .LOW)) ∧
      (isr_prox_sensor r1 .LOW s).SENSOR_STATE = 0 ∧
      (isr_prox_sensor r1 .LOW s).PREV_SENSOR_STATE = 0) ∧
    (r1.toInt ≠ s.SENSOR_STATE →
      isr_prox_sensor r1 .HIGH s =
        (((wait 50 s).set_PIN_PROX_SENSOR .HIGH).set_SENSOR_STATE 1).set_PREV_SENSOR_STATE 1) := by
  refine ⟨fun h => ⟨⟨isr_commit_PIN_MOTOR_FWD r1 s h, isr_commit_PIN_MOTOR_REV r1 s h⟩,
    fun hl => ?_, fun hy => ?_, fun hg => ?_, isr_commit_SENSOR_STATE r1 s h,
    isr_commit_PREV_SENSOR_STATE r1 s h⟩, fun h1 => ?_⟩
  · rw [isr_commit_trace r1 s h]
    exact rgb_set_led_trace_mono _ _ _ ((motor_stop_atTrigger s).2 hl)
  · have hc : (s.HOMING ≤ 0 ∨ s.HOMING ≥ 5) := by omega
    rw [isr_commit_currColor r1 s h, isr_commit_PIN_LED_RED r1 s h,
      isr_commit_PIN_LED_GREEN r1 s h, if_pos hc]
    refine ⟨rfl, fun hne => ?_⟩
    exact rgb_set_led_YELLOW_pins _ (by rw [(motor_stop_atTrigger s).1]; exact hne)
  · have hc : ¬ (s.HOMING ≤ 0 ∨ s.HOMING ≥ 5) := by omega
    rw [isr_commit_currColor r1 s h, isr_commit_PIN_LED_RED r1 s h,
      isr_commit_PIN_LED_GREEN r1 s h, if_neg hc]
    refine ⟨rfl, fun hne => ?_⟩
    exact rgb_set_led_GREEN_pins _ (by rw [(motor_stop_atTrigger s).1]; exact hne)
  · have hn : ¬ commitsTrigger r1 .HIGH s := fun hc => Level.noConfusion hc.2.2.2
    rw [isr_of_not_commit r1 .HIGH s hn]
    unfold sampled
    rw [if_pos h1]
    rfl

theorem commit_effects_witness :
    commitsTrigger .LOW .LOW probingLeft ∧
      ((isr_prox_sensor .LOW .LOW probingLeft).PIN_MOTOR_FWD = .HIGH ∧
        (isr_prox_sensor .LOW .LOW probingLeft).PIN_MOTOR_REV = .HIGH) ∧
      .print (.stop_issued SENSOR) ∈ (isr_prox_sensor .LOW .LOW probingLeft).trace ∧
      (isr_prox_sensor .LOW .LOW probingLeft).currColor = GREEN ∧
      (isr_prox_sensor .LOW .LOW (homedAt 2 false)).currColor = YELLOW ∧
      (isr_prox_sensor .HIGH .HIGH (startup .LOW [])).SENSOR_STATE = 1 :=
  ⟨by decide, ((commit_effects probingLeft .LOW).1 (by decide)).1,
    ((commit_effects probingLeft .LOW).1 (by decide)).2.1 (by decide),
    (((commit_effects probingLeft .LOW).1 (by decide)).2.2.2.1 (by decide)).1,
    (((commit_effects (homedAt 2 false) .LOW).1 (by decide)).2.2.1 (by decide)).1,
    by rw [(commit_effects (startup .LOW []) .HIGH).2 (by decide)]; rfl⟩

/-- C15, at the failing input. The handler appends whenever HomingStage is nonzero
(`if ((HOMING) && ...)`), so stage 5 = complete counts as a run in progress:
after a HOME command that resolved (HomingStage 5, TriggerOrder cleared), the
trigger that ends an ordinary MOVE RIGHT appends a symbol, and TriggerOrder is
"L" when the move returns although no homing run is active. -/
theorem trigger_appended_after_homing_complete :
    ((runOps [.HOME] (startup .HIGH (homingScript ++ [[(.HIGH, .HIGH)], [(.LOW, .LOW)]]))).HOMING = 5 ∧
      (runOps [.HOME] (startup .HIGH
        (homingScript ++ [[(.HIGH, .HIGH)], [(.LOW, .LOW)]]))).HOMING_ACTIVE = false ∧
      (runOps [.HOME] (startup .HIGH
        (homingScript ++ [[(.HIGH, .HIGH)], [(.LOW, .LOW)]]))).TRIGGER_ORDER = "") ∧
    ((runOps [.HOME, .MOVE "RIGHT"] (startup .HIGH
        (homingScript ++ [[(.HIGH, .HIGH)], [(.LOW, .LOW)]]))).HOMING = 5 ∧
      (runOps [.HOME, .MOVE "RIGHT"] (startup .HIGH
        (homingScript ++ [[(.HIGH, .HIGH)], [(.LOW, .LOW)]]))).TRIGGER_ORDER = "L") ∧
    (commitsTrigger .LOW .LOW (((homedAt 2 false).set_HOMING 5).set_HOME_DIRECTION RIGHT) ∧
      (isr_prox_sensor .LOW .LOW
        (((homedAt 2 false).set_HOMING 5).set_HOME_DIRECTION RIGHT)).TRIGGER_ORDER = "R") := by
  decide

/-! ## The stored table index -/

theorem SameIndex.same {s : State} : SameIndex s s := ⟨Eq.refl _, Eq.refl _⟩

theorem SameIndex.compose {s x y : State} (h1 : SameIndex s x) (h2 : SameIndex x y) :
    SameIndex s y :=
  ⟨h2.HOMED_POS.trans h1.HOMED_POS, h2.fault.trans h1.fault⟩

theorem Steady.sameIndex {s x : State} (h : Steady s x) : SameIndex s x :=
  ⟨h.HOMED_POS, h.fault⟩

theorem sameIndex_ite {c : Prop} [Decidable c] {s a b : State} (ha : SameIndex s a)
    (hb : SameIndex s b) : SameIndex s (if c then a else b) := by
  split
  all_goals assumption

theorem sameIndex_motor_stop (s : State) : SameIndex s (motor_stop s) :=
  ⟨motor_stop_HOMED_POS _, motor_stop_fault _⟩

theorem sameIndex_motor_forward (s : State) : SameIndex s (motor_forward s) :=
  ⟨motor_forward_HOMED_POS _, motor_forward_fault _⟩

theorem sameIndex_motor_reverse (s : State) : SameIndex s (motor_reverse s) :=
  ⟨motor_reverse_HOMED_POS _, motor_reverse_fault _⟩

theorem sameIndex_isr (r1 r2 : Level) (s : State) : SameIndex s (isr_prox_sensor r1 r2 s) :=
  ⟨isr_prox_sensor_HOMED_POS _ _ _, isr_prox_sensor_fault _ _ _⟩

theorem sameIndex_move_right (s : State) : SameIndex s (move_right s) := by
  constructor
  · unfold move_right
    simp [apply_ite State.HOMED_POS]
  · unfold move_right
    simp [apply_ite State.fault]

theorem sameIndex_move_left (s : State) : SameIndex s (move_left s) := by
  constructor
  · unfold move_left
    simp [apply_ite State.HOMED_POS]
  · unfold move_left
    simp [apply_ite State.fault]

theorem sameIndex_move_gr1 (s : State) : SameIndex s (move_gr1 s) := by
  constructor
  · unfold move_gr1
    simp
  · unfold move_gr1
    simp

theorem sameIndex_move_gl1 (s : State) : SameIndex s (move_gl1 s) := by
  constructor
  · unfold move_gl1
    simp
  · unfold move_gl1
    simp

theorem sameIndex_homing_1 (s : State) : SameIndex s (homing_1 s) :=
  (steady_homing_1 (Steady.rfl s)).sameIndex

theorem sameIndex_homing_2 (s : State) : SameIndex s (homing_2 s) :=
  (steady_homing_2 (Steady.rfl s)).sameIndex

theorem sameIndex_homing_3 (s : State) : SameIndex s (homing_3 s) :=
  (steady_homing_3 (Steady.rfl s)).sameIndex

theorem sameIndex_homing_4_probe (s : State) : SameIndex s (homing_4_probe s) :=
  (steady_homing_4_probe (Steady.rfl s)).sameIndex

theorem sameIndex_homing_4_finish (s : State) : SameIndex s (homing_4_finish s) :=
  (steady_homing_4_finish (Steady.rfl s)).sameIndex

theorem sameIndex_homing_4_recenter (s : State) : SameIndex s (homing_4_recenter s) := by
  unfold homing_4_recenter
  refine sameIndex_ite (sameIndex_ite ?_ ?_) SameIndex.same
  · refine sameIndex_ite ?_ ?_
    · have hp : SameIndex s (print (.calibration_complete s.SOURCE) s) := ⟨Eq.refl _, Eq.refl _⟩
      exact hp.compose (sameIndex_move_right _)
    · have hp : SameIndex s (print (.calibration_complete s.SOURCE) s) := ⟨Eq.refl _, Eq.refl _⟩
      exact hp.compose (sameIndex_move_left _)
  · exact ⟨Eq.refl _, Eq.refl _⟩


theorem sameIndex_MOVEcommand_read (word : String) (s : State) :
    SameIndex s (MOVEcommand_read word s) := by
  constructor
  · unfold MOVEcommand_read
    simp only [apply_ite State.HOMED_POS, State.set_RX_COMMAND, State.set_rxWord,
      State.set_SOURCE, ite_self]
  · unfold MOVEcommand_read
    simp only [apply_ite State.fault, State.set_RX_COMMAND, State.set_rxWord,
      State.set_SOURCE, ite_self]

theorem sameIndex_MOVEcommand_CNC (s : State) : SameIndex s (MOVEcommand_CNC s) := by
  unfold MOVEcommand_CNC
  refine sameIndex_ite ⟨Eq.refl _, Eq.refl _⟩ ?_
  have h1 : SameIndex s (if s.CURRENT_POS = 1 then move_right (move_right s) else s) :=
    sameIndex_ite ((sameIndex_move_right s).compose (sameIndex_move_right _)) SameIndex.same
  exact sameIndex_ite (h1.compose (sameIndex_move_right _)) h1

theorem sameIndex_MOVEcommand_CHOPSAW (s : State) : SameIndex s (MOVEcommand_CHOPSAW s) := by
  unfold MOVEcommand_CHOPSAW
  refine sameIndex_ite ⟨Eq.refl _, Eq.refl _⟩ ?_
  have h1 : SameIndex s (if s.CURRENT_POS = 1 then move_right s else s) :=
    sameIndex_ite (sameIndex_move_right s) SameIndex.same
  exact sameIndex_ite (h1.compose (sameIndex_move_left _)) h1

theorem sameIndex_MOVEcommand_WORKBENCH (s : State) :
    SameIndex s (MOVEcommand_WORKBENCH s) := by
  unfold MOVEcommand_WORKBENCH
  refine sameIndex_ite ⟨Eq.refl _, Eq.refl _⟩ ?_
  have h1 : SameIndex s (if s.CURRENT_POS = 2 then move_left s else s) :=
    sameIndex_ite (sameIndex_move_left s) SameIndex.same
  exact sameIndex_ite (h1.compose ((sameIndex_move_left _).compose (sameIndex_move_left _))) h1

theorem sameIndex_MOVEcommand_H1 (s : State) : SameIndex s (MOVEcommand_H1 s) := by
  unfold MOVEcommand_H1
  have h1 : SameIndex s (if digitalRead .PIN_PROX_SENSOR s = .LOW then s.set_HOMING 3
      else s.set_HOMING 1) :=
    sameIndex_ite ⟨Eq.refl _, Eq.refl _⟩ ⟨Eq.refl _, Eq.refl _⟩
  exact h1.compose (sameIndex_homing_1 _)

/-- Every branch of the command switch other than `case H4` leaves the stored
index alone. -/
theorem sameIndex_MOVEcommand_switch (s : State) (h : s.RX_COMMAND ≠ H4) :
    SameIndex s (MOVEcommand_switch s) := by
  unfold MOVEcommand_switch
  refine sameIndex_ite (sameIndex_motor_stop s) ?_
  refine sameIndex_ite (sameIndex_move_right s) ?_
  refine sameIndex_ite (sameIndex_move_gr1 s) ?_
  refine sameIndex_ite (sameIndex_move_left s) ?_
  refine sameIndex_ite (sameIndex_move_gl1 s) ?_
  refine sameIndex_ite (sameIndex_MOVEcommand_CNC s) ?_
  refine sameIndex_ite (sameIndex_MOVEcommand_CHOPSAW s) ?_
  refine sameIndex_ite (sameIndex_MOVEcommand_WORKBENCH s) ?_
  refine sameIndex_ite (sameIndex_MOVEcommand_H1 s) ?_
  refine sameIndex_ite (sameIndex_homing_2 s) ?_
  refine sameIndex_ite (sameIndex_homing_3 s) ?_
  rw [if_neg h]
  exact ⟨Eq.refl _, Eq.refl _⟩

theorem MOVEcommand_switch_H4 (s : State) (h : s.RX_COMMAND = H4) :
    MOVEcommand_switch s = homing_4 s := by
  unfold MOVEcommand_switch
  rw [h]
  rw [if_neg (by decide), if_neg (by decide), if_neg (by decide), if_neg (by decide),
    if_neg (by decide), if_neg (by decide), if_neg (by decide), if_neg (by decide),
    if_neg (by decide), if_neg (by decide), if_neg (by decide), if_pos (Eq.refl _)]

/-- Every row of the table exists for an index in 0..10, and its end-position
is an outlet. -/
theorem HOMED_ARRAY_at_of_range (i : Int) (h0 : 0 ≤ i) (h10 : i ≤ 10) :
    ∃ row, HOMED_ARRAY_at i = some row ∧
      (row.END_POS = 1 ∨ row.END_POS = 2 ∨ row.END_POS = 3) ∧ (i = 0 → row.END_POS = 1) := by
  interval_cases i
  all_goals exact ⟨_, Eq.refl _, by decide, by decide⟩

theorem indexed_ite_set {c : Prop} [Decidable c] (v : Int) {s : State} (hv : 0 ≤ v ∧ v ≤ 10)
    (h : Indexed s) : Indexed (if c then s.set_HOMED_POS v else s) := by
  split
  · exact ⟨hv, h.2⟩
  · exact h

theorem indexed_homing_4_index {s : State} (h : Indexed s) : Indexed (homing_4_index s) := by
  unfold homing_4_index
  repeat' with_reducible first | exact h | apply indexed_ite_set | decide

theorem SameIndex.indexed {s x : State} (h : SameIndex s x) (hs : Indexed s) : Indexed x := by
  unfold Indexed
  rw [h.HOMED_POS, h.fault]
  exact hs

theorem homing_4_index_fault (s : State) : (homing_4_index s).fault = s.fault := by
  unfold homing_4_index
  simp only [apply_ite State.fault, State.set_HOMED_POS, ite_self]

theorem homing_4_assign_HOMED_POS (s : State) : (homing_4_assign s).HOMED_POS = s.HOMED_POS := by
  unfold homing_4_assign
  split
  all_goals rfl

/-- What `homing_4` does to the stored index: only the comparison chain of its
lookup writes it. -/
theorem homing_4_HOMED_POS (s : State) :
    (homing_4 s).HOMED_POS = (homing_4_index (homing_4_probe s)).HOMED_POS := by
  unfold homing_4 homing_4_lookup
  rw [(sameIndex_homing_4_finish _).HOMED_POS, (sameIndex_homing_4_recenter _).HOMED_POS,
    homing_4_assign_HOMED_POS]

theorem homing_4_fault (s : State) :
    (homing_4 s).fault = (homing_4_lookup (homing_4_probe s)).fault := by
  unfold homing_4
  rw [(sameIndex_homing_4_finish _).fault, (sameIndex_homing_4_recenter _).fault]

/-- The lookup on a state whose stored index is inside the table and whose
TriggerOrder matches no key: a plain assignment from the row at the old index. -/
theorem lookup_of_unmatched (t : State) (row : HOMED_CFG)
    (hrow : HOMED_ARRAY_at t.HOMED_POS = some row) (hu : unmatched t) :
    (homing_4_lookup t).CURRENT_POS = row.END_POS ∧
      (homing_4_lookup t).HOMED_POS = t.HOMED_POS ∧ (homing_4_lookup t).fault = t.fault := by
  have hi : (homing_4_index t).HOMED_POS = t.HOMED_POS := lookup_no_match t hu
  unfold homing_4_lookup homing_4_assign
  rw [hi, hrow]
  simp only [State.set_CURRENT_POS, hi, homing_4_index_fault, and_self]

theorem indexed_homing_4_assign {s : State} (h : Indexed s) : Indexed (homing_4_assign s) := by
  obtain ⟨row, hrow, -⟩ := HOMED_ARRAY_at_of_range s.HOMED_POS h.1.1 h.1.2
  unfold homing_4_assign
  rw [hrow]
  exact h

theorem indexed_homing_4 {s : State} (h : Indexed s) : Indexed (homing_4 s) := by
  unfold homing_4 homing_4_lookup
  exact (sameIndex_homing_4_finish _).indexed ((sameIndex_homing_4_recenter _).indexed
    (indexed_homing_4_assign (indexed_homing_4_index ((sameIndex_homing_4_probe s).indexed h))))

theorem sameIndex_stages (s : State) :
    SameIndex s (homing_3 (homing_2 (homing_1 ((s.set_HOMING_ACTIVE true).set_HOMING 1)))) := by
  have h0 : SameIndex s ((s.set_HOMING_ACTIVE true).set_HOMING 1) := ⟨Eq.refl _, Eq.refl _⟩
  exact ((h0.compose (sameIndex_homing_1 _)).compose (sameIndex_homing_2 _)).compose
    (sameIndex_homing_3 _)

theorem HOMEcommand_HOMED_POS (s : State) :
    (HOMEcommand s).HOMED_POS =
      (homing_4 (homing_3 (homing_2 (homing_1
        ((s.set_HOMING_ACTIVE true).set_HOMING 1))))).HOMED_POS := by
  unfold HOMEcommand
  simp only [State.set_HOMING_ACTIVE]

theorem HOMEcommand_fault (s : State) :
    (HOMEcommand s).fault =
      (homing_4 (homing_3 (homing_2 (homing_1
        ((s.set_HOMING_ACTIVE true).set_HOMING 1))))).fault := by
  unfold HOMEcommand
  simp only [State.set_HOMING_ACTIVE]

theorem indexed_HOMEcommand {s : State} (h : Indexed s) : Indexed (HOMEcommand s) := by
  have h4 := indexed_homing_4 ((sameIndex_stages s).indexed h)
  unfold Indexed
  rw [HOMEcommand_HOMED_POS, HOMEcommand_fault]
  exact h4

theorem indexed_MOVEcommand (word : String) {s : State} (h : Indexed s) :
    Indexed (MOVEcommand word s) := by
  have hr := (sameIndex_MOVEcommand_read word s).indexed h
  unfold MOVEcommand
  by_cases h4 : (MOVEcommand_read word s).RX_COMMAND = H4
  · rw [MOVEcommand_switch_H4 _ h4]
    exact indexed_homing_4 hr
  · exact (sameIndex_MOVEcommand_switch _ h4).indexed hr

theorem indexed_run (op : Op) {s : State} (h : Indexed s) : Indexed (op.run s) := by
  cases op with
  | motor_forward => exact (sameIndex_motor_forward s).indexed h
  | motor_reverse => exact (sameIndex_motor_reverse s).indexed h
  | motor_stop => exact (sameIndex_motor_stop s).indexed h
  | isr r1 r2 => exact (sameIndex_isr r1 r2 s).indexed h
  | move_right => exact (sameIndex_move_right s).indexed h
  | move_left => exact (sameIndex_move_left s).indexed h
  | move_gr1 => exact (sameIndex_move_gr1 s).indexed h
  | move_gl1 => exact (sameIndex_move_gl1 s).indexed h
  | homing_1 => exact (sameIndex_homing_1 s).indexed h
  | homing_2 => exact (sameIndex_homing_2 s).indexed h
  | homing_3 => exact (sameIndex_homing_3 s).indexed h
  | homing_4 => exact indexed_homing_4 h
  | MOVE word => exact indexed_MOVEcommand word h
  | HOME => exact indexed_HOMEcommand h

theorem indexed_runOps (ops : List Op) {s : State} (h : Indexed s) : Indexed (runOps ops s) := by
  induction ops generalizing s with
  | nil => exact h
  | cons op rest ih => exact ih (indexed_run op h)

theorem indexed_startup (sensor : Level) (script : List (List (Level × Level))) :
    Indexed (startup sensor script) :=
  ⟨⟨Int.le_refl 0, show (0 : Int) ≤ 10 by decide⟩, Eq.refl _⟩

theorem homing_4_HOMED_POS_of_unmatched (s : State) (hu : unmatched (homing_4_probe s)) :
    (homing_4 s).HOMED_POS = s.HOMED_POS := by
  rw [homing_4_HOMED_POS, lookup_no_match _ hu, (sameIndex_homing_4_probe s).HOMED_POS]

theorem lookupState_homing_4 (s : State) :
    lookupState .homing_4 s = some (homing_4_probe s) := rfl

theorem lookupState_HOME (s : State) :
    lookupState .HOME s = some (homing_4_probe (homing_3 (homing_2 (homing_1
      ((s.set_HOMING_ACTIVE true).set_HOMING 1))))) := rfl

theorem lookupState_MOVE (word : String) (s : State) :
    lookupState (.MOVE word) s =
      if (MOVEcommand_read word s).RX_COMMAND = H4 then
        some (homing_4_probe (MOVEcommand_read word s))
      else none := rfl

/-- The state at the lookup carries the index the operation started with. -/
theorem lookupState_HOMED_POS (op : Op) (s t : State) (ht : lookupState op s = some t) :
    t.HOMED_POS = s.HOMED_POS := by
  cases op with
  | homing_4 =>
    rw [lookupState_homing_4] at ht
    rw [← Option.some.inj ht]
    exact (sameIndex_homing_4_probe s).HOMED_POS
  | HOME =>
    rw [lookupState_HOME] at ht
    rw [← Option.some.inj ht]
    exact ((sameIndex_stages s).compose (sameIndex_homing_4_probe _)).HOMED_POS
  | MOVE word =>
    rw [lookupState_MOVE] at ht
    split at ht
    · rw [← Option.some.inj ht]
      exact ((sameIndex_MOVEcommand_read word s).compose (sameIndex_homing_4_probe _)).HOMED_POS
    · exact Option.noConfusion ht
  | motor_forward => exact Option.noConfusion (show none = some t from ht)
  | motor_reverse => exact Option.noConfusion (show none = some t from ht)
  | motor_stop => exact Option.noConfusion (show none = some t from ht)
  | isr r1 r2 => exact Option.noConfusion (show none = some t from ht)
  | move_right => exact Option.noConfusion (show none = some t from ht)
  | move_left => exact Option.noConfusion (show none = some t from ht)
  | move_gr1 => exact Option.noConfusion (show none = some t from ht)
  | move_gl1 => exact Option.noConfusion (show none = some t from ht)
  | homing_1 => exact Option.noConfusion (show none = some t from ht)
  | homing_2 => exact Option.noConfusion (show none = some t from ht)
  | homing_3 => exact Option.noConfusion (show none = some t from ht)

theorem lookupState_fault (op : Op) (s t : State) (ht : lookupState op s = some t) :
    t.fault = s.fault := by
  cases op with
  | homing_4 =>
    rw [lookupState_homing_4] at ht
    rw [← Option.some.inj ht]
    exact (sameIndex_homing_4_probe s).fault
  | HOME =>
    rw [lookupState_HOME] at ht
    rw [← Option.some.inj ht]
    exact ((sameIndex_stages s).compose (sameIndex_homing_4_probe _)).fault
  | MOVE word =>
    rw [lookupState_MOVE] at ht
    split at ht
    · rw [← Option.some.inj ht]
      exact ((sameIndex_MOVEcommand_read word s).compose (sameIndex_homing_4_probe _)).fault
    · exact Option.noConfusion ht
  | motor_forward => exact Option.noConfusion (show none = some t from ht)
  | motor_reverse => exact Option.noConfusion (show none = some t from ht)
  | motor_stop => exact Option.noConfusion (show none = some t from ht)
  | isr r1 r2 => exact Option.noConfusion (show none = some t from ht)
  | move_right => exact Option.noConfusion (show none = some t from ht)
  | move_left => exact Option.noConfusion (show none = some t from ht)
  | move_gr1 => exact Option.noConfusion (show none = some t from ht)
  | move_gl1 => exact Option.noConfusion (show none = some t from ht)
  | homing_1 => exact Option.noConfusion (show none = some t from ht)
  | homing_2 => exact Option.noConfusion (show none = some t from ht)
  | homing_3 => exact Option.noConfusion (show none = some t from ht)

/-- An operation whose lookup, if it has one, matches no key leaves the stored
index as it was. -/
theorem run_HOMED_POS (op : Op) (s : State)
    (h : ∀ t, lookupState op s = some t → unmatched t) : (op.run s).HOMED_POS = s.HOMED_POS := by
  cases op with
  | motor_forward => exact (sameIndex_motor_forward s).HOMED_POS
  | motor_reverse => exact (sameIndex_motor_reverse s).HOMED_POS
  | motor_stop => exact (sameIndex_motor_stop s).HOMED_POS
  | isr r1 r2 => exact (sameIndex_isr r1 r2 s).HOMED_POS
  | move_right => exact (sameIndex_move_right s).HOMED_POS
  | move_left => exact (sameIndex_move_left s).HOMED_POS
  | move_gr1 => exact (sameIndex_move_gr1 s).HOMED_POS
  | move_gl1 => exact (sameIndex_move_gl1 s).HOMED_POS
  | homing_1 => exact (sameIndex_homing_1 s).HOMED_POS
  | homing_2 => exact (sameIndex_homing_2 s).HOMED_POS
  | homing_3 => exact (sameIndex_homing_3 s).HOMED_POS
  | homing_4 => exact homing_4_HOMED_POS_of_unmatched s (h _ (lookupState_homing_4 s))
  | MOVE word =>
    show (MOVEcommand word s).HOMED_POS = s.HOMED_POS
    unfold MOVEcommand
    by_cases h4 : (MOVEcommand_read word s).RX_COMMAND = H4
    · have hu : unmatched (homing_4_probe (MOVEcommand_read word s)) :=
        h _ (by rw [lookupState_MOVE, if_pos h4])
      rw [MOVEcommand_switch_H4 _ h4, homing_4_HOMED_POS_of_unmatched _ hu]
      exact (sameIndex_MOVEcommand_read word s).HOMED_POS
    · exact ((sameIndex_MOVEcommand_read word s).compose
        (sameIndex_MOVEcommand_switch _ h4)).HOMED_POS
  | HOME =>
    show (HOMEcommand s).HOMED_POS = s.HOMED_POS
    have hu : unmatched (homing_4_probe (homing_3 (homing_2 (homing_1
        ((s.set_HOMING_ACTIVE true).set_HOMING 1))))) := h _ (lookupState_HOME s)
    rw [HOMEcommand_HOMED_POS, homing_4_HOMED_POS_of_unmatched _ hu]
    exact (sameIndex_stages s).HOMED_POS

theorem neverMatched_HOMED_POS (ops : List Op) (s : State) (h : neverMatched ops s) :
    (runOps ops s).HOMED_POS = s.HOMED_POS := by
  induction ops generalizing s with
  | nil => rfl
  | cons op rest ih =>
    obtain ⟨h1, h2⟩ := h
    exact (ih (op.run s) h2).trans (run_HOMED_POS op s h1)

theorem homing_4_recenter_unresolved (r : State) (h : r.HOMING ≤ 4) :
    homing_4_recenter r = r := by
  unfold homing_4_recenter
  rw [if_neg (by omega)]

/-- C16. Unresolved lookup. Take any state reached from start-up by any
sequence of operations under any sensor script, and any operation that runs
`homing_4` from it (the stage function, MOVE H4, or HOME). If TriggerOrder at
the lookup equals none of the 11 table keys, then the stored index is inside
the table, the lookup is nothing but the assignment of that row's end-position
to Position (nothing is logged, no out-of-range read happens), the operation
returns with the stored index unchanged, and an unresolved run returns with
Position at that end-position. If no lookup has matched since start-up the
index is 0 and the end-position is 1. -/
theorem unresolved_lookup (sensor : Level) (script : List (List (Level × Level)))
    (ops : List Op) (op : Op) (t : State)
    (ht : lookupState op (runOps ops (startup sensor script)) = some t) (hu : unmatched t) :
    ∃ row, HOMED_ARRAY_at (runOps ops (startup sensor script)).HOMED_POS = some row ∧
      ((homing_4_lookup t).CURRENT_POS = row.END_POS ∧
        (homing_4_lookup t).trace = t.trace ∧ (homing_4_lookup t).fault = false) ∧
      (homing_4_lookup t).HOMED_POS = (runOps ops (startup sensor script)).HOMED_POS ∧
      ((op.run (runOps ops (startup sensor script))).HOMED_POS =
          (runOps ops (startup sensor script)).HOMED_POS ∧
        (op.run (runOps ops (startup sensor script))).fault = false) ∧
      (t.HOMING ≤ 4 →
        (homing_4_finish (homing_4_recenter (homing_4_lookup t))).CURRENT_POS = row.END_POS) ∧
      (neverMatched ops (startup sensor script) →
        (runOps ops (startup sensor script)).HOMED_POS = 0 ∧ row.END_POS = 1) := by
  have hx : Indexed (runOps ops (startup sensor script)) :=
    indexed_runOps ops (indexed_startup sensor script)
  have he := lookupState_HOMED_POS op _ t ht
  obtain ⟨row, hrow, -, h0⟩ := HOMED_ARRAY_at_of_range _ hx.1.1 hx.1.2
  have hl := lookup_of_unmatched t row (by rw [he]; exact hrow) hu
  have hu2 : ∀ t2, lookupState op (runOps ops (startup sensor script)) = some t2 →
      unmatched t2 := by
    intro t2 h2
    rw [ht] at h2
    obtain rfl : t = t2 := Option.some.inj h2
    exact hu
  refine ⟨row, hrow, ⟨hl.1, homing_4_lookup_trace t, ?_⟩, hl.2.1.trans he,
    ⟨run_HOMED_POS op _ hu2, (indexed_run op hx).2⟩, fun h4 => ?_, fun hn => ?_⟩
  · rw [hl.2.2]
    exact (lookupState_fault op _ t ht).trans hx.2
  · rw [homing_4_finish_CURRENT_POS,
      homing_4_recenter_unresolved _ (by rw [homing_4_lookup_HOMING]; exact h4)]
    exact hl.1
  · have hz := neverMatched_HOMED_POS ops _ hn
    have hz0 : (runOps ops (startup sensor script)).HOMED_POS = 0 := hz
    exact ⟨hz0, h0 hz0⟩

theorem unresolved_lookup_witness :
    unmatched (homing_4_probe (homing_3 (homing_2 (homing_1
        (((startup .HIGH []).set_HOMING_ACTIVE true).set_HOMING 1))))) ∧
      (homing_4_lookup (homing_4_probe (homing_3 (homing_2 (homing_1
        (((startup .HIGH []).set_HOMING_ACTIVE true).set_HOMING 1)))))).CURRENT_POS = 1 ∧
      (HOMEcommand (startup .HIGH [])).HOMED_POS = 0 ∧
      (HOMEcommand (startup .HIGH [])).fault = false :=
  match unresolved_lookup .HIGH [] [] .HOME _ (lookupState_HOME (startup .HIGH [])) (by decide) with
  | ⟨_, _, h1, _, h3, _, h5⟩ => ⟨by decide, h1.1.trans (h5 trivial).2, h3.1, h3.2⟩

/-! ## Position writes -/

/-- C17, at the failing input. `homing_4` assigns Position from the table on line
621 whether or not the run resolved; only the recentering below it is guarded
by `HOMING > 4`. A HOME command from start-up during which the sensor never
triggers returns with HomingStage 3 (not resolved), having entered no full
move, and with Position 1 where it was -1; a MOVE GOCNC issued next is no
longer refused as not homed and enters two full moves. MOVE H4 right after
start-up writes Position 1 with HomingStage still 0. -/
theorem position_written_by_unresolved_homing :
    ((startup .HIGH []).CURRENT_POS = -1 ∧
      (HOMEcommand (startup .HIGH [])).HOMING = 3 ∧
      (HOMEcommand (startup .HIGH [])).CURRENT_POS = 1 ∧
      calls .move_right (HOMEcommand (startup .HIGH [])).trace = 0 ∧
      calls .move_left (HOMEcommand (startup .HIGH [])).trace = 0 ∧
      calls .move_right (MOVEcommand "GOCNC" (HOMEcommand (startup .HIGH []))).trace = 2) ∧
    ((MOVEcommand "H4" (startup .HIGH [])).HOMING = 0 ∧
      (MOVEcommand "H4" (startup .HIGH [])).CURRENT_POS = 1 ∧
      calls .move_right (MOVEcommand "H4" (startup .HIGH [])).trace = 0 ∧
      calls .move_left (MOVEcommand "H4" (startup .HIGH [])).trace = 0) := by
  decide

/-- The stage functions 1 to 3 never write Position. -/
theorem stages_keep_position (s : State) :
    (homing_1 s).CURRENT_POS = s.CURRENT_POS ∧ (homing_2 s).CURRENT_POS = s.CURRENT_POS ∧
      (homing_3 s).CURRENT_POS = s.CURRENT_POS :=
  ⟨(steady_homing_1 (Steady.rfl s)).CURRENT_POS, (steady_homing_2 (Steady.rfl s)).CURRENT_POS,
    (steady_homing_3 (Steady.rfl s)).CURRENT_POS⟩

/-! ## Nudges -/

/-- C18. Nudges do not track position: for every state, engaged drive or not,
and every sensor script, `move_gr1` and `move_gl1` return with Position and
PreviousPosition as they found them. -/
theorem nudges_untracked (s : State) :
    ((move_gr1 s).CURRENT_POS = s.CURRENT_POS ∧ (move_gr1 s).PREVIOUS_POS = s.PREVIOUS_POS) ∧
    ((move_gl1 s).CURRENT_POS = s.CURRENT_POS ∧ (move_gl1 s).PREVIOUS_POS = s.PREVIOUS_POS) := by
  unfold move_gr1 move_gl1
  simp

/-! ## Boundary symbols -/

theorem LR.nil : LR [] := fun _ h => absurd h (List.not_mem_nil _)

theorem LR.append {a b : List Char} (ha : LR a) (hb : LR b) : LR (a ++ b) := by
  intro c hc
  rcases List.mem_append.mp hc with h | h
  · exact ha c h
  · exact hb c h

theorem LR.no_boundary {l : List Char} (h : LR l) : 'N' ∉ l := by
  intro hn
  rcases h _ hn with e | e
  all_goals exact absurd e (by decide)

theorem Ext.empty {s : State} : Ext s s := ⟨[], LR.nil, by simp⟩

theorem Ext.concat {s x y : State} (h1 : Ext s x) (h2 : Ext x y) : Ext s y := by
  obtain ⟨a, ha, ea⟩ := h1
  obtain ⟨b, hb, eb⟩ := h2
  exact ⟨a ++ b, ha.append hb, by rw [eb, ea, List.append_assoc]⟩

theorem Ext.of_eq {s x y : State} (h : Ext s x) (e : y.TRIGGER_ORDER = x.TRIGGER_ORDER) :
    Ext s y := by
  obtain ⟨a, ha, ea⟩ := h
  exact ⟨a, ha, by rw [e, ea]⟩

theorem ext_ite {c : Prop} [Decidable c] {s a b : State} (ha : Ext s a) (hb : Ext s b) :
    Ext s (if c then a else b) := by
  split
  all_goals assumption

theorem ext_isr (r1 r2 : Level) {s x : State} (h : Ext s x) :
    Ext s (isr_prox_sensor r1 r2 x) := by
  refine h.concat ?_
  unfold Ext
  rw [isr_TRIGGER_ORDER]
  split
  · split
    · exact ⟨['R'], by intro c hc; simp at hc; exact Or.inr hc, by simp⟩
    · split
      · exact ⟨['L'], by intro c hc; simp at hc; exact Or.inl hc, by simp⟩
      · exact Ext.empty
  · exact Ext.empty

theorem ext_runIsrs (edges : List (Level × Level)) {s x : State} (h : Ext s x) :
    Ext s (runIsrs edges x) := by
  induction edges generalizing x with
  | nil => exact h
  | cons e rest ih => exact ih (ext_isr e.1 e.2 h)

theorem ext_delay (ms : Nat) {s x : State} (h : Ext s x) : Ext s (delay ms x) := by
  unfold delay
  split
  · exact h.of_eq rfl
  · exact ext_runIsrs _ (h.of_eq rfl)

theorem ext_delay_ms (d : Nat) {s x : State} (h : Ext s x) : Ext s ((delay_ms d x).2) :=
  h.of_eq (delay_ms_TRIGGER_ORDER _ _)

theorem ext_motor_stop {s x : State} (h : Ext s x) : Ext s (motor_stop x) :=
  h.of_eq (motor_stop_TRIGGER_ORDER _)

theorem ext_motor_forward {s x : State} (h : Ext s x) : Ext s (motor_forward x) :=
  h.of_eq (motor_forward_TRIGGER_ORDER _)

theorem ext_motor_reverse {s x : State} (h : Ext s x) : Ext s (motor_reverse x) :=
  h.of_eq (motor_reverse_TRIGGER_ORDER _)

theorem ext_print (m : Msg) {s x : State} (h : Ext s x) : Ext s (print m x) :=
  h.of_eq rfl

theorem ext_call (f : Fn) {s x : State} (h : Ext s x) : Ext s (emit (.call f) x) :=
  h.of_eq rfl

theorem ext_report_pos {s x : State} (h : Ext s x) : Ext s (report_pos x) :=
  h.of_eq rfl

theorem ext_rgb_set_led (c : Nat) {s x : State} (h : Ext s x) : Ext s (rgb_set_led c x) :=
  h.of_eq (rgb_set_led_TRIGGER_ORDER _ _)

theorem ext_set_HOME_DIRECTION (v : Int) {s x : State} (h : Ext s x) :
    Ext s (x.set_HOME_DIRECTION v) :=
  h.of_eq rfl

theorem ext_set_HOMING (v : Int) {s x : State} (h : Ext s x) : Ext s (x.set_HOMING v) :=
  h.of_eq rfl

theorem ext_set_SENSOR_OVERRIDE (v : Int) {s x : State} (h : Ext s x) :
    Ext s (x.set_SENSOR_OVERRIDE v) :=
  h.of_eq rfl

theorem ext_set_CURRENT_POS (v : Int) {s x : State} (h : Ext s x) :
    Ext s (x.set_CURRENT_POS v) :=
  h.of_eq rfl

theorem ext_set_PREVIOUS_POS (v : Int) {s x : State} (h : Ext s x) :
    Ext s (x.set_PREVIOUS_POS v) :=
  h.of_eq rfl

theorem ext_sensor_bypass {s x : State} (h : Ext s x) : Ext s (sensor_bypass x) := by
  unfold sensor_bypass
  exact ext_set_SENSOR_OVERRIDE _ (ext_delay _ (ext_set_SENSOR_OVERRIDE _ h))

theorem ext_drag_lights {s x : State} (h : Ext s x) : Ext s (drag_lights x) := by
  unfold drag_lights
  repeat' with_reducible first
    | exact h | apply ext_delay | apply ext_rgb_set_led

theorem ext_move_right {s x : State} (h : Ext s x) : Ext s (move_right x) := by
  unfold move_right
  repeat' with_reducible first
    | exact h | apply ext_motor_stop | apply ext_motor_forward | apply ext_delay
    | apply ext_sensor_bypass | apply ext_print | apply ext_report_pos | apply ext_call
    | apply ext_set_CURRENT_POS | apply ext_set_PREVIOUS_POS | apply ext_ite

theorem ext_move_left {s x : State} (h : Ext s x) : Ext s (move_left x) := by
  unfold move_left
  repeat' with_reducible first
    | exact h | apply ext_motor_stop | apply ext_motor_reverse | apply ext_delay
    | apply ext_sensor_bypass | apply ext_print | apply ext_report_pos | apply ext_call
    | apply ext_set_CURRENT_POS | apply ext_set_PREVIOUS_POS | apply ext_ite

/-- The two assignments that append the boundary symbol (e.g. lines 456-457). -/
theorem extN_boundary {s x : State} (h : Ext s x) :
    ExtN s ((x.set_TRIGGER_ORDER2 (x.TRIGGER_ORDER.push 'N')).set_TRIGGER_ORDER
      (x.set_TRIGGER_ORDER2 (x.TRIGGER_ORDER.push 'N')).TRIGGER_ORDER2) := by
  obtain ⟨a, ha, ea⟩ := h
  refine ⟨a, ha, ?_⟩
  show (x.TRIGGER_ORDER.push 'N').data = _
  rw [String.data_push, ea]

theorem extN_set_HOMING (v : Int) {s x : State} (h : ExtN s x) : ExtN s (x.set_HOMING v) := h

theorem extN_homing_1 (s : State) : ExtN s (homing_1 s) := by
  unfold homing_1
  with_reducible apply extN_set_HOMING
  with_reducible apply extN_boundary
  repeat' with_reducible first
    | exact Ext.empty | apply ext_motor_stop | apply ext_motor_forward | apply ext_motor_reverse
    | apply ext_delay | apply ext_delay_ms | apply ext_print
    | apply ext_set_HOME_DIRECTION | apply ext_ite

theorem extN_homing_2 (s : State) : ExtN s (homing_2 s) := by
  unfold homing_2
  with_reducible apply extN_set_HOMING
  with_reducible apply extN_boundary
  repeat' with_reducible first
    | exact Ext.empty | apply ext_motor_stop | apply ext_motor_forward | apply ext_motor_reverse
    | apply ext_delay | apply ext_sensor_bypass | apply ext_print
    | apply ext_set_HOME_DIRECTION | apply ext_ite

theorem extN_homing_3 (s : State) : ExtN s (homing_3 s) := by
  unfold homing_3
  with_reducible apply extN_boundary
  repeat' with_reducible first
    | exact Ext.empty | apply ext_motor_stop | apply ext_motor_forward | apply ext_motor_reverse
    | apply ext_delay | apply ext_sensor_bypass | apply ext_print
    | apply ext_set_HOME_DIRECTION | apply ext_set_HOMING | apply ext_ite

theorem ext_homing_4_probe {s x : State} (h : Ext s x) : Ext s (homing_4_probe x) := by
  unfold homing_4_probe
  repeat' with_reducible first
    | exact h | apply ext_motor_stop | apply ext_motor_forward | apply ext_motor_reverse
    | apply ext_delay | apply ext_sensor_bypass | apply ext_print
    | apply ext_set_HOME_DIRECTION | apply ext_set_HOMING | apply ext_ite

theorem homing_4_lookup_TRIGGER_ORDER (s : State) :
    (homing_4_lookup s).TRIGGER_ORDER = s.TRIGGER_ORDER := by
  unfold homing_4_lookup homing_4_assign
  split
  all_goals simp only [State.set_CURRENT_POS, State.set_fault, homing_4_index_TRIGGER_ORDER]

theorem ext_homing_4_lookup {s x : State} (h : Ext s x) : Ext s (homing_4_lookup x) :=
  h.of_eq (homing_4_lookup_TRIGGER_ORDER _)

theorem ext_homing_4_recenter {s x : State} (h : Ext s x) : Ext s (homing_4_recenter x) := by
  unfold homing_4_recenter
  repeat' with_reducible first
    | exact h | apply ext_move_right | apply ext_move_left | apply ext_print
    | apply ext_report_pos | apply ext_ite

/-- On return from `homing_4` TriggerOrder holds what the handler appended
during the completion animation, and nothing else. -/
theorem homing_4_finish_TRIGGER_ORDER (x : State) :
    ∃ l, LR l ∧ (homing_4_finish x).TRIGGER_ORDER.data = l := by
  have h : Ext ((x.set_TRIGGER_ORDER2 "").set_TRIGGER_ORDER
      (x.set_TRIGGER_ORDER2 "").TRIGGER_ORDER2) (homing_4_finish x) := by
    unfold homing_4_finish
    exact ext_drag_lights Ext.empty
  obtain ⟨l, hl, e⟩ := h
  exact ⟨l, hl, by rw [e]; rfl⟩

/-- Boundary symbols when the handler runs inside the blocking delays only:
for every state and every script of sensor events, each of homing_1, homing_2
and homing_3 returns with TriggerOrder equal to its value at entry, followed by
the direction symbols the handler appended during the stage (none if no
trigger was committed), followed by exactly one 'N' as the last symbol.
homing_4 appends no 'N': up to its clearing assignment TriggerOrder is extended
by direction symbols only, and on return it consists of direction symbols
only. -/
theorem boundary_symbols (s : State) :
    (∃ l, (∀ c ∈ l, c = 'L' ∨ c = 'R') ∧
      (homing_1 s).TRIGGER_ORDER.data = s.TRIGGER_ORDER.data ++ l ++ ['N']) ∧
    (∃ l, (∀ c ∈ l, c = 'L' ∨ c = 'R') ∧
      (homing_2 s).TRIGGER_ORDER.data = s.TRIGGER_ORDER.data ++ l ++ ['N']) ∧
    (∃ l, (∀ c ∈ l, c = 'L' ∨ c = 'R') ∧
      (homing_3 s).TRIGGER_ORDER.data = s.TRIGGER_ORDER.data ++ l ++ ['N']) ∧
    (∃ l, (∀ c ∈ l, c = 'L' ∨ c = 'R') ∧
      (homing_4_recenter (homing_4_lookup (homing_4_probe s))).TRIGGER_ORDER.data =
        s.TRIGGER_ORDER.data ++ l) ∧
    (∃ l, (∀ c ∈ l, c = 'L' ∨ c = 'R') ∧ (homing_4 s).TRIGGER_ORDER.data = l) := by
  have h1 := extN_homing_1 s
  have h2 := extN_homing_2 s
  have h3 := extN_homing_3 s
  have h4 : Ext s (homing_4_recenter (homing_4_lookup (homing_4_probe s))) :=
    ext_homing_4_recenter (ext_homing_4_lookup (ext_homing_4_probe Ext.empty))
  have h5 := homing_4_finish_TRIGGER_ORDER (homing_4_recenter (homing_4_lookup (homing_4_probe s)))
  unfold ExtN LR at h1 h2 h3
  unfold Ext LR at h4
  unfold LR at h5
  unfold homing_4
  exact ⟨h1, h2, h3, h4, h5⟩

/-! ## Clearing TriggerOrder -/

theorem rgb_set_led_pending (c : Nat) (s : State) : (rgb_set_led c s).pending = s.pending := by
  unfold rgb_set_led
  split
  · split
    all_goals rfl
  · rfl

theorem runIsrs_of_quiet (edges : List (Level × Level)) (s : State)
    (h : ∀ e ∈ edges, e.2 = Level.HIGH) :
    (runIsrs edges s).TRIGGER_ORDER = s.TRIGGER_ORDER ∧ (runIsrs edges s).pending = s.pending := by
  induction edges generalizing s with
  | nil => exact ⟨rfl, rfl⟩
  | cons e rest ih =>
    obtain ⟨r1, r2⟩ := e
    have he : r2 = Level.HIGH := h (r1, r2) (List.mem_cons_self _ _)
    have hn : ¬ commitsTrigger r1 r2 s := fun hc => by
      have h2 := hc.2.2.2
      rw [he] at h2
      exact Level.noConfusion h2
    have hr := ih (isr_prox_sensor r1 r2 s) (fun x hx => h x (List.mem_cons_of_mem _ hx))
    rw [isr_of_not_commit _ _ _ hn, sampled_TRIGGER_ORDER, sampled_pending] at hr
    rw [show runIsrs ((r1, r2) :: rest) s = runIsrs rest (isr_prox_sensor r1 r2 s) from rfl,
      isr_of_not_commit _ _ _ hn]
    exact hr

theorem calm_rgb_set_led (c : Nat) {s x : State} (h : Calm s x) : Calm s (rgb_set_led c x) :=
  ⟨(rgb_set_led_TRIGGER_ORDER _ _).trans h.1, by rw [rgb_set_led_pending]; exact h.2⟩

theorem calm_delay (ms : Nat) {s x : State} (h : Calm s x) : Calm s (delay ms x) := by
  obtain ⟨h1, h2⟩ := h
  unfold delay
  split
  · rename_i e
    refine ⟨h1, ?_⟩
    show quiet x.pending
    exact h2
  · rename_i edges rest e
    rw [e] at h2
    have hq := runIsrs_of_quiet edges (wait ms (x.set_pending rest))
      (h2 edges (List.mem_cons_self _ _))
    refine ⟨hq.1.trans h1, ?_⟩
    rw [hq.2]
    exact fun l hl => h2 l (List.mem_cons_of_mem _ hl)

theorem calm_drag_lights {s x : State} (h : Calm s x) : Calm s (drag_lights x) := by
  unfold drag_lights
  repeat' with_reducible first
    | exact h | apply calm_delay | apply calm_rgb_set_led

theorem homing_4_finish_of_quiet (x : State) (h : quiet x.pending) :
    (homing_4_finish x).TRIGGER_ORDER = "" := by
  have hc : Calm ((x.set_TRIGGER_ORDER2 "").set_TRIGGER_ORDER
      (x.set_TRIGGER_ORDER2 "").TRIGGER_ORDER2) (homing_4_finish x) := by
    unfold homing_4_finish
    exact calm_drag_lights ⟨rfl, h⟩
  exact hc.1

theorem HOMEcommand_TRIGGER_ORDER (s : State) :
    (HOMEcommand s).TRIGGER_ORDER =
      (homing_4 (homing_3 (homing_2 (homing_1
        ((s.set_HOMING_ACTIVE true).set_HOMING 1))))).TRIGGER_ORDER := by
  unfold HOMEcommand
  simp only [State.set_HOMING_ACTIVE]

/-- C19 as stated fails on the code. HOME clears nothing when it starts: after
a manually stepped stage 1 (MOVE H1) from start-up TriggerOrder is "N", and a
HOME command issued then runs its stage 1 on that sequence, which is "NN" when
stage 1 ends. And TriggerOrder need not be empty when HOME returns: `homing_4`
clears it before the completion animation, so a trigger committed during the
animation is appended after the clearing; with one such trigger in a run that
found no stop point, HOME returns with TriggerOrder "R". -/
theorem trigger_order_not_cleared :
    ((runOps [.MOVE "H1"] (startup .HIGH [])).TRIGGER_ORDER = "N" ∧
      (homing_1 (((runOps [.MOVE "H1"] (startup .HIGH [])).set_HOMING_ACTIVE true).set_HOMING
        1)).TRIGGER_ORDER = "NN") ∧
    ((HOMEcommand (startup .HIGH (List.replicate 11 [] ++ [[(.LOW, .LOW)]]))).HOMING = 3 ∧
      (HOMEcommand (startup .HIGH
        (List.replicate 11 [] ++ [[(.LOW, .LOW)]]))).TRIGGER_ORDER = "R") := by
  decide

/-! ## Stage gating -/

theorem homing_1_skip (s : State) (h : s.HOMING ≠ 1) : (homing_1 s).trace = s.trace := by
  unfold homing_1
  rw [if_neg (fun hc => h hc.1)]
  rfl

theorem homing_2_skip (s : State) (h : s.HOMING ≠ 2) : (homing_2 s).trace = s.trace := by
  unfold homing_2
  rw [if_neg (fun hc => h hc.1)]
  rfl

theorem homing_3_skip (s : State) (h : s.HOMING ≠ 3) : (homing_3 s).trace = s.trace := by
  unfold homing_3
  rw [if_neg h]
  rfl

theorem homing_4_probe_skip (s : State) (h : s.HOMING ≠ 4) : homing_4_probe s = s := by
  unfold homing_4_probe
  rw [if_neg h]

theorem homing_4_finish_fwdAsserts (s : State) :
    fwdAsserts (homing_4_finish s).trace = fwdAsserts s.trace := by
  unfold homing_4_finish
  simp only [drag_lights_fwdAsserts, State.set_TRIGGER_ORDER, State.set_TRIGGER_ORDER2]

theorem homing_4_finish_revAsserts (s : State) :
    revAsserts (homing_4_finish s).trace = revAsserts s.trace := by
  unfold homing_4_finish
  simp only [drag_lights_revAsserts, State.set_TRIGGER_ORDER, State.set_TRIGGER_ORDER2]

/-- With the stage counter below 4, `homing_4` neither probes nor recenters. -/
theorem homing_4_below (s : State) (h : s.HOMING < 4) :
    homing_4 s = homing_4_finish (homing_4_lookup s) := by
  unfold homing_4
  rw [homing_4_probe_skip s (by omega),
    homing_4_recenter_unresolved _ (by rw [homing_4_lookup_HOMING]; omega)]

/-- With the stage counter above 4 and the lookup giving the middle outlet,
`homing_4` only reports. -/
theorem homing_4_above_centred (s : State) (h : s.HOMING > 4)
    (h2 : (homing_4_lookup s).CURRENT_POS = 2) :
    homing_4 s = homing_4_finish (report_pos (homing_4_lookup s)) := by
  unfold homing_4
  rw [homing_4_probe_skip s (by omega),
    homing_4_recenter_resolved _ (by rw [homing_4_lookup_HOMING]; exact h), if_pos h2]

/-- C21 as stated fails for `homing_4`: its recentering block is guarded by
`HOMING > 4`, so invoked with the stage counter at 5 it skips the probes but
still looks the position up and recenters. After a HOME command that ended at
stage 5 with the stored index at row 0, a further `homing_4` sets Position 1
and asserts the forward line for a `move_right`. -/
theorem homing_4_acts_at_stage_5 :
    (HOMEcommand (startup .HIGH [[(.LOW, .LOW)]])).HOMING = 5 ∧
      fwdAsserts (HOMEcommand (startup .HIGH [[(.LOW, .LOW)]])).trace = 4 ∧
      fwdAsserts (homing_4 (HOMEcommand (startup .HIGH [[(.LOW, .LOW)]]))).trace = 5 ∧
      calls .move_right (homing_4 (HOMEcommand (startup .HIGH [[(.LOW, .LOW)]]))).trace =
        calls .move_right (HOMEcommand (startup .HIGH [[(.LOW, .LOW)]])).trace + 1 := by
  decide

/-! ## Stage advance -/

theorem homing_1_HOMING (s : State) : (homing_1 s).HOMING = 2 := by
  unfold homing_1
  rfl

theorem homing_2_HOMING (s : State) : (homing_2 s).HOMING = 3 := by
  unfold homing_2
  rfl

/-- The test that ends a probing stage: the stage counter becomes `b` when
SensorState is LOW and stays `a` otherwise. -/
theorem advance_on_contact (x : State) (a b : Int) (hx : x.HOMING = a) :
    (if x.SENSOR_STATE = LOW then x.set_HOMING b else x).HOMING =
      if (if x.SENSOR_STATE = LOW then x.set_HOMING b else x).SENSOR_STATE = 0 then b
      else a := by
  by_cases c : x.SENSOR_STATE = LOW
  · rw [if_pos c]
    show b = if x.SENSOR_STATE = 0 then b else a
    rw [if_pos c]
  · rw [if_neg c]
    rw [if_neg c]
    exact hx

theorem advance_on_contact_print (x : State) (a b : Int) (m n : Msg) (hx : x.HOMING = a) :
    (if x.SENSOR_STATE = LOW then (print m x).set_HOMING b else print n x).HOMING =
      if (if x.SENSOR_STATE = LOW then (print m x).set_HOMING b
          else print n x).SENSOR_STATE = 0 then b
      else a := by
  by_cases c : x.SENSOR_STATE = LOW
  · rw [if_pos c]
    show b = if x.SENSOR_STATE = 0 then b else a
    rw [if_pos c]
  · rw [if_neg c]
    show x.HOMING = if x.SENSOR_STATE = 0 then b else a
    rw [if_neg c]
    exact hx

/-- Stage 3 advances the stage counter when, and only when, SensorState is LOW
after its last probe. -/
theorem homing_3_HOMING (s : State) (h : s.HOMING = 3) :
    (homing_3 s).HOMING = if (homing_3 s).SENSOR_STATE = 0 then 4 else 3 := by
  unfold homing_3
  rw [if_pos h]
  simp only [State.set_TRIGGER_ORDER, State.set_TRIGGER_ORDER2]
  split
  · exact advance_on_contact _ 3 4 (by
      simp only [motor_stop_HOMING, delay_HOMING, sensor_bypass_HOMING, motor_forward_HOMING,
        motor_reverse_HOMING, State.set_HOME_DIRECTION]
      exact h)
  · exact advance_on_contact_print _ 3 4 _ _ (by
      simp only [motor_stop_HOMING, delay_HOMING, sensor_bypass_HOMING, motor_forward_HOMING,
        motor_reverse_HOMING, print_HOMING, State.set_HOME_DIRECTION]
      exact h)

/-- The probing block of stage 4 advances the stage counter when, and only
when, SensorState is LOW after its last probe. -/
theorem homing_4_probe_HOMING (s : State) (h : s.HOMING = 4) :
    (homing_4_probe s).HOMING = if (homing_4_probe s).SENSOR_STATE = 0 then 5 else 4 := by
  unfold homing_4_probe
  rw [if_pos h]
  dsimp only
  split
  · exact advance_on_contact _ 4 5 (by
      simp only [motor_stop_HOMING, delay_HOMING, sensor_bypass_HOMING, motor_forward_HOMING,
        motor_reverse_HOMING, State.set_HOME_DIRECTION]
      exact h)
  · exact advance_on_contact_print _ 4 5 _ _ (by
      simp only [motor_stop_HOMING, delay_HOMING, sensor_bypass_HOMING, motor_forward_HOMING,
        motor_reverse_HOMING, print_HOMING, State.set_HOME_DIRECTION]
      exact h)

theorem move_right_HOMING (s : State) : (move_right s).HOMING = s.HOMING := by
  unfold move_right
  simp [apply_ite State.HOMING]

theorem move_left_HOMING (s : State) : (move_left s).HOMING = s.HOMING := by
  unfold move_left
  simp [apply_ite State.HOMING]

theorem move_right_HOMING_ACTIVE (s : State) :
    (move_right s).HOMING_ACTIVE = s.HOMING_ACTIVE := by
  unfold move_right
  simp [apply_ite State.HOMING_ACTIVE]

theorem move_left_HOMING_ACTIVE (s : State) :
    (move_left s).HOMING_ACTIVE = s.HOMING_ACTIVE := by
  unfold move_left
  simp [apply_ite State.HOMING_ACTIVE]

theorem homing_4_recenter_HOMING (s : State) : (homing_4_recenter s).HOMING = s.HOMING := by
  unfold homing_4_recenter
  simp only [apply_ite State.HOMING, move_right_HOMING, move_left_HOMING, print_HOMING,
    report_pos_HOMING, ite_self]

theorem homing_4_recenter_HOMING_ACTIVE (s : State) :
    (homing_4_recenter s).HOMING_ACTIVE = s.HOMING_ACTIVE := by
  unfold homing_4_recenter
  simp only [apply_ite State.HOMING_ACTIVE, move_right_HOMING_ACTIVE, move_left_HOMING_ACTIVE,
    print_HOMING_ACTIVE, report_pos_HOMING_ACTIVE, ite_self]

theorem homing_4_finish_HOMING (s : State) : (homing_4_finish s).HOMING = s.HOMING := by
  unfold homing_4_finish
  simp only [drag_lights_HOMING, State.set_TRIGGER_ORDER, State.set_TRIGGER_ORDER2]

theorem homing_4_lookup_HOMING_ACTIVE (s : State) :
    (homing_4_lookup s).HOMING_ACTIVE = s.HOMING_ACTIVE := by
  unfold homing_4_lookup homing_4_assign
  have e : (homing_4_index s).HOMING_ACTIVE = s.HOMING_ACTIVE := by
    unfold homing_4_index
    simp only [apply_ite State.HOMING_ACTIVE, State.set_HOMED_POS, ite_self]
  split
  all_goals simp only [State.set_CURRENT_POS, State.set_fault, e]

/-- Only the probing block of `homing_4` writes the stage counter. -/
theorem homing_4_HOMING (s : State) : (homing_4 s).HOMING = (homing_4_probe s).HOMING := by
  unfold homing_4
  rw [homing_4_finish_HOMING, homing_4_recenter_HOMING, homing_4_lookup_HOMING]

theorem homing_4_HOMING_ACTIVE (s : State) : (homing_4 s).HOMING_ACTIVE = s.HOMING_ACTIVE := by
  unfold homing_4
  rw [(steady_homing_4_finish (Steady.rfl _)).HOMING_ACTIVE, homing_4_recenter_HOMING_ACTIVE,
    homing_4_lookup_HOMING_ACTIVE, (steady_homing_4_probe (Steady.rfl s)).HOMING_ACTIVE]

/-- C22 as stated fails for stages 3 and 4, which advance the stage counter
only in their success branches. From start-up with the sensor idle and no
sensor event, the manually stepped stages 1 and 2 advance to 2 and 3 although
they find no stop point, but stage 3 then returns with the counter still 3 and
its "DID NOT find the starting point" diagnostic logged. In a HOME run whose
stage 3 succeeds and whose stage 4 finds nothing, stage 4 is entered with the
counter at 4 and HOME returns with it still 4. -/
theorem stage_not_advanced_without_contact :
    ((runOps [.MOVE "H1"] (startup .HIGH [])).HOMING = 2 ∧
      (runOps [.MOVE "H1", .MOVE "H2"] (startup .HIGH [])).HOMING = 3 ∧
      (runOps [.MOVE "H1", .MOVE "H2", .MOVE "H3"] (startup .HIGH [])).HOMING = 3 ∧
      .print (.homing_3_not_found CLI) ∈
        (runOps [.MOVE "H1", .MOVE "H2", .MOVE "H3"] (startup .HIGH [])).trace) ∧
    ((homeAfter3 (startup .HIGH (homingScript.take 6 ++ [[(.HIGH, .HIGH)]]))).HOMING = 4 ∧
      (homeAfter4 (startup .HIGH (homingScript.take 6 ++ [[(.HIGH, .HIGH)]]))).HOMING = 4 ∧
      (HOMEcommand (startup .HIGH (homingScript.take 6 ++ [[(.HIGH, .HIGH)]]))).HOMING = 4) := by
  decide

/-- C22 as amended. Stage advance: `homing_1` and `homing_2` return with the
stage counter at 2 and at 3 in every case, also when they found no stop point.
`homing_3` invoked at stage 3 returns with the counter at 4 when SensorState is
LOW at the end of its probing and with the counter still 3 otherwise;
`homing_4` invoked at stage 4 returns with the counter at 5 when SensorState is
LOW at the end of its probing and with the counter still 4 otherwise. -/
theorem stage_advance (s : State) :
    (homing_1 s).HOMING = 2 ∧ (homing_2 s).HOMING = 3 ∧
    (s.HOMING = 3 → (homing_3 s).HOMING = if (homing_3 s).SENSOR_STATE = 0 then 4 else 3) ∧
    (s.HOMING = 4 →
      (homing_4 s).HOMING = if (homing_4_probe s).SENSOR_STATE = 0 then 5 else 4) := by
  refine ⟨homing_1_HOMING s, homing_2_HOMING s, homing_3_HOMING s, fun h => ?_⟩
  rw [homing_4_HOMING]
  exact homing_4_probe_HOMING s h

theorem stage_advance_witness :
    (homing_3 (homingAt (-1) 3 "NN")).HOMING = 3 ∧
      (homing_3 ((homingAt (-1) 3 "NN").set_pending
        [[], [(.LOW, .LOW)], [(.HIGH, .HIGH)], [(.LOW, .LOW)]])).HOMING = 4 ∧
      (homing_4 stage4Run).HOMING = 5 ∧ (homing_4 (homingAt (-1) 4 "NNN")).HOMING = 4 :=
  ⟨((stage_advance (homingAt (-1) 3 "NN")).2.2.1 (by decide)).trans (by decide),
    ((stage_advance ((homingAt (-1) 3 "NN").set_pending
      [[], [(.LOW, .LOW)], [(.HIGH, .HIGH)], [(.LOW, .LOW)]])).2.2.1 (by decide)).trans
      (by decide),
    ((stage_advance stage4Run).2.2.2 (by decide)).trans (by decide),
    ((stage_advance (homingAt (-1) 4 "NNN")).2.2.2 (by decide)).trans (by decide)⟩

/-! ## The stage counter within a HOME command -/

theorem HOMEcommand_homeAfter4 (s : State) :
    HOMEcommand s = (homeAfter4 s).set_HOMING_ACTIVE false := by
  unfold HOMEcommand homeAfter4 homeAfter3 homeAfter2 homeAfter1 homeStart
  rfl

theorem homeAfter_HOMING_ACTIVE (s : State) :
    (homeStart s).HOMING_ACTIVE = true ∧ (homeAfter1 s).HOMING_ACTIVE = true ∧
      (homeAfter2 s).HOMING_ACTIVE = true ∧ (homeAfter3 s).HOMING_ACTIVE = true ∧
      (homeAfter4 s).HOMING_ACTIVE = true := by
  have h0 : (homeStart s).HOMING_ACTIVE = true := by
    unfold homeStart
    rfl
  have h1 : (homeAfter1 s).HOMING_ACTIVE = true := by
    unfold homeAfter1
    exact ((steady_homing_1 (Steady.rfl (homeStart s))).HOMING_ACTIVE).trans h0
  have h2 : (homeAfter2 s).HOMING_ACTIVE = true := by
    unfold homeAfter2
    exact ((steady_homing_2 (Steady.rfl (homeAfter1 s))).HOMING_ACTIVE).trans h1
  have h3 : (homeAfter3 s).HOMING_ACTIVE = true := by
    unfold homeAfter3
    exact ((steady_homing_3 (Steady.rfl (homeAfter2 s))).HOMING_ACTIVE).trans h2
  have h4 : (homeAfter4 s).HOMING_ACTIVE = true := by
    unfold homeAfter4
    exact (homing_4_HOMING_ACTIVE (homeAfter3 s)).trans h3
  exact ⟨h0, h1, h2, h3, h4⟩

/-- C23. Within one HOME command, for every script of sensor events: the stage
counter is 1 when stage 1 starts, 2 after stage 1, 3 after stage 2, 3 or 4
after stage 3, and after stage 4 it is at least what it was after stage 3 and
one of 3, 4, 5, which is its value when HOME returns; it is never 0. The
homing-active flag is true when each stage starts and when it returns, and
false when HOME returns. -/
theorem home_stage_progress (s : State) :
    HOMEcommand s = (homeAfter4 s).set_HOMING_ACTIVE false ∧
    ((homeStart s).HOMING_ACTIVE = true ∧ (homeAfter1 s).HOMING_ACTIVE = true ∧
      (homeAfter2 s).HOMING_ACTIVE = true ∧ (homeAfter3 s).HOMING_ACTIVE = true ∧
      (homeAfter4 s).HOMING_ACTIVE = true) ∧
    (HOMEcommand s).HOMING_ACTIVE = false ∧
    (homeStart s).HOMING = 1 ∧ (homeAfter1 s).HOMING = 2 ∧ (homeAfter2 s).HOMING = 3 ∧
    ((homeAfter3 s).HOMING = 3 ∨ (homeAfter3 s).HOMING = 4) ∧
    ((homeAfter3 s).HOMING ≤ (homeAfter4 s).HOMING ∧
      ((homeAfter4 s).HOMING = 3 ∨ (homeAfter4 s).HOMING = 4 ∨ (homeAfter4 s).HOMING = 5)) ∧
    (HOMEcommand s).HOMING = (homeAfter4 s).HOMING := by
  have e0 : (homeStart s).HOMING = 1 := by
    unfold homeStart
    rfl
  have e1 : (homeAfter1 s).HOMING = 2 := by
    unfold homeAfter1
    exact homing_1_HOMING _
  have e2 : (homeAfter2 s).HOMING = 3 := by
    unfold homeAfter2
    exact homing_2_HOMING _
  have e3 : (homeAfter3 s).HOMING = if (homeAfter3 s).SENSOR_STATE = 0 then 4 else 3 := by
    unfold homeAfter3
    exact homing_3_HOMING _ e2
  have e4 : (homeAfter4 s).HOMING = (homing_4_probe (homeAfter3 s)).HOMING := by
    unfold homeAfter4
    exact homing_4_HOMING _
  have d3 : (homeAfter3 s).HOMING = 3 ∨ (homeAfter3 s).HOMING = 4 := by
    rw [e3]
    split
    · exact Or.inr rfl
    · exact Or.inl rfl
  have d4 : (homeAfter3 s).HOMING ≤ (homeAfter4 s).HOMING ∧
      ((homeAfter4 s).HOMING = 3 ∨ (homeAfter4 s).HOMING = 4 ∨ (homeAfter4 s).HOMING = 5) := by
    rw [e4]
    rcases d3 with h | h
    · rw [homing_4_probe_skip _ (by rw [h]; decide), h]
      exact ⟨Int.le_refl 3, Or.inl rfl⟩
    · rw [homing_4_probe_HOMING _ h, h]
      split
      · exact ⟨by decide, Or.inr (Or.inr rfl)⟩
      · exact ⟨by decide, Or.inr (Or.inl rfl)⟩
  refine ⟨HOMEcommand_homeAfter4 s, homeAfter_HOMING_ACTIVE s, ?_, e0, e1, e2, d3, d4, ?_⟩
  · rw [HOMEcommand_homeAfter4]
    rfl
  · rw [HOMEcommand_homeAfter4]
    simp only [State.set_HOMING_ACTIVE]

/-! ## Manual stepping of stage 1 -/

theorem MOVEcommand_H1_HOMING (s : State) : (MOVEcommand_H1 s).HOMING = 2 := by
  unfold MOVEcommand_H1
  exact homing_1_HOMING _

/-- C24 as stated fails on the code. MOVE H1 issued after a start-up with the
sensor input LOW: the command layer sets the stage counter to 3, which makes
`homing_1` skip its probing (the command adds no event to the trace, so no
drive line is asserted), but `homing_1` still closes the stage: it appends the
boundary symbol and sets the stage counter to 2. The command returns with the
stage counter at 2, not 3. -/
theorem move_h1_on_sensor_returns_stage_2 :
    (startup .LOW []).PIN_PROX_SENSOR = .LOW ∧
      (MOVEcommand_read "H1" (startup .LOW [])).RX_COMMAND = H1 ∧
      (MOVEcommand "H1" (startup .LOW [])).trace = (startup .LOW []).trace ∧
      (MOVEcommand "H1" (startup .LOW [])).TRIGGER_ORDER = "N" ∧
      (MOVEcommand "H1" (startup .LOW [])).HOMING = 2 := by
  decide

/-! ## The probing schedule of stage 1 -/

/-- C25, at the failing input. MOVE H1 issued after a start-up with the sensor
idle runs stage 1 with no sensor event. The first right probe calls the
non-blocking `delay_ms`, so `motor_stop` follows the drive assertion at once:
the forward line is held for 0 ms, not 1100 ms, no wait of 1100 ms occurs at
all, and the events that follow the first assertion of the forward line are
those of `motor_stop`. The left probe holds the reverse line for 2200 ms and
the second right probe the forward line for 3300 ms. -/
theorem first_probe_not_held :
    HOMING_TIMEOUT_SHORT = 1100 ∧
      driveHolds (MOVEcommand "H1" (startup .HIGH [])).trace.reverse =
        [(.PIN_MOTOR_FWD, 0), (.PIN_MOTOR_REV, 2200), (.PIN_MOTOR_FWD, 3300)] ∧
      .wait 1100 ∉ (MOVEcommand "H1" (startup .HIGH [])).trace ∧
      ((MOVEcommand "H1" (startup .HIGH [])).trace.reverse.drop 9).take 5 =
        [.write .PIN_MOTOR_FWD .LOW, .print (.stop_issued CLI), .write .PIN_MOTOR_FWD .HIGH,
          .write .PIN_MOTOR_REV .HIGH, .write .PIN_LED_RED .HIGH] := by
  decide

/-! ## Bookkeeping of the full moves -/

theorem move_right_PREVIOUS_POS (s : State) : (move_right s).PREVIOUS_POS = s.CURRENT_POS := by
  unfold move_right
  simp [apply_ite State.PREVIOUS_POS]

theorem move_left_PREVIOUS_POS (s : State) : (move_left s).PREVIOUS_POS = s.CURRENT_POS := by
  unfold move_left
  simp [apply_ite State.PREVIOUS_POS]

/-! ## Interlock refusals

What the hardware-level functions do to the number of interlock refusals in the
trace, and to the drive lines of a stopped motor. -/

theorem print_ignored (m : Msg) (s : State) :
    ignored (print m s).trace = ignored s.trace + (if isIgnored (.print m) then 1 else 0) := by
  simp only [ignored, print, emit, List.countP_cons]

theorem print_ignored_of (m : Msg) (s : State) (h : isIgnored (.print m) = false) :
    ignored (print m s).trace = ignored s.trace := by
  simp [ignored, print, emit, h]

theorem emit_call_ignored (g : Fn) (s : State) :
    ignored (emit (.call g) s).trace = ignored s.trace := by
  simp [ignored, isIgnored, emit]

theorem wait_ignored (ms : Nat) (s : State) : ignored (wait ms s).trace = ignored s.trace := by
  simp [ignored, isIgnored, wait]

theorem digitalWrite_ignored (q : Pin) (v : Level) (s : State) :
    ignored (digitalWrite q v s).trace = ignored s.trace := by
  cases q
  all_goals simp [ignored, isIgnored, digitalWrite]

theorem delay_ms_ignored (d : Nat) (s : State) :
    ignored ((delay_ms d s).2).trace = ignored s.trace := by
  unfold delay_ms
  dsimp only
  split
  all_goals rfl

theorem rgb_set_led_ignored (c : Nat) (s : State) :
    ignored (rgb_set_led c s).trace = ignored s.trace := by
  unfold rgb_set_led
  dsimp only
  repeat' split
  all_goals first | rfl | simp only [digitalWrite_ignored, State.set_currColor]

theorem motor_stop_ignored (s : State) : ignored (motor_stop s).trace = ignored s.trace := by
  unfold motor_stop
  simp [apply_ite State.trace, apply_ite ignored, rgb_set_led_ignored, digitalWrite_ignored,
    print_ignored, isIgnored]

theorem isr_prox_sensor_ignored (r1 r2 : Level) (s : State) :
    ignored (isr_prox_sensor r1 r2 s).trace = ignored s.trace := by
  unfold isr_prox_sensor
  simp only [apply_ite State.trace, apply_ite ignored, wait_ignored, rgb_set_led_ignored,
    motor_stop_ignored,
    State.set_PIN_PROX_SENSOR, State.set_PREV_SENSOR_STATE, State.set_SENSOR_STATE,
    State.set_SENSOR_OVERRIDE, State.set_HOMING_ACTIVE, State.set_HOMING, State.set_HOME_DIRECTION,
    State.set_HOMED_POS, State.set_CURRENT_POS, State.set_PREVIOUS_POS, State.set_TRIGGER_ORDER,
    State.set_TRIGGER_ORDER2, State.set_SOURCE, State.set_state_start_timestamp,
    State.set_RX_COMMAND, State.set_rxWord, State.set_currColor, State.set_fault, State.set_pending, ite_self]

theorem runIsrs_ignored (edges : List (Level × Level)) (s : State) :
    ignored (runIsrs edges s).trace = ignored s.trace := by
  induction edges generalizing s with
  | nil => rfl
  | cons e rest ih =>
    unfold runIsrs
    rw [ih, isr_prox_sensor_ignored]

theorem delay_ignored (ms : Nat) (s : State) : ignored (delay ms s).trace = ignored s.trace := by
  unfold delay
  split
  · exact wait_ignored ms s
  · rw [runIsrs_ignored, wait_ignored]
    rfl

theorem sensor_bypass_ignored (s : State) :
    ignored (sensor_bypass s).trace = ignored s.trace := by
  unfold sensor_bypass
  simp only [State.set_SENSOR_OVERRIDE, delay_ignored]

theorem drag_lights_ignored (s : State) : ignored (drag_lights s).trace = ignored s.trace := by
  unfold drag_lights
  simp only [delay_ignored, rgb_set_led_ignored]

/-- A drive call logs an interlock refusal exactly when it finds the opposite
line asserted. -/
theorem motor_forward_ignored (s : State) :
    ignored (motor_forward s).trace =
      ignored s.trace + (if s.PIN_MOTOR_REV = .LOW then 1 else 0) := by
  by_cases hr : s.PIN_MOTOR_REV = .LOW
  · rw [motor_forward_interlock s hr, print_ignored, if_pos hr]
    rfl
  · rw [if_neg hr]
    unfold motor_forward
    rw [if_neg (by simpa [digitalRead] using hr)]
    simp [apply_ite State.trace, apply_ite ignored, digitalWrite_ignored,
      rgb_set_led_ignored, print_ignored, isIgnored]

theorem motor_reverse_ignored (s : State) :
    ignored (motor_reverse s).trace =
      ignored s.trace + (if s.PIN_MOTOR_FWD = .LOW then 1 else 0) := by
  by_cases hf : s.PIN_MOTOR_FWD = .LOW
  · rw [motor_reverse_interlock s hf, print_ignored, if_pos hf]
    rfl
  · rw [if_neg hf]
    unfold motor_reverse
    rw [if_neg (by simpa [digitalRead] using hf)]
    simp [apply_ite State.trace, apply_ite ignored, digitalWrite_ignored,
      rgb_set_led_ignored, print_ignored, isIgnored]

/-! ## Stopped motor

`Good s x` is carried along the statements of a command from its entry state
`s`: a drive call needs it, `motor_stop` establishes it, and between a drive
call and the following `motor_stop` only `Clean s x` is known. -/

theorem Good.start {s : State} (h : Stopped s) : Good s s := ⟨h, rfl⟩

theorem Good.clean {s x : State} (h : Good s x) : Clean s x := h.2

theorem good_set_PIN_PROX_SENSOR (v : Level) {s x : State} (h : Good s x) :
    Good s (x.set_PIN_PROX_SENSOR v) := h

theorem good_set_PREV_SENSOR_STATE (v : Int) {s x : State} (h : Good s x) :
    Good s (x.set_PREV_SENSOR_STATE v) := h

theorem good_set_SENSOR_STATE (v : Int) {s x : State} (h : Good s x) :
    Good s (x.set_SENSOR_STATE v) := h

theorem good_set_SENSOR_OVERRIDE (v : Int) {s x : State} (h : Good s x) :
    Good s (x.set_SENSOR_OVERRIDE v) := h

theorem good_set_HOMING_ACTIVE (v : Bool) {s x : State} (h : Good s x) :
    Good s (x.set_HOMING_ACTIVE v) := h

theorem good_set_HOMING (v : Int) {s x : State} (h : Good s x) :
    Good s (x.set_HOMING v) := h

theorem good_set_HOME_DIRECTION (v : Int) {s x : State} (h : Good s x) :
    Good s (x.set_HOME_DIRECTION v) := h

theorem good_set_HOMED_POS (v : Int) {s x : State} (h : Good s x) :
    Good s (x.set_HOMED_POS v) := h

theorem good_set_CURRENT_POS (v : Int) {s x : State} (h : Good s x) :
    Good s (x.set_CURRENT_POS v) := h

theorem good_set_PREVIOUS_POS (v : Int) {s x : State} (h : Good s x) :
    Good s (x.set_PREVIOUS_POS v) := h

theorem good_set_TRIGGER_ORDER (v : String) {s x : State} (h : Good s x) :
    Good s (x.set_TRIGGER_ORDER v) := h

theorem good_set_TRIGGER_ORDER2 (v : String) {s x : State} (h : Good s x) :
    Good s (x.set_TRIGGER_ORDER2 v) := h

theorem good_set_SOURCE (v : Int) {s x : State} (h : Good s x) :
    Good s (x.set_SOURCE v) := h

theorem good_set_RX_COMMAND (v : Int) {s x : State} (h : Good s x) :
    Good s (x.set_RX_COMMAND v) := h

theorem good_set_rxWord (v : String) {s x : State} (h : Good s x) :
    Good s (x.set_rxWord v) := h

theorem good_set_fault (v : Bool) {s x : State} (h : Good s x) :
    Good s (x.set_fault v) := h

theorem good_set_pending (v : List (List (Level × Level))) {s x : State} (h : Good s x) :
    Good s (x.set_pending v) := h


theorem good_ite {c : Prop} [Decidable c] {s a b : State} (ha : Good s a) (hb : Good s b) :
    Good s (if c then a else b) := by
  split <;> assumption

theorem good_ite_set_HOMED_POS {c : Prop} [Decidable c] (v : Int) {s x : State}
    (h : Good s x) : Good s (if c then x.set_HOMED_POS v else x) := by
  split <;> exact h

theorem good_ite_set_RX_COMMAND {c : Prop} [Decidable c] (v : Int) {s x : State}
    (h : Good s x) : Good s (if c then x.set_RX_COMMAND v else x) := by
  split <;> exact h

theorem good_print (m : Msg) (hm : isIgnored (.print m) = false) {s x : State}
    (h : Good s x) : Good s (print m x) :=
  ⟨h.1, (print_ignored_of m x hm).trans h.2⟩

theorem good_report_pos {s x : State} (h : Good s x) : Good s (report_pos x) := by
  unfold report_pos
  exact good_print _ (by rfl) h

theorem good_call (g : Fn) {s x : State} (h : Good s x) : Good s (emit (.call g) x) :=
  ⟨h.1, (emit_call_ignored g x).trans h.2⟩

theorem good_wait (ms : Nat) {s x : State} (h : Good s x) : Good s (wait ms x) :=
  ⟨h.1, (wait_ignored ms x).trans h.2⟩

theorem good_rgb_set_led (c : Nat) {s x : State} (h : Good s x) : Good s (rgb_set_led c x) :=
  ⟨⟨(rgb_set_led_fwd c x).trans h.1.1, (rgb_set_led_rev c x).trans h.1.2⟩,
    (rgb_set_led_ignored c x).trans h.2⟩

/-- Whatever the lines were, `motor_stop` leaves both deasserted. -/
theorem good_motor_stop {s x : State} (h : Clean s x) : Good s (motor_stop x) :=
  ⟨motor_stop_lines x, (motor_stop_ignored x).trans h⟩

theorem good_isr_prox_sensor (r1 r2 : Level) {s x : State} (h : Good s x) :
    Good s (isr_prox_sensor r1 r2 x) := by
  unfold isr_prox_sensor
  repeat' with_reducible first
    | exact h | apply good_rgb_set_led | apply good_motor_stop | apply Good.clean
    | apply good_wait
    | apply good_set_PREV_SENSOR_STATE | apply good_set_SOURCE | apply good_set_TRIGGER_ORDER
    | apply good_set_TRIGGER_ORDER2 | apply good_set_SENSOR_STATE | apply good_set_PIN_PROX_SENSOR
    | apply good_ite

theorem good_runIsrs (edges : List (Level × Level)) {s x : State} (h : Good s x) :
    Good s (runIsrs edges x) := by
  induction edges generalizing x with
  | nil => exact h
  | cons e rest ih => exact ih (good_isr_prox_sensor e.1 e.2 h)

theorem good_delay (ms : Nat) {s x : State} (h : Good s x) : Good s (delay ms x) := by
  unfold delay
  split
  · exact good_wait _ h
  · exact good_runIsrs _ (good_wait _ (good_set_pending _ h))

theorem good_sensor_bypass {s x : State} (h : Good s x) : Good s (sensor_bypass x) := by
  unfold sensor_bypass
  exact good_set_SENSOR_OVERRIDE _ (good_delay _ (good_set_SENSOR_OVERRIDE _ h))

theorem good_drag_lights {s x : State} (h : Good s x) : Good s (drag_lights x) := by
  unfold drag_lights
  repeat' with_reducible first | exact h | apply good_delay | apply good_rgb_set_led

theorem good_delay_ms (d : Nat) {s x : State} (h : Good s x) : Good s (delay_ms d x).2 := by
  unfold delay_ms
  dsimp only
  split
  · exact h
  · exact h

theorem clean_delay (ms : Nat) {s x : State} (h : Clean s x) : Clean s (delay ms x) :=
  (delay_ignored ms x).trans h

theorem clean_delay_ms (d : Nat) {s x : State} (h : Clean s x) : Clean s (delay_ms d x).2 :=
  (delay_ms_ignored d x).trans h

theorem clean_sensor_bypass {s x : State} (h : Clean s x) : Clean s (sensor_bypass x) :=
  (sensor_bypass_ignored x).trans h

/-- A drive call made with both lines deasserted is not refused by the interlock. -/
theorem clean_motor_forward {s x : State} (h : Good s x) : Clean s (motor_forward x) := by
  have e := motor_forward_ignored x
  rw [if_neg (by rw [h.1.2]; decide)] at e
  exact e.trans h.2

theorem clean_motor_reverse {s x : State} (h : Good s x) : Clean s (motor_reverse x) := by
  have e := motor_reverse_ignored x
  rw [if_neg (by rw [h.1.1]; decide)] at e
  exact e.trans h.2

theorem good_move_right {s x : State} (h : Good s x) : Good s (move_right x) := by
  unfold move_right
  repeat' first
    | (with_reducible first
    | exact h | apply good_motor_stop | apply good_delay
    | apply clean_delay | apply clean_sensor_bypass | apply clean_delay_ms
    | apply clean_motor_forward | apply clean_motor_reverse | apply good_report_pos
    | apply good_print
    | apply good_call | apply good_set_CURRENT_POS | apply good_set_PREVIOUS_POS
    | apply good_ite)
    | exact Eq.refl false

theorem good_move_left {s x : State} (h : Good s x) : Good s (move_left x) := by
  unfold move_left
  repeat' first
    | (with_reducible first
    | exact h | apply good_motor_stop | apply good_delay
    | apply clean_delay | apply clean_sensor_bypass | apply clean_delay_ms
    | apply clean_motor_forward | apply clean_motor_reverse | apply good_report_pos
    | apply good_print
    | apply good_call | apply good_set_CURRENT_POS | apply good_set_PREVIOUS_POS
    | apply good_ite)
    | exact Eq.refl false

theorem good_move_gr1 {s x : State} (h : Good s x) : Good s (move_gr1 x) := by
  unfold move_gr1
  repeat' first
    | (with_reducible first
    | exact h | apply good_motor_stop | apply good_delay
    | apply clean_delay | apply clean_sensor_bypass | apply clean_delay_ms
    | apply clean_motor_forward | apply clean_motor_reverse | apply good_report_pos
    | apply good_print
    | apply good_call
    | apply good_ite)
    | exact Eq.refl false

theorem good_move_gl1 {s x : State} (h : Good s x) : Good s (move_gl1 x) := by
  unfold move_gl1
  repeat' first
    | (with_reducible first
    | exact h | apply good_motor_stop | apply good_delay
    | apply clean_delay | apply clean_sensor_bypass | apply clean_delay_ms
    | apply clean_motor_forward | apply clean_motor_reverse | apply good_report_pos
    | apply good_print
    | apply good_call
    | apply good_ite)
    | exact Eq.refl false

theorem good_homing_1 {s x : State} (h : Good s x) : Good s (homing_1 x) := by
  unfold homing_1
  repeat' first
    | (with_reducible first
    | exact h | apply good_motor_stop | apply good_delay
    | apply clean_delay | apply clean_sensor_bypass | apply clean_delay_ms
    | apply clean_motor_forward | apply clean_motor_reverse | apply good_report_pos
    | apply good_print
    | apply good_call | apply good_set_HOME_DIRECTION | apply good_set_HOMING | apply good_set_TRIGGER_ORDER | apply good_set_TRIGGER_ORDER2
    | apply good_ite)
    | exact Eq.refl false

theorem good_homing_2 {s x : State} (h : Good s x) : Good s (homing_2 x) := by
  unfold homing_2
  repeat' first
    | (with_reducible first
    | exact h | apply good_motor_stop | apply good_delay
    | apply clean_delay | apply clean_sensor_bypass | apply clean_delay_ms
    | apply clean_motor_forward | apply clean_motor_reverse | apply good_report_pos
    | apply good_print
    | apply good_call | apply good_set_HOME_DIRECTION | apply good_set_HOMING | apply good_set_TRIGGER_ORDER | apply good_set_TRIGGER_ORDER2
    | apply good_ite)
    | exact Eq.refl false

theorem good_homing_3 {s x : State} (h : Good s x) : Good s (homing_3 x) := by
  unfold homing_3
  repeat' first
    | (with_reducible first
    | exact h | apply good_motor_stop | apply good_delay
    | apply clean_delay | apply clean_sensor_bypass | apply clean_delay_ms
    | apply clean_motor_forward | apply clean_motor_reverse | apply good_report_pos
    | apply good_print
    | apply good_call | apply good_set_HOME_DIRECTION | apply good_set_HOMING | apply good_set_TRIGGER_ORDER | apply good_set_TRIGGER_ORDER2
    | apply good_ite)
    | exact Eq.refl false

theorem good_homing_4_probe {s x : State} (h : Good s x) : Good s (homing_4_probe x) := by
  unfold homing_4_probe
  repeat' first
    | (with_reducible first
    | exact h | apply good_motor_stop | apply good_delay
    | apply clean_delay | apply clean_sensor_bypass | apply clean_delay_ms
    | apply clean_motor_forward | apply clean_motor_reverse | apply good_report_pos
    | apply good_print
    | apply good_call | apply good_set_HOME_DIRECTION | apply good_set_HOMING | apply good_set_TRIGGER_ORDER | apply good_set_TRIGGER_ORDER2
    | apply good_ite)
    | exact Eq.refl false

theorem good_homing_4_index {s x : State} (h : Good s x) : Good s (homing_4_index x) := by
  unfold homing_4_index
  repeat' with_reducible first | exact h | apply good_ite_set_HOMED_POS

theorem good_homing_4_assign {s x : State} (h : Good s x) : Good s (homing_4_assign x) := by
  unfold homing_4_assign
  split
  · exact good_set_CURRENT_POS _ h
  · exact good_set_fault _ h

theorem good_homing_4_lookup {s x : State} (h : Good s x) : Good s (homing_4_lookup x) :=
  good_homing_4_assign (good_homing_4_index h)

theorem good_homing_4_recenter {s x : State} (h : Good s x) : Good s (homing_4_recenter x) := by
  unfold homing_4_recenter
  repeat' first
    | (with_reducible first
    | exact h | apply good_motor_stop | apply good_delay
    | apply clean_delay | apply clean_sensor_bypass | apply clean_delay_ms
    | apply clean_motor_forward | apply clean_motor_reverse | apply good_report_pos
    | apply good_print
    | apply good_call | apply good_move_right | apply good_move_left
    | apply good_ite)
    | exact Eq.refl false

theorem good_homing_4_finish {s x : State} (h : Good s x) : Good s (homing_4_finish x) := by
  unfold homing_4_finish
  repeat' first
    | (with_reducible first
    | exact h | apply good_motor_stop | apply good_delay
    | apply clean_delay | apply clean_sensor_bypass | apply clean_delay_ms
    | apply clean_motor_forward | apply clean_motor_reverse | apply good_report_pos
    | apply good_print
    | apply good_call | apply good_drag_lights | apply good_set_TRIGGER_ORDER | apply good_set_TRIGGER_ORDER2
    | apply good_ite)
    | exact Eq.refl false

theorem good_homing_4 {s x : State} (h : Good s x) : Good s (homing_4 x) :=
  good_homing_4_finish (good_homing_4_recenter (good_homing_4_lookup (good_homing_4_probe h)))

theorem good_HOMEcommand {s x : State} (h : Good s x) : Good s (HOMEcommand x) := by
  unfold HOMEcommand
  exact good_set_HOMING_ACTIVE _ (good_homing_4 (good_homing_3 (good_homing_2 (good_homing_1
    (good_set_HOMING _ (good_set_HOMING_ACTIVE _ h))))))

theorem good_MOVEcommand_read (word : String) {s x : State} (h : Good s x) :
    Good s (MOVEcommand_read word x) := by
  unfold MOVEcommand_read
  repeat' with_reducible first
    | exact h | apply good_ite_set_RX_COMMAND | apply good_set_RX_COMMAND | apply good_set_rxWord
    | apply good_set_SOURCE

theorem good_MOVEcommand_CNC {s x : State} (h : Good s x) : Good s (MOVEcommand_CNC x) := by
  unfold MOVEcommand_CNC
  repeat' first
    | (with_reducible first
    | exact h | apply good_move_right | apply good_print | apply good_ite)
    | exact Eq.refl false

theorem good_MOVEcommand_CHOPSAW {s x : State} (h : Good s x) :
    Good s (MOVEcommand_CHOPSAW x) := by
  unfold MOVEcommand_CHOPSAW
  repeat' first
    | (with_reducible first
    | exact h | apply good_move_right | apply good_move_left
    | apply good_print | apply good_ite)
    | exact Eq.refl false

theorem good_MOVEcommand_WORKBENCH {s x : State} (h : Good s x) :
    Good s (MOVEcommand_WORKBENCH x) := by
  unfold MOVEcommand_WORKBENCH
  repeat' first
    | (with_reducible first
    | exact h | apply good_move_left | apply good_print | apply good_ite)
    | exact Eq.refl false

theorem good_MOVEcommand_H1 {s x : State} (h : Good s x) : Good s (MOVEcommand_H1 x) := by
  unfold MOVEcommand_H1
  repeat' with_reducible first
    | exact h | apply good_homing_1 | apply good_set_HOMING | apply good_ite

theorem good_MOVEcommand_switch {s x : State} (h : Good s x) :
    Good s (MOVEcommand_switch x) := by
  unfold MOVEcommand_switch
  refine good_ite (good_motor_stop h.clean) ?_
  refine good_ite (good_move_right h) ?_
  refine good_ite (good_move_gr1 h) ?_
  refine good_ite (good_move_left h) ?_
  refine good_ite (good_move_gl1 h) ?_
  refine good_ite (good_MOVEcommand_CNC h) ?_
  refine good_ite (good_MOVEcommand_CHOPSAW h) ?_
  refine good_ite (good_MOVEcommand_WORKBENCH h) ?_
  refine good_ite (good_MOVEcommand_H1 h) ?_
  refine good_ite (good_homing_2 h) ?_
  refine good_ite (good_homing_3 h) ?_
  refine good_ite (good_homing_4 h) ?_
  exact good_print _ (by rfl) h

theorem good_MOVEcommand (word : String) {s x : State} (h : Good s x) :
    Good s (MOVEcommand word x) :=
  good_MOVEcommand_switch (good_MOVEcommand_read word h)

/-! ## Sensor override

Only `sensor_bypass` writes SensorOverride, and it clears it before it returns. -/

theorem unmasked_set_PIN_PROX_SENSOR (v : Level) {s : State} (h : Unmasked s) :
    Unmasked (s.set_PIN_PROX_SENSOR v) := h

theorem unmasked_set_PREV_SENSOR_STATE (v : Int) {s : State} (h : Unmasked s) :
    Unmasked (s.set_PREV_SENSOR_STATE v) := h

theorem unmasked_set_SENSOR_STATE (v : Int) {s : State} (h : Unmasked s) :
    Unmasked (s.set_SENSOR_STATE v) := h

theorem unmasked_set_HOMING_ACTIVE (v : Bool) {s : State} (h : Unmasked s) :
    Unmasked (s.set_HOMING_ACTIVE v) := h

theorem unmasked_set_HOMING (v : Int) {s : State} (h : Unmasked s) :
    Unmasked (s.set_HOMING v) := h

theorem unmasked_set_HOME_DIRECTION (v : Int) {s : State} (h : Unmasked s) :
    Unmasked (s.set_HOME_DIRECTION v) := h

theorem unmasked_set_HOMED_POS (v : Int) {s : State} (h : Unmasked s) :
    Unmasked (s.set_HOMED_POS v) := h

theorem unmasked_set_CURRENT_POS (v : Int) {s : State} (h : Unmasked s) :
    Unmasked (s.set_CURRENT_POS v) := h

theorem unmasked_set_PREVIOUS_POS (v : Int) {s : State} (h : Unmasked s) :
    Unmasked (s.set_PREVIOUS_POS v) := h

theorem unmasked_set_TRIGGER_ORDER (v : String) {s : State} (h : Unmasked s) :
    Unmasked (s.set_TRIGGER_ORDER v) := h

theorem unmasked_set_TRIGGER_ORDER2 (v : String) {s : State} (h : Unmasked s) :
    Unmasked (s.set_TRIGGER_ORDER2 v) := h

theorem unmasked_set_SOURCE (v : Int) {s : State} (h : Unmasked s) :
    Unmasked (s.set_SOURCE v) := h

theorem unmasked_set_RX_COMMAND (v : Int) {s : State} (h : Unmasked s) :
    Unmasked (s.set_RX_COMMAND v) := h

theorem unmasked_set_rxWord (v : String) {s : State} (h : Unmasked s) :
    Unmasked (s.set_rxWord v) := h

theorem unmasked_set_fault (v : Bool) {s : State} (h : Unmasked s) :
    Unmasked (s.set_fault v) := h

theorem unmasked_set_pending (v : List (List (Level × Level))) {s : State} (h : Unmasked s) :
    Unmasked (s.set_pending v) := h

theorem unmasked_ite {c : Prop} [Decidable c] {a b : State} (ha : Unmasked a) (hb : Unmasked b) :
    Unmasked (if c then a else b) := by
  split <;> assumption

theorem unmasked_ite_set_HOMED_POS {c : Prop} [Decidable c] (v : Int) {s : State}
    (h : Unmasked s) : Unmasked (if c then s.set_HOMED_POS v else s) := by
  split <;> exact h

theorem unmasked_ite_set_RX_COMMAND {c : Prop} [Decidable c] (v : Int) {s : State}
    (h : Unmasked s) : Unmasked (if c then s.set_RX_COMMAND v else s) := by
  split <;> exact h

theorem unmasked_print (m : Msg) {s : State} (h : Unmasked s) : Unmasked (print m s) :=
  (print_SENSOR_OVERRIDE m s).trans h

theorem unmasked_call (g : Fn) {s : State} (h : Unmasked s) : Unmasked (emit (.call g) s) :=
  (emit_call_SENSOR_OVERRIDE g s).trans h

theorem unmasked_report_pos {s : State} (h : Unmasked s) : Unmasked (report_pos s) :=
  (report_pos_SENSOR_OVERRIDE s).trans h

theorem unmasked_motor_stop {s : State} (h : Unmasked s) : Unmasked (motor_stop s) :=
  (motor_stop_SENSOR_OVERRIDE s).trans h

theorem unmasked_motor_forward {s : State} (h : Unmasked s) : Unmasked (motor_forward s) :=
  (motor_forward_SENSOR_OVERRIDE s).trans h

theorem unmasked_motor_reverse {s : State} (h : Unmasked s) : Unmasked (motor_reverse s) :=
  (motor_reverse_SENSOR_OVERRIDE s).trans h

theorem unmasked_isr_prox_sensor (r1 r2 : Level) {s : State} (h : Unmasked s) :
    Unmasked (isr_prox_sensor r1 r2 s) :=
  (isr_prox_sensor_SENSOR_OVERRIDE r1 r2 s).trans h

theorem unmasked_delay (ms : Nat) {s : State} (h : Unmasked s) : Unmasked (delay ms s) :=
  (delay_SENSOR_OVERRIDE ms s).trans h

theorem unmasked_delay_ms (d : Nat) {s : State} (h : Unmasked s) : Unmasked (delay_ms d s).2 :=
  (delay_ms_SENSOR_OVERRIDE d s).trans h

theorem unmasked_drag_lights {s : State} (h : Unmasked s) : Unmasked (drag_lights s) :=
  (drag_lights_SENSOR_OVERRIDE s).trans h

/-- Whatever the flag was, `sensor_bypass` returns with it clear. -/
theorem unmasked_sensor_bypass (s : State) : Unmasked (sensor_bypass s) := by
  unfold sensor_bypass Unmasked
  simp only [State.set_SENSOR_OVERRIDE]

theorem unmasked_move_right (s : State) : Unmasked (move_right s) := by
  unfold move_right
  repeat' with_reducible first
    | apply unmasked_sensor_bypass | apply unmasked_motor_stop | apply unmasked_delay
    | apply unmasked_delay_ms | apply unmasked_motor_forward | apply unmasked_motor_reverse
    | apply unmasked_report_pos | apply unmasked_print | apply unmasked_call
    | apply unmasked_set_CURRENT_POS | apply unmasked_set_PREVIOUS_POS
    | apply unmasked_ite

theorem unmasked_move_left (s : State) : Unmasked (move_left s) := by
  unfold move_left
  repeat' with_reducible first
    | apply unmasked_sensor_bypass | apply unmasked_motor_stop | apply unmasked_delay
    | apply unmasked_delay_ms | apply unmasked_motor_forward | apply unmasked_motor_reverse
    | apply unmasked_report_pos | apply unmasked_print | apply unmasked_call
    | apply unmasked_set_CURRENT_POS | apply unmasked_set_PREVIOUS_POS
    | apply unmasked_ite

theorem unmasked_move_gr1 (s : State) : Unmasked (move_gr1 s) := by
  unfold move_gr1
  repeat' with_reducible first
    | apply unmasked_sensor_bypass | apply unmasked_motor_stop | apply unmasked_delay
    | apply unmasked_delay_ms | apply unmasked_motor_forward | apply unmasked_motor_reverse
    | apply unmasked_report_pos | apply unmasked_print | apply unmasked_call
    | apply unmasked_ite

theorem unmasked_move_gl1 (s : State) : Unmasked (move_gl1 s) := by
  unfold move_gl1
  repeat' with_reducible first
    | apply unmasked_sensor_bypass | apply unmasked_motor_stop | apply unmasked_delay
    | apply unmasked_delay_ms | apply unmasked_motor_forward | apply unmasked_motor_reverse
    | apply unmasked_report_pos | apply unmasked_print | apply unmasked_call
    | apply unmasked_ite

theorem unmasked_homing_1 {s : State} (h : Unmasked s) : Unmasked (homing_1 s) := by
  unfold homing_1
  repeat' with_reducible first
    | exact h | apply unmasked_sensor_bypass | apply unmasked_motor_stop | apply unmasked_delay
    | apply unmasked_delay_ms | apply unmasked_motor_forward | apply unmasked_motor_reverse
    | apply unmasked_report_pos | apply unmasked_print | apply unmasked_call
    | apply unmasked_set_HOME_DIRECTION | apply unmasked_set_HOMING | apply unmasked_set_TRIGGER_ORDER | apply unmasked_set_TRIGGER_ORDER2
    | apply unmasked_ite

theorem unmasked_homing_2 {s : State} (h : Unmasked s) : Unmasked (homing_2 s) := by
  unfold homing_2
  repeat' with_reducible first
    | exact h | apply unmasked_sensor_bypass | apply unmasked_motor_stop | apply unmasked_delay
    | apply unmasked_delay_ms | apply unmasked_motor_forward | apply unmasked_motor_reverse
    | apply unmasked_report_pos | apply unmasked_print | apply unmasked_call
    | apply unmasked_set_HOME_DIRECTION | apply unmasked_set_HOMING | apply unmasked_set_TRIGGER_ORDER | apply unmasked_set_TRIGGER_ORDER2
    | apply unmasked_ite

theorem unmasked_homing_3 {s : State} (h : Unmasked s) : Unmasked (homing_3 s) := by
  unfold homing_3
  repeat' with_reducible first
    | exact h | apply unmasked_sensor_bypass | apply unmasked_motor_stop | apply unmasked_delay
    | apply unmasked_delay_ms | apply unmasked_motor_forward | apply unmasked_motor_reverse
    | apply unmasked_report_pos | apply unmasked_print | apply unmasked_call
    | apply unmasked_set_HOME_DIRECTION | apply unmasked_set_HOMING | apply unmasked_set_TRIGGER_ORDER | apply unmasked_set_TRIGGER_ORDER2
    | apply unmasked_ite

theorem unmasked_homing_4_probe {s : State} (h : Unmasked s) : Unmasked (homing_4_probe s) := by
  unfold homing_4_probe
  repeat' with_reducible first
    | exact h | apply unmasked_sensor_bypass | apply unmasked_motor_stop | apply unmasked_delay
    | apply unmasked_delay_ms | apply unmasked_motor_forward | apply unmasked_motor_reverse
    | apply unmasked_report_pos | apply unmasked_print | apply unmasked_call
    | apply unmasked_set_HOME_DIRECTION | apply unmasked_set_HOMING | apply unmasked_set_TRIGGER_ORDER | apply unmasked_set_TRIGGER_ORDER2
    | apply unmasked_ite

theorem unmasked_homing_4_index {s : State} (h : Unmasked s) :
    Unmasked (homing_4_index s) := by
  unfold homing_4_index
  repeat' with_reducible first | exact h | apply unmasked_ite_set_HOMED_POS

theorem unmasked_homing_4_assign {s : State} (h : Unmasked s) :
    Unmasked (homing_4_assign s) := by
  unfold homing_4_assign
  split
  · exact unmasked_set_CURRENT_POS _ h
  · exact unmasked_set_fault _ h

theorem unmasked_homing_4_lookup {s : State} (h : Unmasked s) : Unmasked (homing_4_lookup s) :=
  unmasked_homing_4_assign (unmasked_homing_4_index h)

theorem unmasked_homing_4_recenter {s : State} (h : Unmasked s) : Unmasked (homing_4_recenter s) := by
  unfold homing_4_recenter
  repeat' with_reducible first
    | exact h | apply unmasked_sensor_bypass | apply unmasked_motor_stop | apply unmasked_delay
    | apply unmasked_delay_ms | apply unmasked_motor_forward | apply unmasked_motor_reverse
    | apply unmasked_report_pos | apply unmasked_print | apply unmasked_call
    | apply unmasked_move_right | apply unmasked_move_left
    | apply unmasked_ite

theorem unmasked_homing_4_finish {s : State} (h : Unmasked s) : Unmasked (homing_4_finish s) := by
  unfold homing_4_finish
  repeat' with_reducible first
    | exact h | apply unmasked_sensor_bypass | apply unmasked_motor_stop | apply unmasked_delay
    | apply unmasked_delay_ms | apply unmasked_motor_forward | apply unmasked_motor_reverse
    | apply unmasked_report_pos | apply unmasked_print | apply unmasked_call
    | apply unmasked_drag_lights | apply unmasked_set_TRIGGER_ORDER | apply unmasked_set_TRIGGER_ORDER2
    | apply unmasked_ite

theorem unmasked_homing_4 {s : State} (h : Unmasked s) : Unmasked (homing_4 s) :=
  unmasked_homing_4_finish (unmasked_homing_4_recenter (unmasked_homing_4_lookup
    (unmasked_homing_4_probe h)))

theorem unmasked_HOMEcommand {s : State} (h : Unmasked s) : Unmasked (HOMEcommand s) := by
  unfold HOMEcommand
  exact unmasked_set_HOMING_ACTIVE _ (unmasked_homing_4 (unmasked_homing_3 (unmasked_homing_2
    (unmasked_homing_1 (unmasked_set_HOMING _ (unmasked_set_HOMING_ACTIVE _ h))))))

theorem unmasked_MOVEcommand_read (word : String) {s : State} (h : Unmasked s) :
    Unmasked (MOVEcommand_read word s) := by
  unfold MOVEcommand_read
  repeat' with_reducible first
    | exact h | apply unmasked_ite_set_RX_COMMAND | apply unmasked_set_RX_COMMAND
    | apply unmasked_set_rxWord | apply unmasked_set_SOURCE

theorem unmasked_MOVEcommand_CNC {s : State} (h : Unmasked s) :
    Unmasked (MOVEcommand_CNC s) := by
  unfold MOVEcommand_CNC
  repeat' with_reducible first
    | exact h | apply unmasked_move_right | apply unmasked_print | apply unmasked_ite

theorem unmasked_MOVEcommand_CHOPSAW {s : State} (h : Unmasked s) :
    Unmasked (MOVEcommand_CHOPSAW s) := by
  unfold MOVEcommand_CHOPSAW
  repeat' with_reducible first
    | exact h | apply unmasked_move_right | apply unmasked_move_left | apply unmasked_print
    | apply unmasked_ite

theorem unmasked_MOVEcommand_WORKBENCH {s : State} (h : Unmasked s) :
    Unmasked (MOVEcommand_WORKBENCH s) := by
  unfold MOVEcommand_WORKBENCH
  repeat' with_reducible first
    | exact h | apply unmasked_move_left | apply unmasked_print | apply unmasked_ite

theorem unmasked_MOVEcommand_H1 {s : State} (h : Unmasked s) : Unmasked (MOVEcommand_H1 s) := by
  unfold MOVEcommand_H1
  repeat' with_reducible first
    | exact h | apply unmasked_homing_1 | apply unmasked_set_HOMING | apply unmasked_ite

theorem unmasked_MOVEcommand_switch {s : State} (h : Unmasked s) :
    Unmasked (MOVEcommand_switch s) := by
  unfold MOVEcommand_switch
  refine unmasked_ite (unmasked_motor_stop h) ?_
  refine unmasked_ite (unmasked_move_right _) ?_
  refine unmasked_ite (unmasked_move_gr1 _) ?_
  refine unmasked_ite (unmasked_move_left _) ?_
  refine unmasked_ite (unmasked_move_gl1 _) ?_
  refine unmasked_ite (unmasked_MOVEcommand_CNC h) ?_
  refine unmasked_ite (unmasked_MOVEcommand_CHOPSAW h) ?_
  refine unmasked_ite (unmasked_MOVEcommand_WORKBENCH h) ?_
  refine unmasked_ite (unmasked_MOVEcommand_H1 h) ?_
  refine unmasked_ite (unmasked_homing_2 h) ?_
  refine unmasked_ite (unmasked_homing_3 h) ?_
  refine unmasked_ite (unmasked_homing_4 h) ?_
  exact unmasked_print _ h

theorem unmasked_MOVEcommand (word : String) {s : State} (h : Unmasked s) :
    Unmasked (MOVEcommand word s) :=
  unmasked_MOVEcommand_switch (unmasked_MOVEcommand_read word h)

theorem unmasked_run (op : Op) {s : State} (h : Unmasked s) : Unmasked (op.run s) := by
  cases op with
  | motor_forward => exact unmasked_motor_forward h
  | motor_reverse => exact unmasked_motor_reverse h
  | motor_stop => exact unmasked_motor_stop h
  | isr r1 r2 => exact unmasked_isr_prox_sensor r1 r2 h
  | move_right => exact unmasked_move_right _
  | move_left => exact unmasked_move_left _
  | move_gr1 => exact unmasked_move_gr1 _
  | move_gl1 => exact unmasked_move_gl1 _
  | homing_1 => exact unmasked_homing_1 h
  | homing_2 => exact unmasked_homing_2 h
  | homing_3 => exact unmasked_homing_3 h
  | homing_4 => exact unmasked_homing_4 h
  | MOVE word => exact unmasked_MOVEcommand word h
  | HOME => exact unmasked_HOMEcommand h

theorem unmasked_runOps (ops : List Op) {s : State} (h : Unmasked s) :
    Unmasked (runOps ops s) := by
  induction ops generalizing s with
  | nil => exact h
  | cons op rest ih => exact ih (unmasked_run op h)

theorem unmasked_startup (sensor : Level) (script : List (List (Level × Level))) :
    Unmasked (startup sensor script) := Eq.refl _

/-- C27. No operation leaves the motor energized. From any state with both
drive lines deasserted, whatever sensor edges are scripted for the delays to
come and whatever TriggerOrder holds (so also when the table lookup of
`homing_4` matches no entry), both drive lines are deasserted when each of the
four motion primitives, each of the four homing stage functions, the MOVE
command with any word, and the HOME command returns. -/
theorem motor_not_left_energized (s : State) (word : String) (h : Stopped s) :
    (Stopped (move_right s) ∧ Stopped (move_left s) ∧ Stopped (move_gr1 s) ∧
        Stopped (move_gl1 s)) ∧
      (Stopped (homing_1 s) ∧ Stopped (homing_2 s) ∧ Stopped (homing_3 s) ∧
        Stopped (homing_4 s)) ∧
      Stopped (MOVEcommand word s) ∧ Stopped (HOMEcommand s) :=
  ⟨⟨(good_move_right (Good.start h)).1, (good_move_left (Good.start h)).1,
      (good_move_gr1 (Good.start h)).1, (good_move_gl1 (Good.start h)).1⟩,
    ⟨(good_homing_1 (Good.start h)).1, (good_homing_2 (Good.start h)).1,
      (good_homing_3 (Good.start h)).1, (good_homing_4 (Good.start h)).1⟩,
    (good_MOVEcommand word (Good.start h)).1, (good_HOMEcommand (Good.start h)).1⟩

theorem motor_not_left_energized_witness :
    Stopped (startup .LOW homingScript) ∧
      unmatched (homing_4_probe (startup .LOW homingScript)) ∧
      Stopped (homing_4 (startup .LOW homingScript)) ∧
      Stopped (MOVEcommand "GOCNC" (startup .LOW homingScript)) ∧
      Stopped (HOMEcommand (startup .LOW homingScript)) :=
  ⟨by decide, by decide,
    (motor_not_left_energized (startup .LOW homingScript) "GOCNC" (by decide)).2.1.2.2.2,
    (motor_not_left_energized (startup .LOW homingScript) "GOCNC" (by decide)).2.2.1,
    (motor_not_left_energized (startup .LOW homingScript) "GOCNC" (by decide)).2.2.2⟩

/-- C28. SensorOverride is never left set. `sensor_bypass` sets the flag, waits
out the falloff window with the flag set, and clears it: it returns with the
flag clear from every state. Nothing else writes the flag: the interlock
functions, the handler and the blocking delay return it as they found it.
Hence the flag is clear in every state reached from start-up by any sequence
of interlock calls, handler invocations, motion primitives, homing stage
functions and MOVE / HOME commands, under any script of sensor edges. -/
theorem override_never_left_set (sensor : Level) (script : List (List (Level × Level)))
    (ops : List Op) (s : State) :
    (sensor_bypass s = (delay SENSOR_FALLOFF (s.set_SENSOR_OVERRIDE 1)).set_SENSOR_OVERRIDE 0 ∧
        (delay SENSOR_FALLOFF (s.set_SENSOR_OVERRIDE 1)).SENSOR_OVERRIDE = 1 ∧
        (sensor_bypass s).SENSOR_OVERRIDE = 0) ∧
      ((motor_stop s).SENSOR_OVERRIDE = s.SENSOR_OVERRIDE ∧
        (motor_forward s).SENSOR_OVERRIDE = s.SENSOR_OVERRIDE ∧
        (motor_reverse s).SENSOR_OVERRIDE = s.SENSOR_OVERRIDE ∧
        (∀ r1 r2, (isr_prox_sensor r1 r2 s).SENSOR_OVERRIDE = s.SENSOR_OVERRIDE) ∧
        (∀ ms, (delay ms s).SENSOR_OVERRIDE = s.SENSOR_OVERRIDE)) ∧
      (startup sensor script).SENSOR_OVERRIDE = 0 ∧
      (runOps ops (startup sensor script)).SENSOR_OVERRIDE = 0 ∧
      (∀ op : Op, (op.run (runOps ops (startup sensor script))).SENSOR_OVERRIDE = 0) :=
  ⟨⟨Eq.refl _, (delay_SENSOR_OVERRIDE _ _).trans (Eq.refl _), unmasked_sensor_bypass s⟩,
    ⟨motor_stop_SENSOR_OVERRIDE s, motor_forward_SENSOR_OVERRIDE s,
      motor_reverse_SENSOR_OVERRIDE s, fun r1 r2 => isr_prox_sensor_SENSOR_OVERRIDE r1 r2 s,
      fun ms => delay_SENSOR_OVERRIDE ms s⟩,
    unmasked_startup sensor script,
    unmasked_runOps ops (unmasked_startup sensor script),
    fun op => unmasked_run op (unmasked_runOps ops (unmasked_startup sensor script))⟩

/-- C29. The stored table index is always in bounds. In every state reached
from start-up by any sequence of operations under any sensor script the stored
index is in 0..10 and no out-of-range read of the table has happened. For any
operation that runs `homing_4` from such a state (the stage function, MOVE H4,
or HOME), the index is in 0..10 when line 621 reads the table, the read returns
a row of the table, the lookup is the assignment of that row's end-position to
Position, and that end-position is 1, 2 or 3. -/
theorem table_index_in_bounds (sensor : Level) (script : List (List (Level × Level)))
    (ops : List Op) :
    ((0 ≤ (runOps ops (startup sensor script)).HOMED_POS ∧
        (runOps ops (startup sensor script)).HOMED_POS ≤ 10) ∧
      (runOps ops (startup sensor script)).fault = false) ∧
    ∀ (op : Op) (t : State), lookupState op (runOps ops (startup sensor script)) = some t →
      (0 ≤ (homing_4_index t).HOMED_POS ∧ (homing_4_index t).HOMED_POS ≤ 10) ∧
      (∃ row, HOMED_ARRAY_at (homing_4_index t).HOMED_POS = some row ∧
        homing_4_lookup t = (homing_4_index t).set_CURRENT_POS row.END_POS) ∧
      ((homing_4_lookup t).CURRENT_POS = 1 ∨ (homing_4_lookup t).CURRENT_POS = 2 ∨
        (homing_4_lookup t).CURRENT_POS = 3) ∧
      (homing_4_lookup t).fault = false := by
  have hx : Indexed (runOps ops (startup sensor script)) :=
    indexed_runOps ops (indexed_startup sensor script)
  refine ⟨hx, fun op t ht => ?_⟩
  have ht2 : Indexed t := by
    unfold Indexed
    rw [lookupState_HOMED_POS op _ t ht, lookupState_fault op _ t ht]
    exact hx
  have hi := indexed_homing_4_index ht2
  obtain ⟨row, hrow, hend, -⟩ := HOMED_ARRAY_at_of_range _ hi.1.1 hi.1.2
  have hl : homing_4_lookup t = (homing_4_index t).set_CURRENT_POS row.END_POS := by
    unfold homing_4_lookup
    exact homing_4_assign_of _ row hrow
  refine ⟨hi.1, ⟨row, hrow, hl⟩, ?_, ?_⟩
  · rw [hl]
    simp only [State.set_CURRENT_POS]
    exact hend
  · rw [hl]
    simp only [State.set_CURRENT_POS]
    exact hi.2

theorem table_index_in_bounds_witness :
    lookupState .HOME (startup .HIGH homingScript) =
        some (homing_4_probe (homing_3 (homing_2 (homing_1
          (((startup .HIGH homingScript).set_HOMING_ACTIVE true).set_HOMING 1))))) ∧
      (homing_4_index (homing_4_probe (homing_3 (homing_2 (homing_1
        (((startup .HIGH homingScript).set_HOMING_ACTIVE true).set_HOMING 1)))))).HOMED_POS = 6 ∧
      (homing_4_lookup (homing_4_probe (homing_3 (homing_2 (homing_1
        (((startup .HIGH homingScript).set_HOMING_ACTIVE true).set_HOMING 1)))))).fault = false :=
  ⟨lookupState_HOME _, by decide,
    ((table_index_in_bounds .HIGH homingScript []).2 .HOME _
      (lookupState_HOME (startup .HIGH homingScript))).2.2.2⟩

/-- C30. The interlock refusal branch is unreachable in normal operation. A
call of `motor_forward` logs the refusal diagnostic exactly when it finds the
reverse line asserted, and a call of `motor_reverse` exactly when it finds the
forward line asserted. A MOVE command with any word and a HOME command, started
with both drive lines deasserted, return with as many refusal diagnostics in
the trace as there were at entry, under any script of sensor edges: no drive
call made during the command found the opposite line asserted. The same holds
for each motion primitive and each homing stage function. -/
theorem interlock_refusal_unreachable (s : State) (word : String) (h : Stopped s) :
    ((∀ x : State, ignored (motor_forward x).trace =
          ignored x.trace + (if x.PIN_MOTOR_REV = .LOW then 1 else 0)) ∧
        (∀ x : State, ignored (motor_reverse x).trace =
          ignored x.trace + (if x.PIN_MOTOR_FWD = .LOW then 1 else 0))) ∧
      (ignored (MOVEcommand word s).trace = ignored s.trace ∧
        ignored (HOMEcommand s).trace = ignored s.trace) ∧
      (ignored (move_right s).trace = ignored s.trace ∧
        ignored (move_left s).trace = ignored s.trace ∧
        ignored (move_gr1 s).trace = ignored s.trace ∧
        ignored (move_gl1 s).trace = ignored s.trace) ∧
      (ignored (homing_1 s).trace = ignored s.trace ∧
        ignored (homing_2 s).trace = ignored s.trace ∧
        ignored (homing_3 s).trace = ignored s.trace ∧
        ignored (homing_4 s).trace = ignored s.trace) :=
  ⟨⟨motor_forward_ignored, motor_reverse_ignored⟩,
    ⟨(good_MOVEcommand word (Good.start h)).2, (good_HOMEcommand (Good.start h)).2⟩,
    ⟨(good_move_right (Good.start h)).2, (good_move_left (Good.start h)).2,
      (good_move_gr1 (Good.start h)).2, (good_move_gl1 (Good.start h)).2⟩,
    ⟨(good_homing_1 (Good.start h)).2, (good_homing_2 (Good.start h)).2,
      (good_homing_3 (Good.start h)).2, (good_homing_4 (Good.start h)).2⟩⟩

theorem interlock_refusal_unreachable_witness :
    Stopped (startup .HIGH homingScript) ∧
      fwdAsserts (HOMEcommand (startup .HIGH homingScript)).trace = 3 ∧
      ignored (HOMEcommand (startup .HIGH homingScript)).trace = 0 ∧
      ignored (MOVEcommand "GOCHOPSAW" (HOMEcommand (startup .HIGH homingScript))).trace = 0 :=
  ⟨by decide, by decide,
    (interlock_refusal_unreachable (startup .HIGH homingScript) "H1" (by decide)).2.1.2,
    by decide⟩

/-! ## Clearing TriggerOrder, with the handler between the stores -/

theorem quiet_nil : quiet [] := fun _ h => absurd h (List.not_mem_nil _)

/-- A blocking delay whose handler invocations all re-sample the input HIGH
leaves TriggerOrder alone and consumes one entry of the sensor script. -/
theorem delay_of_quiet (ms : Nat) (n : Nat) (x : State) (h : quiet (x.pending.take (n + 1))) :
    (delay ms x).TRIGGER_ORDER = x.TRIGGER_ORDER ∧ quiet ((delay ms x).pending.take n) := by
  unfold delay
  split
  · rename_i e
    refine ⟨rfl, ?_⟩
    show quiet (x.pending.take n)
    rw [e, List.take_nil]
    exact quiet_nil
  · rename_i edges rest e
    rw [e, List.take_succ_cons] at h
    have hq := runIsrs_of_quiet edges (wait ms (x.set_pending rest))
      (h edges (List.mem_cons_self _ _))
    refine ⟨hq.1, ?_⟩
    rw [hq.2]
    exact fun l hl => h l (List.mem_cons_of_mem _ hl)

theorem lights_step_of_quiet (c ms : Nat) (n : Nat) (x : State)
    (h : quiet (x.pending.take (n + 1))) :
    (delay ms (rgb_set_led c x)).TRIGGER_ORDER = x.TRIGGER_ORDER ∧
      quiet ((delay ms (rgb_set_led c x)).pending.take n) := by
  have h2 := delay_of_quiet ms n (rgb_set_led c x) (by rw [rgb_set_led_pending]; exact h)
  exact ⟨h2.1.trans (rgb_set_led_TRIGGER_ORDER c x), h2.2⟩

/-- The completion animation leaves TriggerOrder alone when the handler
re-samples the input HIGH in each invocation of its four delays. -/
theorem drag_lights_of_quiet (x : State) (h : quiet (x.pending.take 4)) :
    (drag_lights x).TRIGGER_ORDER = x.TRIGGER_ORDER := by
  have h1 := lights_step_of_quiet RED 333 3 x h
  have h2 := lights_step_of_quiet YELLOW 333 2 _ h1.2
  have h3 := lights_step_of_quiet GREEN 333 1 _ h2.2
  have h4 := lights_step_of_quiet OFF 333 0 _ h3.2
  unfold drag_lights
  exact h4.1.trans (h3.1.trans (h2.1.trans h1.1))

theorem homing_4_finish_irq_nil (s : State) : homing_4_finish_irq [] s = homing_4_finish s := by
  unfold homing_4_finish_irq homing_4_finish
  rfl

/-- What `homing_4` leaves in TriggerOrder: what TRIGGER_ORDER2 holds at the
second store of the clearing statement, then the direction symbols the handler
appended during the animation. -/
theorem homing_4_finish_irq_TRIGGER_ORDER (edges : List (Level × Level)) (x : State) :
    ∃ l, LR l ∧ (homing_4_finish_irq edges x).TRIGGER_ORDER.data =
      (runIsrs edges (x.set_TRIGGER_ORDER2 "")).TRIGGER_ORDER2.data ++ l := by
  have h : Ext ((runIsrs edges (x.set_TRIGGER_ORDER2 "")).set_TRIGGER_ORDER
      (runIsrs edges (x.set_TRIGGER_ORDER2 "")).TRIGGER_ORDER2) (homing_4_finish_irq edges x) := by
    unfold homing_4_finish_irq
    exact ext_drag_lights Ext.empty
  exact h

theorem homing_4_finish_irq_of_quiet (edges : List (Level × Level)) (x : State)
    (h : quiet ((runIsrs edges (x.set_TRIGGER_ORDER2 "")).pending.take 4)) :
    (homing_4_finish_irq edges x).TRIGGER_ORDER =
      (runIsrs edges (x.set_TRIGGER_ORDER2 "")).TRIGGER_ORDER2 := by
  unfold homing_4_finish_irq
  exact drag_lights_of_quiet _ h

theorem print_pending (m : Msg) (s : State) : (print m s).pending = s.pending := rfl

theorem wait_pending (ms : Nat) (s : State) : (wait ms s).pending = s.pending := rfl

theorem digitalWrite_pending (q : Pin) (v : Level) (s : State) :
    (digitalWrite q v s).pending = s.pending := by
  cases q
  all_goals rfl

theorem motor_stop_pending (s : State) : (motor_stop s).pending = s.pending := by
  unfold motor_stop
  simp only [apply_ite State.pending, rgb_set_led_pending, digitalWrite_pending, print_pending,
    ite_self]

theorem isr_prox_sensor_pending (r1 r2 : Level) (s : State) :
    (isr_prox_sensor r1 r2 s).pending = s.pending := by
  unfold isr_prox_sensor
  simp only [apply_ite State.pending, rgb_set_led_pending, motor_stop_pending, wait_pending,
    State.set_PIN_PROX_SENSOR, State.set_PREV_SENSOR_STATE, State.set_SENSOR_STATE,
    State.set_TRIGGER_ORDER, State.set_TRIGGER_ORDER2, State.set_SOURCE, ite_self]

theorem runIsrs_pending (edges : List (Level × Level)) (s : State) :
    (runIsrs edges s).pending = s.pending := by
  induction edges generalizing s with
  | nil => rfl
  | cons e rest ih =>
    unfold runIsrs
    rw [ih, isr_prox_sensor_pending]

theorem ext_homing_1_probe {s x : State} (h : Ext s x) : Ext s (homing_1_probe x) := by
  unfold homing_1_probe
  repeat' with_reducible first
    | exact h | apply ext_motor_stop | apply ext_motor_forward | apply ext_motor_reverse
    | apply ext_delay | apply ext_delay_ms | apply ext_print
    | apply ext_set_HOME_DIRECTION | apply ext_ite

theorem homing_1_irq_nil (s : State) : homing_1_irq [] s = homing_1 s := by
  unfold homing_1_irq homing_1 homing_1_probe boundary_stores
  rfl

theorem homing_2_irq_nil (s : State) : homing_2_irq [] s = homing_2 s := by
  unfold homing_2_irq homing_2 homing_2_probe boundary_stores
  rfl

theorem homing_3_irq_nil (s : State) : homing_3_irq [] s = homing_3 s := by
  unfold homing_3_irq homing_3 homing_3_probe boundary_stores
  rfl

/-- C19 as amended. TriggerOrder is empty after start-up and is cleared once
per run, by the clearing statement of `homing_4` (line 635) just before its
completion animation. HOME does not clear it when it starts: stage 1 is entered
with the TriggerOrder the command found, and its probing only extends it by
direction symbols. `homing_4` ends, and hence HOME ends, with the clearing
statement and the animation, here at any state `x` and with any handler
invocations `edges` taken between the two stores of the clearing statement:
provided the handler appended nothing between the two stores (TRIGGER_ORDER2
is still empty at the second store), TriggerOrder on return consists of the
direction symbols the handler appended during the animation, and it is empty
whenever the handler does not re-sample the sensor LOW during the four delays
of the animation. -/
theorem trigger_order_cleared_at_end (s x : State) (sensor : Level)
    (script : List (List (Level × Level))) (edges : List (Level × Level)) :
    (startup sensor script).TRIGGER_ORDER = "" ∧
    ((homeStart s).TRIGGER_ORDER = s.TRIGGER_ORDER ∧
      ∃ l, (∀ c ∈ l, c = 'L' ∨ c = 'R') ∧
        (homing_1_probe (homeStart s)).TRIGGER_ORDER.data = s.TRIGGER_ORDER.data ++ l) ∧
    (homing_4 s =
        homing_4_finish_irq [] (homing_4_recenter (homing_4_lookup (homing_4_probe s))) ∧
      (HOMEcommand s).TRIGGER_ORDER = (homing_4 (homeAfter3 s)).TRIGGER_ORDER) ∧
    ((runIsrs edges (x.set_TRIGGER_ORDER2 "")).TRIGGER_ORDER2 = "" →
      (∃ l, (∀ c ∈ l, c = 'L' ∨ c = 'R') ∧
        (homing_4_finish_irq edges x).TRIGGER_ORDER.data = l) ∧
      (quiet (x.pending.take 4) → (homing_4_finish_irq edges x).TRIGGER_ORDER = "")) := by
  have h1 : Ext (homeStart s) (homing_1_probe (homeStart s)) := ext_homing_1_probe Ext.empty
  unfold Ext LR at h1
  refine ⟨rfl, ⟨rfl, h1⟩, ⟨?_, ?_⟩, fun he => ⟨?_, fun hq => ?_⟩⟩
  · rw [homing_4_finish_irq_nil]
    rfl
  · rw [HOMEcommand_homeAfter4]
    simp only [State.set_HOMING_ACTIVE]
    rfl
  · obtain ⟨l, hl, e⟩ := homing_4_finish_irq_TRIGGER_ORDER edges x
    rw [he] at e
    exact ⟨l, hl, by rw [e]; rfl⟩
  · rw [homing_4_finish_irq_of_quiet edges x (by rw [runIsrs_pending]; exact hq)]
    exact he

theorem trigger_order_cleared_at_end_witness :
    (homing_4_recenter (homing_4_lookup (homing_4_probe stage4Run))).TRIGGER_ORDER =
        "NNLRNRL" ∧
      (runIsrs [(.HIGH, .HIGH)] ((homing_4_recenter (homing_4_lookup
        (homing_4_probe stage4Run))).set_TRIGGER_ORDER2 "")).TRIGGER_ORDER2 = "" ∧
      quiet ((homing_4_recenter (homing_4_lookup (homing_4_probe stage4Run))).pending.take 4) ∧
      (homing_4_finish_irq [(.HIGH, .HIGH)]
        (homing_4_recenter (homing_4_lookup (homing_4_probe stage4Run)))).TRIGGER_ORDER = "" :=
  ⟨by decide, by decide, by decide,
    ((trigger_order_cleared_at_end stage4Run
      (homing_4_recenter (homing_4_lookup (homing_4_probe stage4Run))) .HIGH []
      [(.HIGH, .HIGH)]).2.2.2 (by decide)).2 (by decide)⟩

/-- The slip the clearing statement is open to: a trigger committed between
its two stores. In a HOME run from start-up during which the sensor never
triggered (TriggerOrder "NNN" at the clearing statement, stage counter 3), a
trigger taken there makes the handler store "NNNR" in TRIGGER_ORDER2, and the
second store copies it back: `homing_4` returns with TriggerOrder "NNNR". -/
theorem clearing_lost_under_preemption :
    (homing_4_recenter (homing_4_lookup (homing_4_probe
        (homeAfter3 (startup .HIGH []))))).TRIGGER_ORDER = "NNN" ∧
      (homing_4_finish_irq [] (homing_4_recenter (homing_4_lookup (homing_4_probe
        (homeAfter3 (startup .HIGH [])))))).TRIGGER_ORDER = "" ∧
      (homing_4_finish_irq [(.LOW, .LOW)] (homing_4_recenter (homing_4_lookup (homing_4_probe
        (homeAfter3 (startup .HIGH [])))))).TRIGGER_ORDER = "NNNR" := by
  decide

/-- C20, at the failing input. The handler is attached to every change of the
sensor input and can run between any two statements of the main context; it
uses the same scratch variable TRIGGER_ORDER2 as the two stores with which a
stage function appends its boundary symbol. With no handler invocation between
the two stores the functions below are `homing_1`, `homing_2`, `homing_3`. In a
HOME run from start-up with the sensor idle, a trigger taken in the last delay
of stage 1 gives TriggerOrder "RN"; the same trigger taken between lines 456
and 457 gives "R": the handler overwrites TRIGGER_ORDER2 and the boundary
symbol is lost, while the stage counter still advances to 2. Likewise a
trigger taken between lines 501 and 502 leaves "NL" after stage 2, and one
taken between lines 552 and 553 leaves "NNR" after stage 3, each without the
boundary symbol of the stage. -/
theorem boundary_symbol_lost_under_preemption :
    (∀ s, homing_1_irq [] s = homing_1 s ∧ homing_2_irq [] s = homing_2 s ∧
      homing_3_irq [] s = homing_3 s) ∧
    ((homing_1 (homeStart (startup .HIGH []))).TRIGGER_ORDER = "N" ∧
      (homing_1 (homeStart (startup .HIGH [[], [], [], [(.LOW, .LOW)]]))).TRIGGER_ORDER = "RN" ∧
      (homing_1_irq [(.LOW, .LOW)] (homeStart (startup .HIGH []))).TRIGGER_ORDER = "R" ∧
      (homing_1_irq [(.LOW, .LOW)] (homeStart (startup .HIGH []))).HOMING = 2) ∧
    ((homing_2 (homeAfter1 (startup .HIGH []))).TRIGGER_ORDER = "NN" ∧
      (homing_2_irq [(.LOW, .LOW)] (homeAfter1 (startup .HIGH []))).TRIGGER_ORDER = "NL" ∧
      (homing_2_irq [(.LOW, .LOW)] (homeAfter1 (startup .HIGH []))).HOMING = 3) ∧
    ((homing_3 (homeAfter2 (startup .HIGH []))).TRIGGER_ORDER = "NNN" ∧
      (homing_3_irq [(.LOW, .LOW)] (homeAfter2 (startup .HIGH []))).TRIGGER_ORDER = "NNR") :=
  ⟨fun s => ⟨homing_1_irq_nil s, homing_2_irq_nil s, homing_3_irq_nil s⟩,
    by decide, by decide, by decide⟩

/-! ## The homing-active flag between commands -/

theorem move_gr1_HOMING_ACTIVE (s : State) : (move_gr1 s).HOMING_ACTIVE = s.HOMING_ACTIVE := by
  unfold move_gr1
  simp

theorem move_gl1_HOMING_ACTIVE (s : State) : (move_gl1 s).HOMING_ACTIVE = s.HOMING_ACTIVE := by
  unfold move_gl1
  simp

theorem MOVEcommand_read_HOMING_ACTIVE (word : String) (s : State) :
    (MOVEcommand_read word s).HOMING_ACTIVE = s.HOMING_ACTIVE := by
  unfold MOVEcommand_read
  simp only [apply_ite State.HOMING_ACTIVE, State.set_RX_COMMAND, State.set_rxWord,
    State.set_SOURCE, ite_self]

theorem MOVEcommand_CNC_HOMING_ACTIVE (s : State) :
    (MOVEcommand_CNC s).HOMING_ACTIVE = s.HOMING_ACTIVE := by
  unfold MOVEcommand_CNC
  simp only [apply_ite State.HOMING_ACTIVE, move_right_HOMING_ACTIVE, print_HOMING_ACTIVE,
    ite_self]

theorem MOVEcommand_CHOPSAW_HOMING_ACTIVE (s : State) :
    (MOVEcommand_CHOPSAW s).HOMING_ACTIVE = s.HOMING_ACTIVE := by
  unfold MOVEcommand_CHOPSAW
  simp only [apply_ite State.HOMING_ACTIVE, move_right_HOMING_ACTIVE, move_left_HOMING_ACTIVE,
    print_HOMING_ACTIVE, ite_self]

theorem MOVEcommand_WORKBENCH_HOMING_ACTIVE (s : State) :
    (MOVEcommand_WORKBENCH s).HOMING_ACTIVE = s.HOMING_ACTIVE := by
  unfold MOVEcommand_WORKBENCH
  simp only [apply_ite State.HOMING_ACTIVE, move_left_HOMING_ACTIVE, print_HOMING_ACTIVE,
    ite_self]

theorem homing_1_HOMING_ACTIVE (s : State) : (homing_1 s).HOMING_ACTIVE = s.HOMING_ACTIVE :=
  (steady_homing_1 (Steady.rfl s)).HOMING_ACTIVE

theorem homing_2_HOMING_ACTIVE (s : State) : (homing_2 s).HOMING_ACTIVE = s.HOMING_ACTIVE :=
  (steady_homing_2 (Steady.rfl s)).HOMING_ACTIVE

theorem homing_3_HOMING_ACTIVE (s : State) : (homing_3 s).HOMING_ACTIVE = s.HOMING_ACTIVE :=
  (steady_homing_3 (Steady.rfl s)).HOMING_ACTIVE

theorem MOVEcommand_H1_HOMING_ACTIVE (s : State) :
    (MOVEcommand_H1 s).HOMING_ACTIVE = s.HOMING_ACTIVE := by
  unfold MOVEcommand_H1
  rw [homing_1_HOMING_ACTIVE]
  simp only [apply_ite State.HOMING_ACTIVE, State.set_HOMING, ite_self]

theorem MOVEcommand_switch_HOMING_ACTIVE (s : State) :
    (MOVEcommand_switch s).HOMING_ACTIVE = s.HOMING_ACTIVE := by
  unfold MOVEcommand_switch
  simp only [apply_ite State.HOMING_ACTIVE, motor_stop_HOMING_ACTIVE, move_right_HOMING_ACTIVE,
    move_left_HOMING_ACTIVE, move_gr1_HOMING_ACTIVE, move_gl1_HOMING_ACTIVE,
    MOVEcommand_CNC_HOMING_ACTIVE, MOVEcommand_CHOPSAW_HOMING_ACTIVE,
    MOVEcommand_WORKBENCH_HOMING_ACTIVE, MOVEcommand_H1_HOMING_ACTIVE, homing_2_HOMING_ACTIVE,
    homing_3_HOMING_ACTIVE, homing_4_HOMING_ACTIVE, print_HOMING_ACTIVE, ite_self]

theorem MOVEcommand_HOMING_ACTIVE (word : String) (s : State) :
    (MOVEcommand word s).HOMING_ACTIVE = s.HOMING_ACTIVE := by
  unfold MOVEcommand
  rw [MOVEcommand_switch_HOMING_ACTIVE, MOVEcommand_read_HOMING_ACTIVE]

/-- The homing-active flag is written by the HOME command only (lines 794 and
800), which clears it before it returns. -/
theorem HOMEcommand_HOMING_ACTIVE (s : State) : (HOMEcommand s).HOMING_ACTIVE = false := by
  rw [HOMEcommand_homeAfter4]
  simp only [State.set_HOMING_ACTIVE]

theorem run_HOMING_ACTIVE (op : Op) (s : State) (h : s.HOMING_ACTIVE = false) :
    (op.run s).HOMING_ACTIVE = false := by
  cases op with
  | motor_forward => exact (motor_forward_HOMING_ACTIVE s).trans h
  | motor_reverse => exact (motor_reverse_HOMING_ACTIVE s).trans h
  | motor_stop => exact (motor_stop_HOMING_ACTIVE s).trans h
  | isr r1 r2 => exact (isr_prox_sensor_HOMING_ACTIVE r1 r2 s).trans h
  | move_right => exact (move_right_HOMING_ACTIVE s).trans h
  | move_left => exact (move_left_HOMING_ACTIVE s).trans h
  | move_gr1 => exact (move_gr1_HOMING_ACTIVE s).trans h
  | move_gl1 => exact (move_gl1_HOMING_ACTIVE s).trans h
  | homing_1 => exact (homing_1_HOMING_ACTIVE s).trans h
  | homing_2 => exact (homing_2_HOMING_ACTIVE s).trans h
  | homing_3 => exact (homing_3_HOMING_ACTIVE s).trans h
  | homing_4 => exact (homing_4_HOMING_ACTIVE s).trans h
  | MOVE word => exact (MOVEcommand_HOMING_ACTIVE word s).trans h
  | HOME => exact HOMEcommand_HOMING_ACTIVE s

/-- Between commands no homing run is active: the flag is clear in every state
reached from start-up. -/
theorem runOps_HOMING_ACTIVE (ops : List Op) (s : State) (h : s.HOMING_ACTIVE = false) :
    (runOps ops s).HOMING_ACTIVE = false := by
  induction ops generalizing s with
  | nil => exact h
  | cons op rest ih => exact ih _ (run_HOMING_ACTIVE op s h)

/-- C6. Take any state reached from start-up by any sequence of interlock
calls, handler invocations, motion primitives, homing stage functions and
MOVE / HOME commands, under any script of sensor edges; no homing run is active
in it. If Position is p in {1,2,3} there, `move_right` followed by `move_left`,
neither refused by the interlock or the range check (no refusal is logged
during the two calls), restores Position to p, whatever the sensor does
meanwhile. -/
theorem move_right_left_restores (sensor : Level) (script : List (List (Level × Level)))
    (ops : List Op)
    (hp : (runOps ops (startup sensor script)).CURRENT_POS = 1 ∨
      (runOps ops (startup sensor script)).CURRENT_POS = 2 ∨
      (runOps ops (startup sensor script)).CURRENT_POS = 3)
    (hn : refusals (move_left (move_right (runOps ops (startup sensor script)))).trace =
      refusals (runOps ops (startup sensor script)).trace) :
    (runOps ops (startup sensor script)).HOMING_ACTIVE = false ∧
      (move_left (move_right (runOps ops (startup sensor script)))).CURRENT_POS =
        (runOps ops (startup sensor script)).CURRENT_POS :=
  ⟨runOps_HOMING_ACTIVE ops _ (Eq.refl _),
    move_right_left_of_inactive _ (runOps_HOMING_ACTIVE ops _ (Eq.refl _)) hp hn⟩

theorem move_right_left_restores_witness :
    (runOps [.HOME] (startup .HIGH homingScript)).CURRENT_POS = 2 ∧
      (move_right (runOps [.HOME] (startup .HIGH homingScript))).CURRENT_POS = 3 ∧
      (move_left (move_right (runOps [.HOME] (startup .HIGH homingScript)))).CURRENT_POS = 2 :=
  ⟨by decide, by decide,
    ((move_right_left_restores .HIGH homingScript [.HOME] (by decide) (by decide)).2).trans
      (by decide)⟩

/-! ## Recentering at stage 5 -/

theorem move_right_revAsserts (s : State) :
    revAsserts (move_right s).trace = revAsserts s.trace := by
  unfold move_right
  simp [apply_ite State.trace, apply_ite revAsserts]

theorem move_left_fwdAsserts (s : State) :
    fwdAsserts (move_left s).trace = fwdAsserts s.trace := by
  unfold move_left
  simp [apply_ite State.trace, apply_ite fwdAsserts]

theorem homing_4_lookup_lines (s : State) :
    (homing_4_lookup s).PIN_MOTOR_FWD = s.PIN_MOTOR_FWD ∧
      (homing_4_lookup s).PIN_MOTOR_REV = s.PIN_MOTOR_REV := by
  have e : (homing_4_index s).PIN_MOTOR_FWD = s.PIN_MOTOR_FWD ∧
      (homing_4_index s).PIN_MOTOR_REV = s.PIN_MOTOR_REV := by
    unfold homing_4_index
    simp only [apply_ite State.PIN_MOTOR_FWD, apply_ite State.PIN_MOTOR_REV, State.set_HOMED_POS,
      ite_self, and_self]
  unfold homing_4_lookup homing_4_assign
  split
  all_goals simp only [State.set_CURRENT_POS, State.set_fault]
  all_goals exact e

/-- With the stage counter above 4, both drive lines deasserted and the lookup
giving the left outlet, `homing_4` asserts the forward line once, for its
`move_right`. -/
theorem homing_4_above_left (s : State) (h : s.HOMING > 4) (hs : Stopped s)
    (h1 : (homing_4_lookup s).CURRENT_POS = 1) :
    fwdAsserts (homing_4 s).trace = fwdAsserts s.trace + 1 ∧
      revAsserts (homing_4 s).trace = revAsserts s.trace := by
  have e : homing_4 s =
      homing_4_finish (move_right (print (.calibration_complete (homing_4_lookup s).SOURCE)
        (homing_4_lookup s))) := by
    unfold homing_4
    rw [homing_4_probe_skip s (by omega),
      homing_4_recenter_resolved _ (by rw [homing_4_lookup_HOMING]; exact h),
      if_neg (by rw [h1]; decide), if_pos h1]
  have hr : ¬ (homing_4_lookup s).PIN_MOTOR_REV = .LOW := by
    rw [(homing_4_lookup_lines s).2, hs.2]; decide
  rw [e, homing_4_finish_fwdAsserts, homing_4_finish_revAsserts, move_right_fwdAsserts,
    move_right_revAsserts, print_fwdAsserts, print_revAsserts, homing_4_lookup_trace]
  simp [h1, hr]

/-- With the stage counter above 4, both drive lines deasserted and the lookup
giving the right outlet, `homing_4` asserts the reverse line once, for its
`move_left`. -/
theorem homing_4_above_right (s : State) (h : s.HOMING > 4) (hs : Stopped s)
    (h3 : (homing_4_lookup s).CURRENT_POS = 3) :
    fwdAsserts (homing_4 s).trace = fwdAsserts s.trace ∧
      revAsserts (homing_4 s).trace = revAsserts s.trace + 1 := by
  have e : homing_4 s =
      homing_4_finish (move_left (print (.calibration_complete (homing_4_lookup s).SOURCE)
        (homing_4_lookup s))) := by
    unfold homing_4
    rw [homing_4_probe_skip s (by omega),
      homing_4_recenter_resolved _ (by rw [homing_4_lookup_HOMING]; exact h),
      if_neg (by rw [h3]; decide), if_neg (by rw [h3]; decide)]
  have hf : ¬ (homing_4_lookup s).PIN_MOTOR_FWD = .LOW := by
    rw [(homing_4_lookup_lines s).1, hs.1]; decide
  rw [e, homing_4_finish_fwdAsserts, homing_4_finish_revAsserts, move_left_fwdAsserts,
    move_left_revAsserts, print_fwdAsserts, print_revAsserts, homing_4_lookup_trace]
  simp [h3, hf]

/-- C21 as amended. Stage gating: `homing_1`, `homing_2` and `homing_3` invoked
with another stage current add no event to the trace, so they assert no drive
line. `homing_4` invoked with the stage counter below 4 asserts no drive line.
Invoked with the stage counter above 4 it skips its probes but runs the lookup
and the recentering: it asserts no drive line when the lookup gives Position
2, and, started with both drive lines deasserted, it asserts the forward line
exactly once (and not the reverse line) when the lookup gives Position 1 and
the reverse line exactly once (and not the forward line) when the lookup gives
Position 3. -/
theorem stage_gating (s : State) :
    (s.HOMING ≠ 1 → (homing_1 s).trace = s.trace) ∧
    (s.HOMING ≠ 2 → (homing_2 s).trace = s.trace) ∧
    (s.HOMING ≠ 3 → (homing_3 s).trace = s.trace) ∧
    (s.HOMING < 4 → fwdAsserts (homing_4 s).trace = fwdAsserts s.trace ∧
      revAsserts (homing_4 s).trace = revAsserts s.trace) ∧
    (s.HOMING > 4 →
      ((homing_4_lookup s).CURRENT_POS = 2 →
        fwdAsserts (homing_4 s).trace = fwdAsserts s.trace ∧
        revAsserts (homing_4 s).trace = revAsserts s.trace) ∧
      (Stopped s → (homing_4_lookup s).CURRENT_POS = 1 →
        fwdAsserts (homing_4 s).trace = fwdAsserts s.trace + 1 ∧
        revAsserts (homing_4 s).trace = revAsserts s.trace) ∧
      (Stopped s → (homing_4_lookup s).CURRENT_POS = 3 →
        fwdAsserts (homing_4 s).trace = fwdAsserts s.trace ∧
        revAsserts (homing_4 s).trace = revAsserts s.trace + 1)) := by
  refine ⟨homing_1_skip s, homing_2_skip s, homing_3_skip s, fun h => ?_,
    fun h => ⟨fun h2 => ?_, homing_4_above_left s h, homing_4_above_right s h⟩⟩
  · rw [homing_4_below s h, homing_4_finish_fwdAsserts, homing_4_finish_revAsserts,
      homing_4_lookup_trace]
    exact ⟨rfl, rfl⟩
  · rw [homing_4_above_centred s h h2, homing_4_finish_fwdAsserts, homing_4_finish_revAsserts,
      report_pos_fwdAsserts, report_pos_revAsserts, homing_4_lookup_trace]
    exact ⟨rfl, rfl⟩

theorem stage_gating_witness :
    (homing_1 (homingAt (-1) 3 "NN")).trace = (homingAt (-1) 3 "NN").trace ∧
      (homing_2 (homingAt (-1) 3 "NN")).trace = (homingAt (-1) 3 "NN").trace ∧
      (homing_3 (homingAt (-1) 2 "N")).trace = (homingAt (-1) 2 "N").trace ∧
      fwdAsserts (homing_4 (homingAt (-1) 3 "NNN")).trace =
        fwdAsserts (homingAt (-1) 3 "NNN").trace ∧
      revAsserts (homing_4 (homingAt (-1) 5 "NNLRNRL")).trace =
        revAsserts (homingAt (-1) 5 "NNLRNRL").trace ∧
      fwdAsserts (homing_4 (homingAt (-1) 5 "NNRNRL")).trace =
        fwdAsserts (homingAt (-1) 5 "NNRNRL").trace + 1 ∧
      revAsserts (homing_4 (homingAt (-1) 5 "NNLRNL")).trace =
        revAsserts (homingAt (-1) 5 "NNLRNL").trace + 1 :=
  ⟨(stage_gating (homingAt (-1) 3 "NN")).1 (by decide),
    (stage_gating (homingAt (-1) 3 "NN")).2.1 (by decide),
    (stage_gating (homingAt (-1) 2 "N")).2.2.1 (by decide),
    ((stage_gating (homingAt (-1) 3 "NNN")).2.2.2.1 (by decide)).1,
    (((stage_gating (homingAt (-1) 5 "NNLRNRL")).2.2.2.2 (by decide)).1 (by decide)).2,
    (((stage_gating (homingAt (-1) 5 "NNRNRL")).2.2.2.2 (by decide)).2.1 (by decide)
      (by decide)).1,
    (((stage_gating (homingAt (-1) 5 "NNLRNL")).2.2.2.2 (by decide)).2.2 (by decide)
      (by decide)).2⟩

/-! ## MOVE H1 on the sensor -/

theorem MOVEcommand_H1_word (s : State) :
    MOVEcommand "H1" s = MOVEcommand_H1 (MOVEcommand_read "H1" s) := by
  have h : (MOVEcommand_read "H1" s).RX_COMMAND = H1 := by
    rw [MOVEcommand_read_RX_COMMAND]; decide
  unfold MOVEcommand MOVEcommand_switch
  rw [h]
  rw [if_neg (by decide), if_neg (by decide), if_neg (by decide), if_neg (by decide),
    if_neg (by decide), if_neg (by decide), if_neg (by decide), if_neg (by decide), if_pos rfl]

theorem MOVEcommand_read_PIN_PROX_SENSOR (word : String) (s : State) :
    (MOVEcommand_read word s).PIN_PROX_SENSOR = s.PIN_PROX_SENSOR := by
  unfold MOVEcommand_read
  simp only [apply_ite State.PIN_PROX_SENSOR, State.set_RX_COMMAND, State.set_rxWord,
    State.set_SOURCE, ite_self]

/-- C24 as amended. When MOVE H1 is issued while the sensor input reads LOW,
the probing of stage 1 is skipped: the command adds no event to the trace, so
no drive line is asserted during it. The command returns with the stage
counter at 2, as stage 1 of a HOME command does when it is entered on the
sensor (SensorState LOW): that one, too, adds no event and leaves the counter
at 2. -/
theorem move_h1_on_sensor (s : State) (h : s.PIN_PROX_SENSOR = .LOW) :
    ((MOVEcommand "H1" s).trace = s.trace ∧
      fwdAsserts (MOVEcommand "H1" s).trace = fwdAsserts s.trace ∧
      revAsserts (MOVEcommand "H1" s).trace = revAsserts s.trace) ∧
    (MOVEcommand "H1" s).HOMING = 2 ∧
    (s.SENSOR_STATE = 0 → (homeAfter1 s).trace = s.trace ∧ (homeAfter1 s).HOMING = 2) := by
  have ht : (MOVEcommand "H1" s).trace = s.trace := by
    rw [MOVEcommand_H1_word]
    unfold MOVEcommand_H1
    rw [if_pos (by
      show (MOVEcommand_read "H1" s).PIN_PROX_SENSOR = .LOW
      rw [MOVEcommand_read_PIN_PROX_SENSOR]; exact h)]
    rw [homing_1_skip _ (by simp only [State.set_HOMING]; decide)]
    simp only [State.set_HOMING]
    exact MOVEcommand_read_trace _ _
  refine ⟨⟨ht, by rw [ht], by rw [ht]⟩, ?_, fun h0 => ⟨?_, ?_⟩⟩
  · rw [MOVEcommand_H1_word]
    exact MOVEcommand_H1_HOMING _
  · have hh : (homeStart s).SENSOR_STATE = 0 := h0
    unfold homeAfter1 homing_1
    rw [if_neg (fun hc => hc.2 hh)]
    rfl
  · unfold homeAfter1
    exact homing_1_HOMING _

theorem move_h1_on_sensor_witness :
    (startup .LOW []).PIN_PROX_SENSOR = .LOW ∧ (startup .LOW []).SENSOR_STATE = 0 ∧
      (MOVEcommand "H1" (startup .LOW [])).HOMING = 2 ∧
      (homeAfter1 (startup .LOW [])).HOMING = 2 ∧
      fwdAsserts (MOVEcommand "H1" (startup .LOW [])).trace = 0 :=
  ⟨by decide, by decide, (move_h1_on_sensor (startup .LOW []) (by decide)).2.1,
    ((move_h1_on_sensor (startup .LOW []) (by decide)).2.2 (by decide)).2,
    ((move_h1_on_sensor (startup .LOW []) (by decide)).1.2.1).trans (by decide)⟩

/-! ## Bookkeeping of the full moves -/

/-- From a state with both drive lines deasserted and Position in {1,2,3},
whatever the homing-active flag: after `move_right` Position is incremented by
one exactly when the drive was engaged and the result lies in 1..3, and is
otherwise unchanged; symmetrically for `move_left`. -/
theorem full_move_legality (s : State) (hs : Stopped s)
    (hp : s.CURRENT_POS = 1 ∨ s.CURRENT_POS = 2 ∨ s.CURRENT_POS = 3) :
    (((move_right s).CURRENT_POS = s.CURRENT_POS + 1 ↔
        fwdAsserts (move_right s).trace = fwdAsserts s.trace + 1 ∧
          1 ≤ s.CURRENT_POS + 1 ∧ s.CURRENT_POS + 1 ≤ 3) ∧
      ((move_right s).CURRENT_POS = s.CURRENT_POS + 1 ∨
        (move_right s).CURRENT_POS = s.CURRENT_POS)) ∧
    (((move_left s).CURRENT_POS = s.CURRENT_POS - 1 ↔
        revAsserts (move_left s).trace = revAsserts s.trace + 1 ∧
          1 ≤ s.CURRENT_POS - 1 ∧ s.CURRENT_POS - 1 ≤ 3) ∧
      ((move_left s).CURRENT_POS = s.CURRENT_POS - 1 ∨
        (move_left s).CURRENT_POS = s.CURRENT_POS)) := by
  have hf : ¬ s.PIN_MOTOR_FWD = .LOW := by rw [hs.1]; decide
  have hr : ¬ s.PIN_MOTOR_REV = .LOW := by rw [hs.2]; decide
  rw [move_right_CURRENT_POS, move_left_CURRENT_POS, move_right_fwdAsserts,
    move_left_revAsserts]
  rcases hp with h | h | h
  all_goals cases ha : s.HOMING_ACTIVE
  all_goals simp [h, ha, hf, hr]

/-- C26, at the failing input. A full move to the right issued right after
start-up, where Position is -1 (unknown) and both drive lines are deasserted:
PreviousPosition records -1 and the drive is engaged, but the result 0 does not
lie in 1..3, so the move was not legal, and yet Position has been incremented
to 0. The same with the command MOVE RIGHT. A full move to the left from
Position -1 engages the drive and leaves Position unchanged. -/
theorem unhomed_move_right_increments :
    ((startup .HIGH []).CURRENT_POS = -1 ∧ Stopped (startup .HIGH [])) ∧
    ((move_right (startup .HIGH [])).PREVIOUS_POS = -1 ∧
      fwdAsserts (move_right (startup .HIGH [])).trace =
        fwdAsserts (startup .HIGH []).trace + 1 ∧
      (move_right (startup .HIGH [])).CURRENT_POS = 0) ∧
    ((MOVEcommand "RIGHT" (startup .HIGH [])).PREVIOUS_POS = -1 ∧
      (MOVEcommand "RIGHT" (startup .HIGH [])).CURRENT_POS = 0) ∧
    ((move_left (startup .HIGH [])).PREVIOUS_POS = -1 ∧
      revAsserts (move_left (startup .HIGH [])).trace =
        revAsserts (startup .HIGH []).trace + 1 ∧
      (move_left (startup .HIGH [])).CURRENT_POS = -1) := by
  decide

end Vacrouter
